import Mathlib

/-!
Forward block transforms of `av1/encoder/dct.c`.

A shallow embedding of the scalar forward-transform engine of `dct.c` (the
branch compiled without the Daala transforms) and of the literal writer of
`aom_dsp/bitwriter.h`, and the proofs of their specified properties.

Conventions of the embedding.

* A C array or pointer target is a total map `Buf = Nat → Int` from element
  index to value; `p[k] = v` is `store p k v`.
* `tran_low_t`, `tran_high_t` and `int16_t` values are mathematical integers.
  Signed overflow is undefined behaviour in C, so the embedding describes the
  code on every run in which no overflow occurs. The casts `(tran_low_t)` of
  the identity and half-right kernels, which narrow a 64-bit product with
  `Sqrt2`, are the wraparound `wrap32` to 32 bits; in the DCT and ADST kernels
  a stored value is taken to fit its type. The 4x4 transform and its kernels
  are embedded a second time with range checks on every value (`fdct4_chk`,
  `av1_fht4x4_c_table_chk`), to show that no overflow occurs there.
* `x >> k` on a signed value is the arithmetic shift (floor division by
  `2 ^ k`).
* `for (i = 0; i < n; ++i) body` is `forLoop n body`, threading the state that
  the body updates.
* A function that writes through a pointer returns the new contents of the
  target; the old contents are an argument.
* A local array starts as `zeroBuf`.
-/

namespace Aom

/-! ## Memory and control primitives -/

/-- A buffer: element index to value. -/
abbrev Buf := Nat → Int

/-- The assignment `b[k] = v`. -/
def store (b : Buf) (k : Nat) (v : Int) : Buf :=
  fun n => if n = k then v else b n

/-- The loop `for (i = 0; i < n; ++i) s = body i s`. -/
def forLoop {σ : Type} : Nat → (Nat → σ → σ) → σ → σ
  | 0, _, s => s
  | n + 1, body, s => body n (forLoop n body s)

/-- The loop `for (i = lo; i < hi; ++i) s = body i s`. -/
def forLoopFrom {σ : Type} (lo hi : Nat) (body : Nat → σ → σ) (s : σ) : σ :=
  forLoop (hi - lo) (fun k s => body (lo + k) s) s

/-- The C expression `x >> k` on a signed integer: the arithmetic shift. -/
def asr (x : Int) (k : Nat) : Int := Int.shiftRight x k

/-- The value of `x` after two's complement wraparound to 32 bits: the cast
`(tran_low_t)` of a 64-bit value. -/
def wrap32 (x : Int) : Int := (x + 2 ^ 31) % 2 ^ 32 - 2 ^ 31

/-- The values that a 32-bit `tran_low_t` holds. -/
def int32_t (x : Int) : Prop := -(2 : Int) ^ 31 ≤ x ∧ x < (2 : Int) ^ 31

instance int32_t_decidable (x : Int) : Decidable (int32_t x) :=
  inferInstanceAs (Decidable (-(2 : Int) ^ 31 ≤ x ∧ x < (2 : Int) ^ 31))

/-- The value of a C comparison used as an integer: 1 when it holds, else 0. -/
def b2i (p : Prop) [Decidable p] : Int := if p then 1 else 0

/-- The buffer of a freshly declared local array. -/
def zeroBuf : Buf := fun _ => 0

/-- The library call `memset(b + off, v, n * sizeof *b)`. -/
def memset (b : Buf) (off : Nat) (v : Int) (n : Nat) : Buf :=
  fun p => if off ≤ p ∧ p < off + n then v else b p

/-- The library call `memcpy(dest + d, src + s, n * sizeof *dest)` for regions
that do not overlap. -/
def memcpy (dest : Buf) (d : Nat) (src : Buf) (s : Nat) (n : Nat) : Buf :=
  fun p => if d ≤ p ∧ p < d + n then src (s + (p - d)) else dest p

/-! ## Constants and rounding helpers of the absent transform headers -/

/-- Modelled from the spec: the constant `DCT_CONST_BITS` of the absent header
`aom_dsp/txfm_common.h`, the precision of the trigonometric tables. -/
def DCT_CONST_BITS : Nat := 14

/-- Modelled from the spec: the macro `ROUND_POWER_OF_TWO(value, n)` of the
absent header `aom_ports/mem.h`, `(value + ((1 << n) >> 1)) >> n`: add half the
divisor, then shift. -/
def ROUND_POWER_OF_TWO (value : Int) (n : Nat) : Int :=
  asr (value + asr (2 ^ n) 1) n

/-- Modelled from the spec: the macro `ROUND_POWER_OF_TWO_SIGNED(value, n)` of
the absent header `aom_ports/mem.h`: the sign-aware rounding shift. -/
def ROUND_POWER_OF_TWO_SIGNED (value : Int) (n : Nat) : Int :=
  if value < 0 then -ROUND_POWER_OF_TWO (-value) n else ROUND_POWER_OF_TWO value n

/-- Modelled from the spec: the helper `fdct_round_shift` of the absent header
`aom_dsp/fwd_txfm.h`, `(x + 8192) >> 14`. -/
def fdct_round_shift (input : Int) : Int :=
  ROUND_POWER_OF_TWO input DCT_CONST_BITS

/-- Modelled from the spec: the table entry `cospi_1_64` of the absent header
`aom_dsp/txfm_common.h`, `round(16384 * cos(1 * pi / 64))`. -/
def cospi_1_64 : Int := 16364

/-- Modelled from the spec: the table entry `cospi_2_64` of the absent header
`aom_dsp/txfm_common.h`, `round(16384 * cos(2 * pi / 64))`. -/
def cospi_2_64 : Int := 16305

/-- Modelled from the spec: the table entry `cospi_3_64` of the absent header
`aom_dsp/txfm_common.h`, `round(16384 * cos(3 * pi / 64))`. -/
def cospi_3_64 : Int := 16207

/-- Modelled from the spec: the table entry `cospi_4_64` of the absent header
`aom_dsp/txfm_common.h`, `round(16384 * cos(4 * pi / 64))`. -/
def cospi_4_64 : Int := 16069

/-- Modelled from the spec: the table entry `cospi_5_64` of the absent header
`aom_dsp/txfm_common.h`, `round(16384 * cos(5 * pi / 64))`. -/
def cospi_5_64 : Int := 15893

/-- Modelled from the spec: the table entry `cospi_6_64` of the absent header
`aom_dsp/txfm_common.h`, `round(16384 * cos(6 * pi / 64))`. -/
def cospi_6_64 : Int := 15679

/-- Modelled from the spec: the table entry `cospi_7_64` of the absent header
`aom_dsp/txfm_common.h`, `round(16384 * cos(7 * pi / 64))`. -/
def cospi_7_64 : Int := 15426

/-- Modelled from the spec: the table entry `cospi_8_64` of the absent header
`aom_dsp/txfm_common.h`, `round(16384 * cos(8 * pi / 64))`. -/
def cospi_8_64 : Int := 15137

/-- Modelled from the spec: the table entry `cospi_9_64` of the absent header
`aom_dsp/txfm_common.h`, `round(16384 * cos(9 * pi / 64))`. -/
def cospi_9_64 : Int := 14811

/-- Modelled from the spec: the table entry `cospi_10_64` of the absent header
`aom_dsp/txfm_common.h`, `round(16384 * cos(10 * pi / 64))`. -/
def cospi_10_64 : Int := 14449

/-- Modelled from the spec: the table entry `cospi_11_64` of the absent header
`aom_dsp/txfm_common.h`, `round(16384 * cos(11 * pi / 64))`. -/
def cospi_11_64 : Int := 14053

/-- Modelled from the spec: the table entry `cospi_12_64` of the absent header
`aom_dsp/txfm_common.h`, `round(16384 * cos(12 * pi / 64))`. -/
def cospi_12_64 : Int := 13623

/-- Modelled from the spec: the table entry `cospi_13_64` of the absent header
`aom_dsp/txfm_common.h`, `round(16384 * cos(13 * pi / 64))`. -/
def cospi_13_64 : Int := 13160

/-- Modelled from the spec: the table entry `cospi_14_64` of the absent header
`aom_dsp/txfm_common.h`, `round(16384 * cos(14 * pi / 64))`. -/
def cospi_14_64 : Int := 12665

/-- Modelled from the spec: the table entry `cospi_15_64` of the absent header
`aom_dsp/txfm_common.h`, `round(16384 * cos(15 * pi / 64))`. -/
def cospi_15_64 : Int := 12140

/-- Modelled from the spec: the table entry `cospi_16_64` of the absent header
`aom_dsp/txfm_common.h`, `round(16384 * cos(16 * pi / 64))`. -/
def cospi_16_64 : Int := 11585

/-- Modelled from the spec: the table entry `cospi_17_64` of the absent header
`aom_dsp/txfm_common.h`, `round(16384 * cos(17 * pi / 64))`. -/
def cospi_17_64 : Int := 11003

/-- Modelled from the spec: the table entry `cospi_18_64` of the absent header
`aom_dsp/txfm_common.h`, `round(16384 * cos(18 * pi / 64))`. -/
def cospi_18_64 : Int := 10394

/-- Modelled from the spec: the table entry `cospi_19_64` of the absent header
`aom_dsp/txfm_common.h`, `round(16384 * cos(19 * pi / 64))`. -/
def cospi_19_64 : Int := 9760

/-- Modelled from the spec: the table entry `cospi_20_64` of the absent header
`aom_dsp/txfm_common.h`, `round(16384 * cos(20 * pi / 64))`. -/
def cospi_20_64 : Int := 9102

/-- Modelled from the spec: the table entry `cospi_21_64` of the absent header
`aom_dsp/txfm_common.h`, `round(16384 * cos(21 * pi / 64))`. -/
def cospi_21_64 : Int := 8423

/-- Modelled from the spec: the table entry `cospi_22_64` of the absent header
`aom_dsp/txfm_common.h`, `round(16384 * cos(22 * pi / 64))`. -/
def cospi_22_64 : Int := 7723

/-- Modelled from the spec: the table entry `cospi_23_64` of the absent header
`aom_dsp/txfm_common.h`, `round(16384 * cos(23 * pi / 64))`. -/
def cospi_23_64 : Int := 7005

/-- Modelled from the spec: the table entry `cospi_24_64` of the absent header
`aom_dsp/txfm_common.h`, `round(16384 * cos(24 * pi / 64))`. -/
def cospi_24_64 : Int := 6270

/-- Modelled from the spec: the table entry `cospi_25_64` of the absent header
`aom_dsp/txfm_common.h`, `round(16384 * cos(25 * pi / 64))`. -/
def cospi_25_64 : Int := 5520

/-- Modelled from the spec: the table entry `cospi_26_64` of the absent header
`aom_dsp/txfm_common.h`, `round(16384 * cos(26 * pi / 64))`. -/
def cospi_26_64 : Int := 4756

/-- Modelled from the spec: the table entry `cospi_27_64` of the absent header
`aom_dsp/txfm_common.h`, `round(16384 * cos(27 * pi / 64))`. -/
def cospi_27_64 : Int := 3981

/-- Modelled from the spec: the table entry `cospi_28_64` of the absent header
`aom_dsp/txfm_common.h`, `round(16384 * cos(28 * pi / 64))`. -/
def cospi_28_64 : Int := 3196

/-- Modelled from the spec: the table entry `cospi_29_64` of the absent header
`aom_dsp/txfm_common.h`, `round(16384 * cos(29 * pi / 64))`. -/
def cospi_29_64 : Int := 2404

/-- Modelled from the spec: the table entry `cospi_30_64` of the absent header
`aom_dsp/txfm_common.h`, `round(16384 * cos(30 * pi / 64))`. -/
def cospi_30_64 : Int := 1606

/-- Modelled from the spec: the table entry `cospi_31_64` of the absent header
`aom_dsp/txfm_common.h`, `round(16384 * cos(31 * pi / 64))`. -/
def cospi_31_64 : Int := 804

/-- Modelled from the spec: the table entry `sinpi_1_9` of the absent header
`aom_dsp/txfm_common.h`, `round(16384 * sqrt(2) * sin(1 * pi / 9) * 2 / 3)`. -/
def sinpi_1_9 : Int := 5283

/-- Modelled from the spec: the table entry `sinpi_2_9` of the absent header
`aom_dsp/txfm_common.h`, `round(16384 * sqrt(2) * sin(2 * pi / 9) * 2 / 3)`. -/
def sinpi_2_9 : Int := 9929

/-- Modelled from the spec: the table entry `sinpi_3_9` of the absent header
`aom_dsp/txfm_common.h`, `round(16384 * sqrt(2) * sin(3 * pi / 9) * 2 / 3)`. -/
def sinpi_3_9 : Int := 13377

/-- Modelled from the spec: the table entry `sinpi_4_9` of the absent header
`aom_dsp/txfm_common.h`, `round(16384 * sqrt(2) * sin(4 * pi / 9) * 2 / 3)`. -/
def sinpi_4_9 : Int := 15212

/-- Modelled from the spec: the constant `Sqrt2` of the absent header
`aom_dsp/txfm_common.h`, `round(16384 * sqrt(2))`. -/
def Sqrt2 : Int := 23170

/-! ## One-dimensional kernels -/

/-- Modelled from the spec: the function-pointer type `transform_1d` of the
absent header `av1/common/idct.h`: a kernel reads `input` and writes `output`. -/
abbrev transform_1d := Buf → Buf → Buf

/-- The 1-D kernel `fdct4` of `dct.c`. The elements `output[k]` and `step[k]` of
the C arrays are the variables `outputk` and `stepk`; the final values of
`output[0 .. n-1]` are stored to the buffer of the caller at the end. -/
def fdct4 (input : Buf) (output : Buf) : Buf :=
  -- stage 0
  -- stage 1
  let output0 : Int := input 0 + input 3
  let output1 : Int := input 1 + input 2
  let output2 : Int := input 1 - input 2
  let output3 : Int := input 0 - input 3
  -- stage 2
  let temp : Int := output0 * cospi_16_64 + output1 * cospi_16_64
  let step0 : Int := fdct_round_shift temp
  let temp : Int := output1 * (-cospi_16_64) + output0 * cospi_16_64
  let step1 : Int := fdct_round_shift temp
  let temp : Int := output2 * cospi_24_64 + output3 * cospi_8_64
  let step2 : Int := fdct_round_shift temp
  let temp : Int := output3 * cospi_24_64 + output2 * (-cospi_8_64)
  let step3 : Int := fdct_round_shift temp
  -- stage 3
  let output0 : Int := step0
  let output1 : Int := step2
  let output2 : Int := step1
  let output3 : Int := step3
  let output := store output 0 output0
  let output := store output 1 output1
  let output := store output 2 output2
  let output := store output 3 output3
  output

/-- The 1-D kernel `fdct8` of `dct.c`. The elements `output[k]` and `step[k]` of
the C arrays are the variables `outputk` and `stepk`; the final values of
`output[0 .. n-1]` are stored to the buffer of the caller at the end. -/
def fdct8 (input : Buf) (output : Buf) : Buf :=
  -- stage 0
  -- stage 1
  let output0 : Int := input 0 + input 7
  let output1 : Int := input 1 + input 6
  let output2 : Int := input 2 + input 5
  let output3 : Int := input 3 + input 4
  let output4 : Int := input 3 - input 4
  let output5 : Int := input 2 - input 5
  let output6 : Int := input 1 - input 6
  let output7 : Int := input 0 - input 7
  -- stage 2
  let step0 : Int := output0 + output3
  let step1 : Int := output1 + output2
  let step2 : Int := output1 - output2
  let step3 : Int := output0 - output3
  let step4 : Int := output4
  let temp : Int := output5 * (-cospi_16_64) + output6 * cospi_16_64
  let step5 : Int := fdct_round_shift temp
  let temp : Int := output6 * cospi_16_64 + output5 * cospi_16_64
  let step6 : Int := fdct_round_shift temp
  let step7 : Int := output7
  -- stage 3
  let temp : Int := step0 * cospi_16_64 + step1 * cospi_16_64
  let output0 : Int := fdct_round_shift temp
  let temp : Int := step1 * (-cospi_16_64) + step0 * cospi_16_64
  let output1 : Int := fdct_round_shift temp
  let temp : Int := step2 * cospi_24_64 + step3 * cospi_8_64
  let output2 : Int := fdct_round_shift temp
  let temp : Int := step3 * cospi_24_64 + step2 * (-cospi_8_64)
  let output3 : Int := fdct_round_shift temp
  let output4 : Int := step4 + step5
  let output5 : Int := step4 - step5
  let output6 : Int := step7 - step6
  let output7 : Int := step7 + step6
  -- stage 4
  let step0 : Int := output0
  let step1 : Int := output1
  let step2 : Int := output2
  let step3 : Int := output3
  let temp : Int := output4 * cospi_28_64 + output7 * cospi_4_64
  let step4 : Int := fdct_round_shift temp
  let temp : Int := output5 * cospi_12_64 + output6 * cospi_20_64
  let step5 : Int := fdct_round_shift temp
  let temp : Int := output6 * cospi_12_64 + output5 * (-cospi_20_64)
  let step6 : Int := fdct_round_shift temp
  let temp : Int := output7 * cospi_28_64 + output4 * (-cospi_4_64)
  let step7 : Int := fdct_round_shift temp
  -- stage 5
  let output0 : Int := step0
  let output1 : Int := step4
  let output2 : Int := step2
  let output3 : Int := step6
  let output4 : Int := step1
  let output5 : Int := step5
  let output6 : Int := step3
  let output7 : Int := step7
  let output := store output 0 output0
  let output := store output 1 output1
  let output := store output 2 output2
  let output := store output 3 output3
  let output := store output 4 output4
  let output := store output 5 output5
  let output := store output 6 output6
  let output := store output 7 output7
  output

/-- The 1-D kernel `fdct16` of `dct.c`. The elements `output[k]` and `step[k]` of
the C arrays are the variables `outputk` and `stepk`; the final values of
`output[0 .. n-1]` are stored to the buffer of the caller at the end. -/
def fdct16 (input : Buf) (output : Buf) : Buf :=
  -- stage 0
  -- stage 1
  let output0 : Int := input 0 + input 15
  let output1 : Int := input 1 + input 14
  let output2 : Int := input 2 + input 13
  let output3 : Int := input 3 + input 12
  let output4 : Int := input 4 + input 11
  let output5 : Int := input 5 + input 10
  let output6 : Int := input 6 + input 9
  let output7 : Int := input 7 + input 8
  let output8 : Int := input 7 - input 8
  let output9 : Int := input 6 - input 9
  let output10 : Int := input 5 - input 10
  let output11 : Int := input 4 - input 11
  let output12 : Int := input 3 - input 12
  let output13 : Int := input 2 - input 13
  let output14 : Int := input 1 - input 14
  let output15 : Int := input 0 - input 15
  -- stage 2
  let step0 : Int := output0 + output7
  let step1 : Int := output1 + output6
  let step2 : Int := output2 + output5
  let step3 : Int := output3 + output4
  let step4 : Int := output3 - output4
  let step5 : Int := output2 - output5
  let step6 : Int := output1 - output6
  let step7 : Int := output0 - output7
  let step8 : Int := output8
  let step9 : Int := output9
  let temp : Int := output10 * (-cospi_16_64) + output13 * cospi_16_64
  let step10 : Int := fdct_round_shift temp
  let temp : Int := output11 * (-cospi_16_64) + output12 * cospi_16_64
  let step11 : Int := fdct_round_shift temp
  let temp : Int := output12 * cospi_16_64 + output11 * cospi_16_64
  let step12 : Int := fdct_round_shift temp
  let temp : Int := output13 * cospi_16_64 + output10 * cospi_16_64
  let step13 : Int := fdct_round_shift temp
  let step14 : Int := output14
  let step15 : Int := output15
  -- stage 3
  let output0 : Int := step0 + step3
  let output1 : Int := step1 + step2
  let output2 : Int := step1 - step2
  let output3 : Int := step0 - step3
  let output4 : Int := step4
  let temp : Int := step5 * (-cospi_16_64) + step6 * cospi_16_64
  let output5 : Int := fdct_round_shift temp
  let temp : Int := step6 * cospi_16_64 + step5 * cospi_16_64
  let output6 : Int := fdct_round_shift temp
  let output7 : Int := step7
  let output8 : Int := step8 + step11
  let output9 : Int := step9 + step10
  let output10 : Int := step9 - step10
  let output11 : Int := step8 - step11
  let output12 : Int := step15 - step12
  let output13 : Int := step14 - step13
  let output14 : Int := step14 + step13
  let output15 : Int := step15 + step12
  -- stage 4
  let temp : Int := output0 * cospi_16_64 + output1 * cospi_16_64
  let step0 : Int := fdct_round_shift temp
  let temp : Int := output1 * (-cospi_16_64) + output0 * cospi_16_64
  let step1 : Int := fdct_round_shift temp
  let temp : Int := output2 * cospi_24_64 + output3 * cospi_8_64
  let step2 : Int := fdct_round_shift temp
  let temp : Int := output3 * cospi_24_64 + output2 * (-cospi_8_64)
  let step3 : Int := fdct_round_shift temp
  let step4 : Int := output4 + output5
  let step5 : Int := output4 - output5
  let step6 : Int := output7 - output6
  let step7 : Int := output7 + output6
  let step8 : Int := output8
  let temp : Int := output9 * (-cospi_8_64) + output14 * cospi_24_64
  let step9 : Int := fdct_round_shift temp
  let temp : Int := output10 * (-cospi_24_64) + output13 * (-cospi_8_64)
  let step10 : Int := fdct_round_shift temp
  let step11 : Int := output11
  let step12 : Int := output12
  let temp : Int := output13 * cospi_24_64 + output10 * (-cospi_8_64)
  let step13 : Int := fdct_round_shift temp
  let temp : Int := output14 * cospi_8_64 + output9 * cospi_24_64
  let step14 : Int := fdct_round_shift temp
  let step15 : Int := output15
  -- stage 5
  let output0 : Int := step0
  let output1 : Int := step1
  let output2 : Int := step2
  let output3 : Int := step3
  let temp : Int := step4 * cospi_28_64 + step7 * cospi_4_64
  let output4 : Int := fdct_round_shift temp
  let temp : Int := step5 * cospi_12_64 + step6 * cospi_20_64
  let output5 : Int := fdct_round_shift temp
  let temp : Int := step6 * cospi_12_64 + step5 * (-cospi_20_64)
  let output6 : Int := fdct_round_shift temp
  let temp : Int := step7 * cospi_28_64 + step4 * (-cospi_4_64)
  let output7 : Int := fdct_round_shift temp
  let output8 : Int := step8 + step9
  let output9 : Int := step8 - step9
  let output10 : Int := step11 - step10
  let output11 : Int := step11 + step10
  let output12 : Int := step12 + step13
  let output13 : Int := step12 - step13
  let output14 : Int := step15 - step14
  let output15 : Int := step15 + step14
  -- stage 6
  let step0 : Int := output0
  let step1 : Int := output1
  let step2 : Int := output2
  let step3 : Int := output3
  let step4 : Int := output4
  let step5 : Int := output5
  let step6 : Int := output6
  let step7 : Int := output7
  let temp : Int := output8 * cospi_30_64 + output15 * cospi_2_64
  let step8 : Int := fdct_round_shift temp
  let temp : Int := output9 * cospi_14_64 + output14 * cospi_18_64
  let step9 : Int := fdct_round_shift temp
  let temp : Int := output10 * cospi_22_64 + output13 * cospi_10_64
  let step10 : Int := fdct_round_shift temp
  let temp : Int := output11 * cospi_6_64 + output12 * cospi_26_64
  let step11 : Int := fdct_round_shift temp
  let temp : Int := output12 * cospi_6_64 + output11 * (-cospi_26_64)
  let step12 : Int := fdct_round_shift temp
  let temp : Int := output13 * cospi_22_64 + output10 * (-cospi_10_64)
  let step13 : Int := fdct_round_shift temp
  let temp : Int := output14 * cospi_14_64 + output9 * (-cospi_18_64)
  let step14 : Int := fdct_round_shift temp
  let temp : Int := output15 * cospi_30_64 + output8 * (-cospi_2_64)
  let step15 : Int := fdct_round_shift temp
  -- stage 7
  let output0 : Int := step0
  let output1 : Int := step8
  let output2 : Int := step4
  let output3 : Int := step12
  let output4 : Int := step2
  let output5 : Int := step10
  let output6 : Int := step6
  let output7 : Int := step14
  let output8 : Int := step1
  let output9 : Int := step9
  let output10 : Int := step5
  let output11 : Int := step13
  let output12 : Int := step3
  let output13 : Int := step11
  let output14 : Int := step7
  let output15 : Int := step15
  let output := store output 0 output0
  let output := store output 1 output1
  let output := store output 2 output2
  let output := store output 3 output3
  let output := store output 4 output4
  let output := store output 5 output5
  let output := store output 6 output6
  let output := store output 7 output7
  let output := store output 8 output8
  let output := store output 9 output9
  let output := store output 10 output10
  let output := store output 11 output11
  let output := store output 12 output12
  let output := store output 13 output13
  let output := store output 14 output14
  let output := store output 15 output15
  output

/-- The 1-D kernel `fdct32` of `dct.c`. The elements `output[k]` and `step[k]` of
the C arrays are the variables `outputk` and `stepk`; the final values of
`output[0 .. n-1]` are stored to the buffer of the caller at the end. -/
def fdct32 (input : Buf) (output : Buf) : Buf :=
  -- stage 0
  -- stage 1
  let output0 : Int := input 0 + input 31
  let output1 : Int := input 1 + input 30
  let output2 : Int := input 2 + input 29
  let output3 : Int := input 3 + input 28
  let output4 : Int := input 4 + input 27
  let output5 : Int := input 5 + input 26
  let output6 : Int := input 6 + input 25
  let output7 : Int := input 7 + input 24
  let output8 : Int := input 8 + input 23
  let output9 : Int := input 9 + input 22
  let output10 : Int := input 10 + input 21
  let output11 : Int := input 11 + input 20
  let output12 : Int := input 12 + input 19
  let output13 : Int := input 13 + input 18
  let output14 : Int := input 14 + input 17
  let output15 : Int := input 15 + input 16
  let output16 : Int := input 15 - input 16
  let output17 : Int := input 14 - input 17
  let output18 : Int := input 13 - input 18
  let output19 : Int := input 12 - input 19
  let output20 : Int := input 11 - input 20
  let output21 : Int := input 10 - input 21
  let output22 : Int := input 9 - input 22
  let output23 : Int := input 8 - input 23
  let output24 : Int := input 7 - input 24
  let output25 : Int := input 6 - input 25
  let output26 : Int := input 5 - input 26
  let output27 : Int := input 4 - input 27
  let output28 : Int := input 3 - input 28
  let output29 : Int := input 2 - input 29
  let output30 : Int := input 1 - input 30
  let output31 : Int := input 0 - input 31
  -- stage 2
  let step0 : Int := output0 + output15
  let step1 : Int := output1 + output14
  let step2 : Int := output2 + output13
  let step3 : Int := output3 + output12
  let step4 : Int := output4 + output11
  let step5 : Int := output5 + output10
  let step6 : Int := output6 + output9
  let step7 : Int := output7 + output8
  let step8 : Int := output7 - output8
  let step9 : Int := output6 - output9
  let step10 : Int := output5 - output10
  let step11 : Int := output4 - output11
  let step12 : Int := output3 - output12
  let step13 : Int := output2 - output13
  let step14 : Int := output1 - output14
  let step15 : Int := output0 - output15
  let step16 : Int := output16
  let step17 : Int := output17
  let step18 : Int := output18
  let step19 : Int := output19
  let temp : Int := output20 * (-cospi_16_64) + output27 * cospi_16_64
  let step20 : Int := fdct_round_shift temp
  let temp : Int := output21 * (-cospi_16_64) + output26 * cospi_16_64
  let step21 : Int := fdct_round_shift temp
  let temp : Int := output22 * (-cospi_16_64) + output25 * cospi_16_64
  let step22 : Int := fdct_round_shift temp
  let temp : Int := output23 * (-cospi_16_64) + output24 * cospi_16_64
  let step23 : Int := fdct_round_shift temp
  let temp : Int := output24 * cospi_16_64 + output23 * cospi_16_64
  let step24 : Int := fdct_round_shift temp
  let temp : Int := output25 * cospi_16_64 + output22 * cospi_16_64
  let step25 : Int := fdct_round_shift temp
  let temp : Int := output26 * cospi_16_64 + output21 * cospi_16_64
  let step26 : Int := fdct_round_shift temp
  let temp : Int := output27 * cospi_16_64 + output20 * cospi_16_64
  let step27 : Int := fdct_round_shift temp
  let step28 : Int := output28
  let step29 : Int := output29
  let step30 : Int := output30
  let step31 : Int := output31
  -- stage 3
  let output0 : Int := step0 + step7
  let output1 : Int := step1 + step6
  let output2 : Int := step2 + step5
  let output3 : Int := step3 + step4
  let output4 : Int := step3 - step4
  let output5 : Int := step2 - step5
  let output6 : Int := step1 - step6
  let output7 : Int := step0 - step7
  let output8 : Int := step8
  let output9 : Int := step9
  let temp : Int := step10 * (-cospi_16_64) + step13 * cospi_16_64
  let output10 : Int := fdct_round_shift temp
  let temp : Int := step11 * (-cospi_16_64) + step12 * cospi_16_64
  let output11 : Int := fdct_round_shift temp
  let temp : Int := step12 * cospi_16_64 + step11 * cospi_16_64
  let output12 : Int := fdct_round_shift temp
  let temp : Int := step13 * cospi_16_64 + step10 * cospi_16_64
  let output13 : Int := fdct_round_shift temp
  let output14 : Int := step14
  let output15 : Int := step15
  let output16 : Int := step16 + step23
  let output17 : Int := step17 + step22
  let output18 : Int := step18 + step21
  let output19 : Int := step19 + step20
  let output20 : Int := step19 - step20
  let output21 : Int := step18 - step21
  let output22 : Int := step17 - step22
  let output23 : Int := step16 - step23
  let output24 : Int := step31 - step24
  let output25 : Int := step30 - step25
  let output26 : Int := step29 - step26
  let output27 : Int := step28 - step27
  let output28 : Int := step28 + step27
  let output29 : Int := step29 + step26
  let output30 : Int := step30 + step25
  let output31 : Int := step31 + step24
  -- stage 4
  let step0 : Int := output0 + output3
  let step1 : Int := output1 + output2
  let step2 : Int := output1 - output2
  let step3 : Int := output0 - output3
  let step4 : Int := output4
  let temp : Int := output5 * (-cospi_16_64) + output6 * cospi_16_64
  let step5 : Int := fdct_round_shift temp
  let temp : Int := output6 * cospi_16_64 + output5 * cospi_16_64
  let step6 : Int := fdct_round_shift temp
  let step7 : Int := output7
  let step8 : Int := output8 + output11
  let step9 : Int := output9 + output10
  let step10 : Int := output9 - output10
  let step11 : Int := output8 - output11
  let step12 : Int := output15 - output12
  let step13 : Int := output14 - output13
  let step14 : Int := output14 + output13
  let step15 : Int := output15 + output12
  let step16 : Int := output16
  let step17 : Int := output17
  let temp : Int := output18 * (-cospi_8_64) + output29 * cospi_24_64
  let step18 : Int := fdct_round_shift temp
  let temp : Int := output19 * (-cospi_8_64) + output28 * cospi_24_64
  let step19 : Int := fdct_round_shift temp
  let temp : Int := output20 * (-cospi_24_64) + output27 * (-cospi_8_64)
  let step20 : Int := fdct_round_shift temp
  let temp : Int := output21 * (-cospi_24_64) + output26 * (-cospi_8_64)
  let step21 : Int := fdct_round_shift temp
  let step22 : Int := output22
  let step23 : Int := output23
  let step24 : Int := output24
  let step25 : Int := output25
  let temp : Int := output26 * cospi_24_64 + output21 * (-cospi_8_64)
  let step26 : Int := fdct_round_shift temp
  let temp : Int := output27 * cospi_24_64 + output20 * (-cospi_8_64)
  let step27 : Int := fdct_round_shift temp
  let temp : Int := output28 * cospi_8_64 + output19 * cospi_24_64
  let step28 : Int := fdct_round_shift temp
  let temp : Int := output29 * cospi_8_64 + output18 * cospi_24_64
  let step29 : Int := fdct_round_shift temp
  let step30 : Int := output30
  let step31 : Int := output31
  -- stage 5
  let temp : Int := step0 * cospi_16_64 + step1 * cospi_16_64
  let output0 : Int := fdct_round_shift temp
  let temp : Int := step1 * (-cospi_16_64) + step0 * cospi_16_64
  let output1 : Int := fdct_round_shift temp
  let temp : Int := step2 * cospi_24_64 + step3 * cospi_8_64
  let output2 : Int := fdct_round_shift temp
  let temp : Int := step3 * cospi_24_64 + step2 * (-cospi_8_64)
  let output3 : Int := fdct_round_shift temp
  let output4 : Int := step4 + step5
  let output5 : Int := step4 - step5
  let output6 : Int := step7 - step6
  let output7 : Int := step7 + step6
  let output8 : Int := step8
  let temp : Int := step9 * (-cospi_8_64) + step14 * cospi_24_64
  let output9 : Int := fdct_round_shift temp
  let temp : Int := step10 * (-cospi_24_64) + step13 * (-cospi_8_64)
  let output10 : Int := fdct_round_shift temp
  let output11 : Int := step11
  let output12 : Int := step12
  let temp : Int := step13 * cospi_24_64 + step10 * (-cospi_8_64)
  let output13 : Int := fdct_round_shift temp
  let temp : Int := step14 * cospi_8_64 + step9 * cospi_24_64
  let output14 : Int := fdct_round_shift temp
  let output15 : Int := step15
  let output16 : Int := step16 + step19
  let output17 : Int := step17 + step18
  let output18 : Int := step17 - step18
  let output19 : Int := step16 - step19
  let output20 : Int := step23 - step20
  let output21 : Int := step22 - step21
  let output22 : Int := step22 + step21
  let output23 : Int := step23 + step20
  let output24 : Int := step24 + step27
  let output25 : Int := step25 + step26
  let output26 : Int := step25 - step26
  let output27 : Int := step24 - step27
  let output28 : Int := step31 - step28
  let output29 : Int := step30 - step29
  let output30 : Int := step30 + step29
  let output31 : Int := step31 + step28
  -- stage 6
  let step0 : Int := output0
  let step1 : Int := output1
  let step2 : Int := output2
  let step3 : Int := output3
  let temp : Int := output4 * cospi_28_64 + output7 * cospi_4_64
  let step4 : Int := fdct_round_shift temp
  let temp : Int := output5 * cospi_12_64 + output6 * cospi_20_64
  let step5 : Int := fdct_round_shift temp
  let temp : Int := output6 * cospi_12_64 + output5 * (-cospi_20_64)
  let step6 : Int := fdct_round_shift temp
  let temp : Int := output7 * cospi_28_64 + output4 * (-cospi_4_64)
  let step7 : Int := fdct_round_shift temp
  let step8 : Int := output8 + output9
  let step9 : Int := output8 - output9
  let step10 : Int := output11 - output10
  let step11 : Int := output11 + output10
  let step12 : Int := output12 + output13
  let step13 : Int := output12 - output13
  let step14 : Int := output15 - output14
  let step15 : Int := output15 + output14
  let step16 : Int := output16
  let temp : Int := output17 * (-cospi_4_64) + output30 * cospi_28_64
  let step17 : Int := fdct_round_shift temp
  let temp : Int := output18 * (-cospi_28_64) + output29 * (-cospi_4_64)
  let step18 : Int := fdct_round_shift temp
  let step19 : Int := output19
  let step20 : Int := output20
  let temp : Int := output21 * (-cospi_20_64) + output26 * cospi_12_64
  let step21 : Int := fdct_round_shift temp
  let temp : Int := output22 * (-cospi_12_64) + output25 * (-cospi_20_64)
  let step22 : Int := fdct_round_shift temp
  let step23 : Int := output23
  let step24 : Int := output24
  let temp : Int := output25 * cospi_12_64 + output22 * (-cospi_20_64)
  let step25 : Int := fdct_round_shift temp
  let temp : Int := output26 * cospi_20_64 + output21 * cospi_12_64
  let step26 : Int := fdct_round_shift temp
  let step27 : Int := output27
  let step28 : Int := output28
  let temp : Int := output29 * cospi_28_64 + output18 * (-cospi_4_64)
  let step29 : Int := fdct_round_shift temp
  let temp : Int := output30 * cospi_4_64 + output17 * cospi_28_64
  let step30 : Int := fdct_round_shift temp
  let step31 : Int := output31
  -- stage 7
  let output0 : Int := step0
  let output1 : Int := step1
  let output2 : Int := step2
  let output3 : Int := step3
  let output4 : Int := step4
  let output5 : Int := step5
  let output6 : Int := step6
  let output7 : Int := step7
  let temp : Int := step8 * cospi_30_64 + step15 * cospi_2_64
  let output8 : Int := fdct_round_shift temp
  let temp : Int := step9 * cospi_14_64 + step14 * cospi_18_64
  let output9 : Int := fdct_round_shift temp
  let temp : Int := step10 * cospi_22_64 + step13 * cospi_10_64
  let output10 : Int := fdct_round_shift temp
  let temp : Int := step11 * cospi_6_64 + step12 * cospi_26_64
  let output11 : Int := fdct_round_shift temp
  let temp : Int := step12 * cospi_6_64 + step11 * (-cospi_26_64)
  let output12 : Int := fdct_round_shift temp
  let temp : Int := step13 * cospi_22_64 + step10 * (-cospi_10_64)
  let output13 : Int := fdct_round_shift temp
  let temp : Int := step14 * cospi_14_64 + step9 * (-cospi_18_64)
  let output14 : Int := fdct_round_shift temp
  let temp : Int := step15 * cospi_30_64 + step8 * (-cospi_2_64)
  let output15 : Int := fdct_round_shift temp
  let output16 : Int := step16 + step17
  let output17 : Int := step16 - step17
  let output18 : Int := step19 - step18
  let output19 : Int := step19 + step18
  let output20 : Int := step20 + step21
  let output21 : Int := step20 - step21
  let output22 : Int := step23 - step22
  let output23 : Int := step23 + step22
  let output24 : Int := step24 + step25
  let output25 : Int := step24 - step25
  let output26 : Int := step27 - step26
  let output27 : Int := step27 + step26
  let output28 : Int := step28 + step29
  let output29 : Int := step28 - step29
  let output30 : Int := step31 - step30
  let output31 : Int := step31 + step30
  -- stage 8
  let step0 : Int := output0
  let step1 : Int := output1
  let step2 : Int := output2
  let step3 : Int := output3
  let step4 : Int := output4
  let step5 : Int := output5
  let step6 : Int := output6
  let step7 : Int := output7
  let step8 : Int := output8
  let step9 : Int := output9
  let step10 : Int := output10
  let step11 : Int := output11
  let step12 : Int := output12
  let step13 : Int := output13
  let step14 : Int := output14
  let step15 : Int := output15
  let temp : Int := output16 * cospi_31_64 + output31 * cospi_1_64
  let step16 : Int := fdct_round_shift temp
  let temp : Int := output17 * cospi_15_64 + output30 * cospi_17_64
  let step17 : Int := fdct_round_shift temp
  let temp : Int := output18 * cospi_23_64 + output29 * cospi_9_64
  let step18 : Int := fdct_round_shift temp
  let temp : Int := output19 * cospi_7_64 + output28 * cospi_25_64
  let step19 : Int := fdct_round_shift temp
  let temp : Int := output20 * cospi_27_64 + output27 * cospi_5_64
  let step20 : Int := fdct_round_shift temp
  let temp : Int := output21 * cospi_11_64 + output26 * cospi_21_64
  let step21 : Int := fdct_round_shift temp
  let temp : Int := output22 * cospi_19_64 + output25 * cospi_13_64
  let step22 : Int := fdct_round_shift temp
  let temp : Int := output23 * cospi_3_64 + output24 * cospi_29_64
  let step23 : Int := fdct_round_shift temp
  let temp : Int := output24 * cospi_3_64 + output23 * (-cospi_29_64)
  let step24 : Int := fdct_round_shift temp
  let temp : Int := output25 * cospi_19_64 + output22 * (-cospi_13_64)
  let step25 : Int := fdct_round_shift temp
  let temp : Int := output26 * cospi_11_64 + output21 * (-cospi_21_64)
  let step26 : Int := fdct_round_shift temp
  let temp : Int := output27 * cospi_27_64 + output20 * (-cospi_5_64)
  let step27 : Int := fdct_round_shift temp
  let temp : Int := output28 * cospi_7_64 + output19 * (-cospi_25_64)
  let step28 : Int := fdct_round_shift temp
  let temp : Int := output29 * cospi_23_64 + output18 * (-cospi_9_64)
  let step29 : Int := fdct_round_shift temp
  let temp : Int := output30 * cospi_15_64 + output17 * (-cospi_17_64)
  let step30 : Int := fdct_round_shift temp
  let temp : Int := output31 * cospi_31_64 + output16 * (-cospi_1_64)
  let step31 : Int := fdct_round_shift temp
  -- stage 9
  let output0 : Int := step0
  let output1 : Int := step16
  let output2 : Int := step8
  let output3 : Int := step24
  let output4 : Int := step4
  let output5 : Int := step20
  let output6 : Int := step12
  let output7 : Int := step28
  let output8 : Int := step2
  let output9 : Int := step18
  let output10 : Int := step10
  let output11 : Int := step26
  let output12 : Int := step6
  let output13 : Int := step22
  let output14 : Int := step14
  let output15 : Int := step30
  let output16 : Int := step1
  let output17 : Int := step17
  let output18 : Int := step9
  let output19 : Int := step25
  let output20 : Int := step5
  let output21 : Int := step21
  let output22 : Int := step13
  let output23 : Int := step29
  let output24 : Int := step3
  let output25 : Int := step19
  let output26 : Int := step11
  let output27 : Int := step27
  let output28 : Int := step7
  let output29 : Int := step23
  let output30 : Int := step15
  let output31 : Int := step31
  let output := store output 0 output0
  let output := store output 1 output1
  let output := store output 2 output2
  let output := store output 3 output3
  let output := store output 4 output4
  let output := store output 5 output5
  let output := store output 6 output6
  let output := store output 7 output7
  let output := store output 8 output8
  let output := store output 9 output9
  let output := store output 10 output10
  let output := store output 11 output11
  let output := store output 12 output12
  let output := store output 13 output13
  let output := store output 14 output14
  let output := store output 15 output15
  let output := store output 16 output16
  let output := store output 17 output17
  let output := store output 18 output18
  let output := store output 19 output19
  let output := store output 20 output20
  let output := store output 21 output21
  let output := store output 22 output22
  let output := store output 23 output23
  let output := store output 24 output24
  let output := store output 25 output25
  let output := store output 26 output26
  let output := store output 27 output27
  let output := store output 28 output28
  let output := store output 29 output29
  let output := store output 30 output30
  let output := store output 31 output31
  output

/-- The 1-D kernel `fadst4` of `dct.c`. The test `!(x0 | x1 | x2 | x3)` is the
bitwise or compared with zero; the chained assignment of the fast path stores
0 to `output[3]`, `output[2]`, `output[1]` and `output[0]`. -/
def fadst4 (input : Buf) (output : Buf) : Buf :=
  let x0 : Int := input 0
  let x1 : Int := input 1
  let x2 : Int := input 2
  let x3 : Int := input 3
  if Int.lor (Int.lor (Int.lor x0 x1) x2) x3 = 0 then
    let output := store output 3 0
    let output := store output 2 0
    let output := store output 1 0
    let output := store output 0 0
    output
  else
  let s0 : Int := sinpi_1_9 * x0
  let s1 : Int := sinpi_4_9 * x0
  let s2 : Int := sinpi_2_9 * x1
  let s3 : Int := sinpi_1_9 * x1
  let s4 : Int := sinpi_3_9 * x2
  let s5 : Int := sinpi_4_9 * x3
  let s6 : Int := sinpi_2_9 * x3
  let s7 : Int := x0 + x1 - x3
  let x0 : Int := s0 + s2 + s5
  let x1 : Int := sinpi_3_9 * s7
  let x2 : Int := s1 - s3 + s6
  let x3 : Int := s4
  let s0 : Int := x0 + x3
  let s1 : Int := x1
  let s2 : Int := x2 - x3
  let s3 : Int := x2 - x0 + x3
  -- 1-D transform scaling factor is sqrt(2).
  let output := store output 0 (fdct_round_shift s0)
  let output := store output 1 (fdct_round_shift s1)
  let output := store output 2 (fdct_round_shift s2)
  let output := store output 3 (fdct_round_shift s3)
  output

/-- The 1-D kernel `fadst8` of `dct.c`. The elements `output[k]` and `step[k]` of
the C arrays are the variables `outputk` and `stepk`; the final values of
`output[0 .. n-1]` are stored to the buffer of the caller at the end. -/
def fadst8 (input : Buf) (output : Buf) : Buf :=
  let x0 : Int := input 7
  let x1 : Int := input 0
  let x2 : Int := input 5
  let x3 : Int := input 2
  let x4 : Int := input 3
  let x5 : Int := input 4
  let x6 : Int := input 1
  let x7 : Int := input 6
  -- stage 1
  let s0 : Int := cospi_2_64 * x0 + cospi_30_64 * x1
  let s1 : Int := cospi_30_64 * x0 - cospi_2_64 * x1
  let s2 : Int := cospi_10_64 * x2 + cospi_22_64 * x3
  let s3 : Int := cospi_22_64 * x2 - cospi_10_64 * x3
  let s4 : Int := cospi_18_64 * x4 + cospi_14_64 * x5
  let s5 : Int := cospi_14_64 * x4 - cospi_18_64 * x5
  let s6 : Int := cospi_26_64 * x6 + cospi_6_64 * x7
  let s7 : Int := cospi_6_64 * x6 - cospi_26_64 * x7
  let x0 : Int := s0 + s4
  let x1 : Int := s1 + s5
  let x2 : Int := s2 + s6
  let x3 : Int := s3 + s7
  let x4 : Int := fdct_round_shift (s0 - s4)
  let x5 : Int := fdct_round_shift (s1 - s5)
  let x6 : Int := fdct_round_shift (s2 - s6)
  let x7 : Int := fdct_round_shift (s3 - s7)
  -- stage 2
  let s0 : Int := x0
  let s1 : Int := x1
  let s2 : Int := x2
  let s3 : Int := x3
  let s4 : Int := cospi_8_64 * x4 + cospi_24_64 * x5
  let s5 : Int := cospi_24_64 * x4 - cospi_8_64 * x5
  let s6 : Int := (-cospi_24_64) * x6 + cospi_8_64 * x7
  let s7 : Int := cospi_8_64 * x6 + cospi_24_64 * x7
  let x0 : Int := fdct_round_shift (s0 + s2)
  let x1 : Int := fdct_round_shift (s1 + s3)
  let x2 : Int := fdct_round_shift (s0 - s2)
  let x3 : Int := fdct_round_shift (s1 - s3)
  let x4 : Int := fdct_round_shift (s4 + s6)
  let x5 : Int := fdct_round_shift (s5 + s7)
  let x6 : Int := fdct_round_shift (s4 - s6)
  let x7 : Int := fdct_round_shift (s5 - s7)
  -- stage 3
  let s2 : Int := cospi_16_64 * (x2 + x3)
  let s3 : Int := cospi_16_64 * (x2 - x3)
  let s6 : Int := cospi_16_64 * (x6 + x7)
  let s7 : Int := cospi_16_64 * (x6 - x7)
  let x2 : Int := fdct_round_shift s2
  let x3 : Int := fdct_round_shift s3
  let x6 : Int := fdct_round_shift s6
  let x7 : Int := fdct_round_shift s7
  let output0 : Int := x0
  let output1 : Int := (-x4)
  let output2 : Int := x6
  let output3 : Int := (-x2)
  let output4 : Int := x3
  let output5 : Int := (-x7)
  let output6 : Int := x5
  let output7 : Int := (-x1)
  let output := store output 0 output0
  let output := store output 1 output1
  let output := store output 2 output2
  let output := store output 3 output3
  let output := store output 4 output4
  let output := store output 5 output5
  let output := store output 6 output6
  let output := store output 7 output7
  output

/-- The 1-D kernel `fadst16` of `dct.c`. The elements `output[k]` and `step[k]` of
the C arrays are the variables `outputk` and `stepk`; the final values of
`output[0 .. n-1]` are stored to the buffer of the caller at the end. -/
def fadst16 (input : Buf) (output : Buf) : Buf :=
  let x0 : Int := input 15
  let x1 : Int := input 0
  let x2 : Int := input 13
  let x3 : Int := input 2
  let x4 : Int := input 11
  let x5 : Int := input 4
  let x6 : Int := input 9
  let x7 : Int := input 6
  let x8 : Int := input 7
  let x9 : Int := input 8
  let x10 : Int := input 5
  let x11 : Int := input 10
  let x12 : Int := input 3
  let x13 : Int := input 12
  let x14 : Int := input 1
  let x15 : Int := input 14
  -- stage 1
  let s0 : Int := x0 * cospi_1_64 + x1 * cospi_31_64
  let s1 : Int := x0 * cospi_31_64 - x1 * cospi_1_64
  let s2 : Int := x2 * cospi_5_64 + x3 * cospi_27_64
  let s3 : Int := x2 * cospi_27_64 - x3 * cospi_5_64
  let s4 : Int := x4 * cospi_9_64 + x5 * cospi_23_64
  let s5 : Int := x4 * cospi_23_64 - x5 * cospi_9_64
  let s6 : Int := x6 * cospi_13_64 + x7 * cospi_19_64
  let s7 : Int := x6 * cospi_19_64 - x7 * cospi_13_64
  let s8 : Int := x8 * cospi_17_64 + x9 * cospi_15_64
  let s9 : Int := x8 * cospi_15_64 - x9 * cospi_17_64
  let s10 : Int := x10 * cospi_21_64 + x11 * cospi_11_64
  let s11 : Int := x10 * cospi_11_64 - x11 * cospi_21_64
  let s12 : Int := x12 * cospi_25_64 + x13 * cospi_7_64
  let s13 : Int := x12 * cospi_7_64 - x13 * cospi_25_64
  let s14 : Int := x14 * cospi_29_64 + x15 * cospi_3_64
  let s15 : Int := x14 * cospi_3_64 - x15 * cospi_29_64
  let x0 : Int := s0 + s8
  let x1 : Int := s1 + s9
  let x2 : Int := s2 + s10
  let x3 : Int := s3 + s11
  let x4 : Int := s4 + s12
  let x5 : Int := s5 + s13
  let x6 : Int := s6 + s14
  let x7 : Int := s7 + s15
  let x8 : Int := fdct_round_shift (s0 - s8)
  let x9 : Int := fdct_round_shift (s1 - s9)
  let x10 : Int := fdct_round_shift (s2 - s10)
  let x11 : Int := fdct_round_shift (s3 - s11)
  let x12 : Int := fdct_round_shift (s4 - s12)
  let x13 : Int := fdct_round_shift (s5 - s13)
  let x14 : Int := fdct_round_shift (s6 - s14)
  let x15 : Int := fdct_round_shift (s7 - s15)
  -- stage 2
  let s0 : Int := x0
  let s1 : Int := x1
  let s2 : Int := x2
  let s3 : Int := x3
  let s4 : Int := x4
  let s5 : Int := x5
  let s6 : Int := x6
  let s7 : Int := x7
  let s8 : Int := x8 * cospi_4_64 + x9 * cospi_28_64
  let s9 : Int := x8 * cospi_28_64 - x9 * cospi_4_64
  let s10 : Int := x10 * cospi_20_64 + x11 * cospi_12_64
  let s11 : Int := x10 * cospi_12_64 - x11 * cospi_20_64
  let s12 : Int := (-x12) * cospi_28_64 + x13 * cospi_4_64
  let s13 : Int := x12 * cospi_4_64 + x13 * cospi_28_64
  let s14 : Int := (-x14) * cospi_12_64 + x15 * cospi_20_64
  let s15 : Int := x14 * cospi_20_64 + x15 * cospi_12_64
  let x0 : Int := s0 + s4
  let x1 : Int := s1 + s5
  let x2 : Int := s2 + s6
  let x3 : Int := s3 + s7
  let x4 : Int := fdct_round_shift (s0 - s4)
  let x5 : Int := fdct_round_shift (s1 - s5)
  let x6 : Int := fdct_round_shift (s2 - s6)
  let x7 : Int := fdct_round_shift (s3 - s7)
  let x8 : Int := s8 + s12
  let x9 : Int := s9 + s13
  let x10 : Int := s10 + s14
  let x11 : Int := s11 + s15
  let x12 : Int := fdct_round_shift (s8 - s12)
  let x13 : Int := fdct_round_shift (s9 - s13)
  let x14 : Int := fdct_round_shift (s10 - s14)
  let x15 : Int := fdct_round_shift (s11 - s15)
  -- stage 3
  let s0 : Int := x0
  let s1 : Int := x1
  let s2 : Int := x2
  let s3 : Int := x3
  let s4 : Int := x4 * cospi_8_64 + x5 * cospi_24_64
  let s5 : Int := x4 * cospi_24_64 - x5 * cospi_8_64
  let s6 : Int := (-x6) * cospi_24_64 + x7 * cospi_8_64
  let s7 : Int := x6 * cospi_8_64 + x7 * cospi_24_64
  let s8 : Int := x8
  let s9 : Int := x9
  let s10 : Int := x10
  let s11 : Int := x11
  let s12 : Int := x12 * cospi_8_64 + x13 * cospi_24_64
  let s13 : Int := x12 * cospi_24_64 - x13 * cospi_8_64
  let s14 : Int := (-x14) * cospi_24_64 + x15 * cospi_8_64
  let s15 : Int := x14 * cospi_8_64 + x15 * cospi_24_64
  let x0 : Int := fdct_round_shift (s0 + s2)
  let x1 : Int := fdct_round_shift (s1 + s3)
  let x2 : Int := fdct_round_shift (s0 - s2)
  let x3 : Int := fdct_round_shift (s1 - s3)
  let x4 : Int := fdct_round_shift (s4 + s6)
  let x5 : Int := fdct_round_shift (s5 + s7)
  let x6 : Int := fdct_round_shift (s4 - s6)
  let x7 : Int := fdct_round_shift (s5 - s7)
  let x8 : Int := fdct_round_shift (s8 + s10)
  let x9 : Int := fdct_round_shift (s9 + s11)
  let x10 : Int := fdct_round_shift (s8 - s10)
  let x11 : Int := fdct_round_shift (s9 - s11)
  let x12 : Int := fdct_round_shift (s12 + s14)
  let x13 : Int := fdct_round_shift (s13 + s15)
  let x14 : Int := fdct_round_shift (s12 - s14)
  let x15 : Int := fdct_round_shift (s13 - s15)
  -- stage 4
  let s2 : Int := (-cospi_16_64) * (x2 + x3)
  let s3 : Int := cospi_16_64 * (x2 - x3)
  let s6 : Int := cospi_16_64 * (x6 + x7)
  let s7 : Int := cospi_16_64 * ((-x6) + x7)
  let s10 : Int := cospi_16_64 * (x10 + x11)
  let s11 : Int := cospi_16_64 * ((-x10) + x11)
  let s14 : Int := (-cospi_16_64) * (x14 + x15)
  let s15 : Int := cospi_16_64 * (x14 - x15)
  let x2 : Int := fdct_round_shift s2
  let x3 : Int := fdct_round_shift s3
  let x6 : Int := fdct_round_shift s6
  let x7 : Int := fdct_round_shift s7
  let x10 : Int := fdct_round_shift s10
  let x11 : Int := fdct_round_shift s11
  let x14 : Int := fdct_round_shift s14
  let x15 : Int := fdct_round_shift s15
  let output0 : Int := x0
  let output1 : Int := (-x8)
  let output2 : Int := x12
  let output3 : Int := (-x4)
  let output4 : Int := x6
  let output5 : Int := x14
  let output6 : Int := x10
  let output7 : Int := x2
  let output8 : Int := x3
  let output9 : Int := x11
  let output10 : Int := x15
  let output11 : Int := x7
  let output12 : Int := x5
  let output13 : Int := (-x13)
  let output14 : Int := x9
  let output15 : Int := (-x1)
  let output := store output 0 output0
  let output := store output 1 output1
  let output := store output 2 output2
  let output := store output 3 output3
  let output := store output 4 output4
  let output := store output 5 output5
  let output := store output 6 output6
  let output := store output 7 output7
  let output := store output 8 output8
  let output := store output 9 output9
  let output := store output 10 output10
  let output := store output 11 output11
  let output := store output 12 output12
  let output := store output 13 output13
  let output := store output 14 output14
  let output := store output 15 output15
  output

/-- The kernel `fhalfright32` of `dct.c`, used in lieu of a 32-point ADST. The
cast `(tran_low_t)` of the 64-bit value stored to `inputhalf` is `wrap32`. -/
def fhalfright32 (input : Buf) (output : Buf) : Buf :=
  let inputhalf : Buf := zeroBuf
  let output := forLoop 16 (fun i output => store output (16 + i) (input i * 4)) output
  -- Multiply input by sqrt(2)
  let inputhalf := forLoop 16 (fun i inputhalf =>
    store inputhalf i (wrap32 (fdct_round_shift (input (i + 16) * Sqrt2)))) inputhalf
  fdct16 inputhalf output

/-- The identity kernel `fidtx4` of `dct.c`. The cast `(tran_low_t)` of the
64-bit value is `wrap32`. -/
def fidtx4 (input : Buf) (output : Buf) : Buf :=
  forLoop 4 (fun i output =>
    store output i (wrap32 (fdct_round_shift (input i * Sqrt2)))) output

/-- The identity kernel `fidtx8` of `dct.c`. -/
def fidtx8 (input : Buf) (output : Buf) : Buf :=
  forLoop 8 (fun i output => store output i (input i * 2)) output

/-- The identity kernel `fidtx16` of `dct.c`. The cast `(tran_low_t)` of the
64-bit value is `wrap32`. -/
def fidtx16 (input : Buf) (output : Buf) : Buf :=
  forLoop 16 (fun i output =>
    store output i (wrap32 (fdct_round_shift (input i * 2 * Sqrt2)))) output

/-- The identity kernel `fidtx32` of `dct.c`. -/
def fidtx32 (input : Buf) (output : Buf) : Buf :=
  forLoop 32 (fun i output => store output i (input i * 4)) output

/-- The identity kernel `fidtx64` of `dct.c`. The cast `(tran_low_t)` of the
64-bit value is `wrap32`. -/
def fidtx64 (input : Buf) (output : Buf) : Buf :=
  forLoop 64 (fun i output =>
    store output i (wrap32 (fdct_round_shift (input i * 4 * Sqrt2)))) output

/-- The kernel `fhalfright64` of `dct.c`, used in lieu of a 64-point ADST. The
casts `(tran_low_t)` of the 64-bit values stored to the upper half of `output`
and to `inputhalf` are `wrap32`. -/
def fhalfright64 (input : Buf) (output : Buf) : Buf :=
  let inputhalf : Buf := zeroBuf
  let output := forLoop 32 (fun i output =>
    store output (32 + i) (wrap32 (fdct_round_shift (input i * 4 * Sqrt2)))) output
  -- Multiply input by sqrt(2)
  let inputhalf := forLoop 32 (fun i inputhalf =>
    store inputhalf i (wrap32 (fdct_round_shift (input (i + 32) * Sqrt2)))) inputhalf
  fdct32 inputhalf output

/-! ## Input conditioning -/

/-- The helper `copy_block` of `dct.c`: `l` rows of `w` samples are copied. -/
def copy_block (src : Buf) (src_stride l w : Nat) (dest : Buf) (dest_stride : Nat) : Buf :=
  forLoop l (fun i dest => memcpy dest (dest_stride * i) src (src_stride * i) w) dest

/-- The in-place horizontal flip `fliplr` of `dct.c`. -/
def fliplr (dest : Buf) (stride l w : Nat) : Buf :=
  forLoop l (fun i dest =>
    forLoop (w / 2) (fun j dest =>
      let tmp : Int := dest (i * stride + j)
      let dest := store dest (i * stride + j) (dest (i * stride + w - 1 - j))
      let dest := store dest (i * stride + w - 1 - j) tmp
      dest) dest) dest

/-- The in-place vertical flip `flipud` of `dct.c`. -/
def flipud (dest : Buf) (stride l w : Nat) : Buf :=
  forLoop w (fun j dest =>
    forLoop (l / 2) (fun i dest =>
      let tmp : Int := dest (i * stride + j)
      let dest := store dest (i * stride + j) (dest ((l - 1 - i) * stride + j))
      let dest := store dest ((l - 1 - i) * stride + j) tmp
      dest) dest) dest

/-- The in-place flip in both directions `fliplrud` of `dct.c`. -/
def fliplrud (dest : Buf) (stride l w : Nat) : Buf :=
  forLoop (l / 2) (fun i dest =>
    forLoop w (fun j dest =>
      let tmp : Int := dest (i * stride + j)
      let dest := store dest (i * stride + j) (dest ((l - 1 - i) * stride + w - 1 - j))
      let dest := store dest ((l - 1 - i) * stride + w - 1 - j) tmp
      dest) dest) dest

/-- The helper `copy_fliplr` of `dct.c`. -/
def copy_fliplr (src : Buf) (src_stride l w : Nat) (dest : Buf) (dest_stride : Nat) : Buf :=
  let dest := copy_block src src_stride l w dest dest_stride
  fliplr dest dest_stride l w

/-- The helper `copy_flipud` of `dct.c`. -/
def copy_flipud (src : Buf) (src_stride l w : Nat) (dest : Buf) (dest_stride : Nat) : Buf :=
  let dest := copy_block src src_stride l w dest dest_stride
  flipud dest dest_stride l w

/-- The helper `copy_fliplrud` of `dct.c`. -/
def copy_fliplrud (src : Buf) (src_stride l w : Nat) (dest : Buf) (dest_stride : Nat) : Buf :=
  let dest := copy_block src src_stride l w dest dest_stride
  fliplrud dest dest_stride l w

/-- Modelled from the spec: the enumeration `TX_TYPE` of the absent header
`av1/common/enums.h`; a value is the position of its entry in the 16-entry
dispatch tables. -/
abbrev TX_TYPE := Nat

/-- Modelled from the spec: `TX_TYPE` value 0. -/
def DCT_DCT : TX_TYPE := 0
/-- Modelled from the spec: `TX_TYPE` value 1. -/
def ADST_DCT : TX_TYPE := 1
/-- Modelled from the spec: `TX_TYPE` value 2. -/
def DCT_ADST : TX_TYPE := 2
/-- Modelled from the spec: `TX_TYPE` value 3. -/
def ADST_ADST : TX_TYPE := 3
/-- Modelled from the spec: `TX_TYPE` value 4. -/
def FLIPADST_DCT : TX_TYPE := 4
/-- Modelled from the spec: `TX_TYPE` value 5. -/
def DCT_FLIPADST : TX_TYPE := 5
/-- Modelled from the spec: `TX_TYPE` value 6. -/
def FLIPADST_FLIPADST : TX_TYPE := 6
/-- Modelled from the spec: `TX_TYPE` value 7. -/
def ADST_FLIPADST : TX_TYPE := 7
/-- Modelled from the spec: `TX_TYPE` value 8. -/
def FLIPADST_ADST : TX_TYPE := 8
/-- Modelled from the spec: `TX_TYPE` value 9. -/
def IDTX : TX_TYPE := 9
/-- Modelled from the spec: `TX_TYPE` value 10. -/
def V_DCT : TX_TYPE := 10
/-- Modelled from the spec: `TX_TYPE` value 11. -/
def H_DCT : TX_TYPE := 11
/-- Modelled from the spec: `TX_TYPE` value 12. -/
def V_ADST : TX_TYPE := 12
/-- Modelled from the spec: `TX_TYPE` value 13. -/
def H_ADST : TX_TYPE := 13
/-- Modelled from the spec: `TX_TYPE` value 14. -/
def V_FLIPADST : TX_TYPE := 14
/-- Modelled from the spec: `TX_TYPE` value 15. -/
def H_FLIPADST : TX_TYPE := 15

/-- The result of `maybe_flip_input`: the source the transform reads from, its
stride, and the contents of the scratch buffer. -/
structure FlipResult where
  /-- The buffer `*src` points to on return. -/
  src : Buf
  /-- The value of `*src_stride` on return. -/
  src_stride : Nat
  /-- The contents of the scratch buffer `buff` on return. -/
  buff : Buf

/-- The helper `maybe_flip_input` of `dct.c`. The `default: assert(0)` branch
of the switch is the result `none`. -/
def maybe_flip_input (src : Buf) (src_stride l w : Nat) (buff : Buf) (tx_type : TX_TYPE) :
    Option FlipResult :=
  if tx_type = DCT_DCT ∨ tx_type = ADST_DCT ∨ tx_type = DCT_ADST ∨ tx_type = ADST_ADST ∨
      tx_type = IDTX ∨ tx_type = V_DCT ∨ tx_type = H_DCT ∨ tx_type = V_ADST ∨
      tx_type = H_ADST then
    some ⟨src, src_stride, buff⟩
  else if tx_type = FLIPADST_DCT ∨ tx_type = FLIPADST_ADST ∨ tx_type = V_FLIPADST then
    let buff := copy_flipud src src_stride l w buff w
    some ⟨buff, w, buff⟩
  else if tx_type = DCT_FLIPADST ∨ tx_type = ADST_FLIPADST ∨ tx_type = H_FLIPADST then
    let buff := copy_fliplr src src_stride l w buff w
    some ⟨buff, w, buff⟩
  else if tx_type = FLIPADST_FLIPADST then
    let buff := copy_fliplrud src src_stride l w buff w
    some ⟨buff, w, buff⟩
  else
    none

/-! ## Two-dimensional transforms -/

/-- Modelled from the spec: the struct `transform_2d` of the absent header
`av1/common/idct.h`, a column kernel followed by a row kernel. -/
structure transform_2d where
  /-- The kernel run on each column. -/
  cols : transform_1d
  /-- The kernel run on each row. -/
  rows : transform_1d

/-- The arrays a transform pass updates: `temp_in`, `temp_out` and the array
the pass writes its results to (`out` in the first pass, `output` in the
second). -/
structure PassState where
  /-- The array `temp_in`. -/
  temp_in : Buf
  /-- The array `temp_out`. -/
  temp_out : Buf
  /-- The array written by the pass. -/
  dest : Buf

/-- The dispatch table `FHT` of `av1_fht4x4_c`, one kernel pair per transform type. -/
def FHT_4x4 : List transform_2d :=
  [⟨fdct4, fdct4⟩,  -- DCT_DCT
   ⟨fadst4, fdct4⟩,  -- ADST_DCT
   ⟨fdct4, fadst4⟩,  -- DCT_ADST
   ⟨fadst4, fadst4⟩,  -- ADST_ADST
   ⟨fadst4, fdct4⟩,  -- FLIPADST_DCT
   ⟨fdct4, fadst4⟩,  -- DCT_FLIPADST
   ⟨fadst4, fadst4⟩,  -- FLIPADST_FLIPADST
   ⟨fadst4, fadst4⟩,  -- ADST_FLIPADST
   ⟨fadst4, fadst4⟩,  -- FLIPADST_ADST
   ⟨fidtx4, fidtx4⟩,  -- IDTX
   ⟨fdct4, fidtx4⟩,  -- V_DCT
   ⟨fidtx4, fdct4⟩,  -- H_DCT
   ⟨fadst4, fidtx4⟩,  -- V_ADST
   ⟨fidtx4, fadst4⟩,  -- H_ADST
   ⟨fadst4, fidtx4⟩,  -- V_FLIPADST
   ⟨fidtx4, fadst4⟩]  -- H_FLIPADST

/-- The table-driven block of `av1_fht4x4_c`: everything after the `DCT_DCT`
shortcut. -/
def av1_fht4x4_c_table (input : Buf) (output : Buf) (stride : Nat) (tx_type : TX_TYPE) :
    Option Buf := do
  let ht ← (FHT_4x4)[tx_type]?
  let out : Buf := zeroBuf
  let temp_in : Buf := zeroBuf
  let temp_out : Buf := zeroBuf
  let flipped_input : Buf := zeroBuf
  let flip ← maybe_flip_input input stride 4 4 flipped_input tx_type
  let input := flip.src
  let stride := flip.src_stride
  -- Columns
  let s : PassState := forLoop 4 (fun i (s : PassState) =>
    /- A C99-safe upshift by 4 for both Daala and VPx TX. -/
    let temp_in := forLoop 4 (fun j temp_in =>
      store temp_in j (input (j * stride + i) * 16)) s.temp_in
    let temp_in := if i = 0 ∧ temp_in 0 ≠ 0 then store temp_in 0 (temp_in 0 + 1) else temp_in
    let temp_out := ht.cols temp_in s.temp_out
    let out := forLoop 4 (fun j out => store out (j * 4 + i) (temp_out j)) s.dest
    ⟨temp_in, temp_out, out⟩) ⟨temp_in, temp_out, out⟩
  let out : Buf := s.dest
  -- Rows
  let s : PassState := forLoop 4 (fun i (s : PassState) =>
    let temp_in := forLoop 4 (fun j temp_in => store temp_in j (out (j + i * 4))) s.temp_in
    let temp_out := ht.rows temp_in s.temp_out
    let output := forLoop 4 (fun j output =>
      store output (j + i * 4) (asr (temp_out j + 1) 2)) s.dest
    ⟨temp_in, temp_out, output⟩) ⟨s.temp_in, s.temp_out, output⟩
  let output : Buf := s.dest
  some output

/-- The 2-D transform `av1_fht4x4_c` of `dct.c`. The library routine
`aom_fdct4x4_c`, taken for `DCT_DCT`, is not among the sources and is a
parameter. -/
def av1_fht4x4_c (aom_fdct4x4_c : Buf → Buf → Nat → Buf) (input : Buf) (output : Buf)
    (stride : Nat) (tx_type : TX_TYPE) : Option Buf :=
  if tx_type = DCT_DCT then
    some (aom_fdct4x4_c input output stride)
  else
    av1_fht4x4_c_table input output stride tx_type
/-- The dispatch table `FHT` of `av1_fht4x8_c`, one kernel pair per transform type. -/
def FHT_4x8 : List transform_2d :=
  [⟨fdct8, fdct4⟩,  -- DCT_DCT
   ⟨fadst8, fdct4⟩,  -- ADST_DCT
   ⟨fdct8, fadst4⟩,  -- DCT_ADST
   ⟨fadst8, fadst4⟩,  -- ADST_ADST
   ⟨fadst8, fdct4⟩,  -- FLIPADST_DCT
   ⟨fdct8, fadst4⟩,  -- DCT_FLIPADST
   ⟨fadst8, fadst4⟩,  -- FLIPADST_FLIPADST
   ⟨fadst8, fadst4⟩,  -- ADST_FLIPADST
   ⟨fadst8, fadst4⟩,  -- FLIPADST_ADST
   ⟨fidtx8, fidtx4⟩,  -- IDTX
   ⟨fdct8, fidtx4⟩,  -- V_DCT
   ⟨fidtx8, fdct4⟩,  -- H_DCT
   ⟨fadst8, fidtx4⟩,  -- V_ADST
   ⟨fidtx8, fadst4⟩,  -- H_ADST
   ⟨fadst8, fidtx4⟩,  -- V_FLIPADST
   ⟨fidtx8, fadst4⟩]  -- H_FLIPADST

/-- The 2-D transform `av1_fht4x8_c` of `dct.c`; the result is the new contents of
`output`, or `none` when the transform type is not one of the sixteen. -/
def av1_fht4x8_c (input : Buf) (output : Buf) (stride : Nat) (tx_type : TX_TYPE) :
    Option Buf := do
  let ht ← (FHT_4x8)[tx_type]?
  let n := 4
  let n2 := 8
  let out : Buf := zeroBuf
  let temp_in : Buf := zeroBuf
  let temp_out : Buf := zeroBuf
  let flipped_input : Buf := zeroBuf
  let flip ← maybe_flip_input input stride n2 n flipped_input tx_type
  let input := flip.src
  let stride := flip.src_stride
  -- Rows
  let s : PassState := forLoop n2 (fun i (s : PassState) =>
    let temp_in := forLoop n (fun j temp_in =>
      store temp_in j (fdct_round_shift (input (i * stride + j) * 4 * Sqrt2))) s.temp_in
    let temp_out := ht.rows temp_in s.temp_out
    let out := forLoop n (fun j out =>
      store out (j * n2 + i) (temp_out j)) s.dest
    ⟨temp_in, temp_out, out⟩) ⟨temp_in, temp_out, out⟩
  let out : Buf := s.dest
  -- Columns
  let s : PassState := forLoop n (fun i (s : PassState) =>
    let temp_in := forLoop n2 (fun j temp_in =>
      store temp_in j (out (j + i * n2))) s.temp_in
    let temp_out := ht.cols temp_in s.temp_out
    let output := forLoop n2 (fun j output =>
      store output (i + j * n) (asr (temp_out j + b2i (temp_out j < 0)) 1)) s.dest
    ⟨temp_in, temp_out, output⟩) ⟨s.temp_in, s.temp_out, output⟩
  let output : Buf := s.dest
  some output

/-- The dispatch table `FHT` of `av1_fht8x4_c`, one kernel pair per transform type. -/
def FHT_8x4 : List transform_2d :=
  [⟨fdct4, fdct8⟩,  -- DCT_DCT
   ⟨fadst4, fdct8⟩,  -- ADST_DCT
   ⟨fdct4, fadst8⟩,  -- DCT_ADST
   ⟨fadst4, fadst8⟩,  -- ADST_ADST
   ⟨fadst4, fdct8⟩,  -- FLIPADST_DCT
   ⟨fdct4, fadst8⟩,  -- DCT_FLIPADST
   ⟨fadst4, fadst8⟩,  -- FLIPADST_FLIPADST
   ⟨fadst4, fadst8⟩,  -- ADST_FLIPADST
   ⟨fadst4, fadst8⟩,  -- FLIPADST_ADST
   ⟨fidtx4, fidtx8⟩,  -- IDTX
   ⟨fdct4, fidtx8⟩,  -- V_DCT
   ⟨fidtx4, fdct8⟩,  -- H_DCT
   ⟨fadst4, fidtx8⟩,  -- V_ADST
   ⟨fidtx4, fadst8⟩,  -- H_ADST
   ⟨fadst4, fidtx8⟩,  -- V_FLIPADST
   ⟨fidtx4, fadst8⟩]  -- H_FLIPADST

/-- The 2-D transform `av1_fht8x4_c` of `dct.c`; the result is the new contents of
`output`, or `none` when the transform type is not one of the sixteen. -/
def av1_fht8x4_c (input : Buf) (output : Buf) (stride : Nat) (tx_type : TX_TYPE) :
    Option Buf := do
  let ht ← (FHT_8x4)[tx_type]?
  let n := 4
  let n2 := 8
  let out : Buf := zeroBuf
  let temp_in : Buf := zeroBuf
  let temp_out : Buf := zeroBuf
  let flipped_input : Buf := zeroBuf
  let flip ← maybe_flip_input input stride n n2 flipped_input tx_type
  let input := flip.src
  let stride := flip.src_stride
  -- Columns
  let s : PassState := forLoop n2 (fun i (s : PassState) =>
    let temp_in := forLoop n (fun j temp_in =>
      store temp_in j (fdct_round_shift (input (j * stride + i) * 4 * Sqrt2))) s.temp_in
    let temp_out := ht.cols temp_in s.temp_out
    let out := forLoop n (fun j out =>
      store out (j * n2 + i) (temp_out j)) s.dest
    ⟨temp_in, temp_out, out⟩) ⟨temp_in, temp_out, out⟩
  let out : Buf := s.dest
  -- Rows
  let s : PassState := forLoop n (fun i (s : PassState) =>
    let temp_in := forLoop n2 (fun j temp_in =>
      store temp_in j (out (j + i * n2))) s.temp_in
    let temp_out := ht.rows temp_in s.temp_out
    let output := forLoop n2 (fun j output =>
      store output (j + i * n2) (asr (temp_out j + b2i (temp_out j < 0)) 1)) s.dest
    ⟨temp_in, temp_out, output⟩) ⟨s.temp_in, s.temp_out, output⟩
  let output : Buf := s.dest
  some output

/-- The dispatch table `FHT` of `av1_fht4x16_c`, one kernel pair per transform type. -/
def FHT_4x16 : List transform_2d :=
  [⟨fdct16, fdct4⟩,  -- DCT_DCT
   ⟨fadst16, fdct4⟩,  -- ADST_DCT
   ⟨fdct16, fadst4⟩,  -- DCT_ADST
   ⟨fadst16, fadst4⟩,  -- ADST_ADST
   ⟨fadst16, fdct4⟩,  -- FLIPADST_DCT
   ⟨fdct16, fadst4⟩,  -- DCT_FLIPADST
   ⟨fadst16, fadst4⟩,  -- FLIPADST_FLIPADST
   ⟨fadst16, fadst4⟩,  -- ADST_FLIPADST
   ⟨fadst16, fadst4⟩,  -- FLIPADST_ADST
   ⟨fidtx16, fidtx4⟩,  -- IDTX
   ⟨fdct16, fidtx4⟩,  -- V_DCT
   ⟨fidtx16, fdct4⟩,  -- H_DCT
   ⟨fadst16, fidtx4⟩,  -- V_ADST
   ⟨fidtx16, fadst4⟩,  -- H_ADST
   ⟨fadst16, fidtx4⟩,  -- V_FLIPADST
   ⟨fidtx16, fadst4⟩]  -- H_FLIPADST

/-- The 2-D transform `av1_fht4x16_c` of `dct.c`; the result is the new contents of
`output`, or `none` when the transform type is not one of the sixteen. -/
def av1_fht4x16_c (input : Buf) (output : Buf) (stride : Nat) (tx_type : TX_TYPE) :
    Option Buf := do
  let ht ← (FHT_4x16)[tx_type]?
  let n := 4
  let n4 := 16
  let out : Buf := zeroBuf
  let temp_in : Buf := zeroBuf
  let temp_out : Buf := zeroBuf
  let flipped_input : Buf := zeroBuf
  let flip ← maybe_flip_input input stride n4 n flipped_input tx_type
  let input := flip.src
  let stride := flip.src_stride
  -- Rows
  let s : PassState := forLoop n4 (fun i (s : PassState) =>
    let temp_in := forLoop n (fun j temp_in =>
      store temp_in j (input (i * stride + j) * 4)) s.temp_in
    let temp_out := ht.rows temp_in s.temp_out
    let out := forLoop n (fun j out =>
      store out (j * n4 + i) (temp_out j)) s.dest
    ⟨temp_in, temp_out, out⟩) ⟨temp_in, temp_out, out⟩
  let out : Buf := s.dest
  -- Columns
  let s : PassState := forLoop n (fun i (s : PassState) =>
    let temp_in := forLoop n4 (fun j temp_in =>
      store temp_in j (out (j + i * n4))) s.temp_in
    let temp_out := ht.cols temp_in s.temp_out
    let output := forLoop n4 (fun j output =>
      store output (i + j * n) (asr (temp_out j + b2i (temp_out j < 0)) 1)) s.dest
    ⟨temp_in, temp_out, output⟩) ⟨s.temp_in, s.temp_out, output⟩
  let output : Buf := s.dest
  some output

/-- The dispatch table `FHT` of `av1_fht16x4_c`, one kernel pair per transform type. -/
def FHT_16x4 : List transform_2d :=
  [⟨fdct4, fdct16⟩,  -- DCT_DCT
   ⟨fadst4, fdct16⟩,  -- ADST_DCT
   ⟨fdct4, fadst16⟩,  -- DCT_ADST
   ⟨fadst4, fadst16⟩,  -- ADST_ADST
   ⟨fadst4, fdct16⟩,  -- FLIPADST_DCT
   ⟨fdct4, fadst16⟩,  -- DCT_FLIPADST
   ⟨fadst4, fadst16⟩,  -- FLIPADST_FLIPADST
   ⟨fadst4, fadst16⟩,  -- ADST_FLIPADST
   ⟨fadst4, fadst16⟩,  -- FLIPADST_ADST
   ⟨fidtx4, fidtx16⟩,  -- IDTX
   ⟨fdct4, fidtx16⟩,  -- V_DCT
   ⟨fidtx4, fdct16⟩,  -- H_DCT
   ⟨fadst4, fidtx16⟩,  -- V_ADST
   ⟨fidtx4, fadst16⟩,  -- H_ADST
   ⟨fadst4, fidtx16⟩,  -- V_FLIPADST
   ⟨fidtx4, fadst16⟩]  -- H_FLIPADST

/-- The 2-D transform `av1_fht16x4_c` of `dct.c`; the result is the new contents of
`output`, or `none` when the transform type is not one of the sixteen. -/
def av1_fht16x4_c (input : Buf) (output : Buf) (stride : Nat) (tx_type : TX_TYPE) :
    Option Buf := do
  let ht ← (FHT_16x4)[tx_type]?
  let n := 4
  let n4 := 16
  let out : Buf := zeroBuf
  let temp_in : Buf := zeroBuf
  let temp_out : Buf := zeroBuf
  let flipped_input : Buf := zeroBuf
  let flip ← maybe_flip_input input stride n n4 flipped_input tx_type
  let input := flip.src
  let stride := flip.src_stride
  -- Columns
  let s : PassState := forLoop n4 (fun i (s : PassState) =>
    let temp_in := forLoop n (fun j temp_in =>
      store temp_in j (input (j * stride + i) * 4)) s.temp_in
    let temp_out := ht.cols temp_in s.temp_out
    let out := forLoop n (fun j out =>
      store out (j * n4 + i) (temp_out j)) s.dest
    ⟨temp_in, temp_out, out⟩) ⟨temp_in, temp_out, out⟩
  let out : Buf := s.dest
  -- Rows
  let s : PassState := forLoop n (fun i (s : PassState) =>
    let temp_in := forLoop n4 (fun j temp_in =>
      store temp_in j (out (j + i * n4))) s.temp_in
    let temp_out := ht.rows temp_in s.temp_out
    let output := forLoop n4 (fun j output =>
      store output (j + i * n4) (asr (temp_out j + b2i (temp_out j < 0)) 1)) s.dest
    ⟨temp_in, temp_out, output⟩) ⟨s.temp_in, s.temp_out, output⟩
  let output : Buf := s.dest
  some output

/-- The dispatch table `FHT` of `av1_fht8x16_c`, one kernel pair per transform type. -/
def FHT_8x16 : List transform_2d :=
  [⟨fdct16, fdct8⟩,  -- DCT_DCT
   ⟨fadst16, fdct8⟩,  -- ADST_DCT
   ⟨fdct16, fadst8⟩,  -- DCT_ADST
   ⟨fadst16, fadst8⟩,  -- ADST_ADST
   ⟨fadst16, fdct8⟩,  -- FLIPADST_DCT
   ⟨fdct16, fadst8⟩,  -- DCT_FLIPADST
   ⟨fadst16, fadst8⟩,  -- FLIPADST_FLIPADST
   ⟨fadst16, fadst8⟩,  -- ADST_FLIPADST
   ⟨fadst16, fadst8⟩,  -- FLIPADST_ADST
   ⟨fidtx16, fidtx8⟩,  -- IDTX
   ⟨fdct16, fidtx8⟩,  -- V_DCT
   ⟨fidtx16, fdct8⟩,  -- H_DCT
   ⟨fadst16, fidtx8⟩,  -- V_ADST
   ⟨fidtx16, fadst8⟩,  -- H_ADST
   ⟨fadst16, fidtx8⟩,  -- V_FLIPADST
   ⟨fidtx16, fadst8⟩]  -- H_FLIPADST

/-- The 2-D transform `av1_fht8x16_c` of `dct.c`; the result is the new contents of
`output`, or `none` when the transform type is not one of the sixteen. -/
def av1_fht8x16_c (input : Buf) (output : Buf) (stride : Nat) (tx_type : TX_TYPE) :
    Option Buf := do
  let ht ← (FHT_8x16)[tx_type]?
  let n := 8
  let n2 := 16
  let out : Buf := zeroBuf
  let temp_in : Buf := zeroBuf
  let temp_out : Buf := zeroBuf
  let flipped_input : Buf := zeroBuf
  let flip ← maybe_flip_input input stride n2 n flipped_input tx_type
  let input := flip.src
  let stride := flip.src_stride
  -- Rows
  let s : PassState := forLoop n2 (fun i (s : PassState) =>
    let temp_in := forLoop n (fun j temp_in =>
      store temp_in j (fdct_round_shift (input (i * stride + j) * 4 * Sqrt2))) s.temp_in
    let temp_out := ht.rows temp_in s.temp_out
    let out := forLoop n (fun j out =>
      store out (j * n2 + i) (ROUND_POWER_OF_TWO_SIGNED (temp_out j) 2)) s.dest
    ⟨temp_in, temp_out, out⟩) ⟨temp_in, temp_out, out⟩
  let out : Buf := s.dest
  -- Columns
  let s : PassState := forLoop n (fun i (s : PassState) =>
    let temp_in := forLoop n2 (fun j temp_in =>
      store temp_in j (out (j + i * n2))) s.temp_in
    let temp_out := ht.cols temp_in s.temp_out
    let output := forLoop n2 (fun j output =>
      store output (i + j * n) (temp_out j)) s.dest
    ⟨temp_in, temp_out, output⟩) ⟨s.temp_in, s.temp_out, output⟩
  let output : Buf := s.dest
  some output

/-- The dispatch table `FHT` of `av1_fht16x8_c`, one kernel pair per transform type. -/
def FHT_16x8 : List transform_2d :=
  [⟨fdct8, fdct16⟩,  -- DCT_DCT
   ⟨fadst8, fdct16⟩,  -- ADST_DCT
   ⟨fdct8, fadst16⟩,  -- DCT_ADST
   ⟨fadst8, fadst16⟩,  -- ADST_ADST
   ⟨fadst8, fdct16⟩,  -- FLIPADST_DCT
   ⟨fdct8, fadst16⟩,  -- DCT_FLIPADST
   ⟨fadst8, fadst16⟩,  -- FLIPADST_FLIPADST
   ⟨fadst8, fadst16⟩,  -- ADST_FLIPADST
   ⟨fadst8, fadst16⟩,  -- FLIPADST_ADST
   ⟨fidtx8, fidtx16⟩,  -- IDTX
   ⟨fdct8, fidtx16⟩,  -- V_DCT
   ⟨fidtx8, fdct16⟩,  -- H_DCT
   ⟨fadst8, fidtx16⟩,  -- V_ADST
   ⟨fidtx8, fadst16⟩,  -- H_ADST
   ⟨fadst8, fidtx16⟩,  -- V_FLIPADST
   ⟨fidtx8, fadst16⟩]  -- H_FLIPADST

/-- The 2-D transform `av1_fht16x8_c` of `dct.c`; the result is the new contents of
`output`, or `none` when the transform type is not one of the sixteen. -/
def av1_fht16x8_c (input : Buf) (output : Buf) (stride : Nat) (tx_type : TX_TYPE) :
    Option Buf := do
  let ht ← (FHT_16x8)[tx_type]?
  let n := 8
  let n2 := 16
  let out : Buf := zeroBuf
  let temp_in : Buf := zeroBuf
  let temp_out : Buf := zeroBuf
  let flipped_input : Buf := zeroBuf
  let flip ← maybe_flip_input input stride n n2 flipped_input tx_type
  let input := flip.src
  let stride := flip.src_stride
  -- Columns
  let s : PassState := forLoop n2 (fun i (s : PassState) =>
    let temp_in := forLoop n (fun j temp_in =>
      store temp_in j (fdct_round_shift (input (j * stride + i) * 4 * Sqrt2))) s.temp_in
    let temp_out := ht.cols temp_in s.temp_out
    let out := forLoop n (fun j out =>
      store out (j * n2 + i) (ROUND_POWER_OF_TWO_SIGNED (temp_out j) 2)) s.dest
    ⟨temp_in, temp_out, out⟩) ⟨temp_in, temp_out, out⟩
  let out : Buf := s.dest
  -- Rows
  let s : PassState := forLoop n (fun i (s : PassState) =>
    let temp_in := forLoop n2 (fun j temp_in =>
      store temp_in j (out (j + i * n2))) s.temp_in
    let temp_out := ht.rows temp_in s.temp_out
    let output := forLoop n2 (fun j output =>
      store output (j + i * n2) (temp_out j)) s.dest
    ⟨temp_in, temp_out, output⟩) ⟨s.temp_in, s.temp_out, output⟩
  let output : Buf := s.dest
  some output

/-- The dispatch table `FHT` of `av1_fht8x32_c`, one kernel pair per transform type. -/
def FHT_8x32 : List transform_2d :=
  [⟨fdct32, fdct8⟩,  -- DCT_DCT
   ⟨fhalfright32, fdct8⟩,  -- ADST_DCT
   ⟨fdct32, fadst8⟩,  -- DCT_ADST
   ⟨fhalfright32, fadst8⟩,  -- ADST_ADST
   ⟨fhalfright32, fdct8⟩,  -- FLIPADST_DCT
   ⟨fdct32, fadst8⟩,  -- DCT_FLIPADST
   ⟨fhalfright32, fadst8⟩,  -- FLIPADST_FLIPADST
   ⟨fhalfright32, fadst8⟩,  -- ADST_FLIPADST
   ⟨fhalfright32, fadst8⟩,  -- FLIPADST_ADST
   ⟨fidtx32, fidtx8⟩,  -- IDTX
   ⟨fdct32, fidtx8⟩,  -- V_DCT
   ⟨fidtx32, fdct8⟩,  -- H_DCT
   ⟨fhalfright32, fidtx8⟩,  -- V_ADST
   ⟨fidtx32, fadst8⟩,  -- H_ADST
   ⟨fhalfright32, fidtx8⟩,  -- V_FLIPADST
   ⟨fidtx32, fadst8⟩]  -- H_FLIPADST

/-- The 2-D transform `av1_fht8x32_c` of `dct.c`; the result is the new contents of
`output`, or `none` when the transform type is not one of the sixteen. -/
def av1_fht8x32_c (input : Buf) (output : Buf) (stride : Nat) (tx_type : TX_TYPE) :
    Option Buf := do
  let ht ← (FHT_8x32)[tx_type]?
  let n := 8
  let n4 := 32
  let out : Buf := zeroBuf
  let temp_in : Buf := zeroBuf
  let temp_out : Buf := zeroBuf
  let flipped_input : Buf := zeroBuf
  let flip ← maybe_flip_input input stride n4 n flipped_input tx_type
  let input := flip.src
  let stride := flip.src_stride
  -- Rows
  let s : PassState := forLoop n4 (fun i (s : PassState) =>
    let temp_in := forLoop n (fun j temp_in =>
      store temp_in j (input (i * stride + j) * 4)) s.temp_in
    let temp_out := ht.rows temp_in s.temp_out
    let out := forLoop n (fun j out =>
      store out (j * n4 + i) (temp_out j)) s.dest
    ⟨temp_in, temp_out, out⟩) ⟨temp_in, temp_out, out⟩
  let out : Buf := s.dest
  -- Columns
  let s : PassState := forLoop n (fun i (s : PassState) =>
    let temp_in := forLoop n4 (fun j temp_in =>
      store temp_in j (out (j + i * n4))) s.temp_in
    let temp_out := ht.cols temp_in s.temp_out
    let output := forLoop n4 (fun j output =>
      store output (i + j * n) (ROUND_POWER_OF_TWO_SIGNED (temp_out j) 2)) s.dest
    ⟨temp_in, temp_out, output⟩) ⟨s.temp_in, s.temp_out, output⟩
  let output : Buf := s.dest
  some output

/-- The dispatch table `FHT` of `av1_fht32x8_c`, one kernel pair per transform type. -/
def FHT_32x8 : List transform_2d :=
  [⟨fdct8, fdct32⟩,  -- DCT_DCT
   ⟨fadst8, fdct32⟩,  -- ADST_DCT
   ⟨fdct8, fhalfright32⟩,  -- DCT_ADST
   ⟨fadst8, fhalfright32⟩,  -- ADST_ADST
   ⟨fadst8, fdct32⟩,  -- FLIPADST_DCT
   ⟨fdct8, fhalfright32⟩,  -- DCT_FLIPADST
   ⟨fadst8, fhalfright32⟩,  -- FLIPADST_FLIPADST
   ⟨fadst8, fhalfright32⟩,  -- ADST_FLIPADST
   ⟨fadst8, fhalfright32⟩,  -- FLIPADST_ADST
   ⟨fidtx8, fidtx32⟩,  -- IDTX
   ⟨fdct8, fidtx32⟩,  -- V_DCT
   ⟨fidtx8, fdct32⟩,  -- H_DCT
   ⟨fadst8, fidtx32⟩,  -- V_ADST
   ⟨fidtx8, fhalfright32⟩,  -- H_ADST
   ⟨fadst8, fidtx32⟩,  -- V_FLIPADST
   ⟨fidtx8, fhalfright32⟩]  -- H_FLIPADST

/-- The 2-D transform `av1_fht32x8_c` of `dct.c`; the result is the new contents of
`output`, or `none` when the transform type is not one of the sixteen. -/
def av1_fht32x8_c (input : Buf) (output : Buf) (stride : Nat) (tx_type : TX_TYPE) :
    Option Buf := do
  let ht ← (FHT_32x8)[tx_type]?
  let n := 8
  let n4 := 32
  let out : Buf := zeroBuf
  let temp_in : Buf := zeroBuf
  let temp_out : Buf := zeroBuf
  let flipped_input : Buf := zeroBuf
  let flip ← maybe_flip_input input stride n n4 flipped_input tx_type
  let input := flip.src
  let stride := flip.src_stride
  -- Columns
  let s : PassState := forLoop n4 (fun i (s : PassState) =>
    let temp_in := forLoop n (fun j temp_in =>
      store temp_in j (input (j * stride + i) * 4)) s.temp_in
    let temp_out := ht.cols temp_in s.temp_out
    let out := forLoop n (fun j out =>
      store out (j * n4 + i) (temp_out j)) s.dest
    ⟨temp_in, temp_out, out⟩) ⟨temp_in, temp_out, out⟩
  let out : Buf := s.dest
  -- Rows
  let s : PassState := forLoop n (fun i (s : PassState) =>
    let temp_in := forLoop n4 (fun j temp_in =>
      store temp_in j (out (j + i * n4))) s.temp_in
    let temp_out := ht.rows temp_in s.temp_out
    let output := forLoop n4 (fun j output =>
      store output (j + i * n4) (ROUND_POWER_OF_TWO_SIGNED (temp_out j) 2)) s.dest
    ⟨temp_in, temp_out, output⟩) ⟨s.temp_in, s.temp_out, output⟩
  let output : Buf := s.dest
  some output

/-- The dispatch table `FHT` of `av1_fht16x32_c`, one kernel pair per transform type. -/
def FHT_16x32 : List transform_2d :=
  [⟨fdct32, fdct16⟩,  -- DCT_DCT
   ⟨fhalfright32, fdct16⟩,  -- ADST_DCT
   ⟨fdct32, fadst16⟩,  -- DCT_ADST
   ⟨fhalfright32, fadst16⟩,  -- ADST_ADST
   ⟨fhalfright32, fdct16⟩,  -- FLIPADST_DCT
   ⟨fdct32, fadst16⟩,  -- DCT_FLIPADST
   ⟨fhalfright32, fadst16⟩,  -- FLIPADST_FLIPADST
   ⟨fhalfright32, fadst16⟩,  -- ADST_FLIPADST
   ⟨fhalfright32, fadst16⟩,  -- FLIPADST_ADST
   ⟨fidtx32, fidtx16⟩,  -- IDTX
   ⟨fdct32, fidtx16⟩,  -- V_DCT
   ⟨fidtx32, fdct16⟩,  -- H_DCT
   ⟨fhalfright32, fidtx16⟩,  -- V_ADST
   ⟨fidtx32, fadst16⟩,  -- H_ADST
   ⟨fhalfright32, fidtx16⟩,  -- V_FLIPADST
   ⟨fidtx32, fadst16⟩]  -- H_FLIPADST

/-- The 2-D transform `av1_fht16x32_c` of `dct.c`; the result is the new contents of
`output`, or `none` when the transform type is not one of the sixteen. -/
def av1_fht16x32_c (input : Buf) (output : Buf) (stride : Nat) (tx_type : TX_TYPE) :
    Option Buf := do
  let ht ← (FHT_16x32)[tx_type]?
  let n := 16
  let n2 := 32
  let out : Buf := zeroBuf
  let temp_in : Buf := zeroBuf
  let temp_out : Buf := zeroBuf
  let flipped_input : Buf := zeroBuf
  let flip ← maybe_flip_input input stride n2 n flipped_input tx_type
  let input := flip.src
  let stride := flip.src_stride
  -- Rows
  let s : PassState := forLoop n2 (fun i (s : PassState) =>
    let temp_in := forLoop n (fun j temp_in =>
      store temp_in j (fdct_round_shift (input (i * stride + j) * 4 * Sqrt2))) s.temp_in
    let temp_out := ht.rows temp_in s.temp_out
    let out := forLoop n (fun j out =>
      store out (j * n2 + i) (ROUND_POWER_OF_TWO_SIGNED (temp_out j) 4)) s.dest
    ⟨temp_in, temp_out, out⟩) ⟨temp_in, temp_out, out⟩
  let out : Buf := s.dest
  -- Columns
  let s : PassState := forLoop n (fun i (s : PassState) =>
    let temp_in := forLoop n2 (fun j temp_in =>
      store temp_in j (out (j + i * n2))) s.temp_in
    let temp_out := ht.cols temp_in s.temp_out
    let output := forLoop n2 (fun j output =>
      store output (i + j * n) (temp_out j)) s.dest
    ⟨temp_in, temp_out, output⟩) ⟨s.temp_in, s.temp_out, output⟩
  let output : Buf := s.dest
  some output

/-- The dispatch table `FHT` of `av1_fht32x16_c`, one kernel pair per transform type. -/
def FHT_32x16 : List transform_2d :=
  [⟨fdct16, fdct32⟩,  -- DCT_DCT
   ⟨fadst16, fdct32⟩,  -- ADST_DCT
   ⟨fdct16, fhalfright32⟩,  -- DCT_ADST
   ⟨fadst16, fhalfright32⟩,  -- ADST_ADST
   ⟨fadst16, fdct32⟩,  -- FLIPADST_DCT
   ⟨fdct16, fhalfright32⟩,  -- DCT_FLIPADST
   ⟨fadst16, fhalfright32⟩,  -- FLIPADST_FLIPADST
   ⟨fadst16, fhalfright32⟩,  -- ADST_FLIPADST
   ⟨fadst16, fhalfright32⟩,  -- FLIPADST_ADST
   ⟨fidtx16, fidtx32⟩,  -- IDTX
   ⟨fdct16, fidtx32⟩,  -- V_DCT
   ⟨fidtx16, fdct32⟩,  -- H_DCT
   ⟨fadst16, fidtx32⟩,  -- V_ADST
   ⟨fidtx16, fhalfright32⟩,  -- H_ADST
   ⟨fadst16, fidtx32⟩,  -- V_FLIPADST
   ⟨fidtx16, fhalfright32⟩]  -- H_FLIPADST

/-- The 2-D transform `av1_fht32x16_c` of `dct.c`; the result is the new contents of
`output`, or `none` when the transform type is not one of the sixteen. -/
def av1_fht32x16_c (input : Buf) (output : Buf) (stride : Nat) (tx_type : TX_TYPE) :
    Option Buf := do
  let ht ← (FHT_32x16)[tx_type]?
  let n := 16
  let n2 := 32
  let out : Buf := zeroBuf
  let temp_in : Buf := zeroBuf
  let temp_out : Buf := zeroBuf
  let flipped_input : Buf := zeroBuf
  let flip ← maybe_flip_input input stride n n2 flipped_input tx_type
  let input := flip.src
  let stride := flip.src_stride
  -- Columns
  let s : PassState := forLoop n2 (fun i (s : PassState) =>
    let temp_in := forLoop n (fun j temp_in =>
      store temp_in j (fdct_round_shift (input (j * stride + i) * 4 * Sqrt2))) s.temp_in
    let temp_out := ht.cols temp_in s.temp_out
    let out := forLoop n (fun j out =>
      store out (j * n2 + i) (ROUND_POWER_OF_TWO_SIGNED (temp_out j) 4)) s.dest
    ⟨temp_in, temp_out, out⟩) ⟨temp_in, temp_out, out⟩
  let out : Buf := s.dest
  -- Rows
  let s : PassState := forLoop n (fun i (s : PassState) =>
    let temp_in := forLoop n2 (fun j temp_in =>
      store temp_in j (out (j + i * n2))) s.temp_in
    let temp_out := ht.rows temp_in s.temp_out
    let output := forLoop n2 (fun j output =>
      store output (j + i * n2) (temp_out j)) s.dest
    ⟨temp_in, temp_out, output⟩) ⟨s.temp_in, s.temp_out, output⟩
  let output : Buf := s.dest
  some output

/-- The dispatch table `FHT` of `av1_fht16x16_c`, one kernel pair per transform type. -/
def FHT_16x16 : List transform_2d :=
  [⟨fdct16, fdct16⟩,  -- DCT_DCT
   ⟨fadst16, fdct16⟩,  -- ADST_DCT
   ⟨fdct16, fadst16⟩,  -- DCT_ADST
   ⟨fadst16, fadst16⟩,  -- ADST_ADST
   ⟨fadst16, fdct16⟩,  -- FLIPADST_DCT
   ⟨fdct16, fadst16⟩,  -- DCT_FLIPADST
   ⟨fadst16, fadst16⟩,  -- FLIPADST_FLIPADST
   ⟨fadst16, fadst16⟩,  -- ADST_FLIPADST
   ⟨fadst16, fadst16⟩,  -- FLIPADST_ADST
   ⟨fidtx16, fidtx16⟩,  -- IDTX
   ⟨fdct16, fidtx16⟩,  -- V_DCT
   ⟨fidtx16, fdct16⟩,  -- H_DCT
   ⟨fadst16, fidtx16⟩,  -- V_ADST
   ⟨fidtx16, fadst16⟩,  -- H_ADST
   ⟨fadst16, fidtx16⟩,  -- V_FLIPADST
   ⟨fidtx16, fadst16⟩]  -- H_FLIPADST

/-- The 2-D transform `av1_fht16x16_c` of `dct.c`; the result is the new contents of
`output`, or `none` when the transform type is not one of the sixteen. -/
def av1_fht16x16_c (input : Buf) (output : Buf) (stride : Nat) (tx_type : TX_TYPE) :
    Option Buf := do
  let ht ← (FHT_16x16)[tx_type]?
  let out : Buf := zeroBuf
  let temp_in : Buf := zeroBuf
  let temp_out : Buf := zeroBuf
  let flipped_input : Buf := zeroBuf
  let flip ← maybe_flip_input input stride 16 16 flipped_input tx_type
  let input := flip.src
  let stride := flip.src_stride
  -- Columns
  let s : PassState := forLoop 16 (fun i (s : PassState) =>
    let temp_in := forLoop 16 (fun j temp_in =>
      store temp_in j (input (j * stride + i) * 4)) s.temp_in
    let temp_out := ht.cols temp_in s.temp_out
    let out := forLoop 16 (fun j out =>
      store out (j * 16 + i) (asr (temp_out j + 1 + b2i (temp_out j < 0)) 2)) s.dest
    ⟨temp_in, temp_out, out⟩) ⟨temp_in, temp_out, out⟩
  let out : Buf := s.dest
  -- Rows
  let s : PassState := forLoop 16 (fun i (s : PassState) =>
    let temp_in := forLoop 16 (fun j temp_in =>
      store temp_in j (out (j + i * 16))) s.temp_in
    let temp_out := ht.rows temp_in s.temp_out
    let output := forLoop 16 (fun j output =>
      store output (j + i * 16) (temp_out j)) s.dest
    ⟨temp_in, temp_out, output⟩) ⟨s.temp_in, s.temp_out, output⟩
  let output : Buf := s.dest
  some output

/-- The dispatch table `FHT` of `av1_fht32x32_c`, one kernel pair per transform type. -/
def FHT_32x32 : List transform_2d :=
  [⟨fdct32, fdct32⟩,  -- DCT_DCT
   ⟨fhalfright32, fdct32⟩,  -- ADST_DCT
   ⟨fdct32, fhalfright32⟩,  -- DCT_ADST
   ⟨fhalfright32, fhalfright32⟩,  -- ADST_ADST
   ⟨fhalfright32, fdct32⟩,  -- FLIPADST_DCT
   ⟨fdct32, fhalfright32⟩,  -- DCT_FLIPADST
   ⟨fhalfright32, fhalfright32⟩,  -- FLIPADST_FLIPADST
   ⟨fhalfright32, fhalfright32⟩,  -- ADST_FLIPADST
   ⟨fhalfright32, fhalfright32⟩,  -- FLIPADST_ADST
   ⟨fidtx32, fidtx32⟩,  -- IDTX
   ⟨fdct32, fidtx32⟩,  -- V_DCT
   ⟨fidtx32, fdct32⟩,  -- H_DCT
   ⟨fhalfright32, fidtx32⟩,  -- V_ADST
   ⟨fidtx32, fhalfright32⟩,  -- H_ADST
   ⟨fhalfright32, fidtx32⟩,  -- V_FLIPADST
   ⟨fidtx32, fhalfright32⟩]  -- H_FLIPADST

/-- The 2-D transform `av1_fht32x32_c` of `dct.c`; the result is the new contents of
`output`, or `none` when the transform type is not one of the sixteen. -/
def av1_fht32x32_c (input : Buf) (output : Buf) (stride : Nat) (tx_type : TX_TYPE) :
    Option Buf := do
  let ht ← (FHT_32x32)[tx_type]?
  let out : Buf := zeroBuf
  let temp_in : Buf := zeroBuf
  let temp_out : Buf := zeroBuf
  let flipped_input : Buf := zeroBuf
  let flip ← maybe_flip_input input stride 32 32 flipped_input tx_type
  let input := flip.src
  let stride := flip.src_stride
  -- Columns
  let s : PassState := forLoop 32 (fun i (s : PassState) =>
    let temp_in := forLoop 32 (fun j temp_in =>
      store temp_in j (input (j * stride + i) * 4)) s.temp_in
    let temp_out := ht.cols temp_in s.temp_out
    let out := forLoop 32 (fun j out =>
      store out (j * 32 + i) (ROUND_POWER_OF_TWO_SIGNED (temp_out j) 4)) s.dest
    ⟨temp_in, temp_out, out⟩) ⟨temp_in, temp_out, out⟩
  let out : Buf := s.dest
  -- Rows
  let s : PassState := forLoop 32 (fun i (s : PassState) =>
    let temp_in := forLoop 32 (fun j temp_in =>
      store temp_in j (out (j + i * 32))) s.temp_in
    let temp_out := ht.rows temp_in s.temp_out
    let output := forLoop 32 (fun j output =>
      store output (j + i * 32) (temp_out j)) s.dest
    ⟨temp_in, temp_out, output⟩) ⟨s.temp_in, s.temp_out, output⟩
  let output : Buf := s.dest
  some output
/-- The dispatch table `FHT` of `av1_fht8x8_c`, one kernel pair per transform type. -/
def FHT_8x8 : List transform_2d :=
  [⟨fdct8, fdct8⟩,  -- DCT_DCT
   ⟨fadst8, fdct8⟩,  -- ADST_DCT
   ⟨fdct8, fadst8⟩,  -- DCT_ADST
   ⟨fadst8, fadst8⟩,  -- ADST_ADST
   ⟨fadst8, fdct8⟩,  -- FLIPADST_DCT
   ⟨fdct8, fadst8⟩,  -- DCT_FLIPADST
   ⟨fadst8, fadst8⟩,  -- FLIPADST_FLIPADST
   ⟨fadst8, fadst8⟩,  -- ADST_FLIPADST
   ⟨fadst8, fadst8⟩,  -- FLIPADST_ADST
   ⟨fidtx8, fidtx8⟩,  -- IDTX
   ⟨fdct8, fidtx8⟩,  -- V_DCT
   ⟨fidtx8, fdct8⟩,  -- H_DCT
   ⟨fadst8, fidtx8⟩,  -- V_ADST
   ⟨fidtx8, fadst8⟩,  -- H_ADST
   ⟨fadst8, fidtx8⟩,  -- V_FLIPADST
   ⟨fidtx8, fadst8⟩]  -- H_FLIPADST

/-- The table-driven block of `av1_fht8x8_c`: everything after the `DCT_DCT`
shortcut. -/
def av1_fht8x8_c_table (input : Buf) (output : Buf) (stride : Nat) (tx_type : TX_TYPE) :
    Option Buf := do
  let ht ← (FHT_8x8)[tx_type]?
  let out : Buf := zeroBuf
  let temp_in : Buf := zeroBuf
  let temp_out : Buf := zeroBuf
  let flipped_input : Buf := zeroBuf
  let flip ← maybe_flip_input input stride 8 8 flipped_input tx_type
  let input := flip.src
  let stride := flip.src_stride
  -- Columns
  let s : PassState := forLoop 8 (fun i (s : PassState) =>
    let temp_in := forLoop 8 (fun j temp_in =>
      store temp_in j (input (j * stride + i) * 4)) s.temp_in
    let temp_out := ht.cols temp_in s.temp_out
    let out := forLoop 8 (fun j out =>
      store out (j * 8 + i) (temp_out j)) s.dest
    ⟨temp_in, temp_out, out⟩) ⟨temp_in, temp_out, out⟩
  let out : Buf := s.dest
  -- Rows
  let s : PassState := forLoop 8 (fun i (s : PassState) =>
    let temp_in := forLoop 8 (fun j temp_in =>
      store temp_in j (out (j + i * 8))) s.temp_in
    let temp_out := ht.rows temp_in s.temp_out
    let output := forLoop 8 (fun j output =>
      store output (j + i * 8) (asr (temp_out j + b2i (temp_out j < 0)) 1)) s.dest
    ⟨temp_in, temp_out, output⟩) ⟨s.temp_in, s.temp_out, output⟩
  let output : Buf := s.dest
  some output

/-- The 2-D transform `av1_fht8x8_c` of `dct.c`. The library routine
`aom_fdct8x8_c`, taken for `DCT_DCT`, is not among the sources and is a
parameter. -/
def av1_fht8x8_c (aom_fdct8x8_c : Buf → Buf → Nat → Buf) (input : Buf) (output : Buf)
    (stride : Nat) (tx_type : TX_TYPE) : Option Buf :=
  if tx_type = DCT_DCT then
    some (aom_fdct8x8_c input output stride)
  else
    av1_fht8x8_c_table input output stride tx_type
/-- The dispatch table `FHT` of `av1_fht64x64_c`, one kernel pair per transform type. -/
def FHT_64x64 (fdct64_col fdct64_row : transform_1d) : List transform_2d :=
  [⟨fdct64_col, fdct64_row⟩,  -- DCT_DCT
   ⟨fhalfright64, fdct64_row⟩,  -- ADST_DCT
   ⟨fdct64_col, fhalfright64⟩,  -- DCT_ADST
   ⟨fhalfright64, fhalfright64⟩,  -- ADST_ADST
   ⟨fhalfright64, fdct64_row⟩,  -- FLIPADST_DCT
   ⟨fdct64_col, fhalfright64⟩,  -- DCT_FLIPADST
   ⟨fhalfright64, fhalfright64⟩,  -- FLIPADST_FLIPADST
   ⟨fhalfright64, fhalfright64⟩,  -- ADST_FLIPADST
   ⟨fhalfright64, fhalfright64⟩,  -- FLIPADST_ADST
   ⟨fidtx64, fidtx64⟩,  -- IDTX
   ⟨fdct64_col, fidtx64⟩,  -- V_DCT
   ⟨fidtx64, fdct64_row⟩,  -- H_DCT
   ⟨fhalfright64, fidtx64⟩,  -- V_ADST
   ⟨fidtx64, fhalfright64⟩,  -- H_ADST
   ⟨fhalfright64, fidtx64⟩,  -- V_FLIPADST
   ⟨fidtx64, fhalfright64⟩]  -- H_FLIPADST

/-- The two transform passes of `av1_fht64x64_c`, up to the end of the second loop. The
kernels wrapping the absent `av1_fdct64_new` (`fdct64_col`, `fdct64_row`) are
parameters. -/
def av1_fht64x64_c_passes (fdct64_col fdct64_row : transform_1d) (input : Buf) (output : Buf)
    (stride : Nat) (tx_type : TX_TYPE) : Option Buf := do
  let ht ← (FHT_64x64 fdct64_col fdct64_row)[tx_type]?
  let out : Buf := zeroBuf
  let temp_in : Buf := zeroBuf
  let temp_out : Buf := zeroBuf
  let flipped_input : Buf := zeroBuf
  let flip ← maybe_flip_input input stride 64 64 flipped_input tx_type
  let input := flip.src
  let stride := flip.src_stride
  -- Columns
  let s : PassState := forLoop 64 (fun i (s : PassState) =>
    let temp_in := forLoop 64 (fun j temp_in =>
      store temp_in j (input (j * stride + i))) s.temp_in
    let temp_out := ht.cols temp_in s.temp_out
    let out := forLoop 64 (fun j out =>
      store out (j * 64 + i) (asr (temp_out j + 1 + b2i (temp_out j > 0)) 2)) s.dest
    ⟨temp_in, temp_out, out⟩) ⟨temp_in, temp_out, out⟩
  let out : Buf := s.dest
  -- Rows
  let s : PassState := forLoop 64 (fun i (s : PassState) =>
    let temp_in := forLoop 64 (fun j temp_in =>
      store temp_in j (out (j + i * 64))) s.temp_in
    let temp_out := ht.rows temp_in s.temp_out
    let output := forLoop 64 (fun j output =>
      store output (j + i * 64) (asr (temp_out j + 1 + b2i (temp_out j < 0)) 2)) s.dest
    ⟨temp_in, temp_out, output⟩) ⟨s.temp_in, s.temp_out, output⟩
  let output : Buf := s.dest
  some output

/-- The dispatch table `FHT` of `av1_fht64x32_c`, one kernel pair per transform type. -/
def FHT_64x32 (fdct64_row : transform_1d) : List transform_2d :=
  [⟨fdct32, fdct64_row⟩,  -- DCT_DCT
   ⟨fhalfright32, fdct64_row⟩,  -- ADST_DCT
   ⟨fdct32, fhalfright64⟩,  -- DCT_ADST
   ⟨fhalfright32, fhalfright64⟩,  -- ADST_ADST
   ⟨fhalfright32, fdct64_row⟩,  -- FLIPADST_DCT
   ⟨fdct32, fhalfright64⟩,  -- DCT_FLIPADST
   ⟨fhalfright32, fhalfright64⟩,  -- FLIPADST_FLIPADST
   ⟨fhalfright32, fhalfright64⟩,  -- ADST_FLIPADST
   ⟨fhalfright32, fhalfright64⟩,  -- FLIPADST_ADST
   ⟨fidtx32, fidtx64⟩,  -- IDTX
   ⟨fdct32, fidtx64⟩,  -- V_DCT
   ⟨fidtx32, fdct64_row⟩,  -- H_DCT
   ⟨fhalfright32, fidtx64⟩,  -- V_ADST
   ⟨fidtx32, fhalfright64⟩,  -- H_ADST
   ⟨fhalfright32, fidtx64⟩,  -- V_FLIPADST
   ⟨fidtx32, fhalfright64⟩]  -- H_FLIPADST

/-- The two transform passes of `av1_fht64x32_c`, up to the end of the second loop. The
kernels wrapping the absent `av1_fdct64_new` (`fdct64_row`) are
parameters. -/
def av1_fht64x32_c_passes (fdct64_row : transform_1d) (input : Buf) (output : Buf)
    (stride : Nat) (tx_type : TX_TYPE) : Option Buf := do
  let ht ← (FHT_64x32 fdct64_row)[tx_type]?
  let n := 32
  let n2 := 64
  let out : Buf := zeroBuf
  let temp_in : Buf := zeroBuf
  let temp_out : Buf := zeroBuf
  let flipped_input : Buf := zeroBuf
  let flip ← maybe_flip_input input stride n n2 flipped_input tx_type
  let input := flip.src
  let stride := flip.src_stride
  -- Columns
  let s : PassState := forLoop n2 (fun i (s : PassState) =>
    let temp_in := forLoop n (fun j temp_in =>
      store temp_in j (fdct_round_shift (input (j * stride + i) * Sqrt2))) s.temp_in
    let temp_out := ht.cols temp_in s.temp_out
    let out := forLoop n (fun j out =>
      store out (j * n2 + i) (ROUND_POWER_OF_TWO_SIGNED (temp_out j) 2)) s.dest
    ⟨temp_in, temp_out, out⟩) ⟨temp_in, temp_out, out⟩
  let out : Buf := s.dest
  -- Rows
  let s : PassState := forLoop n (fun i (s : PassState) =>
    let temp_in := forLoop n2 (fun j temp_in =>
      store temp_in j (out (j + i * n2))) s.temp_in
    let temp_out := ht.rows temp_in s.temp_out
    let output := forLoop n2 (fun j output =>
      store output (j + i * n2) (ROUND_POWER_OF_TWO_SIGNED (temp_out j) 2)) s.dest
    ⟨temp_in, temp_out, output⟩) ⟨s.temp_in, s.temp_out, output⟩
  let output : Buf := s.dest
  some output

/-- The dispatch table `FHT` of `av1_fht32x64_c`, one kernel pair per transform type. -/
def FHT_32x64 (fdct64_row : transform_1d) : List transform_2d :=
  [⟨fdct64_row, fdct32⟩,  -- DCT_DCT
   ⟨fhalfright64, fdct32⟩,  -- ADST_DCT
   ⟨fdct64_row, fhalfright32⟩,  -- DCT_ADST
   ⟨fhalfright64, fhalfright32⟩,  -- ADST_ADST
   ⟨fhalfright64, fdct32⟩,  -- FLIPADST_DCT
   ⟨fdct64_row, fhalfright32⟩,  -- DCT_FLIPADST
   ⟨fhalfright64, fhalfright32⟩,  -- FLIPADST_FLIPADST
   ⟨fhalfright64, fhalfright32⟩,  -- ADST_FLIPADST
   ⟨fhalfright64, fhalfright32⟩,  -- FLIPADST_ADST
   ⟨fidtx64, fidtx32⟩,  -- IDTX
   ⟨fdct64_row, fidtx32⟩,  -- V_DCT
   ⟨fidtx64, fdct32⟩,  -- H_DCT
   ⟨fhalfright64, fidtx32⟩,  -- V_ADST
   ⟨fidtx64, fhalfright32⟩,  -- H_ADST
   ⟨fhalfright64, fidtx32⟩,  -- V_FLIPADST
   ⟨fidtx64, fhalfright32⟩]  -- H_FLIPADST

/-- The two transform passes of `av1_fht32x64_c`, up to the end of the second loop. The
kernels wrapping the absent `av1_fdct64_new` (`fdct64_row`) are
parameters. -/
def av1_fht32x64_c_passes (fdct64_row : transform_1d) (input : Buf) (output : Buf)
    (stride : Nat) (tx_type : TX_TYPE) : Option Buf := do
  let ht ← (FHT_32x64 fdct64_row)[tx_type]?
  let n := 32
  let n2 := 64
  let out : Buf := zeroBuf
  let temp_in : Buf := zeroBuf
  let temp_out : Buf := zeroBuf
  let flipped_input : Buf := zeroBuf
  let flip ← maybe_flip_input input stride n2 n flipped_input tx_type
  let input := flip.src
  let stride := flip.src_stride
  -- Rows
  let s : PassState := forLoop n2 (fun i (s : PassState) =>
    let temp_in := forLoop n (fun j temp_in =>
      store temp_in j (fdct_round_shift (input (i * stride + j) * Sqrt2))) s.temp_in
    let temp_out := ht.rows temp_in s.temp_out
    let out := forLoop n (fun j out =>
      store out (j * n2 + i) (ROUND_POWER_OF_TWO_SIGNED (temp_out j) 2)) s.dest
    ⟨temp_in, temp_out, out⟩) ⟨temp_in, temp_out, out⟩
  let out : Buf := s.dest
  -- Columns
  let s : PassState := forLoop n (fun i (s : PassState) =>
    let temp_in := forLoop n2 (fun j temp_in =>
      store temp_in j (out (j + i * n2))) s.temp_in
    let temp_out := ht.cols temp_in s.temp_out
    let output := forLoop n2 (fun j output =>
      store output (i + j * n) (ROUND_POWER_OF_TWO_SIGNED (temp_out j) 2)) s.dest
    ⟨temp_in, temp_out, output⟩) ⟨s.temp_in, s.temp_out, output⟩
  let output : Buf := s.dest
  some output

/-- The dispatch table `FHT` of `av1_fht16x64_c`, one kernel pair per transform type. -/
def FHT_16x64 (fdct64_col : transform_1d) : List transform_2d :=
  [⟨fdct64_col, fdct16⟩,  -- DCT_DCT
   ⟨fhalfright64, fdct16⟩,  -- ADST_DCT
   ⟨fdct64_col, fadst16⟩,  -- DCT_ADST
   ⟨fhalfright64, fadst16⟩,  -- ADST_ADST
   ⟨fhalfright64, fdct16⟩,  -- FLIPADST_DCT
   ⟨fdct64_col, fadst16⟩,  -- DCT_FLIPADST
   ⟨fhalfright64, fadst16⟩,  -- FLIPADST_FLIPADST
   ⟨fhalfright64, fadst16⟩,  -- ADST_FLIPADST
   ⟨fhalfright64, fadst16⟩,  -- FLIPADST_ADST
   ⟨fidtx64, fidtx16⟩,  -- IDTX
   ⟨fdct64_col, fidtx16⟩,  -- V_DCT
   ⟨fidtx64, fdct16⟩,  -- H_DCT
   ⟨fhalfright64, fidtx16⟩,  -- V_ADST
   ⟨fidtx64, fadst16⟩,  -- H_ADST
   ⟨fhalfright64, fidtx16⟩,  -- V_FLIPADST
   ⟨fidtx64, fadst16⟩]  -- H_FLIPADST

/-- The two transform passes of `av1_fht16x64_c`, up to the end of the second loop. The
kernels wrapping the absent `av1_fdct64_new` (`fdct64_col`) are
parameters. -/
def av1_fht16x64_c_passes (fdct64_col : transform_1d) (input : Buf) (output : Buf)
    (stride : Nat) (tx_type : TX_TYPE) : Option Buf := do
  let ht ← (FHT_16x64 fdct64_col)[tx_type]?
  let n := 16
  let n4 := 64
  let out : Buf := zeroBuf
  let temp_in : Buf := zeroBuf
  let temp_out : Buf := zeroBuf
  let flipped_input : Buf := zeroBuf
  let flip ← maybe_flip_input input stride n4 n flipped_input tx_type
  let input := flip.src
  let stride := flip.src_stride
  -- Rows
  let s : PassState := forLoop n4 (fun i (s : PassState) =>
    let temp_in := forLoop n (fun j temp_in =>
      store temp_in j (input (i * stride + j))) s.temp_in
    let temp_out := ht.rows temp_in s.temp_out
    let out := forLoop n (fun j out =>
      store out (j * n4 + i) (temp_out j)) s.dest
    ⟨temp_in, temp_out, out⟩) ⟨temp_in, temp_out, out⟩
  let out : Buf := s.dest
  -- Columns
  let s : PassState := forLoop n (fun i (s : PassState) =>
    let temp_in := forLoop n4 (fun j temp_in =>
      store temp_in j (out (j + i * n4))) s.temp_in
    let temp_out := ht.cols temp_in s.temp_out
    let output := forLoop n4 (fun j output =>
      store output (i + j * n) (ROUND_POWER_OF_TWO_SIGNED (temp_out j) 2)) s.dest
    ⟨temp_in, temp_out, output⟩) ⟨s.temp_in, s.temp_out, output⟩
  let output : Buf := s.dest
  some output

/-- The dispatch table `FHT` of `av1_fht64x16_c`, one kernel pair per transform type. -/
def FHT_64x16 (fdct64_row : transform_1d) : List transform_2d :=
  [⟨fdct16, fdct64_row⟩,  -- DCT_DCT
   ⟨fadst16, fdct64_row⟩,  -- ADST_DCT
   ⟨fdct16, fhalfright64⟩,  -- DCT_ADST
   ⟨fadst16, fhalfright64⟩,  -- ADST_ADST
   ⟨fadst16, fdct64_row⟩,  -- FLIPADST_DCT
   ⟨fdct16, fhalfright64⟩,  -- DCT_FLIPADST
   ⟨fadst16, fhalfright64⟩,  -- FLIPADST_FLIPADST
   ⟨fadst16, fhalfright64⟩,  -- ADST_FLIPADST
   ⟨fadst16, fhalfright64⟩,  -- FLIPADST_ADST
   ⟨fidtx16, fidtx64⟩,  -- IDTX
   ⟨fdct16, fidtx64⟩,  -- V_DCT
   ⟨fidtx16, fdct64_row⟩,  -- H_DCT
   ⟨fadst16, fidtx64⟩,  -- V_ADST
   ⟨fidtx16, fhalfright64⟩,  -- H_ADST
   ⟨fadst16, fidtx64⟩,  -- V_FLIPADST
   ⟨fidtx16, fhalfright64⟩]  -- H_FLIPADST

/-- The two transform passes of `av1_fht64x16_c`, up to the end of the second loop. The
kernels wrapping the absent `av1_fdct64_new` (`fdct64_row`) are
parameters. -/
def av1_fht64x16_c_passes (fdct64_row : transform_1d) (input : Buf) (output : Buf)
    (stride : Nat) (tx_type : TX_TYPE) : Option Buf := do
  let ht ← (FHT_64x16 fdct64_row)[tx_type]?
  let n := 16
  let n4 := 64
  let out : Buf := zeroBuf
  let temp_in : Buf := zeroBuf
  let temp_out : Buf := zeroBuf
  let flipped_input : Buf := zeroBuf
  let flip ← maybe_flip_input input stride n n4 flipped_input tx_type
  let input := flip.src
  let stride := flip.src_stride
  -- Columns
  let s : PassState := forLoop n4 (fun i (s : PassState) =>
    let temp_in := forLoop n (fun j temp_in =>
      store temp_in j (input (j * stride + i))) s.temp_in
    let temp_out := ht.cols temp_in s.temp_out
    let out := forLoop n (fun j out =>
      store out (j * n4 + i) (temp_out j)) s.dest
    ⟨temp_in, temp_out, out⟩) ⟨temp_in, temp_out, out⟩
  let out : Buf := s.dest
  -- Rows
  let s : PassState := forLoop n (fun i (s : PassState) =>
    let temp_in := forLoop n4 (fun j temp_in =>
      store temp_in j (out (j + i * n4))) s.temp_in
    let temp_out := ht.rows temp_in s.temp_out
    let output := forLoop n4 (fun j output =>
      store output (j + i * n4) (ROUND_POWER_OF_TWO_SIGNED (temp_out j) 2)) s.dest
    ⟨temp_in, temp_out, output⟩) ⟨s.temp_in, s.temp_out, output⟩
  let output : Buf := s.dest
  some output
/-- The zeroing and repacking at the end of `av1_fht64x64_c`. -/
def av1_fht64x64_c_post (output : Buf) : Buf :=
  -- Zero out top-right 32x32 area.
  let output := forLoop 32 (fun row output => memset output (row * 64 + 32) 0 32) output
  -- Zero out the bottom 64x32 area.
  let output := memset output (32 * 64) 0 (32 * 64)
  -- Re-pack non-zero coeffs in the first 32x32 indices.
  let output := forLoopFrom 1 32 (fun row output =>
    memcpy output (row * 32) output (row * 64) 32) output
  output

/-- The 2-D transform `av1_fht64x64_c` of `dct.c`: the two passes, then the
zeroing and repacking. -/
def av1_fht64x64_c (fdct64_col fdct64_row : transform_1d) (input : Buf) (output : Buf)
    (stride : Nat) (tx_type : TX_TYPE) : Option Buf :=
  (av1_fht64x64_c_passes fdct64_col fdct64_row input output stride tx_type).map
    av1_fht64x64_c_post

/-- The zeroing and repacking at the end of `av1_fht64x32_c`. -/
def av1_fht64x32_c_post (output : Buf) : Buf :=
  let n := 32
  let n2 := 64
  -- Zero out right 32x32 area.
  let output := forLoop n (fun row output => memset output (row * n2 + n) 0 n) output
  -- Re-pack non-zero coeffs in the first 32x32 indices.
  let output := forLoopFrom 1 32 (fun row output =>
    memcpy output (row * 32) output (row * 64) 32) output
  output

/-- The 2-D transform `av1_fht64x32_c` of `dct.c`: the two passes, then the
zeroing and repacking. -/
def av1_fht64x32_c (fdct64_row : transform_1d) (input : Buf) (output : Buf)
    (stride : Nat) (tx_type : TX_TYPE) : Option Buf :=
  (av1_fht64x32_c_passes fdct64_row input output stride tx_type).map
    av1_fht64x32_c_post

/-- The zeroing at the end of `av1_fht32x64_c`. -/
def av1_fht32x64_c_post (output : Buf) : Buf :=
  let n := 32
  -- Zero out the bottom 32x32 area.
  let output := memset output (n * n) 0 (n * n)
  -- Note: no repacking needed here.
  output

/-- The 2-D transform `av1_fht32x64_c` of `dct.c`: the two passes, then the
zeroing. -/
def av1_fht32x64_c (fdct64_row : transform_1d) (input : Buf) (output : Buf)
    (stride : Nat) (tx_type : TX_TYPE) : Option Buf :=
  (av1_fht32x64_c_passes fdct64_row input output stride tx_type).map
    av1_fht32x64_c_post

/-- The zeroing at the end of `av1_fht16x64_c`. -/
def av1_fht16x64_c_post (output : Buf) : Buf :=
  let n := 16
  -- Zero out the bottom 16x32 area.
  let output := memset output (2 * n * n) 0 (2 * n * n)
  -- Note: no repacking needed here.
  output

/-- The 2-D transform `av1_fht16x64_c` of `dct.c`: the two passes, then the
zeroing. -/
def av1_fht16x64_c (fdct64_col : transform_1d) (input : Buf) (output : Buf)
    (stride : Nat) (tx_type : TX_TYPE) : Option Buf :=
  (av1_fht16x64_c_passes fdct64_col input output stride tx_type).map
    av1_fht16x64_c_post

/-- The zeroing and repacking at the end of `av1_fht64x16_c`. -/
def av1_fht64x16_c_post (output : Buf) : Buf :=
  let n := 16
  let n4 := 64
  -- Zero out right 32x16 area.
  let output := forLoop n (fun row output => memset output (row * n4 + 2 * n) 0 (2 * n)) output
  -- Re-pack non-zero coeffs in the first 32x16 indices.
  let output := forLoopFrom 1 16 (fun row output =>
    memcpy output (row * 32) output (row * 64) 32) output
  output

/-- The 2-D transform `av1_fht64x16_c` of `dct.c`: the two passes, then the
zeroing and repacking. -/
def av1_fht64x16_c (fdct64_row : transform_1d) (input : Buf) (output : Buf)
    (stride : Nat) (tx_type : TX_TYPE) : Option Buf :=
  (av1_fht64x16_c_passes fdct64_row input output stride tx_type).map
    av1_fht64x16_c_post

/-! ## Walsh-Hadamard transform -/

/-- Modelled from the spec: the macro `UNIT_QUANT_FACTOR` of the absent header
`av1/common/idct.h`, the unit quantization factor 4. -/
def UNIT_QUANT_FACTOR : Int := 4

/-- The lossless 4x4 transform `av1_fwht4x4_c`. In the first loop `ip_pass0`
and `op` have been advanced `i` times, in the second `ip` and `op` stand at
`output + 4 * i`. -/
def av1_fwht4x4_c (input : Buf) (output : Buf) (stride : Nat) : Buf :=
  let output := forLoop 4 (fun i output =>
    let a1 : Int := input (i + 0 * stride)
    let b1 : Int := input (i + 1 * stride)
    let c1 : Int := input (i + 2 * stride)
    let d1 : Int := input (i + 3 * stride)
    let a1 := a1 + b1
    let d1 := d1 - c1
    let e1 : Int := asr (a1 - d1) 1
    let b1 := e1 - b1
    let c1 := e1 - c1
    let a1 := a1 - c1
    let d1 := d1 + b1
    let output := store output (i + 0) a1
    let output := store output (i + 4) c1
    let output := store output (i + 8) d1
    let output := store output (i + 12) b1
    output) output
  let output := forLoop 4 (fun i output =>
    let a1 : Int := output (4 * i + 0)
    let b1 : Int := output (4 * i + 1)
    let c1 : Int := output (4 * i + 2)
    let d1 : Int := output (4 * i + 3)
    let a1 := a1 + b1
    let d1 := d1 - c1
    let e1 : Int := asr (a1 - d1) 1
    let b1 := e1 - b1
    let c1 := e1 - c1
    let a1 := a1 - c1
    let d1 := d1 + b1
    let output := store output (4 * i + 0) (a1 * UNIT_QUANT_FACTOR)
    let output := store output (4 * i + 1) (c1 * UNIT_QUANT_FACTOR)
    let output := store output (4 * i + 2) (d1 * UNIT_QUANT_FACTOR)
    let output := store output (4 * i + 3) (b1 * UNIT_QUANT_FACTOR)
    output) output
  output

/-- Modelled from the spec: the 1-D step of the documented inverse
Walsh-Hadamard transform (the inverse itself, `av1_iwht4x4_16_add_c`, is not
among the sources). The four stored values are taken as `(a, c, d, b)`; the
step runs `a += c; d -= b; e = (a - d) >> 1; b = e - b; c = e - c; a -= b;
d += c` and emits `(a, b, c, d)`. -/
def iwht4 (s0 s1 s2 s3 : Int) : Int × Int × Int × Int :=
  let a1 : Int := s0
  let c1 : Int := s1
  let d1 : Int := s2
  let b1 : Int := s3
  let a1 := a1 + c1
  let d1 := d1 - b1
  let e1 : Int := asr (a1 - d1) 1
  let b1 := e1 - b1
  let c1 := e1 - c1
  let a1 := a1 - b1
  let d1 := d1 + c1
  (a1, b1, c1, d1)

/-- Modelled from the spec: the documented inverse Walsh-Hadamard transform of
a 4x4 coefficient block. Every coefficient is divided by the unit quantization
factor, then `iwht4` runs on each row and afterwards on each column. The result
is the reconstructed block, row-major with stride 4. -/
def iwht4x4 (coeff : Buf) : Buf :=
  let tmp := forLoop 4 (fun i tmp =>
    let r := iwht4 (coeff (4 * i + 0) / UNIT_QUANT_FACTOR) (coeff (4 * i + 1) / UNIT_QUANT_FACTOR)
      (coeff (4 * i + 2) / UNIT_QUANT_FACTOR) (coeff (4 * i + 3) / UNIT_QUANT_FACTOR)
    let tmp := store tmp (4 * i + 0) r.1
    let tmp := store tmp (4 * i + 1) r.2.1
    let tmp := store tmp (4 * i + 2) r.2.2.1
    let tmp := store tmp (4 * i + 3) r.2.2.2
    tmp) zeroBuf
  forLoop 4 (fun i dest =>
    let r := iwht4 (tmp (i + 0)) (tmp (i + 4)) (tmp (i + 8)) (tmp (i + 12))
    let dest := store dest (i + 0) r.1
    let dest := store dest (i + 4) r.2.1
    let dest := store dest (i + 8) r.2.2.1
    let dest := store dest (i + 12) r.2.2.2
    dest) zeroBuf

/-- The forward lifting step on four values, in stored order. -/
def wht4 (a b c d : Int) : Int × Int × Int × Int :=
  let a1 : Int := a
  let b1 : Int := b
  let c1 : Int := c
  let d1 : Int := d
  let a1 := a1 + b1
  let d1 := d1 - c1
  let e1 : Int := asr (a1 - d1) 1
  let b1 := e1 - b1
  let c1 := e1 - c1
  let a1 := a1 - c1
  let d1 := d1 + b1
  (a1, c1, d1, b1)

/-- Component `k` of a quadruple. -/
def quad (q : Int × Int × Int × Int) (k : Nat) : Int :=
  match k with
  | 0 => q.1
  | 1 => q.2.1
  | 2 => q.2.2.1
  | _ => q.2.2.2

/-- Column `i` of the input block pushed through the lifting step. -/
def whtCol (input : Buf) (stride : Nat) (i : Nat) : Int × Int × Int × Int :=
  wht4 (input (i + 0 * stride)) (input (i + 1 * stride)) (input (i + 2 * stride))
    (input (i + 3 * stride))

/-- Row `r` of the first-pass result pushed through the lifting step. -/
def whtRow (input : Buf) (stride : Nat) (r : Nat) : Int × Int × Int × Int :=
  wht4 (quad (whtCol input stride 0) r) (quad (whtCol input stride 1) r)
    (quad (whtCol input stride 2) r) (quad (whtCol input stride 3) r)

/-! ## The shape shared by the two-pass transforms -/

/-- One transform pass: for each `i < N` the pass loads `n` values into
`temp_in`, lets `adj` touch them up, runs the kernel `k` and writes the `n`
scaled results to positions `idx i j` of its destination. -/
def txfmPass (N n : Nat) (load : Nat → Nat → Int) (adj : Nat → Buf → Buf) (k : transform_1d)
    (idx : Nat → Nat → Nat) (scale : Int → Int) (s : PassState) : PassState :=
  forLoop N (fun i (s : PassState) =>
    let temp_in := adj i (forLoop n (fun j temp_in => store temp_in j (load i j)) s.temp_in)
    let temp_out := k temp_in s.temp_out
    let dest := forLoop n (fun j dest => store dest (idx i j) (scale (temp_out j))) s.dest
    ⟨temp_in, temp_out, dest⟩) s

/-- The two passes of a table-driven transform on the block `B`, where
`B r c` is the sample in row `r` and column `c`: a first pass of `N1` kernel
runs of length `n1` reading sample `(ro i j, co i j)`, and a second pass of
`n1` runs of length `N1` over the intermediate block. -/
def fhtCore (N1 n1 : Nat) (ro co : Nat → Nat → Nat)
    (k1 k2 : transform_2d → transform_1d) (scIn : Int → Int) (adj : Nat → Buf → Buf)
    (scMid : Int → Int) (idx2 : Nat → Nat → Nat) (scOut : Int → Int)
    (ht : transform_2d) (B : Nat → Nat → Int) (output : Buf) : Buf :=
  let s1 := txfmPass N1 n1 (fun i j => scIn (B (ro i j) (co i j))) adj (k1 ht)
    (fun i j => j * N1 + i) scMid ⟨zeroBuf, zeroBuf, zeroBuf⟩
  let s2 := txfmPass n1 N1 (fun i j => s1.dest (j + i * N1)) (fun _ t => t) (k2 ht)
    idx2 scOut ⟨s1.temp_in, s1.temp_out, output⟩
  s2.dest

/-- The common shape of the table-driven transforms: table lookup, input
conditioning for an `l` by `w` block, then the two passes. -/
def fht2d (tbl : List transform_2d) (l w N1 n1 : Nat) (ro co : Nat → Nat → Nat)
    (k1 k2 : transform_2d → transform_1d) (scIn : Int → Int) (adj : Nat → Buf → Buf)
    (scMid : Int → Int) (idx2 : Nat → Nat → Nat) (scOut : Int → Int)
    (input output : Buf) (stride : Nat) (tx_type : TX_TYPE) : Option Buf := do
  let ht ← tbl[tx_type]?
  let flip ← maybe_flip_input input stride l w zeroBuf tx_type
  some (fhtCore N1 n1 ro co k1 k2 scIn adj scMid idx2 scOut ht
    (fun r c => flip.src (r * flip.src_stride + c)) output)

/-- The row of the caller's block that the passes see as row `r`. -/
def rowMap (l : Nat) (t : TX_TYPE) (r : Nat) : Nat :=
  if t = FLIPADST_DCT ∨ t = FLIPADST_ADST ∨ t = V_FLIPADST ∨ t = FLIPADST_FLIPADST then
    l - 1 - r
  else r

/-- The column of the caller's block that the passes see as column `c`. -/
def colMap (w : Nat) (t : TX_TYPE) (c : Nat) : Nat :=
  if t = DCT_FLIPADST ∨ t = ADST_FLIPADST ∨ t = H_FLIPADST ∨ t = FLIPADST_FLIPADST then
    w - 1 - c
  else c

/-- The table-driven transforms of `dct.c` whose kernels are all among the
sources, each with the width and the height of its block. -/
def tableDriven : List (Nat × Nat × (Buf → Buf → Nat → TX_TYPE → Option Buf)) :=
  [(4, 4, av1_fht4x4_c_table), (4, 8, av1_fht4x8_c), (8, 4, av1_fht8x4_c),
   (4, 16, av1_fht4x16_c), (16, 4, av1_fht16x4_c), (8, 8, av1_fht8x8_c_table),
   (8, 16, av1_fht8x16_c), (16, 8, av1_fht16x8_c), (8, 32, av1_fht8x32_c),
   (32, 8, av1_fht32x8_c), (16, 16, av1_fht16x16_c), (16, 32, av1_fht16x32_c),
   (32, 16, av1_fht32x16_c), (32, 32, av1_fht32x32_c)]

/-- A kernel of length `n` sends a zero input vector to a zero output vector. -/
def ZeroPres (n : Nat) (k : transform_1d) : Prop :=
  ∀ input output : Buf, (∀ j, j < n → input j = 0) → ∀ j, j < n → k input output j = 0

/-- The touch-up of `temp_in` in the first pass of `av1_fht4x4_c`. -/
def adj4x4 (i : Nat) (temp_in : Buf) : Buf :=
  if i = 0 ∧ temp_in 0 ≠ 0 then store temp_in 0 (temp_in 0 + 1) else temp_in

/-- No touch-up of `temp_in`. -/
def adjNone (_ : Nat) (temp_in : Buf) : Buf := temp_in

/-- The exchange `tmp = d[x]; d[x] = d[y]; d[y] = tmp`. -/
def swap (d : Buf) (x y : Nat) : Buf := store (store d x (d y)) y (d x)

/-- The seven flip identities for a transform `F` of a `W` wide, `H` high
block: each flipped transform type equals the matching unflipped type on the
mirrored block. -/
def FlipLaws (W H : Nat) (F : Buf → Buf → Nat → TX_TYPE → Option Buf) : Prop :=
  ∀ (x output : Buf) (stride : Nat), W ≤ stride →
    F x output stride FLIPADST_DCT = F (flipud x stride H W) output stride ADST_DCT ∧
    F x output stride DCT_FLIPADST = F (fliplr x stride H W) output stride DCT_ADST ∧
    F x output stride FLIPADST_ADST = F (flipud x stride H W) output stride ADST_ADST ∧
    F x output stride ADST_FLIPADST = F (fliplr x stride H W) output stride ADST_ADST ∧
    F x output stride FLIPADST_FLIPADST
      = F (flipud (fliplr x stride H W) stride H W) output stride ADST_ADST ∧
    F x output stride V_FLIPADST = F (flipud x stride H W) output stride V_ADST ∧
    F x output stride H_FLIPADST = F (fliplr x stride H W) output stride H_ADST

/-- A transform `F` of a `W` wide, `H` high block sends an all-zero block to
an all-zero coefficient block, for each of the sixteen transform types. -/
def ZeroToZero (W H : Nat) (F : Buf → Buf → Nat → TX_TYPE → Option Buf) : Prop :=
  ∀ (x output : Buf) (stride : Nat) (t : Nat), t < 16 →
    (∀ r c, r < H → c < W → x (r * stride + c) = 0) →
    ∃ o, F x output stride t = some o ∧ ∀ k, k < W * H → o k = 0

/-- A kernel of length `n` whose first `n` outputs depend only on the first
`n` inputs, not on the rest of `input` or on the old contents of `output`. -/
def Local (n : Nat) (k : transform_1d) : Prop :=
  ∀ inp inp' o o' : Buf, (∀ j, j < n → inp j = inp' j) →
    ∀ j, j < n → k inp o j = k inp' o' j

/-- A sample buffer for worked instances: the sample at index `n` is `n`. -/
def rampBuf : Buf := fun n => n

/-- A sample buffer for worked instances: every sample is 1. -/
def onesBuf : Buf := fun _ => 1

/-! ## Scaling stages written inline in the transforms -/

/-- The output scaling `(temp_out[j] + (temp_out[j] < 0)) >> 1` of
`av1_fht4x8_c`, `av1_fht8x4_c`, `av1_fht4x16_c`, `av1_fht16x4_c` and
`av1_fht8x8_c`, as a function of `temp_out[j]`. -/
def out_downshift1 (t : Int) : Int := asr (t + b2i (t < 0)) 1

/-- The mid-pass scaling `(temp_out[j] + 1 + (temp_out[j] > 0)) >> 2` of the
column loop of `av1_fht64x64_c`, as a function of `temp_out[j]`. -/
def mid_scale_64x64 (t : Int) : Int := asr (t + 1 + b2i (t > 0)) 2

/-- The sixteen transform types, in the order of the dispatch tables. -/
def txTypes : List TX_TYPE :=
  [DCT_DCT, ADST_DCT, DCT_ADST, ADST_ADST, FLIPADST_DCT, DCT_FLIPADST, FLIPADST_FLIPADST,
   ADST_FLIPADST, FLIPADST_ADST, IDTX, V_DCT, H_DCT, V_ADST, H_ADST, V_FLIPADST, H_FLIPADST]

/-! ## The pass order of the Walsh-Hadamard transform as the specification words it -/

/-- Row `r` of the input block pushed through the lifting step `wht4`: the
first pass of a rows-first transform. -/
def whtRowFirst (input : Buf) (stride : Nat) (r : Nat) : Int × Int × Int × Int :=
  wht4 (input (r * stride + 0)) (input (r * stride + 1)) (input (r * stride + 2))
    (input (r * stride + 3))

/-- Column `c` of the rows-first intermediate block pushed through the lifting
step `wht4`: the second pass of a rows-first transform. -/
def whtColSecond (input : Buf) (stride : Nat) (c : Nat) : Int × Int × Int × Int :=
  wht4 (quad (whtRowFirst input stride 0) c) (quad (whtRowFirst input stride 1) c)
    (quad (whtRowFirst input stride 2) c) (quad (whtRowFirst input stride 3) c)

/-- The rows-first reading of the transform: `UNIT_QUANT_FACTOR` times the
lifting step applied to each row of the block and then to each column of the
intermediate block, row-major with stride 4. -/
def fwht4x4_rows_then_cols (input : Buf) (stride : Nat) (k : Nat) : Int :=
  quad (whtColSecond input stride (k % 4)) (k / 4) * UNIT_QUANT_FACTOR

/-! ## The 4x4 transform with its integer types

The definitions above compute with mathematical integers and take every
stored value to fit its type (the identity and half-right kernels apart, which
wrap). The definitions of this section repeat the table-driven block of `av1_fht4x4_c` and its three
kernels with the integer types of the C code: every value that the code
stores in, or casts to, a `tran_low_t` is checked against the 32-bit range and
every value it assigns to a `tran_high_t` against the 64-bit range. A value
out of range is a signed overflow and the result is `none`. -/

/-- Modelled from the spec: the type `tran_low_t` of the absent header
`aom_dsp/aom_dsp_common.h`, a signed 32-bit integer. The result is `x` when `x`
is representable and `none` when it is not. -/
def tran_low_t (x : Int) : Option Int :=
  if -(2 : Int) ^ 31 ≤ x ∧ x < (2 : Int) ^ 31 then some x else none

/-- Modelled from the spec: the type `tran_high_t` of the absent header
`aom_dsp/aom_dsp_common.h`, the working type wider than the storage type, a
signed 64-bit integer. The constants `cospi_k_64`, `sinpi_k_9` and `Sqrt2` have
this type, so a product with one of them is a `tran_high_t`. -/
def tran_high_t (x : Int) : Option Int :=
  if -(2 : Int) ^ 63 ≤ x ∧ x < (2 : Int) ^ 63 then some x else none

/-- The values of the type `int16_t` of the input samples. -/
def int16_t (x : Int) : Prop := -(2 : Int) ^ 15 ≤ x ∧ x < (2 : Int) ^ 15

instance int16_t_decidable (x : Int) : Decidable (int16_t x) :=
  inferInstanceAs (Decidable (-(2 : Int) ^ 15 ≤ x ∧ x < (2 : Int) ^ 15))

/-- The loop `for (i = 0; i < n; ++i) s = body i s` with a body that may
overflow: the first overflow ends the run. -/
def forLoopC {σ : Type} : Nat → (Nat → σ → Option σ) → σ → Option σ
  | 0, _, s => some s
  | n + 1, body, s => (forLoopC n body s).bind (body n)

/-- Sequencing of a checked value with the rest of a computation: the rest
runs on the value when it is in range, and an overflow ends the run. -/
@[noinline]
def andThen {α : Type} (x : Option Int) (rest : Int → Option α) : Option α :=
  match x with
  | none => none
  | some v => rest v

/-- A 1-D kernel with its integer types: `none` when a value overflows. -/
abbrev transform_1d_chk := Buf → Buf → Option Buf

/-- The struct `transform_2d` for kernels with their integer types. -/
structure transform_2d_chk where
  /-- The kernel run on each column. -/
  cols : transform_1d_chk
  /-- The kernel run on each row. -/
  rows : transform_1d_chk

/-- The kernel `fdct4` of `dct.c` with its integer types: `output` and `step`
hold `tran_low_t` values, `temp` is a `tran_high_t`. -/
def fdct4_chk (input : Buf) (output : Buf) : Option Buf :=
  -- stage 1
  andThen (tran_low_t (input 0 + input 3)) fun output0 =>
  andThen (tran_low_t (input 1 + input 2)) fun output1 =>
  andThen (tran_low_t (input 1 - input 2)) fun output2 =>
  andThen (tran_low_t (input 0 - input 3)) fun output3 =>
  -- stage 2
  andThen (tran_high_t (output0 * cospi_16_64 + output1 * cospi_16_64)) fun temp =>
  andThen (tran_low_t (fdct_round_shift temp)) fun step0 =>
  andThen (tran_high_t (output1 * (-cospi_16_64) + output0 * cospi_16_64)) fun temp =>
  andThen (tran_low_t (fdct_round_shift temp)) fun step1 =>
  andThen (tran_high_t (output2 * cospi_24_64 + output3 * cospi_8_64)) fun temp =>
  andThen (tran_low_t (fdct_round_shift temp)) fun step2 =>
  andThen (tran_high_t (output3 * cospi_24_64 + output2 * (-cospi_8_64))) fun temp =>
  andThen (tran_low_t (fdct_round_shift temp)) fun step3 =>
  -- stage 3
  let output0 : Int := step0
  let output1 : Int := step2
  let output2 : Int := step1
  let output3 : Int := step3
  let output := store output 0 output0
  let output := store output 1 output1
  let output := store output 2 output2
  let output := store output 3 output3
  some output

/-- The kernel `fadst4` of `dct.c` with its integer types: `x0 .. x3` and
`s0 .. s7` are `tran_high_t` values, the outputs are cast to `tran_low_t`. -/
def fadst4_chk (input : Buf) (output : Buf) : Option Buf :=
  let x0 : Int := input 0
  let x1 : Int := input 1
  let x2 : Int := input 2
  let x3 : Int := input 3
  if Int.lor (Int.lor (Int.lor x0 x1) x2) x3 = 0 then
    let output := store output 3 0
    let output := store output 2 0
    let output := store output 1 0
    let output := store output 0 0
    some output
  else
  andThen (tran_high_t (sinpi_1_9 * x0)) fun s0 =>
  andThen (tran_high_t (sinpi_4_9 * x0)) fun s1 =>
  andThen (tran_high_t (sinpi_2_9 * x1)) fun s2 =>
  andThen (tran_high_t (sinpi_1_9 * x1)) fun s3 =>
  andThen (tran_high_t (sinpi_3_9 * x2)) fun s4 =>
  andThen (tran_high_t (sinpi_4_9 * x3)) fun s5 =>
  andThen (tran_high_t (sinpi_2_9 * x3)) fun s6 =>
  andThen (tran_high_t (x0 + x1 - x3)) fun s7 =>
  andThen (tran_high_t (s0 + s2 + s5)) fun x0 =>
  andThen (tran_high_t (sinpi_3_9 * s7)) fun x1 =>
  andThen (tran_high_t (s1 - s3 + s6)) fun x2 =>
  let x3 : Int := s4
  andThen (tran_high_t (x0 + x3)) fun s0 =>
  let s1 : Int := x1
  andThen (tran_high_t (x2 - x3)) fun s2 =>
  andThen (tran_high_t (x2 - x0 + x3)) fun s3 =>
  -- 1-D transform scaling factor is sqrt(2).
  andThen (tran_low_t (fdct_round_shift s0)) fun output0 =>
  andThen (tran_low_t (fdct_round_shift s1)) fun output1 =>
  andThen (tran_low_t (fdct_round_shift s2)) fun output2 =>
  andThen (tran_low_t (fdct_round_shift s3)) fun output3 =>
  let output := store output 0 output0
  let output := store output 1 output1
  let output := store output 2 output2
  let output := store output 3 output3
  some output

/-- The kernel `fidtx4` of `dct.c` with its integer types: the product with
`Sqrt2` is a `tran_high_t`, the result is cast to `tran_low_t`. -/
def fidtx4_chk (input : Buf) (output : Buf) : Option Buf :=
  forLoopC 4 (fun i output => do
    let t ← tran_high_t (input i * Sqrt2)
    let v ← tran_low_t (fdct_round_shift t)
    some (store output i v)) output

/-- The dispatch table `FHT` of `av1_fht4x4_c`, with the kernels with their
integer types. -/
def FHT_4x4_chk : List transform_2d_chk :=
  [⟨fdct4_chk, fdct4_chk⟩,  -- DCT_DCT
   ⟨fadst4_chk, fdct4_chk⟩,  -- ADST_DCT
   ⟨fdct4_chk, fadst4_chk⟩,  -- DCT_ADST
   ⟨fadst4_chk, fadst4_chk⟩,  -- ADST_ADST
   ⟨fadst4_chk, fdct4_chk⟩,  -- FLIPADST_DCT
   ⟨fdct4_chk, fadst4_chk⟩,  -- DCT_FLIPADST
   ⟨fadst4_chk, fadst4_chk⟩,  -- FLIPADST_FLIPADST
   ⟨fadst4_chk, fadst4_chk⟩,  -- ADST_FLIPADST
   ⟨fadst4_chk, fadst4_chk⟩,  -- FLIPADST_ADST
   ⟨fidtx4_chk, fidtx4_chk⟩,  -- IDTX
   ⟨fdct4_chk, fidtx4_chk⟩,  -- V_DCT
   ⟨fidtx4_chk, fdct4_chk⟩,  -- H_DCT
   ⟨fadst4_chk, fidtx4_chk⟩,  -- V_ADST
   ⟨fidtx4_chk, fadst4_chk⟩,  -- H_ADST
   ⟨fadst4_chk, fidtx4_chk⟩,  -- V_FLIPADST
   ⟨fidtx4_chk, fadst4_chk⟩]  -- H_FLIPADST

/-- The table-driven block of `av1_fht4x4_c` with its integer types: the
samples of `input` are `int16_t` values promoted to `int`, the arrays
`temp_in`, `temp_out`, `out` and `output` hold `tran_low_t` values. -/
def av1_fht4x4_c_table_chk (input : Buf) (output : Buf) (stride : Nat) (tx_type : TX_TYPE) :
    Option Buf := do
  let ht ← (FHT_4x4_chk)[tx_type]?
  let out : Buf := zeroBuf
  let temp_in : Buf := zeroBuf
  let temp_out : Buf := zeroBuf
  let flipped_input : Buf := zeroBuf
  let flip ← maybe_flip_input input stride 4 4 flipped_input tx_type
  let input := flip.src
  let stride := flip.src_stride
  -- Columns
  let s ← forLoopC 4 (fun i (s : PassState) => do
    /- A C99-safe upshift by 4 for both Daala and VPx TX. -/
    let temp_in ← forLoopC 4 (fun j temp_in => do
      let v ← tran_low_t (input (j * stride + i) * 16)
      some (store temp_in j v)) s.temp_in
    let temp_in ← if i = 0 ∧ temp_in 0 ≠ 0 then do
        let v ← tran_low_t (temp_in 0 + 1)
        some (store temp_in 0 v)
      else some temp_in
    let temp_out ← ht.cols temp_in s.temp_out
    let out := forLoop 4 (fun j out => store out (j * 4 + i) (temp_out j)) s.dest
    some ⟨temp_in, temp_out, out⟩) ⟨temp_in, temp_out, out⟩
  let out : Buf := s.dest
  -- Rows
  let s ← forLoopC 4 (fun i (s : PassState) => do
    let temp_in := forLoop 4 (fun j temp_in => store temp_in j (out (j + i * 4))) s.temp_in
    let temp_out ← ht.rows temp_in s.temp_out
    let output ← forLoopC 4 (fun j output => do
      let v ← tran_low_t (temp_out j + 1)
      let w ← tran_low_t (asr v 2)
      some (store output (j + i * 4) w)) s.dest
    some ⟨temp_in, temp_out, output⟩) ⟨s.temp_in, s.temp_out, output⟩
  let output : Buf := s.dest
  some output

/-- One transform pass with its integer types: as `txfmPass`, with a load, a
touch-up, a kernel and a scaling that may overflow. -/
def txfmPassC (N n : Nat) (load : Nat → Nat → Option Int) (adj : Nat → Buf → Option Buf)
    (k : transform_1d_chk) (idx : Nat → Nat → Nat) (scale : Int → Option Int)
    (s : PassState) : Option PassState :=
  forLoopC N (fun i (s : PassState) => do
    let temp_in ← forLoopC n (fun j temp_in => do
      let v ← load i j
      some (store temp_in j v)) s.temp_in
    let temp_in ← adj i temp_in
    let temp_out ← k temp_in s.temp_out
    let dest ← forLoopC n (fun j dest => do
      let v ← scale (temp_out j)
      some (store dest (idx i j) v)) s.dest
    some ⟨temp_in, temp_out, dest⟩) s

/-- The touch-up of `temp_in` in the first pass of `av1_fht4x4_c`, with its
integer types. -/
def adj4x4_chk (i : Nat) (temp_in : Buf) : Option Buf :=
  if i = 0 ∧ temp_in 0 ≠ 0 then do
    let v ← tran_low_t (temp_in 0 + 1)
    some (store temp_in 0 v)
  else some temp_in

/-- Every sample of the first `n` of a vector has magnitude at most `M`. -/
def Bnd (n : Nat) (M : Int) (t : Buf) : Prop := ∀ j, j < n → -M ≤ t j ∧ t j ≤ M

/-- A kernel with its integer types agrees with the kernel on mathematical
integers and triples the magnitude at most, on inputs of magnitude up to
`2 ^ 21`. -/
def KernelOK (kC : transform_1d_chk) (k : transform_1d) : Prop :=
  ∀ (M : Int) (t o : Buf), M ≤ 2 ^ 21 → Bnd 4 M t →
    kC t o = some (k t o) ∧ Bnd 4 (3 * M + 1) (k t o)

/-! ## One-dimensional transform types -/

/-- Modelled from the spec: the four 1-D transform types that a transform type
applies to an axis: DCT, ADST, flipped ADST and identity. -/
inductive TX_TYPE_1D where
  | DCT_1D
  | ADST_1D
  | FLIPADST_1D
  | IDTX_1D
  deriving DecidableEq

/-- Modelled from the spec: the 1-D type that a transform type applies along
the vertical axis (to each column): `X` for `X_Y` and for `V_X`, identity for
`IDTX` and `H_X`. -/
def vtx (t : TX_TYPE) : TX_TYPE_1D :=
  if t = DCT_DCT ∨ t = DCT_ADST ∨ t = DCT_FLIPADST ∨ t = V_DCT then TX_TYPE_1D.DCT_1D
  else if t = ADST_DCT ∨ t = ADST_ADST ∨ t = ADST_FLIPADST ∨ t = V_ADST then TX_TYPE_1D.ADST_1D
  else if t = FLIPADST_DCT ∨ t = FLIPADST_FLIPADST ∨ t = FLIPADST_ADST ∨ t = V_FLIPADST then
    TX_TYPE_1D.FLIPADST_1D
  else TX_TYPE_1D.IDTX_1D

/-- Modelled from the spec: the 1-D type that a transform type applies along
the horizontal axis (to each row): `Y` for `X_Y`, `X` for `H_X`, identity for
`IDTX` and `V_X`. -/
def htx (t : TX_TYPE) : TX_TYPE_1D :=
  if t = DCT_DCT ∨ t = ADST_DCT ∨ t = FLIPADST_DCT ∨ t = H_DCT then TX_TYPE_1D.DCT_1D
  else if t = DCT_ADST ∨ t = ADST_ADST ∨ t = FLIPADST_ADST ∨ t = H_ADST then TX_TYPE_1D.ADST_1D
  else if t = DCT_FLIPADST ∨ t = FLIPADST_FLIPADST ∨ t = ADST_FLIPADST ∨ t = H_FLIPADST then
    TX_TYPE_1D.FLIPADST_1D
  else TX_TYPE_1D.IDTX_1D

/-- The kernel for a 1-D type among the three kernels of one length: the
flipped ADST uses the ADST kernel. -/
def kernel_1d (fdct fadst fidtx : transform_1d) : TX_TYPE_1D → transform_1d
  | TX_TYPE_1D.DCT_1D => fdct
  | TX_TYPE_1D.ADST_1D => fadst
  | TX_TYPE_1D.FLIPADST_1D => fadst
  | TX_TYPE_1D.IDTX_1D => fidtx

/-- The table separable per axis with column kernels `kc` and row kernels
`kr`: entry `t` is the pair of the column kernel for `vtx t` and the row kernel
for `htx t`. -/
def Separable (tbl : List transform_2d) (kc kr : TX_TYPE_1D → transform_1d) : Prop :=
  ∀ t, t < 16 → tbl[t]? = some ⟨kc (vtx t), kr (htx t)⟩

/-- The kernel for a 1-D type and a side length `N` of 4, 8, 16 or 32: `fdctN`
for DCT, `fidtxN` for identity and, for ADST and flipped ADST alike, `fadstN`
up to 16 and `fhalfright32` at 32. -/
def kernel_n (N : Nat) : TX_TYPE_1D → transform_1d :=
  if N = 4 then kernel_1d fdct4 fadst4 fidtx4
  else if N = 8 then kernel_1d fdct8 fadst8 fidtx8
  else if N = 16 then kernel_1d fdct16 fadst16 fidtx16
  else kernel_1d fdct32 fhalfright32 fidtx32

/-- The kernel for a 1-D type and the side length 64, with the DCT kernel
`fdct64` that the table names: `fhalfright64` for ADST and flipped ADST,
`fidtx64` for identity. -/
def kernel_64 (fdct64 : transform_1d) : TX_TYPE_1D → transform_1d :=
  kernel_1d fdct64 fhalfright64 fidtx64

/-! ## Transposition -/

/-- The transform type with the vertical and the horizontal 1-D types
exchanged: `ADST_DCT` and `DCT_ADST`, `FLIPADST_DCT` and `DCT_FLIPADST`,
`ADST_FLIPADST` and `FLIPADST_ADST`, `V_X` and `H_X` change places, the other
types are fixed. -/
def transpose_type (t : TX_TYPE) : TX_TYPE :=
  if t = ADST_DCT then DCT_ADST else if t = DCT_ADST then ADST_DCT
  else if t = FLIPADST_DCT then DCT_FLIPADST else if t = DCT_FLIPADST then FLIPADST_DCT
  else if t = ADST_FLIPADST then FLIPADST_ADST else if t = FLIPADST_ADST then ADST_FLIPADST
  else if t = V_DCT then H_DCT else if t = H_DCT then V_DCT
  else if t = V_ADST then H_ADST else if t = H_ADST then V_ADST
  else if t = V_FLIPADST then H_FLIPADST else if t = H_FLIPADST then V_FLIPADST
  else t

/-- The block `xT`, read with stride `strideT`, is the transpose of the `W`
wide and `H` high block `x` read with stride `stride`. -/
def IsTranspose (W H : Nat) (x : Buf) (stride : Nat) (xT : Buf) (strideT : Nat) : Prop :=
  ∀ r c, r < H → c < W → xT (c * strideT + r) = x (r * stride + c)

/-- The transform `G`, of `H` wide and `W` high blocks, is the
transposition dual of the transform `F`, of `W` wide and `H` high blocks:
for each of the sixteen transform types, `G` on the transposed block with the
transposed type returns the transpose of the result of `F`. -/
def Dual (W H : Nat) (F G : Buf → Buf → Nat → TX_TYPE → Option Buf) : Prop :=
  ∀ (x xT output outputT : Buf) (stride strideT t : Nat), t < 16 →
    IsTranspose W H x stride xT strideT →
    ∃ o oT, F x output stride t = some o ∧
      G xT outputT strideT (transpose_type t) = some oT ∧
      IsTranspose W H o W oT H

/-! ## The kernels `fdct4` and `fdct16` with their range checks -/

/-- The assertion of the helper `range_check` of `dct.c`, whose body is
compiled out by `#if 0`: `abs(input[i]) < (1 << bit)` for every `i < size`. -/
def range_check (input : Buf) (size bit : Nat) : Prop :=
  ∀ i, i < size → |input i| < 2 ^ bit

instance range_check_decidable (input : Buf) (size bit : Nat) :
    Decidable (range_check input size bit) :=
  inferInstanceAs (Decidable (∀ i, i < size → |input i| < 2 ^ bit))

/-- The elements `i`, `i + 1`, ... of the array `a` lie within the bounds of
the list, one bound per element. -/
def BndFrom (a : Buf) : Nat → List Int → Prop
  | _, [] => True
  | i, b :: bs => (-b ≤ a i ∧ a i ≤ b) ∧ BndFrom a (i + 1) bs

/-- Stage 1 of `fdct4`: the array `output` computed from the array `input`. -/
def fdct4_stage1 (input : Buf) (output : Buf) : Buf :=
  let output := store output 0 (input 0 + input 3)
  let output := store output 1 (input 1 + input 2)
  let output := store output 2 (input 1 - input 2)
  let output := store output 3 (input 0 - input 3)
  output

/-- Stage 2 of `fdct4`: the array `step` computed from the array `output`. -/
def fdct4_stage2 (output : Buf) (step : Buf) : Buf :=
  let step := store step 0 (fdct_round_shift (output 0 * cospi_16_64 + output 1 * cospi_16_64))
  let step := store step 1 (fdct_round_shift (output 1 * (-cospi_16_64) + output 0 * cospi_16_64))
  let step := store step 2 (fdct_round_shift (output 2 * cospi_24_64 + output 3 * cospi_8_64))
  let step := store step 3 (fdct_round_shift (output 3 * cospi_24_64 + output 2 * (-cospi_8_64)))
  step

/-- Stage 3 of `fdct4`: the array `output` computed from the array `step`. -/
def fdct4_stage3 (step : Buf) (output : Buf) : Buf :=
  let output := store output 0 (step 0)
  let output := store output 1 (step 2)
  let output := store output 2 (step 1)
  let output := store output 3 (step 3)
  output

/-- The kernel `fdct4` of `dct.c` stage by stage, with the calls of `range_check`
that it makes: the list holds, in order, the array, the size and the bit count
of each call. The local array `step` is not initialised in the source; every
stage writes all 4 elements of its array, so its first contents are never read. -/
def fdct4_range_checks (input : Buf) (output : Buf) : List (Buf × Nat × Nat) :=
  let step : Buf := zeroBuf
  -- stage 0
  let rc0 := (input, 4, 14)
  -- stage 1
  let output := fdct4_stage1 input output
  let rc1 := (output, 4, 15)
  -- stage 2
  let step := fdct4_stage2 output step
  let rc2 := (step, 4, 16)
  -- stage 3
  let output := fdct4_stage3 step output
  let rc3 := (output, 4, 16)
  [rc0, rc1, rc2, rc3]

/-- Stage 1 of `fdct16`: the array `output` computed from the array `input`. -/
def fdct16_stage1 (input : Buf) (output : Buf) : Buf :=
  let output := store output 0 (input 0 + input 15)
  let output := store output 1 (input 1 + input 14)
  let output := store output 2 (input 2 + input 13)
  let output := store output 3 (input 3 + input 12)
  let output := store output 4 (input 4 + input 11)
  let output := store output 5 (input 5 + input 10)
  let output := store output 6 (input 6 + input 9)
  let output := store output 7 (input 7 + input 8)
  let output := store output 8 (input 7 - input 8)
  let output := store output 9 (input 6 - input 9)
  let output := store output 10 (input 5 - input 10)
  let output := store output 11 (input 4 - input 11)
  let output := store output 12 (input 3 - input 12)
  let output := store output 13 (input 2 - input 13)
  let output := store output 14 (input 1 - input 14)
  let output := store output 15 (input 0 - input 15)
  output

/-- Stage 2 of `fdct16`: the array `step` computed from the array `output`. -/
def fdct16_stage2 (output : Buf) (step : Buf) : Buf :=
  let step := store step 0 (output 0 + output 7)
  let step := store step 1 (output 1 + output 6)
  let step := store step 2 (output 2 + output 5)
  let step := store step 3 (output 3 + output 4)
  let step := store step 4 (output 3 - output 4)
  let step := store step 5 (output 2 - output 5)
  let step := store step 6 (output 1 - output 6)
  let step := store step 7 (output 0 - output 7)
  let step := store step 8 (output 8)
  let step := store step 9 (output 9)
  let step := store step 10 (fdct_round_shift (output 10 * (-cospi_16_64) + output 13
      * cospi_16_64))
  let step := store step 11 (fdct_round_shift (output 11 * (-cospi_16_64) + output 12
      * cospi_16_64))
  let step := store step 12 (fdct_round_shift (output 12 * cospi_16_64 + output 11 * cospi_16_64))
  let step := store step 13 (fdct_round_shift (output 13 * cospi_16_64 + output 10 * cospi_16_64))
  let step := store step 14 (output 14)
  let step := store step 15 (output 15)
  step

/-- Stage 3 of `fdct16`: the array `output` computed from the array `step`. -/
def fdct16_stage3 (step : Buf) (output : Buf) : Buf :=
  let output := store output 0 (step 0 + step 3)
  let output := store output 1 (step 1 + step 2)
  let output := store output 2 (step 1 - step 2)
  let output := store output 3 (step 0 - step 3)
  let output := store output 4 (step 4)
  let output := store output 5 (fdct_round_shift (step 5 * (-cospi_16_64) + step 6 * cospi_16_64))
  let output := store output 6 (fdct_round_shift (step 6 * cospi_16_64 + step 5 * cospi_16_64))
  let output := store output 7 (step 7)
  let output := store output 8 (step 8 + step 11)
  let output := store output 9 (step 9 + step 10)
  let output := store output 10 (step 9 - step 10)
  let output := store output 11 (step 8 - step 11)
  let output := store output 12 (step 15 - step 12)
  let output := store output 13 (step 14 - step 13)
  let output := store output 14 (step 14 + step 13)
  let output := store output 15 (step 15 + step 12)
  output

/-- Stage 4 of `fdct16`: the array `step` computed from the array `output`. -/
def fdct16_stage4 (output : Buf) (step : Buf) : Buf :=
  let step := store step 0 (fdct_round_shift (output 0 * cospi_16_64 + output 1 * cospi_16_64))
  let step := store step 1 (fdct_round_shift (output 1 * (-cospi_16_64) + output 0 * cospi_16_64))
  let step := store step 2 (fdct_round_shift (output 2 * cospi_24_64 + output 3 * cospi_8_64))
  let step := store step 3 (fdct_round_shift (output 3 * cospi_24_64 + output 2 * (-cospi_8_64)))
  let step := store step 4 (output 4 + output 5)
  let step := store step 5 (output 4 - output 5)
  let step := store step 6 (output 7 - output 6)
  let step := store step 7 (output 7 + output 6)
  let step := store step 8 (output 8)
  let step := store step 9 (fdct_round_shift (output 9 * (-cospi_8_64) + output 14 * cospi_24_64))
  let step := store step 10 (fdct_round_shift (output 10 * (-cospi_24_64) + output 13 *
      (-cospi_8_64)))
  let step := store step 11 (output 11)
  let step := store step 12 (output 12)
  let step := store step 13 (fdct_round_shift (output 13 * cospi_24_64 + output 10 *
      (-cospi_8_64)))
  let step := store step 14 (fdct_round_shift (output 14 * cospi_8_64 + output 9 * cospi_24_64))
  let step := store step 15 (output 15)
  step

/-- Stage 5 of `fdct16`: the array `output` computed from the array `step`. -/
def fdct16_stage5 (step : Buf) (output : Buf) : Buf :=
  let output := store output 0 (step 0)
  let output := store output 1 (step 1)
  let output := store output 2 (step 2)
  let output := store output 3 (step 3)
  let output := store output 4 (fdct_round_shift (step 4 * cospi_28_64 + step 7 * cospi_4_64))
  let output := store output 5 (fdct_round_shift (step 5 * cospi_12_64 + step 6 * cospi_20_64))
  let output := store output 6 (fdct_round_shift (step 6 * cospi_12_64 + step 5 * (-cospi_20_64)))
  let output := store output 7 (fdct_round_shift (step 7 * cospi_28_64 + step 4 * (-cospi_4_64)))
  let output := store output 8 (step 8 + step 9)
  let output := store output 9 (step 8 - step 9)
  let output := store output 10 (step 11 - step 10)
  let output := store output 11 (step 11 + step 10)
  let output := store output 12 (step 12 + step 13)
  let output := store output 13 (step 12 - step 13)
  let output := store output 14 (step 15 - step 14)
  let output := store output 15 (step 15 + step 14)
  output

/-- Stage 6 of `fdct16`: the array `step` computed from the array `output`. -/
def fdct16_stage6 (output : Buf) (step : Buf) : Buf :=
  let step := store step 0 (output 0)
  let step := store step 1 (output 1)
  let step := store step 2 (output 2)
  let step := store step 3 (output 3)
  let step := store step 4 (output 4)
  let step := store step 5 (output 5)
  let step := store step 6 (output 6)
  let step := store step 7 (output 7)
  let step := store step 8 (fdct_round_shift (output 8 * cospi_30_64 + output 15 * cospi_2_64))
  let step := store step 9 (fdct_round_shift (output 9 * cospi_14_64 + output 14 * cospi_18_64))
  let step := store step 10 (fdct_round_shift (output 10 * cospi_22_64 + output 13 * cospi_10_64))
  let step := store step 11 (fdct_round_shift (output 11 * cospi_6_64 + output 12 * cospi_26_64))
  let step := store step 12 (fdct_round_shift (output 12 * cospi_6_64 + output 11 *
      (-cospi_26_64)))
  let step := store step 13 (fdct_round_shift (output 13 * cospi_22_64 + output 10 *
      (-cospi_10_64)))
  let step := store step 14 (fdct_round_shift (output 14 * cospi_14_64 + output 9 *
      (-cospi_18_64)))
  let step := store step 15 (fdct_round_shift (output 15 * cospi_30_64 + output 8 *
      (-cospi_2_64)))
  step

/-- Stage 7 of `fdct16`: the array `output` computed from the array `step`. -/
def fdct16_stage7 (step : Buf) (output : Buf) : Buf :=
  let output := store output 0 (step 0)
  let output := store output 1 (step 8)
  let output := store output 2 (step 4)
  let output := store output 3 (step 12)
  let output := store output 4 (step 2)
  let output := store output 5 (step 10)
  let output := store output 6 (step 6)
  let output := store output 7 (step 14)
  let output := store output 8 (step 1)
  let output := store output 9 (step 9)
  let output := store output 10 (step 5)
  let output := store output 11 (step 13)
  let output := store output 12 (step 3)
  let output := store output 13 (step 11)
  let output := store output 14 (step 7)
  let output := store output 15 (step 15)
  output

/-- The kernel `fdct16` of `dct.c` stage by stage, with the calls of `range_check`
that it makes: the list holds, in order, the array, the size and the bit count
of each call. The local array `step` is not initialised in the source; every
stage writes all 16 elements of its array, so its first contents are never read. -/
def fdct16_range_checks (input : Buf) (output : Buf) : List (Buf × Nat × Nat) :=
  let step : Buf := zeroBuf
  -- stage 0
  let rc0 := (input, 16, 13)
  -- stage 1
  let output := fdct16_stage1 input output
  let rc1 := (output, 16, 14)
  -- stage 2
  let step := fdct16_stage2 output step
  let rc2 := (step, 16, 15)
  -- stage 3
  let output := fdct16_stage3 step output
  let rc3 := (output, 16, 16)
  -- stage 4
  let step := fdct16_stage4 output step
  let rc4 := (step, 16, 16)
  -- stage 5
  let output := fdct16_stage5 step output
  let rc5 := (output, 16, 16)
  -- stage 6
  let step := fdct16_stage6 output step
  let rc6 := (step, 16, 16)
  -- stage 7
  let output := fdct16_stage7 step output
  let rc7 := (output, 16, 16)
  [rc0, rc1, rc2, rc3, rc4, rc5, rc6, rc7]

/-! ## The 4-point ADST without its fast path -/

/-- The kernel `fadst4` with the early return for an all-zero input removed:
the general computation of `fadst4`, done on every input. -/
def fadst4_general (input : Buf) (output : Buf) : Buf :=
  let x0 : Int := input 0
  let x1 : Int := input 1
  let x2 : Int := input 2
  let x3 : Int := input 3
  let s0 : Int := sinpi_1_9 * x0
  let s1 : Int := sinpi_4_9 * x0
  let s2 : Int := sinpi_2_9 * x1
  let s3 : Int := sinpi_1_9 * x1
  let s4 : Int := sinpi_3_9 * x2
  let s5 : Int := sinpi_4_9 * x3
  let s6 : Int := sinpi_2_9 * x3
  let s7 : Int := x0 + x1 - x3
  let x0 : Int := s0 + s2 + s5
  let x1 : Int := sinpi_3_9 * s7
  let x2 : Int := s1 - s3 + s6
  let x3 : Int := s4
  let s0 : Int := x0 + x3
  let s1 : Int := x1
  let s2 : Int := x2 - x3
  let s3 : Int := x2 - x0 + x3
  let output := store output 0 (fdct_round_shift s0)
  let output := store output 1 (fdct_round_shift s1)
  let output := store output 2 (fdct_round_shift s2)
  let output := store output 3 (fdct_round_shift s3)
  output

/-! ## The forward identity transform -/

/-- The function `av1_fwd_idtx_c` of `dct.c`. At the start of row `r` the
pointers `src_diff` and `coeff` have been advanced `r` times, by `stride` and
by `bsx`; `1 << shift` is `2 ^ shift`. -/
def av1_fwd_idtx_c (src_diff : Buf) (coeff : Buf) (stride bsx bsy : Nat) (tx_type : TX_TYPE) :
    Buf :=
  let pels : Nat := bsx * bsy
  let shift : Int := 3 - (b2i (pels > 256) + b2i (pels > 1024))
  if tx_type = IDTX then
    forLoop bsy (fun r coeff =>
      forLoop bsx (fun c coeff =>
        store coeff (r * bsx + c) (src_diff (r * stride + c) * 2 ^ shift.toNat)) coeff) coeff
  else
    coeff

/-- The scaling `(temp_out[j] + 1 + (temp_out[j] < 0)) >> 2` between the
passes of `av1_fht16x16_c` and on the output of `av1_fht64x64_c`, as a function
of `temp_out[j]`. -/
def mid_scale_16x16 (t : Int) : Int := asr (t + 1 + b2i (t < 0)) 2

/-- A transform `F` of a `W` wide, `H` high block reads only its block: two
calls whose blocks hold the same samples, each read with its own stride,
return the same result, for each of the sixteen transform types. -/
def BlockOnly (W H : Nat) (F : Buf → Buf → Nat → TX_TYPE → Option Buf) : Prop :=
  ∀ (x x' output : Buf) (stride stride' : Nat) (t : Nat), t < 16 →
    (∀ r c, r < H → c < W → x (r * stride + c) = x' (r * stride' + c)) →
    ∃ o, F x output stride t = some o ∧ F x' output stride' t = some o

/-! ## The bit writer of `aom_dsp/bitwriter.h` -/

/-- The function `aom_write` of `bitwriter.h`. The writer `aom_daala_write` of
the absent header `aom_dsp/daalaboolwriter.h` is a parameter, a step on a
writer state of any type `W`. -/
def aom_write {W : Type} (aom_daala_write : W → Int → Int → W) (br : W) (bit : Int)
    (probability : Int) : W :=
  aom_daala_write br bit probability

/-- The function `aom_write_bit` of `bitwriter.h`. -/
def aom_write_bit {W : Type} (aom_daala_write : W → Int → Int → W) (w : W) (bit : Int) : W :=
  aom_write aom_daala_write w bit 128

/-- The loop `for (bit = bits - 1; bit >= 0; bit--)` of `aom_write_literal`
with `n` iterations left to run, that is with `bit = n - 1`. -/
def aom_write_literal_loop {W : Type} (aom_daala_write : W → Int → Int → W) (data : Int) :
    Nat → W → W
  | 0, w => w
  | bit + 1, w =>
    aom_write_literal_loop aom_daala_write data bit
      (aom_write_bit aom_daala_write w (Int.land 1 (asr data bit)))

/-- The function `aom_write_literal` of `bitwriter.h`: the loop starts at
`bit = bits - 1` and runs `bits` times when `bits` is positive, not at all
otherwise. -/
def aom_write_literal {W : Type} (aom_daala_write : W → Int → Int → W) (w : W) (data : Int)
    (bits : Int) : W :=
  aom_write_literal_loop aom_daala_write data bits.toNat w

/-- A writer that records its calls: the state is the list of the pairs
`(bit, probability)` written so far. -/
def record_write (br : List (Int × Int)) (bit : Int) (probability : Int) : List (Int × Int) :=
  br ++ [(bit, probability)]

/-! ## Theorems -/

/-! ### Every transform is an instance of the common shape -/

theorem av1_fht4x4_c_table_eq :
    av1_fht4x4_c_table = fht2d FHT_4x4 4 4 4 4
      (fun _ j => j) (fun i _ => i) transform_2d.cols transform_2d.rows
      (fun x => x * 16) adj4x4
      (fun t => t) (fun i j => j + i * 4)
      (fun t => asr (t + 1) 2) := rfl

theorem av1_fht4x8_c_eq :
    av1_fht4x8_c = fht2d FHT_4x8 8 4 8 4
      (fun i _ => i) (fun _ j => j) transform_2d.rows transform_2d.cols
      (fun x => fdct_round_shift (x * 4 * Sqrt2)) adjNone
      (fun t => t) (fun i j => i + j * 4)
      (fun t => asr (t + b2i (t < 0)) 1) := rfl

theorem av1_fht8x4_c_eq :
    av1_fht8x4_c = fht2d FHT_8x4 4 8 8 4
      (fun _ j => j) (fun i _ => i) transform_2d.cols transform_2d.rows
      (fun x => fdct_round_shift (x * 4 * Sqrt2)) adjNone
      (fun t => t) (fun i j => j + i * 8)
      (fun t => asr (t + b2i (t < 0)) 1) := rfl

theorem av1_fht4x16_c_eq :
    av1_fht4x16_c = fht2d FHT_4x16 16 4 16 4
      (fun i _ => i) (fun _ j => j) transform_2d.rows transform_2d.cols
      (fun x => x * 4) adjNone
      (fun t => t) (fun i j => i + j * 4)
      (fun t => asr (t + b2i (t < 0)) 1) := rfl

theorem av1_fht16x4_c_eq :
    av1_fht16x4_c = fht2d FHT_16x4 4 16 16 4
      (fun _ j => j) (fun i _ => i) transform_2d.cols transform_2d.rows
      (fun x => x * 4) adjNone
      (fun t => t) (fun i j => j + i * 16)
      (fun t => asr (t + b2i (t < 0)) 1) := rfl

theorem av1_fht8x16_c_eq :
    av1_fht8x16_c = fht2d FHT_8x16 16 8 16 8
      (fun i _ => i) (fun _ j => j) transform_2d.rows transform_2d.cols
      (fun x => fdct_round_shift (x * 4 * Sqrt2)) adjNone
      (fun t => ROUND_POWER_OF_TWO_SIGNED t 2) (fun i j => i + j * 8)
      (fun t => t) := rfl

theorem av1_fht16x8_c_eq :
    av1_fht16x8_c = fht2d FHT_16x8 8 16 16 8
      (fun _ j => j) (fun i _ => i) transform_2d.cols transform_2d.rows
      (fun x => fdct_round_shift (x * 4 * Sqrt2)) adjNone
      (fun t => ROUND_POWER_OF_TWO_SIGNED t 2) (fun i j => j + i * 16)
      (fun t => t) := rfl

theorem av1_fht8x32_c_eq :
    av1_fht8x32_c = fht2d FHT_8x32 32 8 32 8
      (fun i _ => i) (fun _ j => j) transform_2d.rows transform_2d.cols
      (fun x => x * 4) adjNone
      (fun t => t) (fun i j => i + j * 8)
      (fun t => ROUND_POWER_OF_TWO_SIGNED t 2) := rfl

theorem av1_fht32x8_c_eq :
    av1_fht32x8_c = fht2d FHT_32x8 8 32 32 8
      (fun _ j => j) (fun i _ => i) transform_2d.cols transform_2d.rows
      (fun x => x * 4) adjNone
      (fun t => t) (fun i j => j + i * 32)
      (fun t => ROUND_POWER_OF_TWO_SIGNED t 2) := rfl

theorem av1_fht16x32_c_eq :
    av1_fht16x32_c = fht2d FHT_16x32 32 16 32 16
      (fun i _ => i) (fun _ j => j) transform_2d.rows transform_2d.cols
      (fun x => fdct_round_shift (x * 4 * Sqrt2)) adjNone
      (fun t => ROUND_POWER_OF_TWO_SIGNED t 4) (fun i j => i + j * 16)
      (fun t => t) := rfl

theorem av1_fht32x16_c_eq :
    av1_fht32x16_c = fht2d FHT_32x16 16 32 32 16
      (fun _ j => j) (fun i _ => i) transform_2d.cols transform_2d.rows
      (fun x => fdct_round_shift (x * 4 * Sqrt2)) adjNone
      (fun t => ROUND_POWER_OF_TWO_SIGNED t 4) (fun i j => j + i * 32)
      (fun t => t) := rfl

theorem av1_fht8x8_c_table_eq :
    av1_fht8x8_c_table = fht2d FHT_8x8 8 8 8 8
      (fun _ j => j) (fun i _ => i) transform_2d.cols transform_2d.rows
      (fun x => x * 4) adjNone
      (fun t => t) (fun i j => j + i * 8)
      (fun t => asr (t + b2i (t < 0)) 1) := rfl

theorem av1_fht16x16_c_eq :
    av1_fht16x16_c = fht2d FHT_16x16 16 16 16 16
      (fun _ j => j) (fun i _ => i) transform_2d.cols transform_2d.rows
      (fun x => x * 4) adjNone
      (fun t => asr (t + 1 + b2i (t < 0)) 2) (fun i j => j + i * 16)
      (fun t => t) := rfl

theorem av1_fht32x32_c_eq :
    av1_fht32x32_c = fht2d FHT_32x32 32 32 32 32
      (fun _ j => j) (fun i _ => i) transform_2d.cols transform_2d.rows
      (fun x => x * 4) adjNone
      (fun t => ROUND_POWER_OF_TWO_SIGNED t 4) (fun i j => j + i * 32)
      (fun t => t) := rfl

theorem av1_fht64x64_c_passes_eq (fdct64_col fdct64_row : transform_1d) :
    av1_fht64x64_c_passes fdct64_col fdct64_row =
    fht2d (FHT_64x64 fdct64_col fdct64_row) 64 64 64 64
      (fun _ j => j) (fun i _ => i) transform_2d.cols transform_2d.rows
      (fun x => x) adjNone
      (fun t => asr (t + 1 + b2i (t > 0)) 2) (fun i j => j + i * 64)
      (fun t => asr (t + 1 + b2i (t < 0)) 2) := rfl

theorem av1_fht64x32_c_passes_eq (fdct64_row : transform_1d) :
    av1_fht64x32_c_passes fdct64_row =
    fht2d (FHT_64x32 fdct64_row) 32 64 64 32
      (fun _ j => j) (fun i _ => i) transform_2d.cols transform_2d.rows
      (fun x => fdct_round_shift (x * Sqrt2)) adjNone
      (fun t => ROUND_POWER_OF_TWO_SIGNED t 2) (fun i j => j + i * 64)
      (fun t => ROUND_POWER_OF_TWO_SIGNED t 2) := rfl

theorem av1_fht32x64_c_passes_eq (fdct64_row : transform_1d) :
    av1_fht32x64_c_passes fdct64_row =
    fht2d (FHT_32x64 fdct64_row) 64 32 64 32
      (fun i _ => i) (fun _ j => j) transform_2d.rows transform_2d.cols
      (fun x => fdct_round_shift (x * Sqrt2)) adjNone
      (fun t => ROUND_POWER_OF_TWO_SIGNED t 2) (fun i j => i + j * 32)
      (fun t => ROUND_POWER_OF_TWO_SIGNED t 2) := rfl

theorem av1_fht16x64_c_passes_eq (fdct64_col : transform_1d) :
    av1_fht16x64_c_passes fdct64_col =
    fht2d (FHT_16x64 fdct64_col) 64 16 64 16
      (fun i _ => i) (fun _ j => j) transform_2d.rows transform_2d.cols
      (fun x => x) adjNone
      (fun t => t) (fun i j => i + j * 16)
      (fun t => ROUND_POWER_OF_TWO_SIGNED t 2) := rfl

theorem av1_fht64x16_c_passes_eq (fdct64_row : transform_1d) :
    av1_fht64x16_c_passes fdct64_row =
    fht2d (FHT_64x16 fdct64_row) 16 64 64 16
      (fun _ j => j) (fun i _ => i) transform_2d.cols transform_2d.rows
      (fun x => x) adjNone
      (fun t => t) (fun i j => j + i * 64)
      (fun t => ROUND_POWER_OF_TWO_SIGNED t 2) := rfl

/-! ### Loops and stores -/

theorem asr_eq_div (x : Int) (k : Nat) : asr x k = x / 2 ^ k := by
  unfold asr
  exact_mod_cast Int.shiftRight_eq_div_pow x k

theorem asr_one (x : Int) : asr x 1 = x / 2 := by
  rw [asr_eq_div]; norm_num

theorem forLoop_succ {σ : Type} (n : Nat) (body : Nat → σ → σ) (s : σ) :
    forLoop (n + 1) body s = body n (forLoop n body s) := rfl

theorem forLoop_congr {σ : Type} (n : Nat) (f g : Nat → σ → σ) (s : σ)
    (h : ∀ i, i < n → ∀ t, f i t = g i t) : forLoop n f s = forLoop n g s := by
  induction n with
  | zero => rfl
  | succ n ih =>
    rw [forLoop_succ, forLoop_succ, ih (fun i hi => h i (Nat.lt_succ_of_lt hi)),
      h n (Nat.lt_succ_self n)]

theorem store_same (b : Buf) (k : Nat) (v : Int) : store b k v k = v := by
  simp [store]

theorem store_other (b : Buf) (k : Nat) (v : Int) (p : Nat) (h : p ≠ k) :
    store b k v p = b p := by
  simp [store, h]

theorem storeLoop_frame (n : Nat) (g : Nat → Nat) (v : Nat → Int) (d0 : Buf) (p : Nat)
    (h : ∀ j, j < n → g j ≠ p) :
    forLoop n (fun j d => store d (g j) (v j)) d0 p = d0 p := by
  induction n with
  | zero => rfl
  | succ n ih =>
    rw [forLoop_succ, store_other _ _ _ _ (fun e => h n (Nat.lt_succ_self n) e.symm)]
    exact ih (fun j hj => h j (Nat.lt_succ_of_lt hj))

theorem storeLoop_read (n : Nat) (g : Nat → Nat) (v : Nat → Int) (d0 : Buf)
    (hinj : ∀ j j', j < n → j' < n → g j = g j' → j = j') (j : Nat) (hj : j < n) :
    forLoop n (fun j d => store d (g j) (v j)) d0 (g j) = v j := by
  induction n with
  | zero => omega
  | succ n ih =>
    rw [forLoop_succ]
    by_cases hjn : j = n
    · subst hjn; exact store_same _ _ _
    · have hlt : j < n := by omega
      rw [store_other _ _ _ _ (fun e => hjn (hinj j n hj (Nat.lt_succ_self n) e))]
      exact ih (fun a b ha hb => hinj a b (Nat.lt_succ_of_lt ha) (Nat.lt_succ_of_lt hb)) hlt

theorem storeLoop_const (n : Nat) (g : Nat → Nat) (v : Nat → Int) (c : Int) (d0 : Buf)
    (hv : ∀ j, j < n → v j = c) (p : Nat) :
    forLoop n (fun j d => store d (g j) (v j)) d0 p = c ∨
      ((∀ j, j < n → g j ≠ p) ∧
        forLoop n (fun j d => store d (g j) (v j)) d0 p = d0 p) := by
  induction n with
  | zero => exact Or.inr ⟨fun j hj => by omega, rfl⟩
  | succ n ih =>
    rw [forLoop_succ]
    by_cases hp : p = g n
    · left; subst hp; rw [store_same]; exact hv n (Nat.lt_succ_self n)
    · rw [store_other _ _ _ _ hp]
      rcases ih (fun j hj => hv j (Nat.lt_succ_of_lt hj)) with h | ⟨h1, h2⟩
      · exact Or.inl h
      · refine Or.inr ⟨fun j hj => ?_, h2⟩
        by_cases hjn : j = n
        · subst hjn; exact fun e => hp e.symm
        · exact h1 j (by omega)

theorem loadLoop_apply (n : Nat) (v : Nat → Int) (t0 : Buf) (k : Nat) :
    forLoop n (fun j t => store t j (v j)) t0 k = if k < n then v k else t0 k := by
  by_cases hk : k < n
  · rw [if_pos hk]
    exact storeLoop_read n (fun j => j) v t0 (fun _ _ _ _ e => e) k hk
  · rw [if_neg hk]
    exact storeLoop_frame n (fun j => j) v t0 k (fun j hj e => hk (by simp at e; omega))

/-! ### One transform pass -/

theorem txfmPass_succ (N n : Nat) (load : Nat → Nat → Int) (adj : Nat → Buf → Buf)
    (k : transform_1d) (idx : Nat → Nat → Nat) (scale : Int → Int) (s : PassState) :
    txfmPass (N + 1) n load adj k idx scale s =
      (let p := txfmPass N n load adj k idx scale s
       let temp_in := adj N (forLoop n (fun j temp_in => store temp_in j (load N j)) p.temp_in)
       let temp_out := k temp_in p.temp_out
       let dest := forLoop n (fun j dest => store dest (idx N j) (scale (temp_out j))) p.dest
       ⟨temp_in, temp_out, dest⟩) := rfl

theorem txfmPass_congr (N n : Nat) (load load' : Nat → Nat → Int) (adj : Nat → Buf → Buf)
    (k : transform_1d) (idx : Nat → Nat → Nat) (scale : Int → Int) (s : PassState)
    (h : ∀ i j, i < N → j < n → load i j = load' i j) :
    txfmPass N n load adj k idx scale s = txfmPass N n load' adj k idx scale s := by
  unfold txfmPass
  apply forLoop_congr
  intro i hi t
  have e : forLoop n (fun j temp_in => store temp_in j (load i j)) t.temp_in
      = forLoop n (fun j temp_in => store temp_in j (load' i j)) t.temp_in := by
    apply forLoop_congr
    intro j hj u
    rw [h i j hi hj]
  simp only [e]

/-- If every loaded value is `a`, the kernel sends the constant vector `a` to
the constant vector `b`, and nothing is touched up, the pass writes
`scale b` to every position it addresses. -/
theorem txfmPass_uniform (N n : Nat) (load : Nat → Nat → Int) (k : transform_1d)
    (idx : Nat → Nat → Nat) (scale : Int → Int) (s : PassState) (adj : Nat → Buf → Buf)
    (a b : Int)
    (hl : ∀ i j, i < N → j < n → load i j = a)
    (hadj : ∀ i t, i < N → (∀ j, j < n → t j = a) → ∀ j, j < n → adj i t j = a)
    (hk : ∀ inp o : Buf, (∀ j, j < n → inp j = a) → ∀ j, j < n → k inp o j = b)
    (i j : Nat) (hi : i < N) (hj : j < n) :
    (txfmPass N n load adj k idx scale s).dest (idx i j) = scale b := by
  induction N with
  | zero => omega
  | succ N ih =>
    rw [txfmPass_succ]
    simp only
    have hin : ∀ j, j < n →
        adj N (forLoop n (fun j temp_in => store temp_in j (load N j))
          (txfmPass N n load adj k idx scale s).temp_in) j = a := by
      apply hadj N _ (Nat.lt_succ_self N)
      intro j hj
      rw [loadLoop_apply, if_pos hj]
      exact hl N j (Nat.lt_succ_self N) hj
    have hout := hk _ (txfmPass N n load adj k idx scale s).temp_out hin
    rcases storeLoop_const n (idx N) (fun j => scale (k (adj N (forLoop n
        (fun j temp_in => store temp_in j (load N j))
        (txfmPass N n load adj k idx scale s).temp_in))
        (txfmPass N n load adj k idx scale s).temp_out j)) (scale b)
        (txfmPass N n load adj k idx scale s).dest
        (fun j hj => by simp only [hout j hj]) (idx i j) with h | ⟨h1, h2⟩
    · exact h
    · rw [h2]
      by_cases hiN : i = N
      · subst hiN; exact absurd rfl (h1 j hj)
      · exact ih (fun i j hi hj => hl i j (Nat.lt_succ_of_lt hi) hj)
          (fun i t hi => hadj i t (Nat.lt_succ_of_lt hi)) (by omega)

/-! ### The butterfly kernels read only their own input vector -/

theorem fdct4_congr (input input' output : Buf) (h : ∀ k, k < 4 → input k = input' k) :
    fdct4 input output = fdct4 input' output := by
  have h0 := h 0 (by norm_num)
  have h1 := h 1 (by norm_num)
  have h2 := h 2 (by norm_num)
  have h3 := h 3 (by norm_num)
  unfold fdct4
  simp only [h0, h1, h2, h3]

theorem fdct4_zero (output : Buf) (k : Nat) (hk : k < 4) : fdct4 zeroBuf output k = 0 := by
  interval_cases k <;> rfl

theorem fdct4_zeroPres : ZeroPres 4 fdct4 := by
  intro input output h j hj
  rw [fdct4_congr input zeroBuf output (fun k hk => by rw [h k hk]; rfl)]
  exact fdct4_zero output j hj

theorem fdct8_congr (input input' output : Buf) (h : ∀ k, k < 8 → input k = input' k) :
    fdct8 input output = fdct8 input' output := by
  have h0 := h 0 (by norm_num)
  have h1 := h 1 (by norm_num)
  have h2 := h 2 (by norm_num)
  have h3 := h 3 (by norm_num)
  have h4 := h 4 (by norm_num)
  have h5 := h 5 (by norm_num)
  have h6 := h 6 (by norm_num)
  have h7 := h 7 (by norm_num)
  unfold fdct8
  simp only [h0, h1, h2, h3, h4, h5, h6, h7]

theorem fdct8_zero (output : Buf) (k : Nat) (hk : k < 8) : fdct8 zeroBuf output k = 0 := by
  interval_cases k <;> rfl

theorem fdct8_zeroPres : ZeroPres 8 fdct8 := by
  intro input output h j hj
  rw [fdct8_congr input zeroBuf output (fun k hk => by rw [h k hk]; rfl)]
  exact fdct8_zero output j hj

theorem fdct16_congr (input input' output : Buf) (h : ∀ k, k < 16 → input k = input' k) :
    fdct16 input output = fdct16 input' output := by
  have h0 := h 0 (by norm_num)
  have h1 := h 1 (by norm_num)
  have h2 := h 2 (by norm_num)
  have h3 := h 3 (by norm_num)
  have h4 := h 4 (by norm_num)
  have h5 := h 5 (by norm_num)
  have h6 := h 6 (by norm_num)
  have h7 := h 7 (by norm_num)
  have h8 := h 8 (by norm_num)
  have h9 := h 9 (by norm_num)
  have h10 := h 10 (by norm_num)
  have h11 := h 11 (by norm_num)
  have h12 := h 12 (by norm_num)
  have h13 := h 13 (by norm_num)
  have h14 := h 14 (by norm_num)
  have h15 := h 15 (by norm_num)
  unfold fdct16
  simp only [h0, h1, h2, h3, h4, h5, h6, h7, h8, h9, h10, h11, h12, h13, h14, h15]

theorem fdct16_zero (output : Buf) (k : Nat) (hk : k < 16) : fdct16 zeroBuf output k = 0 := by
  interval_cases k <;> rfl

theorem fdct16_zeroPres : ZeroPres 16 fdct16 := by
  intro input output h j hj
  rw [fdct16_congr input zeroBuf output (fun k hk => by rw [h k hk]; rfl)]
  exact fdct16_zero output j hj

theorem fdct32_congr (input input' output : Buf) (h : ∀ k, k < 32 → input k = input' k) :
    fdct32 input output = fdct32 input' output := by
  have h0 := h 0 (by norm_num)
  have h1 := h 1 (by norm_num)
  have h2 := h 2 (by norm_num)
  have h3 := h 3 (by norm_num)
  have h4 := h 4 (by norm_num)
  have h5 := h 5 (by norm_num)
  have h6 := h 6 (by norm_num)
  have h7 := h 7 (by norm_num)
  have h8 := h 8 (by norm_num)
  have h9 := h 9 (by norm_num)
  have h10 := h 10 (by norm_num)
  have h11 := h 11 (by norm_num)
  have h12 := h 12 (by norm_num)
  have h13 := h 13 (by norm_num)
  have h14 := h 14 (by norm_num)
  have h15 := h 15 (by norm_num)
  have h16 := h 16 (by norm_num)
  have h17 := h 17 (by norm_num)
  have h18 := h 18 (by norm_num)
  have h19 := h 19 (by norm_num)
  have h20 := h 20 (by norm_num)
  have h21 := h 21 (by norm_num)
  have h22 := h 22 (by norm_num)
  have h23 := h 23 (by norm_num)
  have h24 := h 24 (by norm_num)
  have h25 := h 25 (by norm_num)
  have h26 := h 26 (by norm_num)
  have h27 := h 27 (by norm_num)
  have h28 := h 28 (by norm_num)
  have h29 := h 29 (by norm_num)
  have h30 := h 30 (by norm_num)
  have h31 := h 31 (by norm_num)
  unfold fdct32
  simp only [h0, h1, h2, h3, h4, h5, h6, h7, h8, h9, h10, h11, h12, h13, h14, h15, h16, h17,
    h18, h19, h20, h21, h22, h23, h24, h25, h26, h27, h28, h29, h30, h31]

theorem fdct32_zero (output : Buf) (k : Nat) (hk : k < 32) : fdct32 zeroBuf output k = 0 := by
  interval_cases k <;> rfl

theorem fdct32_zeroPres : ZeroPres 32 fdct32 := by
  intro input output h j hj
  rw [fdct32_congr input zeroBuf output (fun k hk => by rw [h k hk]; rfl)]
  exact fdct32_zero output j hj

theorem fadst4_congr (input input' output : Buf) (h : ∀ k, k < 4 → input k = input' k) :
    fadst4 input output = fadst4 input' output := by
  have h0 := h 0 (by norm_num)
  have h1 := h 1 (by norm_num)
  have h2 := h 2 (by norm_num)
  have h3 := h 3 (by norm_num)
  unfold fadst4
  simp only [h0, h1, h2, h3]

theorem fadst4_zero (output : Buf) (k : Nat) (hk : k < 4) : fadst4 zeroBuf output k = 0 := by
  interval_cases k <;> rfl

theorem fadst4_zeroPres : ZeroPres 4 fadst4 := by
  intro input output h j hj
  rw [fadst4_congr input zeroBuf output (fun k hk => by rw [h k hk]; rfl)]
  exact fadst4_zero output j hj

theorem fadst8_congr (input input' output : Buf) (h : ∀ k, k < 8 → input k = input' k) :
    fadst8 input output = fadst8 input' output := by
  have h0 := h 0 (by norm_num)
  have h1 := h 1 (by norm_num)
  have h2 := h 2 (by norm_num)
  have h3 := h 3 (by norm_num)
  have h4 := h 4 (by norm_num)
  have h5 := h 5 (by norm_num)
  have h6 := h 6 (by norm_num)
  have h7 := h 7 (by norm_num)
  unfold fadst8
  simp only [h0, h1, h2, h3, h4, h5, h6, h7]

theorem fadst8_zero (output : Buf) (k : Nat) (hk : k < 8) : fadst8 zeroBuf output k = 0 := by
  interval_cases k <;> rfl

theorem fadst8_zeroPres : ZeroPres 8 fadst8 := by
  intro input output h j hj
  rw [fadst8_congr input zeroBuf output (fun k hk => by rw [h k hk]; rfl)]
  exact fadst8_zero output j hj

theorem fadst16_congr (input input' output : Buf) (h : ∀ k, k < 16 → input k = input' k) :
    fadst16 input output = fadst16 input' output := by
  have h0 := h 0 (by norm_num)
  have h1 := h 1 (by norm_num)
  have h2 := h 2 (by norm_num)
  have h3 := h 3 (by norm_num)
  have h4 := h 4 (by norm_num)
  have h5 := h 5 (by norm_num)
  have h6 := h 6 (by norm_num)
  have h7 := h 7 (by norm_num)
  have h8 := h 8 (by norm_num)
  have h9 := h 9 (by norm_num)
  have h10 := h 10 (by norm_num)
  have h11 := h 11 (by norm_num)
  have h12 := h 12 (by norm_num)
  have h13 := h 13 (by norm_num)
  have h14 := h 14 (by norm_num)
  have h15 := h 15 (by norm_num)
  unfold fadst16
  simp only [h0, h1, h2, h3, h4, h5, h6, h7, h8, h9, h10, h11, h12, h13, h14, h15]

theorem fadst16_zero (output : Buf) (k : Nat) (hk : k < 16) : fadst16 zeroBuf output k = 0 := by
  interval_cases k <;> rfl

theorem fadst16_zeroPres : ZeroPres 16 fadst16 := by
  intro input output h j hj
  rw [fadst16_congr input zeroBuf output (fun k hk => by rw [h k hk]; rfl)]
  exact fadst16_zero output j hj

/-! ### Identity and half-right kernels -/

theorem fdct_round_shift_eq (x : Int) : fdct_round_shift x = asr (x + 8192) 14 := rfl

theorem fdct_round_shift_zero : fdct_round_shift 0 = 0 := by decide

theorem wrap32_of_int32 (x : Int) (h : int32_t x) : wrap32 x = x := by
  unfold int32_t at h
  unfold wrap32
  norm_num at h ⊢
  omega

theorem wrap32_int32 (x : Int) : int32_t (wrap32 x) := by
  unfold int32_t wrap32
  norm_num
  omega

theorem fidtx4_apply (input output : Buf) (k : Nat) :
    fidtx4 input output k
      = if k < 4 then wrap32 (fdct_round_shift (input k * Sqrt2)) else output k :=
  loadLoop_apply 4 (fun i => wrap32 (fdct_round_shift (input i * Sqrt2))) output k

theorem fidtx8_apply (input output : Buf) (k : Nat) :
    fidtx8 input output k = if k < 8 then input k * 2 else output k :=
  loadLoop_apply 8 (fun i => input i * 2) output k

theorem fidtx16_apply (input output : Buf) (k : Nat) :
    fidtx16 input output k
      = if k < 16 then wrap32 (fdct_round_shift (input k * 2 * Sqrt2)) else output k :=
  loadLoop_apply 16 (fun i => wrap32 (fdct_round_shift (input i * 2 * Sqrt2))) output k

theorem fidtx32_apply (input output : Buf) (k : Nat) :
    fidtx32 input output k = if k < 32 then input k * 4 else output k :=
  loadLoop_apply 32 (fun i => input i * 4) output k

theorem fidtx64_apply (input output : Buf) (k : Nat) :
    fidtx64 input output k
      = if k < 64 then wrap32 (fdct_round_shift (input k * 4 * Sqrt2)) else output k :=
  loadLoop_apply 64 (fun i => wrap32 (fdct_round_shift (input i * 4 * Sqrt2))) output k

theorem fidtx4_zeroPres : ZeroPres 4 fidtx4 := by
  intro input output h j hj
  rw [fidtx4_apply, if_pos hj, h j hj]; decide

theorem fidtx8_zeroPres : ZeroPres 8 fidtx8 := by
  intro input output h j hj
  rw [fidtx8_apply, if_pos hj, h j hj]; decide

theorem fidtx16_zeroPres : ZeroPres 16 fidtx16 := by
  intro input output h j hj
  rw [fidtx16_apply, if_pos hj, h j hj]; decide

theorem fidtx32_zeroPres : ZeroPres 32 fidtx32 := by
  intro input output h j hj
  rw [fidtx32_apply, if_pos hj, h j hj]; decide

theorem fidtx64_zeroPres : ZeroPres 64 fidtx64 := by
  intro input output h j hj
  rw [fidtx64_apply, if_pos hj, h j hj]; decide

theorem fdct16_frame (input output : Buf) (k : Nat) (hk : 16 ≤ k) :
    fdct16 input output k = output k := by
  unfold fdct16
  simp only [store]
  repeat rw [if_neg (by omega)]

theorem fdct32_frame (input output : Buf) (k : Nat) (hk : 32 ≤ k) :
    fdct32 input output k = output k := by
  unfold fdct32
  simp only [store]
  repeat rw [if_neg (by omega)]

theorem fhalfright32_high (input output : Buf) (i : Nat) (hi : i < 16) :
    fhalfright32 input output (16 + i) = input i * 4 := by
  unfold fhalfright32
  rw [fdct16_frame _ _ _ (by omega)]
  exact storeLoop_read 16 (fun i => 16 + i) (fun i => input i * 4) output
    (fun a b _ _ e => by simp at e; omega) i hi

theorem fhalfright32_zeroPres : ZeroPres 32 fhalfright32 := by
  intro input output h j hj
  by_cases hlow : j < 16
  · unfold fhalfright32
    apply fdct16_zeroPres _ _ _ j hlow
    intro i hi
    rw [loadLoop_apply, if_pos hi, h (i + 16) (by omega)]
    decide
  · obtain ⟨i, rfl⟩ : ∃ i, j = 16 + i := ⟨j - 16, by omega⟩
    rw [fhalfright32_high input output i (by omega), h i (by omega)]
    decide

theorem fhalfright64_high (input output : Buf) (i : Nat) (hi : i < 32) :
    fhalfright64 input output (32 + i) = wrap32 (fdct_round_shift (input i * 4 * Sqrt2)) := by
  unfold fhalfright64
  rw [fdct32_frame _ _ _ (by omega)]
  exact storeLoop_read 32 (fun i => 32 + i)
    (fun i => wrap32 (fdct_round_shift (input i * 4 * Sqrt2)))
    output (fun a b _ _ e => by simp at e; omega) i hi

theorem fhalfright64_zeroPres : ZeroPres 64 fhalfright64 := by
  intro input output h j hj
  by_cases hlow : j < 32
  · unfold fhalfright64
    apply fdct32_zeroPres _ _ _ j hlow
    intro i hi
    rw [loadLoop_apply, if_pos hi, h (i + 32) (by omega)]
    decide
  · obtain ⟨i, rfl⟩ : ∃ i, j = 32 + i := ⟨j - 32, by omega⟩
    rw [fhalfright64_high input output i (by omega), h i (by omega)]
    decide

/-! ### Loops of exchanges -/

theorem swap_apply (d : Buf) (x y p : Nat) :
    swap d x y p = if p = y then d x else if p = x then d y else d p := by
  simp [swap, store]

/-- The three facts that describe a buffer `r` obtained from `d` by exchanging
the pairs `(a t, b t)`, `t < m`. -/
def Swapped (m : Nat) (a b : Nat → Nat) (d r : Buf) : Prop :=
  (∀ t, t < m → r (a t) = d (b t)) ∧ (∀ t, t < m → r (b t) = d (a t)) ∧
    (∀ p, (∀ t, t < m → p ≠ a t ∧ p ≠ b t) → r p = d p)

theorem swapLoop_spec (m : Nat) (a b : Nat → Nat) (d : Buf)
    (hd : ∀ t t', t < m → t' < m →
      (a t = a t' → t = t') ∧ (b t = b t' → t = t') ∧ a t ≠ b t') :
    Swapped m a b d (forLoop m (fun t d => swap d (a t) (b t)) d) := by
  induction m with
  | zero => exact ⟨fun t ht => by omega, fun t ht => by omega, fun p _ => rfl⟩
  | succ m ih =>
    have hd' : ∀ t t', t < m → t' < m →
        (a t = a t' → t = t') ∧ (b t = b t' → t = t') ∧ a t ≠ b t' :=
      fun t t' ht ht' => hd t t' (Nat.lt_succ_of_lt ht) (Nat.lt_succ_of_lt ht')
    obtain ⟨h1, h2, h3⟩ := ih hd'
    have hm := Nat.lt_succ_self m
    have fresh : ∀ t, t < m → a m ≠ a t ∧ a m ≠ b t ∧ b m ≠ a t ∧ b m ≠ b t := by
      intro t ht
      have ht' := Nat.lt_succ_of_lt ht
      refine ⟨fun e => ?_, (hd m t hm ht').2.2, fun e => (hd t m ht' hm).2.2 e.symm, fun e => ?_⟩
      · have := (hd m t hm ht').1 e; omega
      · have := (hd m t hm ht').2.1 e; omega
    have ham : forLoop m (fun t d => swap d (a t) (b t)) d (a m) = d (a m) :=
      h3 _ (fun t ht => ⟨(fresh t ht).1, (fresh t ht).2.1⟩)
    have hbm : forLoop m (fun t d => swap d (a t) (b t)) d (b m) = d (b m) :=
      h3 _ (fun t ht => ⟨(fresh t ht).2.2.1, (fresh t ht).2.2.2⟩)
    have hab : a m ≠ b m := (hd m m hm hm).2.2
    refine ⟨fun t ht => ?_, fun t ht => ?_, fun p hp => ?_⟩
    · rw [forLoop_succ, swap_apply]
      by_cases htm : t = m
      · subst htm; rw [if_neg hab, if_pos rfl, hbm]
      · have ht' : t < m := by omega
        rw [if_neg (fun e => (fresh t ht').2.2.1 e.symm), if_neg (fun e => (fresh t ht').1 e.symm)]
        exact h1 t ht'
    · rw [forLoop_succ, swap_apply]
      by_cases htm : t = m
      · subst htm; rw [if_pos rfl, ham]
      · have ht' : t < m := by omega
        rw [if_neg (fun e => (fresh t ht').2.2.2 e.symm),
          if_neg (fun e => (fresh t ht').2.1 e.symm)]
        exact h2 t ht'
    · rw [forLoop_succ, swap_apply, if_neg (hp m hm).2, if_neg (hp m hm).1]
      exact h3 p (fun t ht => hp t (Nat.lt_succ_of_lt ht))

/-- The buffer `r` is obtained from `d` by exchanging the pairs
`(a i t, b i t)`, `i < N`, `t < m`. -/
def Swapped2 (N m : Nat) (a b : Nat → Nat → Nat) (d r : Buf) : Prop :=
  (∀ i t, i < N → t < m → r (a i t) = d (b i t)) ∧
    (∀ i t, i < N → t < m → r (b i t) = d (a i t)) ∧
    (∀ p, (∀ i t, i < N → t < m → p ≠ a i t ∧ p ≠ b i t) → r p = d p)

theorem swapNest_spec (N m : Nat) (a b : Nat → Nat → Nat) (d : Buf)
    (hd : ∀ i t i' t', i < N → t < m → i' < N → t' < m →
      (a i t = a i' t' → i = i' ∧ t = t') ∧ (b i t = b i' t' → i = i' ∧ t = t') ∧
        a i t ≠ b i' t') :
    Swapped2 N m a b d
      (forLoop N (fun i d => forLoop m (fun t d => swap d (a i t) (b i t)) d) d) := by
  induction N with
  | zero => exact ⟨fun i t hi => by omega, fun i t hi => by omega, fun p _ => rfl⟩
  | succ N ih =>
    have hN := Nat.lt_succ_self N
    obtain ⟨h1, h2, h3⟩ := ih (fun i t i' t' hi ht hi' ht' =>
      hd i t i' t' (Nat.lt_succ_of_lt hi) ht (Nat.lt_succ_of_lt hi') ht')
    obtain ⟨g1, g2, g3⟩ := swapLoop_spec m (a N) (b N)
      (forLoop N (fun i d => forLoop m (fun t d => swap d (a i t) (b i t)) d) d)
      (fun t t' ht ht' => ⟨fun e => ((hd N t N t' hN ht hN ht').1 e).2,
        fun e => ((hd N t N t' hN ht hN ht').2.1 e).2, (hd N t N t' hN ht hN ht').2.2⟩)
    have old : ∀ i t, i < N → t < m → ∀ t', t' < m →
        (a i t ≠ a N t' ∧ a i t ≠ b N t') ∧ (b i t ≠ a N t' ∧ b i t ≠ b N t') := by
      intro i t hi ht t' ht'
      have hi' := Nat.lt_succ_of_lt hi
      refine ⟨⟨fun e => ?_, (hd i t N t' hi' ht hN ht').2.2⟩,
        ⟨fun e => (hd N t' i t hN ht' hi' ht).2.2 e.symm, fun e => ?_⟩⟩
      · have := ((hd i t N t' hi' ht hN ht').1 e).1; omega
      · have := ((hd i t N t' hi' ht hN ht').2.1 e).1; omega
    refine ⟨fun i t hi ht => ?_, fun i t hi ht => ?_, fun p hp => ?_⟩
    · rw [forLoop_succ]
      by_cases hiN : i = N
      · subst hiN
        rw [g1 t ht]
        exact h3 _ (fun i' t' hi' ht' =>
          ⟨fun e => (old i' t' hi' ht' t ht).1.2 e.symm, fun e => (old i' t' hi' ht' t ht).2.2 e.symm⟩)
      · have hi' : i < N := by omega
        rw [g3 _ (fun t' ht' => (old i t hi' ht t' ht').1)]
        exact h1 i t hi' ht
    · rw [forLoop_succ]
      by_cases hiN : i = N
      · subst hiN
        rw [g2 t ht]
        exact h3 _ (fun i' t' hi' ht' =>
          ⟨fun e => (old i' t' hi' ht' t ht).1.1 e.symm, fun e => (old i' t' hi' ht' t ht).2.1 e.symm⟩)
      · have hi' : i < N := by omega
        rw [g3 _ (fun t' ht' => (old i t hi' ht t' ht').2)]
        exact h2 i t hi' ht
    · rw [forLoop_succ, g3 p (fun t ht => hp N t hN ht)]
      exact h3 p (fun i t hi ht => hp i t (Nat.lt_succ_of_lt hi) ht)

/-! ### The flips, sample by sample -/

theorem block_inj (s i j i' j' : Nat) (hj : j < s) (hj' : j' < s)
    (h : i * s + j = i' * s + j') : i = i' ∧ j = j' := by
  have hs : 0 < s := by omega
  have e1 : (i * s + j) / s = i := by
    rw [Nat.add_comm, Nat.add_mul_div_right _ _ hs, Nat.div_eq_of_lt hj, Nat.zero_add]
  have e2 : (i' * s + j') / s = i' := by
    rw [Nat.add_comm, Nat.add_mul_div_right _ _ hs, Nat.div_eq_of_lt hj', Nat.zero_add]
  have hi : i = i' := by rw [← e1, ← e2, h]
  subst hi
  exact ⟨rfl, by omega⟩

theorem fliplr_swapped (d : Buf) (s l w : Nat) (hs : w ≤ s) :
    Swapped2 l (w / 2) (fun i t => i * s + t) (fun i t => i * s + w - 1 - t) d
      (fliplr d s l w) := by
  apply swapNest_spec
  intro i t i' t' _ ht _ ht'
  have eb : i * s + w - 1 - t = i * s + (w - 1 - t) := by omega
  have eb' : i' * s + w - 1 - t' = i' * s + (w - 1 - t') := by omega
  simp only [eb, eb']
  refine ⟨fun e => block_inj s i t i' t' (by omega) (by omega) e, fun e => ?_, fun e => ?_⟩
  · have := block_inj s i (w - 1 - t) i' (w - 1 - t') (by omega) (by omega) e
    exact ⟨this.1, by omega⟩
  · have := block_inj s i t i' (w - 1 - t') (by omega) (by omega) e
    omega

theorem fliplr_block (d : Buf) (s l w : Nat) (hs : w ≤ s) (i j : Nat) (hi : i < l)
    (hj : j < w) : fliplr d s l w (i * s + j) = d (i * s + (w - 1 - j)) := by
  obtain ⟨h1, h2, h3⟩ := fliplr_swapped d s l w hs
  by_cases c1 : j < w / 2
  · have := h1 i j hi c1
    simp only at this
    rw [this]; congr 1; omega
  · by_cases c2 : w - 1 - j < w / 2
    · have := h2 i (w - 1 - j) hi c2
      simp only at this
      have e : i * s + w - 1 - (w - 1 - j) = i * s + j := by omega
      rw [e] at this
      exact this
    · have e : w - 1 - j = j := by omega
      rw [e]
      apply h3
      intro i' t hi' ht
      simp only
      constructor
      · intro e'
        have := block_inj s i j i' t (by omega) (by omega) e'
        omega
      · intro e'
        have e'' : i' * s + w - 1 - t = i' * s + (w - 1 - t) := by omega
        rw [e''] at e'
        have := block_inj s i j i' (w - 1 - t) (by omega) (by omega) e'
        omega

theorem fliplr_frame (d : Buf) (s l w : Nat) (hs : w ≤ s) (p : Nat)
    (hp : ∀ i j, i < l → j < w → p ≠ i * s + j) : fliplr d s l w p = d p := by
  obtain ⟨_, _, h3⟩ := fliplr_swapped d s l w hs
  apply h3
  intro i t hi ht
  simp only
  refine ⟨hp i t hi (by omega), ?_⟩
  have e : i * s + w - 1 - t = i * s + (w - 1 - t) := by omega
  rw [e]
  exact hp i (w - 1 - t) hi (by omega)

theorem fliplr_fliplr (d : Buf) (s l w : Nat) (hs : w ≤ s) :
    fliplr (fliplr d s l w) s l w = d := by
  funext p
  by_cases h : ∃ i j, i < l ∧ j < w ∧ p = i * s + j
  · obtain ⟨i, j, hi, hj, rfl⟩ := h
    rw [fliplr_block _ s l w hs i j hi hj, fliplr_block d s l w hs i (w - 1 - j) hi (by omega)]
    congr 1; omega
  · have hp : ∀ i j, i < l → j < w → p ≠ i * s + j :=
      fun i j hi hj e => h ⟨i, j, hi, hj, e⟩
    rw [fliplr_frame _ s l w hs p hp, fliplr_frame d s l w hs p hp]

theorem flipud_swapped (d : Buf) (s l w : Nat) (hs : w ≤ s) :
    Swapped2 w (l / 2) (fun c r => r * s + c) (fun c r => (l - 1 - r) * s + c) d
      (flipud d s l w) := by
  apply swapNest_spec
  intro c r c' r' hc hr hc' hr'
  refine ⟨fun e => ?_, fun e => ?_, fun e => ?_⟩
  · have := block_inj s r c r' c' (by omega) (by omega) e
    exact ⟨this.2, this.1⟩
  · have := block_inj s (l - 1 - r) c (l - 1 - r') c' (by omega) (by omega) e
    exact ⟨this.2, by omega⟩
  · have := block_inj s r c (l - 1 - r') c' (by omega) (by omega) e
    omega

theorem flipud_block (d : Buf) (s l w : Nat) (hs : w ≤ s) (i j : Nat) (hi : i < l)
    (hj : j < w) : flipud d s l w (i * s + j) = d ((l - 1 - i) * s + j) := by
  obtain ⟨h1, h2, h3⟩ := flipud_swapped d s l w hs
  by_cases c1 : i < l / 2
  · exact h1 j i hj c1
  · by_cases c2 : l - 1 - i < l / 2
    · have := h2 j (l - 1 - i) hj c2
      simp only at this
      have e : l - 1 - (l - 1 - i) = i := by omega
      rw [e] at this
      exact this
    · have e : l - 1 - i = i := by omega
      rw [e]
      apply h3
      intro c r hc hr
      simp only
      constructor
      · intro e'
        have := block_inj s i j r c (by omega) (by omega) e'
        omega
      · intro e'
        have := block_inj s i j (l - 1 - r) c (by omega) (by omega) e'
        omega

theorem flipud_frame (d : Buf) (s l w : Nat) (hs : w ≤ s) (p : Nat)
    (hp : ∀ i j, i < l → j < w → p ≠ i * s + j) : flipud d s l w p = d p := by
  obtain ⟨_, _, h3⟩ := flipud_swapped d s l w hs
  apply h3
  intro c r hc hr
  simp only
  exact ⟨hp r c (by omega) hc, hp (l - 1 - r) c (by omega) hc⟩

theorem fliplrud_swapped (d : Buf) (s l w : Nat) (hs : w ≤ s) :
    Swapped2 (l / 2) w (fun i j => i * s + j) (fun i j => (l - 1 - i) * s + w - 1 - j) d
      (fliplrud d s l w) := by
  apply swapNest_spec
  intro i j i' j' hi hj hi' hj'
  have eb : (l - 1 - i) * s + w - 1 - j = (l - 1 - i) * s + (w - 1 - j) := by omega
  have eb' : (l - 1 - i') * s + w - 1 - j' = (l - 1 - i') * s + (w - 1 - j') := by omega
  simp only [eb, eb']
  refine ⟨fun e => block_inj s i j i' j' (by omega) (by omega) e, fun e => ?_, fun e => ?_⟩
  · have := block_inj s (l - 1 - i) (w - 1 - j) (l - 1 - i') (w - 1 - j') (by omega)
      (by omega) e
    exact ⟨by omega, by omega⟩
  · have := block_inj s i j (l - 1 - i') (w - 1 - j') (by omega) (by omega) e
    omega

theorem fliplrud_block (d : Buf) (s l w : Nat) (hs : w ≤ s) (hl : l % 2 = 0) (i j : Nat)
    (hi : i < l) (hj : j < w) :
    fliplrud d s l w (i * s + j) = d ((l - 1 - i) * s + (w - 1 - j)) := by
  obtain ⟨h1, h2, _⟩ := fliplrud_swapped d s l w hs
  by_cases c1 : i < l / 2
  · have := h1 i j c1 hj
    simp only at this
    rw [this]; congr 1; omega
  · have := h2 (l - 1 - i) (w - 1 - j) (by omega) (by omega)
    simp only at this
    have e1 : l - 1 - (l - 1 - i) = i := by omega
    have e2 : i * s + w - 1 - (w - 1 - j) = i * s + j := by omega
    rw [e1, e2] at this
    exact this

theorem fliplrud_frame (d : Buf) (s l w : Nat) (hs : w ≤ s) (p : Nat)
    (hp : ∀ i j, i < l → j < w → p ≠ i * s + j) : fliplrud d s l w p = d p := by
  obtain ⟨_, _, h3⟩ := fliplrud_swapped d s l w hs
  apply h3
  intro i j hi hj
  simp only
  refine ⟨hp i j (by omega) hj, ?_⟩
  have e : (l - 1 - i) * s + w - 1 - j = (l - 1 - i) * s + (w - 1 - j) := by omega
  rw [e]
  exact hp (l - 1 - i) (w - 1 - j) (by omega) (by omega)

theorem row_lt (s i i' j : Nat) (hj : j < s) (hi : i < i') : i * s + j < i' * s := by
  have : (i + 1) * s ≤ i' * s := Nat.mul_le_mul_right s hi
  have e : (i + 1) * s = i * s + s := by ring
  omega

theorem copy_block_block (src : Buf) (ss l w : Nat) (dest : Buf) (ds : Nat) (hs : w ≤ ds)
    (i j : Nat) (hi : i < l) (hj : j < w) :
    copy_block src ss l w dest ds (i * ds + j) = src (i * ss + j) := by
  unfold copy_block
  induction l with
  | zero => omega
  | succ l ih =>
    rw [forLoop_succ]
    unfold memcpy
    by_cases hil : i = l
    · subst hil
      have e : ds * i = i * ds := Nat.mul_comm _ _
      rw [if_pos (by omega)]
      congr 1
      rw [Nat.mul_comm ss i]; omega
    · have hlt : i < l := by omega
      have := row_lt ds i l j (by omega) hlt
      have e : ds * l = l * ds := Nat.mul_comm _ _
      rw [if_neg (by omega)]
      exact ih hlt

theorem copy_block_frame (src : Buf) (ss l w : Nat) (dest : Buf) (ds : Nat) (p : Nat)
    (hp : ∀ i j, i < l → j < w → p ≠ i * ds + j) :
    copy_block src ss l w dest ds p = dest p := by
  unfold copy_block
  induction l with
  | zero => rfl
  | succ l ih =>
    rw [forLoop_succ]
    unfold memcpy
    have e : ds * l = l * ds := Nat.mul_comm _ _
    have hn : ¬ (ds * l ≤ p ∧ p < ds * l + w) := by
      intro h
      exact hp l (p - ds * l) (Nat.lt_succ_self l) (by omega) (by omega)
    rw [if_neg hn]
    exact ih (fun i j hi hj => hp i j (Nat.lt_succ_of_lt hi) hj)

theorem copy_flipud_block (src : Buf) (ss l w : Nat) (dest : Buf) (i j : Nat) (hi : i < l)
    (hj : j < w) : copy_flipud src ss l w dest w (i * w + j) = src ((l - 1 - i) * ss + j) := by
  unfold copy_flipud
  rw [flipud_block _ w l w (Nat.le_refl w) i j hi hj,
    copy_block_block src ss l w dest w (Nat.le_refl w) (l - 1 - i) j (by omega) hj]

theorem copy_fliplr_block (src : Buf) (ss l w : Nat) (dest : Buf) (i j : Nat) (hi : i < l)
    (hj : j < w) : copy_fliplr src ss l w dest w (i * w + j) = src (i * ss + (w - 1 - j)) := by
  unfold copy_fliplr
  rw [fliplr_block _ w l w (Nat.le_refl w) i j hi hj,
    copy_block_block src ss l w dest w (Nat.le_refl w) i (w - 1 - j) hi (by omega)]

theorem copy_fliplrud_block (src : Buf) (ss l w : Nat) (dest : Buf) (hl : l % 2 = 0)
    (i j : Nat) (hi : i < l) (hj : j < w) :
    copy_fliplrud src ss l w dest w (i * w + j) = src ((l - 1 - i) * ss + (w - 1 - j)) := by
  unfold copy_fliplrud
  rw [fliplrud_block _ w l w (Nat.le_refl w) hl i j hi hj,
    copy_block_block src ss l w dest w (Nat.le_refl w) (l - 1 - i) (w - 1 - j) (by omega)
      (by omega)]

/-! ### Input conditioning, by transform type -/

theorem maybe_flip_input_noflip (src : Buf) (s l w : Nat) (buff : Buf) (t : Nat)
    (ht : t = DCT_DCT ∨ t = ADST_DCT ∨ t = DCT_ADST ∨ t = ADST_ADST ∨ t = IDTX ∨ t = V_DCT ∨
      t = H_DCT ∨ t = V_ADST ∨ t = H_ADST) :
    maybe_flip_input src s l w buff t = some ⟨src, s, buff⟩ := by
  unfold maybe_flip_input
  rw [if_pos ht]

theorem maybe_flip_input_ud (src : Buf) (s l w : Nat) (buff : Buf) (t : Nat)
    (ht : t = FLIPADST_DCT ∨ t = FLIPADST_ADST ∨ t = V_FLIPADST) :
    maybe_flip_input src s l w buff t
      = some ⟨copy_flipud src s l w buff w, w, copy_flipud src s l w buff w⟩ := by
  rcases ht with rfl | rfl | rfl <;> rfl

theorem maybe_flip_input_lr (src : Buf) (s l w : Nat) (buff : Buf) (t : Nat)
    (ht : t = DCT_FLIPADST ∨ t = ADST_FLIPADST ∨ t = H_FLIPADST) :
    maybe_flip_input src s l w buff t
      = some ⟨copy_fliplr src s l w buff w, w, copy_fliplr src s l w buff w⟩ := by
  rcases ht with rfl | rfl | rfl <;> rfl

theorem maybe_flip_input_lrud (src : Buf) (s l w : Nat) (buff : Buf) :
    maybe_flip_input src s l w buff FLIPADST_FLIPADST
      = some ⟨copy_fliplrud src s l w buff w, w, copy_fliplrud src s l w buff w⟩ := rfl

theorem maybe_flip_input_none (src : Buf) (s l w : Nat) (buff : Buf) (t : Nat)
    (ht : 16 ≤ t) : maybe_flip_input src s l w buff t = none := by
  unfold maybe_flip_input DCT_DCT ADST_DCT DCT_ADST ADST_ADST FLIPADST_DCT DCT_FLIPADST
    FLIPADST_FLIPADST ADST_FLIPADST FLIPADST_ADST IDTX V_DCT H_DCT V_ADST H_ADST V_FLIPADST
    H_FLIPADST
  unfold TX_TYPE
  rw [if_neg (by omega), if_neg (by omega), if_neg (by omega), if_neg (by omega)]

/-- What the passes read after input conditioning: sample `(r, c)` of the
conditioned source is sample `(rowMap l t r, colMap w t c)` of the caller. -/
theorem maybe_flip_input_src (src : Buf) (s l w : Nat) (buff : Buf) (t : Nat)
    (ht : t < 16) (hl : l % 2 = 0) :
    ∃ flip, maybe_flip_input src s l w buff t = some flip ∧
      ∀ r c, r < l → c < w →
        flip.src (r * flip.src_stride + c) = src (rowMap l t r * s + colMap w t c) := by
  interval_cases t
  case «4» | «8» | «14» =>
    exact ⟨_, rfl, fun r c hr hc => copy_flipud_block src s l w buff r c hr hc⟩
  case «5» | «7» | «15» =>
    exact ⟨_, rfl, fun r c hr hc => copy_fliplr_block src s l w buff r c hr hc⟩
  case «6» =>
    exact ⟨_, rfl, fun r c hr hc => copy_fliplrud_block src s l w buff hl r c hr hc⟩
  all_goals exact ⟨_, rfl, fun r c _ _ => rfl⟩

theorem rowMap_lt (l : Nat) (t : Nat) (r : Nat) (hr : r < l) : rowMap l t r < l := by
  unfold rowMap; split <;> omega

theorem colMap_lt (w : Nat) (t : Nat) (c : Nat) (hc : c < w) : colMap w t c < w := by
  unfold colMap; split <;> omega

/-! ### The common shape -/

theorem fhtCore_congr (l w N1 n1 : Nat) (ro co : Nat → Nat → Nat)
    (k1 k2 : transform_2d → transform_1d) (scIn : Int → Int) (adj : Nat → Buf → Buf)
    (scMid : Int → Int) (idx2 : Nat → Nat → Nat) (scOut : Int → Int)
    (ht : transform_2d) (B B' : Nat → Nat → Int) (output : Buf)
    (hro : ∀ i j, i < N1 → j < n1 → ro i j < l ∧ co i j < w)
    (hB : ∀ r c, r < l → c < w → B r c = B' r c) :
    fhtCore N1 n1 ro co k1 k2 scIn adj scMid idx2 scOut ht B output
      = fhtCore N1 n1 ro co k1 k2 scIn adj scMid idx2 scOut ht B' output := by
  unfold fhtCore
  rw [txfmPass_congr N1 n1 (fun i j => scIn (B (ro i j) (co i j)))
    (fun i j => scIn (B' (ro i j) (co i j))) adj (k1 ht) _ scMid _
    (fun i j hi hj => by
      simp only
      rw [hB _ _ (hro i j hi hj).1 (hro i j hi hj).2])]

/-- A transform of the common shape, in terms of the samples of the caller's
block. -/
theorem fht2d_canon (tbl : List transform_2d) (l w N1 n1 : Nat) (ro co : Nat → Nat → Nat)
    (k1 k2 : transform_2d → transform_1d) (scIn : Int → Int) (adj : Nat → Buf → Buf)
    (scMid : Int → Int) (idx2 : Nat → Nat → Nat) (scOut : Int → Int)
    (input output : Buf) (stride : Nat) (t : Nat) (h : transform_2d)
    (hro : ∀ i j, i < N1 → j < n1 → ro i j < l ∧ co i j < w)
    (ht : t < 16) (hl : l % 2 = 0) (htbl : tbl[t]? = some h) :
    fht2d tbl l w N1 n1 ro co k1 k2 scIn adj scMid idx2 scOut input output stride t
      = some (fhtCore N1 n1 ro co k1 k2 scIn adj scMid idx2 scOut h
          (fun r c => input (rowMap l t r * stride + colMap w t c)) output) := by
  obtain ⟨flip, hf, hsrc⟩ := maybe_flip_input_src input stride l w zeroBuf t ht hl
  unfold fht2d
  rw [htbl, hf]
  simp only [Option.bind_eq_bind, Option.some_bind, Option.some.injEq]
  exact fhtCore_congr l w N1 n1 ro co k1 k2 scIn adj scMid idx2 scOut h _ _ output hro hsrc

theorem fht2d_flip (tbl : List transform_2d) (l w N1 n1 : Nat) (ro co : Nat → Nat → Nat)
    (k1 k2 : transform_2d → transform_1d) (scIn : Int → Int) (adj : Nat → Buf → Buf)
    (scMid : Int → Int) (idx2 : Nat → Nat → Nat) (scOut : Int → Int)
    (input output : Buf) (stride : Nat) (tf tu : Nat) (M : Buf) (h : transform_2d)
    (hro : ∀ i j, i < N1 → j < n1 → ro i j < l ∧ co i j < w) (hl : l % 2 = 0)
    (htf : tf < 16) (htu : tu < 16) (h1 : tbl[tf]? = some h) (h2 : tbl[tu]? = some h)
    (hM : ∀ r c, r < l → c < w →
      input (rowMap l tf r * stride + colMap w tf c)
        = M (rowMap l tu r * stride + colMap w tu c)) :
    fht2d tbl l w N1 n1 ro co k1 k2 scIn adj scMid idx2 scOut input output stride tf
      = fht2d tbl l w N1 n1 ro co k1 k2 scIn adj scMid idx2 scOut M output stride tu := by
  rw [fht2d_canon tbl l w N1 n1 ro co k1 k2 scIn adj scMid idx2 scOut input output stride tf h
      hro htf hl h1,
    fht2d_canon tbl l w N1 n1 ro co k1 k2 scIn adj scMid idx2 scOut M output stride tu h
      hro htu hl h2]
  exact congrArg some
    (fhtCore_congr l w N1 n1 ro co k1 k2 scIn adj scMid idx2 scOut h _ _ output hro hM)

theorem fht2d_flips (tbl : List transform_2d) (l w N1 n1 : Nat) (ro co : Nat → Nat → Nat)
    (k1 k2 : transform_2d → transform_1d) (scIn : Int → Int) (adj : Nat → Buf → Buf)
    (scMid : Int → Int) (idx2 : Nat → Nat → Nat) (scOut : Int → Int)
    (hro : ∀ i j, i < N1 → j < n1 → ro i j < l ∧ co i j < w) (hl : l % 2 = 0)
    (hsome : ∀ t, t < 16 → ∃ h, tbl[t]? = some h)
    (e41 : tbl[4]? = tbl[1]?) (e52 : tbl[5]? = tbl[2]?) (e83 : tbl[8]? = tbl[3]?)
    (e73 : tbl[7]? = tbl[3]?) (e63 : tbl[6]? = tbl[3]?) (e1412 : tbl[14]? = tbl[12]?)
    (e1513 : tbl[15]? = tbl[13]?) :
    FlipLaws w l (fht2d tbl l w N1 n1 ro co k1 k2 scIn adj scMid idx2 scOut) := by
  intro x output stride hw
  have ud : ∀ r c, r < l → c < w →
      x ((l - 1 - r) * stride + c) = flipud x stride l w (r * stride + c) :=
    fun r c hr hc => (flipud_block x stride l w hw r c hr hc).symm
  have lr : ∀ r c, r < l → c < w →
      x (r * stride + (w - 1 - c)) = fliplr x stride l w (r * stride + c) :=
    fun r c hr hc => (fliplr_block x stride l w hw r c hr hc).symm
  have both : ∀ r c, r < l → c < w →
      x ((l - 1 - r) * stride + (w - 1 - c))
        = flipud (fliplr x stride l w) stride l w (r * stride + c) := by
    intro r c hr hc
    rw [flipud_block _ stride l w hw r c hr hc,
      fliplr_block x stride l w hw (l - 1 - r) c (by omega) hc]
  refine ⟨?_, ?_, ?_, ?_, ?_, ?_, ?_⟩
  · obtain ⟨h, hh⟩ := hsome 1 (by norm_num)
    exact fht2d_flip tbl l w N1 n1 ro co k1 k2 scIn adj scMid idx2 scOut x output stride 4 1 _ h
      hro hl (by norm_num) (by norm_num) (e41.trans hh) hh ud
  · obtain ⟨h, hh⟩ := hsome 2 (by norm_num)
    exact fht2d_flip tbl l w N1 n1 ro co k1 k2 scIn adj scMid idx2 scOut x output stride 5 2 _ h
      hro hl (by norm_num) (by norm_num) (e52.trans hh) hh lr
  · obtain ⟨h, hh⟩ := hsome 3 (by norm_num)
    exact fht2d_flip tbl l w N1 n1 ro co k1 k2 scIn adj scMid idx2 scOut x output stride 8 3 _ h
      hro hl (by norm_num) (by norm_num) (e83.trans hh) hh ud
  · obtain ⟨h, hh⟩ := hsome 3 (by norm_num)
    exact fht2d_flip tbl l w N1 n1 ro co k1 k2 scIn adj scMid idx2 scOut x output stride 7 3 _ h
      hro hl (by norm_num) (by norm_num) (e73.trans hh) hh lr
  · obtain ⟨h, hh⟩ := hsome 3 (by norm_num)
    exact fht2d_flip tbl l w N1 n1 ro co k1 k2 scIn adj scMid idx2 scOut x output stride 6 3 _ h
      hro hl (by norm_num) (by norm_num) (e63.trans hh) hh both
  · obtain ⟨h, hh⟩ := hsome 12 (by norm_num)
    exact fht2d_flip tbl l w N1 n1 ro co k1 k2 scIn adj scMid idx2 scOut x output stride 14 12 _
      h hro hl (by norm_num) (by norm_num) (e1412.trans hh) hh ud
  · obtain ⟨h, hh⟩ := hsome 13 (by norm_num)
    exact fht2d_flip tbl l w N1 n1 ro co k1 k2 scIn adj scMid idx2 scOut x output stride 15 13 _
      h hro hl (by norm_num) (by norm_num) (e1513.trans hh) hh lr

/-- On a block whose samples all equal `a`, with kernels that send constant
vectors to constant vectors, every coefficient the second pass writes is the
same value. -/
theorem fhtCore_uniform (N1 n1 : Nat) (ro co : Nat → Nat → Nat)
    (k1 k2 : transform_2d → transform_1d) (scIn : Int → Int) (adj : Nat → Buf → Buf)
    (scMid : Int → Int) (idx2 : Nat → Nat → Nat) (scOut : Int → Int)
    (ht : transform_2d) (B : Nat → Nat → Int) (output : Buf) (a b1 b2 : Int)
    (hB : ∀ i j, i < N1 → j < n1 → B (ro i j) (co i j) = a)
    (hadj : ∀ i t, (∀ j, j < n1 → t j = scIn a) → ∀ j, j < n1 → adj i t j = scIn a)
    (hk1 : ∀ inp o : Buf, (∀ j, j < n1 → inp j = scIn a) → ∀ j, j < n1 → k1 ht inp o j = b1)
    (hk2 : ∀ inp o : Buf, (∀ j, j < N1 → inp j = scMid b1) → ∀ j, j < N1 → k2 ht inp o j = b2)
    (i j : Nat) (hi : i < n1) (hj : j < N1) :
    fhtCore N1 n1 ro co k1 k2 scIn adj scMid idx2 scOut ht B output (idx2 i j) = scOut b2 := by
  unfold fhtCore
  rw [txfmPass_uniform n1 N1 _ (k2 ht) idx2 scOut _ (fun _ t => t) (scMid b1) b2 ?_ ?_ ?_ i j
    hi hj]
  · intro i j hi hj
    have e : j + i * N1 = (fun i j => j * N1 + i) j i := by simp only; omega
    rw [e, txfmPass_uniform N1 n1 _ (k1 ht) (fun i j => j * N1 + i) scMid _ adj (scIn a) b1
      ?_ ?_ ?_ j i hj hi]
    · intro i j hi hj
      rw [hB i j hi hj]
    · exact fun i t _ => hadj i t
    · exact hk1
  · exact fun i t _ ht j hj => ht j hj
  · exact hk2

theorem fht2d_some (tbl : List transform_2d) (l w N1 n1 : Nat) (ro co : Nat → Nat → Nat)
    (k1 k2 : transform_2d → transform_1d) (scIn : Int → Int) (adj : Nat → Buf → Buf)
    (scMid : Int → Int) (idx2 : Nat → Nat → Nat) (scOut : Int → Int)
    (input output : Buf) (stride : Nat) (t : Nat)
    (hro : ∀ i j, i < N1 → j < n1 → ro i j < l ∧ co i j < w) (hl : l % 2 = 0)
    (hsome : ∀ t, t < 16 → ∃ h, tbl[t]? = some h) (ht : t < 16) :
    ∃ p, fht2d tbl l w N1 n1 ro co k1 k2 scIn adj scMid idx2 scOut input output stride t
      = some p := by
  obtain ⟨h, hh⟩ := hsome t ht
  exact ⟨_, fht2d_canon tbl l w N1 n1 ro co k1 k2 scIn adj scMid idx2 scOut input output stride
    t h hro ht hl hh⟩

theorem fht2d_zero (tbl : List transform_2d) (l w N1 n1 : Nat) (ro co : Nat → Nat → Nat)
    (k1 k2 : transform_2d → transform_1d) (scIn : Int → Int) (adj : Nat → Buf → Buf)
    (scMid : Int → Int) (idx2 : Nat → Nat → Nat) (scOut : Int → Int)
    (hro : ∀ i j, i < N1 → j < n1 → ro i j < l ∧ co i j < w) (hl : l % 2 = 0)
    (htbl : ∀ t, t < 16 → ∃ h, tbl[t]? = some h ∧ ZeroPres n1 (k1 h) ∧ ZeroPres N1 (k2 h))
    (hIn : scIn 0 = 0) (hMid : scMid 0 = 0) (hOut : scOut 0 = 0)
    (hadj : ∀ i t, (∀ j, j < n1 → t j = 0) → ∀ j, j < n1 → adj i t j = 0)
    (hcov : ∀ k, k < w * l → ∃ i j, i < n1 ∧ j < N1 ∧ idx2 i j = k) :
    ZeroToZero w l (fht2d tbl l w N1 n1 ro co k1 k2 scIn adj scMid idx2 scOut) := by
  intro x output stride t ht hz
  obtain ⟨h, hh, z1, z2⟩ := htbl t ht
  refine ⟨_, fht2d_canon tbl l w N1 n1 ro co k1 k2 scIn adj scMid idx2 scOut x output stride t h
    hro ht hl hh, ?_⟩
  intro k hk
  obtain ⟨i, j, hi, hj, rfl⟩ := hcov k hk
  rw [fhtCore_uniform N1 n1 ro co k1 k2 scIn adj scMid idx2 scOut h _ output 0 0 0 ?_ ?_ ?_ ?_
    i j hi hj, hOut]
  · intro i j hi hj
    exact hz _ _ (rowMap_lt l t _ (hro i j hi hj).1) (colMap_lt w t _ (hro i j hi hj).2)
  · rw [hIn]; exact hadj
  · rw [hIn]; exact fun inp o => z1 inp o
  · rw [hMid]; exact fun inp o => z2 inp o

/-! ### The table-driven transforms, one by one -/

theorem adj4x4_zero (i : Nat) (t : Buf) (h : ∀ j, j < 4 → t j = 0) (j : Nat) (hj : j < 4) :
    adj4x4 i t j = 0 := by
  unfold adj4x4
  rw [if_neg (fun c => c.2 (h 0 (by norm_num)))]
  exact h j hj

theorem av1_fht4x4_c_table_flipLaws : FlipLaws 4 4 av1_fht4x4_c_table := by
  rw [av1_fht4x4_c_table_eq]
  exact fht2d_flips _ _ _ _ _ _ _ _ _ _ _ _ _ _ (fun i j hi hj => ⟨hj, hi⟩) rfl
    (fun t ht => by interval_cases t <;> exact ⟨_, rfl⟩) rfl rfl rfl rfl rfl rfl rfl

theorem av1_fht4x4_c_table_zeroToZero : ZeroToZero 4 4 av1_fht4x4_c_table := by
  rw [av1_fht4x4_c_table_eq]
  refine fht2d_zero _ _ _ _ _ _ _ _ _ _ _ _ _ _ (fun i j hi hj => ⟨hj, hi⟩) rfl ?_ (by decide) (by decide)
    (by decide) (adj4x4_zero)
    (fun k hk => ⟨k / 4, k % 4, by omega, by omega, by omega⟩)
  intro t ht
  interval_cases t
  · exact ⟨_, rfl, fdct4_zeroPres, fdct4_zeroPres⟩
  · exact ⟨_, rfl, fadst4_zeroPres, fdct4_zeroPres⟩
  · exact ⟨_, rfl, fdct4_zeroPres, fadst4_zeroPres⟩
  · exact ⟨_, rfl, fadst4_zeroPres, fadst4_zeroPres⟩
  · exact ⟨_, rfl, fadst4_zeroPres, fdct4_zeroPres⟩
  · exact ⟨_, rfl, fdct4_zeroPres, fadst4_zeroPres⟩
  · exact ⟨_, rfl, fadst4_zeroPres, fadst4_zeroPres⟩
  · exact ⟨_, rfl, fadst4_zeroPres, fadst4_zeroPres⟩
  · exact ⟨_, rfl, fadst4_zeroPres, fadst4_zeroPres⟩
  · exact ⟨_, rfl, fidtx4_zeroPres, fidtx4_zeroPres⟩
  · exact ⟨_, rfl, fdct4_zeroPres, fidtx4_zeroPres⟩
  · exact ⟨_, rfl, fidtx4_zeroPres, fdct4_zeroPres⟩
  · exact ⟨_, rfl, fadst4_zeroPres, fidtx4_zeroPres⟩
  · exact ⟨_, rfl, fidtx4_zeroPres, fadst4_zeroPres⟩
  · exact ⟨_, rfl, fadst4_zeroPres, fidtx4_zeroPres⟩
  · exact ⟨_, rfl, fidtx4_zeroPres, fadst4_zeroPres⟩

theorem av1_fht4x8_c_flipLaws : FlipLaws 4 8 av1_fht4x8_c := by
  rw [av1_fht4x8_c_eq]
  exact fht2d_flips _ _ _ _ _ _ _ _ _ _ _ _ _ _ (fun i j hi hj => ⟨hi, hj⟩) rfl
    (fun t ht => by interval_cases t <;> exact ⟨_, rfl⟩) rfl rfl rfl rfl rfl rfl rfl

theorem av1_fht4x8_c_zeroToZero : ZeroToZero 4 8 av1_fht4x8_c := by
  rw [av1_fht4x8_c_eq]
  refine fht2d_zero _ _ _ _ _ _ _ _ _ _ _ _ _ _ (fun i j hi hj => ⟨hi, hj⟩) rfl ?_ (by decide) (by decide)
    (by decide) (fun _ t h => h)
    (fun k hk => ⟨k % 4, k / 4, by omega, by omega, by omega⟩)
  intro t ht
  interval_cases t
  · exact ⟨_, rfl, fdct4_zeroPres, fdct8_zeroPres⟩
  · exact ⟨_, rfl, fdct4_zeroPres, fadst8_zeroPres⟩
  · exact ⟨_, rfl, fadst4_zeroPres, fdct8_zeroPres⟩
  · exact ⟨_, rfl, fadst4_zeroPres, fadst8_zeroPres⟩
  · exact ⟨_, rfl, fdct4_zeroPres, fadst8_zeroPres⟩
  · exact ⟨_, rfl, fadst4_zeroPres, fdct8_zeroPres⟩
  · exact ⟨_, rfl, fadst4_zeroPres, fadst8_zeroPres⟩
  · exact ⟨_, rfl, fadst4_zeroPres, fadst8_zeroPres⟩
  · exact ⟨_, rfl, fadst4_zeroPres, fadst8_zeroPres⟩
  · exact ⟨_, rfl, fidtx4_zeroPres, fidtx8_zeroPres⟩
  · exact ⟨_, rfl, fidtx4_zeroPres, fdct8_zeroPres⟩
  · exact ⟨_, rfl, fdct4_zeroPres, fidtx8_zeroPres⟩
  · exact ⟨_, rfl, fidtx4_zeroPres, fadst8_zeroPres⟩
  · exact ⟨_, rfl, fadst4_zeroPres, fidtx8_zeroPres⟩
  · exact ⟨_, rfl, fidtx4_zeroPres, fadst8_zeroPres⟩
  · exact ⟨_, rfl, fadst4_zeroPres, fidtx8_zeroPres⟩

theorem av1_fht8x4_c_flipLaws : FlipLaws 8 4 av1_fht8x4_c := by
  rw [av1_fht8x4_c_eq]
  exact fht2d_flips _ _ _ _ _ _ _ _ _ _ _ _ _ _ (fun i j hi hj => ⟨hj, hi⟩) rfl
    (fun t ht => by interval_cases t <;> exact ⟨_, rfl⟩) rfl rfl rfl rfl rfl rfl rfl

theorem av1_fht8x4_c_zeroToZero : ZeroToZero 8 4 av1_fht8x4_c := by
  rw [av1_fht8x4_c_eq]
  refine fht2d_zero _ _ _ _ _ _ _ _ _ _ _ _ _ _ (fun i j hi hj => ⟨hj, hi⟩) rfl ?_ (by decide) (by decide)
    (by decide) (fun _ t h => h)
    (fun k hk => ⟨k / 8, k % 8, by omega, by omega, by omega⟩)
  intro t ht
  interval_cases t
  · exact ⟨_, rfl, fdct4_zeroPres, fdct8_zeroPres⟩
  · exact ⟨_, rfl, fadst4_zeroPres, fdct8_zeroPres⟩
  · exact ⟨_, rfl, fdct4_zeroPres, fadst8_zeroPres⟩
  · exact ⟨_, rfl, fadst4_zeroPres, fadst8_zeroPres⟩
  · exact ⟨_, rfl, fadst4_zeroPres, fdct8_zeroPres⟩
  · exact ⟨_, rfl, fdct4_zeroPres, fadst8_zeroPres⟩
  · exact ⟨_, rfl, fadst4_zeroPres, fadst8_zeroPres⟩
  · exact ⟨_, rfl, fadst4_zeroPres, fadst8_zeroPres⟩
  · exact ⟨_, rfl, fadst4_zeroPres, fadst8_zeroPres⟩
  · exact ⟨_, rfl, fidtx4_zeroPres, fidtx8_zeroPres⟩
  · exact ⟨_, rfl, fdct4_zeroPres, fidtx8_zeroPres⟩
  · exact ⟨_, rfl, fidtx4_zeroPres, fdct8_zeroPres⟩
  · exact ⟨_, rfl, fadst4_zeroPres, fidtx8_zeroPres⟩
  · exact ⟨_, rfl, fidtx4_zeroPres, fadst8_zeroPres⟩
  · exact ⟨_, rfl, fadst4_zeroPres, fidtx8_zeroPres⟩
  · exact ⟨_, rfl, fidtx4_zeroPres, fadst8_zeroPres⟩

theorem av1_fht4x16_c_flipLaws : FlipLaws 4 16 av1_fht4x16_c := by
  rw [av1_fht4x16_c_eq]
  exact fht2d_flips _ _ _ _ _ _ _ _ _ _ _ _ _ _ (fun i j hi hj => ⟨hi, hj⟩) rfl
    (fun t ht => by interval_cases t <;> exact ⟨_, rfl⟩) rfl rfl rfl rfl rfl rfl rfl

theorem av1_fht4x16_c_zeroToZero : ZeroToZero 4 16 av1_fht4x16_c := by
  rw [av1_fht4x16_c_eq]
  refine fht2d_zero _ _ _ _ _ _ _ _ _ _ _ _ _ _ (fun i j hi hj => ⟨hi, hj⟩) rfl ?_ (by decide) (by decide)
    (by decide) (fun _ t h => h)
    (fun k hk => ⟨k % 4, k / 4, by omega, by omega, by omega⟩)
  intro t ht
  interval_cases t
  · exact ⟨_, rfl, fdct4_zeroPres, fdct16_zeroPres⟩
  · exact ⟨_, rfl, fdct4_zeroPres, fadst16_zeroPres⟩
  · exact ⟨_, rfl, fadst4_zeroPres, fdct16_zeroPres⟩
  · exact ⟨_, rfl, fadst4_zeroPres, fadst16_zeroPres⟩
  · exact ⟨_, rfl, fdct4_zeroPres, fadst16_zeroPres⟩
  · exact ⟨_, rfl, fadst4_zeroPres, fdct16_zeroPres⟩
  · exact ⟨_, rfl, fadst4_zeroPres, fadst16_zeroPres⟩
  · exact ⟨_, rfl, fadst4_zeroPres, fadst16_zeroPres⟩
  · exact ⟨_, rfl, fadst4_zeroPres, fadst16_zeroPres⟩
  · exact ⟨_, rfl, fidtx4_zeroPres, fidtx16_zeroPres⟩
  · exact ⟨_, rfl, fidtx4_zeroPres, fdct16_zeroPres⟩
  · exact ⟨_, rfl, fdct4_zeroPres, fidtx16_zeroPres⟩
  · exact ⟨_, rfl, fidtx4_zeroPres, fadst16_zeroPres⟩
  · exact ⟨_, rfl, fadst4_zeroPres, fidtx16_zeroPres⟩
  · exact ⟨_, rfl, fidtx4_zeroPres, fadst16_zeroPres⟩
  · exact ⟨_, rfl, fadst4_zeroPres, fidtx16_zeroPres⟩

theorem av1_fht16x4_c_flipLaws : FlipLaws 16 4 av1_fht16x4_c := by
  rw [av1_fht16x4_c_eq]
  exact fht2d_flips _ _ _ _ _ _ _ _ _ _ _ _ _ _ (fun i j hi hj => ⟨hj, hi⟩) rfl
    (fun t ht => by interval_cases t <;> exact ⟨_, rfl⟩) rfl rfl rfl rfl rfl rfl rfl

theorem av1_fht16x4_c_zeroToZero : ZeroToZero 16 4 av1_fht16x4_c := by
  rw [av1_fht16x4_c_eq]
  refine fht2d_zero _ _ _ _ _ _ _ _ _ _ _ _ _ _ (fun i j hi hj => ⟨hj, hi⟩) rfl ?_ (by decide) (by decide)
    (by decide) (fun _ t h => h)
    (fun k hk => ⟨k / 16, k % 16, by omega, by omega, by omega⟩)
  intro t ht
  interval_cases t
  · exact ⟨_, rfl, fdct4_zeroPres, fdct16_zeroPres⟩
  · exact ⟨_, rfl, fadst4_zeroPres, fdct16_zeroPres⟩
  · exact ⟨_, rfl, fdct4_zeroPres, fadst16_zeroPres⟩
  · exact ⟨_, rfl, fadst4_zeroPres, fadst16_zeroPres⟩
  · exact ⟨_, rfl, fadst4_zeroPres, fdct16_zeroPres⟩
  · exact ⟨_, rfl, fdct4_zeroPres, fadst16_zeroPres⟩
  · exact ⟨_, rfl, fadst4_zeroPres, fadst16_zeroPres⟩
  · exact ⟨_, rfl, fadst4_zeroPres, fadst16_zeroPres⟩
  · exact ⟨_, rfl, fadst4_zeroPres, fadst16_zeroPres⟩
  · exact ⟨_, rfl, fidtx4_zeroPres, fidtx16_zeroPres⟩
  · exact ⟨_, rfl, fdct4_zeroPres, fidtx16_zeroPres⟩
  · exact ⟨_, rfl, fidtx4_zeroPres, fdct16_zeroPres⟩
  · exact ⟨_, rfl, fadst4_zeroPres, fidtx16_zeroPres⟩
  · exact ⟨_, rfl, fidtx4_zeroPres, fadst16_zeroPres⟩
  · exact ⟨_, rfl, fadst4_zeroPres, fidtx16_zeroPres⟩
  · exact ⟨_, rfl, fidtx4_zeroPres, fadst16_zeroPres⟩

theorem av1_fht8x16_c_flipLaws : FlipLaws 8 16 av1_fht8x16_c := by
  rw [av1_fht8x16_c_eq]
  exact fht2d_flips _ _ _ _ _ _ _ _ _ _ _ _ _ _ (fun i j hi hj => ⟨hi, hj⟩) rfl
    (fun t ht => by interval_cases t <;> exact ⟨_, rfl⟩) rfl rfl rfl rfl rfl rfl rfl

theorem av1_fht8x16_c_zeroToZero : ZeroToZero 8 16 av1_fht8x16_c := by
  rw [av1_fht8x16_c_eq]
  refine fht2d_zero _ _ _ _ _ _ _ _ _ _ _ _ _ _ (fun i j hi hj => ⟨hi, hj⟩) rfl ?_ (by decide) (by decide)
    (by decide) (fun _ t h => h)
    (fun k hk => ⟨k % 8, k / 8, by omega, by omega, by omega⟩)
  intro t ht
  interval_cases t
  · exact ⟨_, rfl, fdct8_zeroPres, fdct16_zeroPres⟩
  · exact ⟨_, rfl, fdct8_zeroPres, fadst16_zeroPres⟩
  · exact ⟨_, rfl, fadst8_zeroPres, fdct16_zeroPres⟩
  · exact ⟨_, rfl, fadst8_zeroPres, fadst16_zeroPres⟩
  · exact ⟨_, rfl, fdct8_zeroPres, fadst16_zeroPres⟩
  · exact ⟨_, rfl, fadst8_zeroPres, fdct16_zeroPres⟩
  · exact ⟨_, rfl, fadst8_zeroPres, fadst16_zeroPres⟩
  · exact ⟨_, rfl, fadst8_zeroPres, fadst16_zeroPres⟩
  · exact ⟨_, rfl, fadst8_zeroPres, fadst16_zeroPres⟩
  · exact ⟨_, rfl, fidtx8_zeroPres, fidtx16_zeroPres⟩
  · exact ⟨_, rfl, fidtx8_zeroPres, fdct16_zeroPres⟩
  · exact ⟨_, rfl, fdct8_zeroPres, fidtx16_zeroPres⟩
  · exact ⟨_, rfl, fidtx8_zeroPres, fadst16_zeroPres⟩
  · exact ⟨_, rfl, fadst8_zeroPres, fidtx16_zeroPres⟩
  · exact ⟨_, rfl, fidtx8_zeroPres, fadst16_zeroPres⟩
  · exact ⟨_, rfl, fadst8_zeroPres, fidtx16_zeroPres⟩

theorem av1_fht16x8_c_flipLaws : FlipLaws 16 8 av1_fht16x8_c := by
  rw [av1_fht16x8_c_eq]
  exact fht2d_flips _ _ _ _ _ _ _ _ _ _ _ _ _ _ (fun i j hi hj => ⟨hj, hi⟩) rfl
    (fun t ht => by interval_cases t <;> exact ⟨_, rfl⟩) rfl rfl rfl rfl rfl rfl rfl

theorem av1_fht16x8_c_zeroToZero : ZeroToZero 16 8 av1_fht16x8_c := by
  rw [av1_fht16x8_c_eq]
  refine fht2d_zero _ _ _ _ _ _ _ _ _ _ _ _ _ _ (fun i j hi hj => ⟨hj, hi⟩) rfl ?_ (by decide) (by decide)
    (by decide) (fun _ t h => h)
    (fun k hk => ⟨k / 16, k % 16, by omega, by omega, by omega⟩)
  intro t ht
  interval_cases t
  · exact ⟨_, rfl, fdct8_zeroPres, fdct16_zeroPres⟩
  · exact ⟨_, rfl, fadst8_zeroPres, fdct16_zeroPres⟩
  · exact ⟨_, rfl, fdct8_zeroPres, fadst16_zeroPres⟩
  · exact ⟨_, rfl, fadst8_zeroPres, fadst16_zeroPres⟩
  · exact ⟨_, rfl, fadst8_zeroPres, fdct16_zeroPres⟩
  · exact ⟨_, rfl, fdct8_zeroPres, fadst16_zeroPres⟩
  · exact ⟨_, rfl, fadst8_zeroPres, fadst16_zeroPres⟩
  · exact ⟨_, rfl, fadst8_zeroPres, fadst16_zeroPres⟩
  · exact ⟨_, rfl, fadst8_zeroPres, fadst16_zeroPres⟩
  · exact ⟨_, rfl, fidtx8_zeroPres, fidtx16_zeroPres⟩
  · exact ⟨_, rfl, fdct8_zeroPres, fidtx16_zeroPres⟩
  · exact ⟨_, rfl, fidtx8_zeroPres, fdct16_zeroPres⟩
  · exact ⟨_, rfl, fadst8_zeroPres, fidtx16_zeroPres⟩
  · exact ⟨_, rfl, fidtx8_zeroPres, fadst16_zeroPres⟩
  · exact ⟨_, rfl, fadst8_zeroPres, fidtx16_zeroPres⟩
  · exact ⟨_, rfl, fidtx8_zeroPres, fadst16_zeroPres⟩

theorem av1_fht8x32_c_flipLaws : FlipLaws 8 32 av1_fht8x32_c := by
  rw [av1_fht8x32_c_eq]
  exact fht2d_flips _ _ _ _ _ _ _ _ _ _ _ _ _ _ (fun i j hi hj => ⟨hi, hj⟩) rfl
    (fun t ht => by interval_cases t <;> exact ⟨_, rfl⟩) rfl rfl rfl rfl rfl rfl rfl

theorem av1_fht8x32_c_zeroToZero : ZeroToZero 8 32 av1_fht8x32_c := by
  rw [av1_fht8x32_c_eq]
  refine fht2d_zero _ _ _ _ _ _ _ _ _ _ _ _ _ _ (fun i j hi hj => ⟨hi, hj⟩) rfl ?_ (by decide) (by decide)
    (by decide) (fun _ t h => h)
    (fun k hk => ⟨k % 8, k / 8, by omega, by omega, by omega⟩)
  intro t ht
  interval_cases t
  · exact ⟨_, rfl, fdct8_zeroPres, fdct32_zeroPres⟩
  · exact ⟨_, rfl, fdct8_zeroPres, fhalfright32_zeroPres⟩
  · exact ⟨_, rfl, fadst8_zeroPres, fdct32_zeroPres⟩
  · exact ⟨_, rfl, fadst8_zeroPres, fhalfright32_zeroPres⟩
  · exact ⟨_, rfl, fdct8_zeroPres, fhalfright32_zeroPres⟩
  · exact ⟨_, rfl, fadst8_zeroPres, fdct32_zeroPres⟩
  · exact ⟨_, rfl, fadst8_zeroPres, fhalfright32_zeroPres⟩
  · exact ⟨_, rfl, fadst8_zeroPres, fhalfright32_zeroPres⟩
  · exact ⟨_, rfl, fadst8_zeroPres, fhalfright32_zeroPres⟩
  · exact ⟨_, rfl, fidtx8_zeroPres, fidtx32_zeroPres⟩
  · exact ⟨_, rfl, fidtx8_zeroPres, fdct32_zeroPres⟩
  · exact ⟨_, rfl, fdct8_zeroPres, fidtx32_zeroPres⟩
  · exact ⟨_, rfl, fidtx8_zeroPres, fhalfright32_zeroPres⟩
  · exact ⟨_, rfl, fadst8_zeroPres, fidtx32_zeroPres⟩
  · exact ⟨_, rfl, fidtx8_zeroPres, fhalfright32_zeroPres⟩
  · exact ⟨_, rfl, fadst8_zeroPres, fidtx32_zeroPres⟩

theorem av1_fht32x8_c_flipLaws : FlipLaws 32 8 av1_fht32x8_c := by
  rw [av1_fht32x8_c_eq]
  exact fht2d_flips _ _ _ _ _ _ _ _ _ _ _ _ _ _ (fun i j hi hj => ⟨hj, hi⟩) rfl
    (fun t ht => by interval_cases t <;> exact ⟨_, rfl⟩) rfl rfl rfl rfl rfl rfl rfl

theorem av1_fht32x8_c_zeroToZero : ZeroToZero 32 8 av1_fht32x8_c := by
  rw [av1_fht32x8_c_eq]
  refine fht2d_zero _ _ _ _ _ _ _ _ _ _ _ _ _ _ (fun i j hi hj => ⟨hj, hi⟩) rfl ?_ (by decide) (by decide)
    (by decide) (fun _ t h => h)
    (fun k hk => ⟨k / 32, k % 32, by omega, by omega, by omega⟩)
  intro t ht
  interval_cases t
  · exact ⟨_, rfl, fdct8_zeroPres, fdct32_zeroPres⟩
  · exact ⟨_, rfl, fadst8_zeroPres, fdct32_zeroPres⟩
  · exact ⟨_, rfl, fdct8_zeroPres, fhalfright32_zeroPres⟩
  · exact ⟨_, rfl, fadst8_zeroPres, fhalfright32_zeroPres⟩
  · exact ⟨_, rfl, fadst8_zeroPres, fdct32_zeroPres⟩
  · exact ⟨_, rfl, fdct8_zeroPres, fhalfright32_zeroPres⟩
  · exact ⟨_, rfl, fadst8_zeroPres, fhalfright32_zeroPres⟩
  · exact ⟨_, rfl, fadst8_zeroPres, fhalfright32_zeroPres⟩
  · exact ⟨_, rfl, fadst8_zeroPres, fhalfright32_zeroPres⟩
  · exact ⟨_, rfl, fidtx8_zeroPres, fidtx32_zeroPres⟩
  · exact ⟨_, rfl, fdct8_zeroPres, fidtx32_zeroPres⟩
  · exact ⟨_, rfl, fidtx8_zeroPres, fdct32_zeroPres⟩
  · exact ⟨_, rfl, fadst8_zeroPres, fidtx32_zeroPres⟩
  · exact ⟨_, rfl, fidtx8_zeroPres, fhalfright32_zeroPres⟩
  · exact ⟨_, rfl, fadst8_zeroPres, fidtx32_zeroPres⟩
  · exact ⟨_, rfl, fidtx8_zeroPres, fhalfright32_zeroPres⟩

theorem av1_fht16x32_c_flipLaws : FlipLaws 16 32 av1_fht16x32_c := by
  rw [av1_fht16x32_c_eq]
  exact fht2d_flips _ _ _ _ _ _ _ _ _ _ _ _ _ _ (fun i j hi hj => ⟨hi, hj⟩) rfl
    (fun t ht => by interval_cases t <;> exact ⟨_, rfl⟩) rfl rfl rfl rfl rfl rfl rfl

theorem av1_fht16x32_c_zeroToZero : ZeroToZero 16 32 av1_fht16x32_c := by
  rw [av1_fht16x32_c_eq]
  refine fht2d_zero _ _ _ _ _ _ _ _ _ _ _ _ _ _ (fun i j hi hj => ⟨hi, hj⟩) rfl ?_ (by decide) (by decide)
    (by decide) (fun _ t h => h)
    (fun k hk => ⟨k % 16, k / 16, by omega, by omega, by omega⟩)
  intro t ht
  interval_cases t
  · exact ⟨_, rfl, fdct16_zeroPres, fdct32_zeroPres⟩
  · exact ⟨_, rfl, fdct16_zeroPres, fhalfright32_zeroPres⟩
  · exact ⟨_, rfl, fadst16_zeroPres, fdct32_zeroPres⟩
  · exact ⟨_, rfl, fadst16_zeroPres, fhalfright32_zeroPres⟩
  · exact ⟨_, rfl, fdct16_zeroPres, fhalfright32_zeroPres⟩
  · exact ⟨_, rfl, fadst16_zeroPres, fdct32_zeroPres⟩
  · exact ⟨_, rfl, fadst16_zeroPres, fhalfright32_zeroPres⟩
  · exact ⟨_, rfl, fadst16_zeroPres, fhalfright32_zeroPres⟩
  · exact ⟨_, rfl, fadst16_zeroPres, fhalfright32_zeroPres⟩
  · exact ⟨_, rfl, fidtx16_zeroPres, fidtx32_zeroPres⟩
  · exact ⟨_, rfl, fidtx16_zeroPres, fdct32_zeroPres⟩
  · exact ⟨_, rfl, fdct16_zeroPres, fidtx32_zeroPres⟩
  · exact ⟨_, rfl, fidtx16_zeroPres, fhalfright32_zeroPres⟩
  · exact ⟨_, rfl, fadst16_zeroPres, fidtx32_zeroPres⟩
  · exact ⟨_, rfl, fidtx16_zeroPres, fhalfright32_zeroPres⟩
  · exact ⟨_, rfl, fadst16_zeroPres, fidtx32_zeroPres⟩

theorem av1_fht32x16_c_flipLaws : FlipLaws 32 16 av1_fht32x16_c := by
  rw [av1_fht32x16_c_eq]
  exact fht2d_flips _ _ _ _ _ _ _ _ _ _ _ _ _ _ (fun i j hi hj => ⟨hj, hi⟩) rfl
    (fun t ht => by interval_cases t <;> exact ⟨_, rfl⟩) rfl rfl rfl rfl rfl rfl rfl

theorem av1_fht32x16_c_zeroToZero : ZeroToZero 32 16 av1_fht32x16_c := by
  rw [av1_fht32x16_c_eq]
  refine fht2d_zero _ _ _ _ _ _ _ _ _ _ _ _ _ _ (fun i j hi hj => ⟨hj, hi⟩) rfl ?_ (by decide) (by decide)
    (by decide) (fun _ t h => h)
    (fun k hk => ⟨k / 32, k % 32, by omega, by omega, by omega⟩)
  intro t ht
  interval_cases t
  · exact ⟨_, rfl, fdct16_zeroPres, fdct32_zeroPres⟩
  · exact ⟨_, rfl, fadst16_zeroPres, fdct32_zeroPres⟩
  · exact ⟨_, rfl, fdct16_zeroPres, fhalfright32_zeroPres⟩
  · exact ⟨_, rfl, fadst16_zeroPres, fhalfright32_zeroPres⟩
  · exact ⟨_, rfl, fadst16_zeroPres, fdct32_zeroPres⟩
  · exact ⟨_, rfl, fdct16_zeroPres, fhalfright32_zeroPres⟩
  · exact ⟨_, rfl, fadst16_zeroPres, fhalfright32_zeroPres⟩
  · exact ⟨_, rfl, fadst16_zeroPres, fhalfright32_zeroPres⟩
  · exact ⟨_, rfl, fadst16_zeroPres, fhalfright32_zeroPres⟩
  · exact ⟨_, rfl, fidtx16_zeroPres, fidtx32_zeroPres⟩
  · exact ⟨_, rfl, fdct16_zeroPres, fidtx32_zeroPres⟩
  · exact ⟨_, rfl, fidtx16_zeroPres, fdct32_zeroPres⟩
  · exact ⟨_, rfl, fadst16_zeroPres, fidtx32_zeroPres⟩
  · exact ⟨_, rfl, fidtx16_zeroPres, fhalfright32_zeroPres⟩
  · exact ⟨_, rfl, fadst16_zeroPres, fidtx32_zeroPres⟩
  · exact ⟨_, rfl, fidtx16_zeroPres, fhalfright32_zeroPres⟩

theorem av1_fht8x8_c_table_flipLaws : FlipLaws 8 8 av1_fht8x8_c_table := by
  rw [av1_fht8x8_c_table_eq]
  exact fht2d_flips _ _ _ _ _ _ _ _ _ _ _ _ _ _ (fun i j hi hj => ⟨hj, hi⟩) rfl
    (fun t ht => by interval_cases t <;> exact ⟨_, rfl⟩) rfl rfl rfl rfl rfl rfl rfl

theorem av1_fht8x8_c_table_zeroToZero : ZeroToZero 8 8 av1_fht8x8_c_table := by
  rw [av1_fht8x8_c_table_eq]
  refine fht2d_zero _ _ _ _ _ _ _ _ _ _ _ _ _ _ (fun i j hi hj => ⟨hj, hi⟩) rfl ?_ (by decide) (by decide)
    (by decide) (fun _ t h => h)
    (fun k hk => ⟨k / 8, k % 8, by omega, by omega, by omega⟩)
  intro t ht
  interval_cases t
  · exact ⟨_, rfl, fdct8_zeroPres, fdct8_zeroPres⟩
  · exact ⟨_, rfl, fadst8_zeroPres, fdct8_zeroPres⟩
  · exact ⟨_, rfl, fdct8_zeroPres, fadst8_zeroPres⟩
  · exact ⟨_, rfl, fadst8_zeroPres, fadst8_zeroPres⟩
  · exact ⟨_, rfl, fadst8_zeroPres, fdct8_zeroPres⟩
  · exact ⟨_, rfl, fdct8_zeroPres, fadst8_zeroPres⟩
  · exact ⟨_, rfl, fadst8_zeroPres, fadst8_zeroPres⟩
  · exact ⟨_, rfl, fadst8_zeroPres, fadst8_zeroPres⟩
  · exact ⟨_, rfl, fadst8_zeroPres, fadst8_zeroPres⟩
  · exact ⟨_, rfl, fidtx8_zeroPres, fidtx8_zeroPres⟩
  · exact ⟨_, rfl, fdct8_zeroPres, fidtx8_zeroPres⟩
  · exact ⟨_, rfl, fidtx8_zeroPres, fdct8_zeroPres⟩
  · exact ⟨_, rfl, fadst8_zeroPres, fidtx8_zeroPres⟩
  · exact ⟨_, rfl, fidtx8_zeroPres, fadst8_zeroPres⟩
  · exact ⟨_, rfl, fadst8_zeroPres, fidtx8_zeroPres⟩
  · exact ⟨_, rfl, fidtx8_zeroPres, fadst8_zeroPres⟩

theorem av1_fht16x16_c_flipLaws : FlipLaws 16 16 av1_fht16x16_c := by
  rw [av1_fht16x16_c_eq]
  exact fht2d_flips _ _ _ _ _ _ _ _ _ _ _ _ _ _ (fun i j hi hj => ⟨hj, hi⟩) rfl
    (fun t ht => by interval_cases t <;> exact ⟨_, rfl⟩) rfl rfl rfl rfl rfl rfl rfl

theorem av1_fht16x16_c_zeroToZero : ZeroToZero 16 16 av1_fht16x16_c := by
  rw [av1_fht16x16_c_eq]
  refine fht2d_zero _ _ _ _ _ _ _ _ _ _ _ _ _ _ (fun i j hi hj => ⟨hj, hi⟩) rfl ?_ (by decide) (by decide)
    (by decide) (fun _ t h => h)
    (fun k hk => ⟨k / 16, k % 16, by omega, by omega, by omega⟩)
  intro t ht
  interval_cases t
  · exact ⟨_, rfl, fdct16_zeroPres, fdct16_zeroPres⟩
  · exact ⟨_, rfl, fadst16_zeroPres, fdct16_zeroPres⟩
  · exact ⟨_, rfl, fdct16_zeroPres, fadst16_zeroPres⟩
  · exact ⟨_, rfl, fadst16_zeroPres, fadst16_zeroPres⟩
  · exact ⟨_, rfl, fadst16_zeroPres, fdct16_zeroPres⟩
  · exact ⟨_, rfl, fdct16_zeroPres, fadst16_zeroPres⟩
  · exact ⟨_, rfl, fadst16_zeroPres, fadst16_zeroPres⟩
  · exact ⟨_, rfl, fadst16_zeroPres, fadst16_zeroPres⟩
  · exact ⟨_, rfl, fadst16_zeroPres, fadst16_zeroPres⟩
  · exact ⟨_, rfl, fidtx16_zeroPres, fidtx16_zeroPres⟩
  · exact ⟨_, rfl, fdct16_zeroPres, fidtx16_zeroPres⟩
  · exact ⟨_, rfl, fidtx16_zeroPres, fdct16_zeroPres⟩
  · exact ⟨_, rfl, fadst16_zeroPres, fidtx16_zeroPres⟩
  · exact ⟨_, rfl, fidtx16_zeroPres, fadst16_zeroPres⟩
  · exact ⟨_, rfl, fadst16_zeroPres, fidtx16_zeroPres⟩
  · exact ⟨_, rfl, fidtx16_zeroPres, fadst16_zeroPres⟩

theorem av1_fht32x32_c_flipLaws : FlipLaws 32 32 av1_fht32x32_c := by
  rw [av1_fht32x32_c_eq]
  exact fht2d_flips _ _ _ _ _ _ _ _ _ _ _ _ _ _ (fun i j hi hj => ⟨hj, hi⟩) rfl
    (fun t ht => by interval_cases t <;> exact ⟨_, rfl⟩) rfl rfl rfl rfl rfl rfl rfl

theorem av1_fht32x32_c_zeroToZero : ZeroToZero 32 32 av1_fht32x32_c := by
  rw [av1_fht32x32_c_eq]
  refine fht2d_zero _ _ _ _ _ _ _ _ _ _ _ _ _ _ (fun i j hi hj => ⟨hj, hi⟩) rfl ?_ (by decide) (by decide)
    (by decide) (fun _ t h => h)
    (fun k hk => ⟨k / 32, k % 32, by omega, by omega, by omega⟩)
  intro t ht
  interval_cases t
  · exact ⟨_, rfl, fdct32_zeroPres, fdct32_zeroPres⟩
  · exact ⟨_, rfl, fhalfright32_zeroPres, fdct32_zeroPres⟩
  · exact ⟨_, rfl, fdct32_zeroPres, fhalfright32_zeroPres⟩
  · exact ⟨_, rfl, fhalfright32_zeroPres, fhalfright32_zeroPres⟩
  · exact ⟨_, rfl, fhalfright32_zeroPres, fdct32_zeroPres⟩
  · exact ⟨_, rfl, fdct32_zeroPres, fhalfright32_zeroPres⟩
  · exact ⟨_, rfl, fhalfright32_zeroPres, fhalfright32_zeroPres⟩
  · exact ⟨_, rfl, fhalfright32_zeroPres, fhalfright32_zeroPres⟩
  · exact ⟨_, rfl, fhalfright32_zeroPres, fhalfright32_zeroPres⟩
  · exact ⟨_, rfl, fidtx32_zeroPres, fidtx32_zeroPres⟩
  · exact ⟨_, rfl, fdct32_zeroPres, fidtx32_zeroPres⟩
  · exact ⟨_, rfl, fidtx32_zeroPres, fdct32_zeroPres⟩
  · exact ⟨_, rfl, fhalfright32_zeroPres, fidtx32_zeroPres⟩
  · exact ⟨_, rfl, fidtx32_zeroPres, fhalfright32_zeroPres⟩
  · exact ⟨_, rfl, fhalfright32_zeroPres, fidtx32_zeroPres⟩
  · exact ⟨_, rfl, fidtx32_zeroPres, fhalfright32_zeroPres⟩

/-! ### Walsh-Hadamard transform -/

theorem iwht4_wht4 (a b c d : Int) :
    iwht4 (wht4 a b c d).1 (wht4 a b c d).2.1 (wht4 a b c d).2.2.1 (wht4 a b c d).2.2.2
      = (a, b, c, d) := by
  simp only [iwht4, wht4, asr_one, Prod.mk.injEq]
  omega

theorem fwht_formula (input output : Buf) (stride : Nat) (k : Nat) (hk : k < 16) :
    av1_fwht4x4_c input output stride k
      = quad (whtRow input stride (k / 4)) (k % 4) * UNIT_QUANT_FACTOR := by
  interval_cases k <;> rfl

theorem iwht_formula (coeff : Buf) (k : Nat) (hk : k < 16) :
    iwht4x4 coeff k
      = quad (iwht4
          (quad (iwht4 (coeff 0 / UNIT_QUANT_FACTOR) (coeff 1 / UNIT_QUANT_FACTOR)
            (coeff 2 / UNIT_QUANT_FACTOR) (coeff 3 / UNIT_QUANT_FACTOR)) (k % 4))
          (quad (iwht4 (coeff 4 / UNIT_QUANT_FACTOR) (coeff 5 / UNIT_QUANT_FACTOR)
            (coeff 6 / UNIT_QUANT_FACTOR) (coeff 7 / UNIT_QUANT_FACTOR)) (k % 4))
          (quad (iwht4 (coeff 8 / UNIT_QUANT_FACTOR) (coeff 9 / UNIT_QUANT_FACTOR)
            (coeff 10 / UNIT_QUANT_FACTOR) (coeff 11 / UNIT_QUANT_FACTOR)) (k % 4))
          (quad (iwht4 (coeff 12 / UNIT_QUANT_FACTOR) (coeff 13 / UNIT_QUANT_FACTOR)
            (coeff 14 / UNIT_QUANT_FACTOR) (coeff 15 / UNIT_QUANT_FACTOR)) (k % 4))) (k / 4) := by
  interval_cases k <;> rfl

theorem iwht4_quad_wht4 (a b c d : Int) :
    iwht4 (quad (wht4 a b c d) 0) (quad (wht4 a b c d) 1) (quad (wht4 a b c d) 2)
      (quad (wht4 a b c d) 3) = (a, b, c, d) :=
  iwht4_wht4 a b c d

theorem mul_unit_div (x : Int) : x * UNIT_QUANT_FACTOR / UNIT_QUANT_FACTOR = x := by
  unfold UNIT_QUANT_FACTOR; omega

theorem fwht_roundtrip (input output : Buf) (stride : Nat) (r c : Nat) (hr : r < 4) (hc : c < 4) :
    iwht4x4 (av1_fwht4x4_c input output stride) (4 * r + c) = input (r * stride + c) := by
  rw [iwht_formula _ _ (by omega)]
  simp only [fwht_formula input output stride _ (by norm_num : (0:Nat) < 16),
    fwht_formula input output stride _ (by norm_num : (1:Nat) < 16),
    fwht_formula input output stride _ (by norm_num : (2:Nat) < 16),
    fwht_formula input output stride _ (by norm_num : (3:Nat) < 16),
    fwht_formula input output stride _ (by norm_num : (4:Nat) < 16),
    fwht_formula input output stride _ (by norm_num : (5:Nat) < 16),
    fwht_formula input output stride _ (by norm_num : (6:Nat) < 16),
    fwht_formula input output stride _ (by norm_num : (7:Nat) < 16),
    fwht_formula input output stride _ (by norm_num : (8:Nat) < 16),
    fwht_formula input output stride _ (by norm_num : (9:Nat) < 16),
    fwht_formula input output stride _ (by norm_num : (10:Nat) < 16),
    fwht_formula input output stride _ (by norm_num : (11:Nat) < 16),
    fwht_formula input output stride _ (by norm_num : (12:Nat) < 16),
    fwht_formula input output stride _ (by norm_num : (13:Nat) < 16),
    fwht_formula input output stride _ (by norm_num : (14:Nat) < 16),
    fwht_formula input output stride _ (by norm_num : (15:Nat) < 16), mul_unit_div]
  interval_cases r <;> interval_cases c <;>
    simp [whtRow, whtCol, iwht4_wht4, quad, Nat.add_comm]

/-! ### Reading a coefficient back: the separable formula -/

theorem txfmPass_read (N n : Nat) (load : Nat → Nat → Int) (adj : Nat → Buf → Buf)
    (k : transform_1d) (idx : Nat → Nat → Nat) (scale : Int → Int) (s : PassState)
    (hinj : ∀ i i' j j', i < N → i' < N → j < n → j' < n → idx i j = idx i' j' →
      i = i' ∧ j = j')
    (hk : Local n k)
    (hadj : ∀ i t t', (∀ j, j < n → t j = t' j) → ∀ j, j < n → adj i t j = adj i t' j)
    (i j : Nat) (hi : i < N) (hj : j < n) :
    (txfmPass N n load adj k idx scale s).dest (idx i j)
      = scale (k (adj i (fun m => load i m)) zeroBuf j) := by
  induction N with
  | zero => omega
  | succ N ih =>
    rw [txfmPass_succ]
    simp only
    have hN := Nat.lt_succ_self N
    by_cases hiN : i = N
    · subst hiN
      rw [storeLoop_read n (idx i) _ _ (fun a b ha hb e => (hinj i i a b hi hi ha hb e).2) j hj]
      congr 1
      apply hk _ _ _ _ _ j hj
      apply hadj
      intro m hm
      rw [loadLoop_apply, if_pos hm]
    · have hlt : i < N := by omega
      rw [storeLoop_frame n (idx N) _ _ _ (fun m hm e => by
        have := (hinj N i m j hN hi hm hj e).1; omega)]
      exact ih (fun a b c d ha hb hc hd e =>
        hinj a b c d (Nat.lt_succ_of_lt ha) (Nat.lt_succ_of_lt hb) hc hd e) hlt

/-- The separable formula: coefficient `idx2 i j` is the scaled `j`-th output
of the second kernel run on the `i`-th outputs of the first kernel. -/
theorem fhtCore_read (N1 n1 : Nat) (ro co : Nat → Nat → Nat)
    (k1 k2 : transform_2d → transform_1d) (scIn : Int → Int) (adj : Nat → Buf → Buf)
    (scMid : Int → Int) (idx2 : Nat → Nat → Nat) (scOut : Int → Int)
    (ht : transform_2d) (B : Nat → Nat → Int) (output : Buf)
    (hinj : ∀ i i' j j', i < n1 → i' < n1 → j < N1 → j' < N1 → idx2 i j = idx2 i' j' →
      i = i' ∧ j = j')
    (hk1 : Local n1 (k1 ht)) (hk2 : Local N1 (k2 ht))
    (hadj : ∀ i t t', (∀ j, j < n1 → t j = t' j) → ∀ j, j < n1 → adj i t j = adj i t' j)
    (i j : Nat) (hi : i < n1) (hj : j < N1) :
    fhtCore N1 n1 ro co k1 k2 scIn adj scMid idx2 scOut ht B output (idx2 i j)
      = scOut (k2 ht (fun a =>
          scMid (k1 ht (adj a (fun m => scIn (B (ro a m) (co a m)))) zeroBuf i)) zeroBuf j) := by
  unfold fhtCore
  rw [txfmPass_read n1 N1 _ (fun _ t => t) (k2 ht) idx2 scOut _ hinj hk2
    (fun _ _ _ h => h) i j hi hj]
  congr 1
  apply hk2 _ _ _ _ _ j hj
  intro a ha
  have e : a + i * N1 = (fun i j => j * N1 + i) a i := by simp only; omega
  rw [e, txfmPass_read N1 n1 _ adj (k1 ht) (fun i j => j * N1 + i) scMid _ ?_ hk1 hadj a i ha hi]
  intro a b c d ha hb hc hd e
  simp only at e
  have := block_inj N1 c a d b (by omega) (by omega) e
  exact ⟨this.2, this.1⟩

theorem fdct4_out (input output output' : Buf) (k : Nat) (hk : k < 4) :
    fdct4 input output k = fdct4 input output' k := by
  unfold fdct4
  interval_cases k <;> simp only [store, reduceIte, Nat.reduceEqDiff]

theorem fdct4_local : Local 4 fdct4 := by
  intro inp inp' o o' h j hj
  rw [fdct4_congr inp inp' o h]
  exact fdct4_out inp' o o' j hj

theorem adj4x4_local (i : Nat) (t t' : Buf) (h : ∀ j, j < 4 → t j = t' j) (j : Nat)
    (hj : j < 4) : adj4x4 i t j = adj4x4 i t' j := by
  unfold adj4x4
  rw [h 0 (by norm_num)]
  split
  · simp only [store, h j hj]
  · exact h j hj

/-! ### Zeroing and repacking of the 64-wide transforms -/

theorem zeroRight_apply (R : Nat) (o : Buf) (p : Nat) :
    forLoop R (fun row output => memset output (row * 64 + 32) 0 32) o p
      = if p < R * 64 ∧ 32 ≤ p % 64 then 0 else o p := by
  induction R with
  | zero => simp [forLoop]
  | succ R ih =>
    rw [forLoop_succ]
    simp only [memset, ih]
    split_ifs <;> first | rfl | omega

theorem repack_apply (m : Nat) (z : Buf) (p : Nat) :
    forLoop m (fun k output => memcpy output ((1 + k) * 32) output ((1 + k) * 64) 32) z p
      = if 32 ≤ p ∧ p < (m + 1) * 32 then z (64 * (p / 32) + p % 32) else z p := by
  induction m generalizing p with
  | zero =>
    rw [if_neg (by omega)]; rfl
  | succ m ih =>
    rw [forLoop_succ]
    simp only [memcpy, ih]
    by_cases h1 : (1 + m) * 32 ≤ p ∧ p < (1 + m) * 32 + 32
    · rw [if_pos h1, if_neg (by omega), if_pos (by omega)]
      congr 1; omega
    · rw [if_neg h1]
      by_cases h2 : 32 ≤ p ∧ p < (m + 1) * 32
      · rw [if_pos h2, if_pos (by omega)]
      · rw [if_neg h2, if_neg (by omega)]

theorem av1_fht64x64_c_post_apply (output : Buf) (p : Nat) :
    av1_fht64x64_c_post output p
      = if 32 ≤ p ∧ p < 1024 then output (64 * (p / 32) + p % 32)
        else if (p < 2048 ∧ 32 ≤ p % 64) ∨ (2048 ≤ p ∧ p < 4096) then 0 else output p := by
  unfold av1_fht64x64_c_post forLoopFrom
  simp only [repack_apply, memset, zeroRight_apply]
  split_ifs <;> first | rfl | omega

theorem av1_fht64x32_c_post_apply (output : Buf) (p : Nat) :
    av1_fht64x32_c_post output p
      = if 32 ≤ p ∧ p < 1024 then output (64 * (p / 32) + p % 32)
        else if p < 2048 ∧ 32 ≤ p % 64 then 0 else output p := by
  unfold av1_fht64x32_c_post forLoopFrom
  simp only [repack_apply, zeroRight_apply]
  split_ifs <;> first | rfl | omega

theorem av1_fht64x16_c_post_apply (output : Buf) (p : Nat) :
    av1_fht64x16_c_post output p
      = if 32 ≤ p ∧ p < 512 then output (64 * (p / 32) + p % 32)
        else if p < 1024 ∧ 32 ≤ p % 64 then 0 else output p := by
  unfold av1_fht64x16_c_post forLoopFrom
  simp only [repack_apply, Nat.reduceMul, zeroRight_apply]
  split_ifs <;> first | rfl | omega

theorem av1_fht32x64_c_post_apply (output : Buf) (p : Nat) :
    av1_fht32x64_c_post output p = if 1024 ≤ p ∧ p < 2048 then 0 else output p := by
  unfold av1_fht32x64_c_post memset
  simp only [Nat.reduceMul, Nat.reduceAdd]

theorem av1_fht16x64_c_post_apply (output : Buf) (p : Nat) :
    av1_fht16x64_c_post output p = if 512 ≤ p ∧ p < 1024 then 0 else output p := by
  unfold av1_fht16x64_c_post memset
  simp only [Nat.reduceMul, Nat.reduceAdd]

/-! ### The 4x4 DCT of a constant block -/

theorem fdct4_0 (inp o : Buf) : fdct4 inp o 0
    = fdct_round_shift ((inp 0 + inp 3) * cospi_16_64 + (inp 1 + inp 2) * cospi_16_64) := rfl

theorem fdct4_1 (inp o : Buf) : fdct4 inp o 1
    = fdct_round_shift ((inp 1 - inp 2) * cospi_24_64 + (inp 0 - inp 3) * cospi_8_64) := rfl

theorem fdct4_2 (inp o : Buf) : fdct4 inp o 2
    = fdct_round_shift ((inp 1 + inp 2) * (-cospi_16_64) + (inp 0 + inp 3) * cospi_16_64) := rfl

theorem fdct4_3 (inp o : Buf) : fdct4 inp o 3
    = fdct_round_shift ((inp 0 - inp 3) * cospi_24_64 + (inp 1 - inp 2) * (-cospi_8_64)) := rfl

theorem fht4x4_dct_read (x output : Buf) (stride : Nat) (v : Int)
    (hx : ∀ r c, r < 4 → c < 4 → x (r * stride + c) = v) :
    ∃ o, av1_fht4x4_c_table x output stride DCT_DCT = some o ∧
      ∀ i j, i < 4 → j < 4 → o (j + i * 4)
        = asr (fdct4 (fun a => fdct4 (adj4x4 a (fun _ => v * 16)) zeroBuf i) zeroBuf j + 1) 2 := by
  have hc := fht2d_canon FHT_4x4 4 4 4 4 (fun _ j => j) (fun i _ => i) transform_2d.cols
    transform_2d.rows (fun x => x * 16) adj4x4 (fun t => t) (fun i j => j + i * 4)
    (fun t => asr (t + 1) 2) x output stride 0 ⟨fdct4, fdct4⟩
    (fun i j hi hj => ⟨hj, hi⟩) (by norm_num) rfl rfl
  rw [av1_fht4x4_c_table_eq]
  refine ⟨_, hc, ?_⟩
  intro i j hi hj
  rw [fhtCore_congr 4 4 4 4 _ _ _ _ _ _ _ _ _ ⟨fdct4, fdct4⟩ _ (fun _ _ => v) output
    (fun i j hi hj => ⟨hj, hi⟩)
    (fun r c hr hc => hx _ _ (rowMap_lt 4 0 r hr) (colMap_lt 4 0 c hc))]
  exact fhtCore_read 4 4 _ _ transform_2d.cols transform_2d.rows (fun x => x * 16) adj4x4
    (fun t => t) (fun i j => j + i * 4) (fun t => asr (t + 1) 2) ⟨fdct4, fdct4⟩
    (fun _ _ => v) output
    (fun a b c d ha hb hc hd e => by simp only at e; omega)
    fdct4_local fdct4_local adj4x4_local i j hi hj

theorem fht4x4_dct_const_ac (v : Int) (i j : Nat) (hi : i < 4) (hj : j < 4) (hij : 0 < j + i * 4) :
    asr (fdct4 (fun a => fdct4 (adj4x4 a (fun _ => v * 16)) zeroBuf i) zeroBuf j + 1) 2 = 0 := by
  by_cases hv : v = 0
  · subst hv
    interval_cases i <;> interval_cases j <;>
      simp [fdct4_0, fdct4_1, fdct4_2, fdct4_3, adj4x4, store] <;> decide
  · have hv' : v * 16 ≠ 0 := by omega
    interval_cases i <;> interval_cases j <;>
      simp [fdct4_0, fdct4_1, fdct4_2, fdct4_3, adj4x4, store, hv, fdct_round_shift_eq,
        asr_eq_div, cospi_16_64, cospi_8_64, cospi_24_64] <;> omega

/-! ### The 64-point transforms return a result for each of the sixteen types -/

theorem av1_fht64x64_c_passes_some (fdct64_col fdct64_row : transform_1d) (input output : Buf) (stride t : Nat)
    (ht : t < 16) : ∃ p, av1_fht64x64_c_passes fdct64_col fdct64_row input output stride t = some p := by
  rw [av1_fht64x64_c_passes_eq]
  exact fht2d_some _ _ _ _ _ _ _ _ _ _ _ _ _ _ input output stride t (fun i j hi hj => ⟨hj, hi⟩) rfl
    (fun t ht => by interval_cases t <;> exact ⟨_, rfl⟩) ht

theorem av1_fht64x32_c_passes_some (fdct64_row : transform_1d) (input output : Buf) (stride t : Nat)
    (ht : t < 16) : ∃ p, av1_fht64x32_c_passes fdct64_row input output stride t = some p := by
  rw [av1_fht64x32_c_passes_eq]
  exact fht2d_some _ _ _ _ _ _ _ _ _ _ _ _ _ _ input output stride t (fun i j hi hj => ⟨hj, hi⟩) rfl
    (fun t ht => by interval_cases t <;> exact ⟨_, rfl⟩) ht

theorem av1_fht32x64_c_passes_some (fdct64_row : transform_1d) (input output : Buf) (stride t : Nat)
    (ht : t < 16) : ∃ p, av1_fht32x64_c_passes fdct64_row input output stride t = some p := by
  rw [av1_fht32x64_c_passes_eq]
  exact fht2d_some _ _ _ _ _ _ _ _ _ _ _ _ _ _ input output stride t (fun i j hi hj => ⟨hi, hj⟩) rfl
    (fun t ht => by interval_cases t <;> exact ⟨_, rfl⟩) ht

theorem av1_fht16x64_c_passes_some (fdct64_col : transform_1d) (input output : Buf) (stride t : Nat)
    (ht : t < 16) : ∃ p, av1_fht16x64_c_passes fdct64_col input output stride t = some p := by
  rw [av1_fht16x64_c_passes_eq]
  exact fht2d_some _ _ _ _ _ _ _ _ _ _ _ _ _ _ input output stride t (fun i j hi hj => ⟨hi, hj⟩) rfl
    (fun t ht => by interval_cases t <;> exact ⟨_, rfl⟩) ht

theorem av1_fht64x16_c_passes_some (fdct64_row : transform_1d) (input output : Buf) (stride t : Nat)
    (ht : t < 16) : ∃ p, av1_fht64x16_c_passes fdct64_row input output stride t = some p := by
  rw [av1_fht64x16_c_passes_eq]
  exact fht2d_some _ _ _ _ _ _ _ _ _ _ _ _ _ _ input output stride t (fun i j hi hj => ⟨hj, hi⟩) rfl
    (fun t ht => by interval_cases t <;> exact ⟨_, rfl⟩) ht

/-- The identity transform of the all-ones 64x64 block: every coefficient the
second pass writes is 3. -/
theorem fht64x64_idtx_ones :
    ∃ p, av1_fht64x64_c_passes fidtx64 fidtx64 onesBuf zeroBuf 64 IDTX = some p ∧
      ∀ i j, i < 64 → j < 64 → p (j + i * 64) = 3 := by
  have hc := fht2d_canon (FHT_64x64 fidtx64 fidtx64) 64 64 64 64 (fun _ j => j) (fun i _ => i)
    transform_2d.cols transform_2d.rows (fun x => x) adjNone
    (fun t => asr (t + 1 + b2i (t > 0)) 2) (fun i j => j + i * 64)
    (fun t => asr (t + 1 + b2i (t < 0)) 2) onesBuf zeroBuf 64 9 ⟨fidtx64, fidtx64⟩
    (fun i j hi hj => ⟨hj, hi⟩) (by norm_num) rfl rfl
  rw [av1_fht64x64_c_passes_eq]
  refine ⟨_, hc, ?_⟩
  intro i j hi hj
  rw [fhtCore_uniform 64 64 _ _ transform_2d.cols transform_2d.rows (fun x => x) adjNone
    (fun t => asr (t + 1 + b2i (t > 0)) 2) (fun i j => j + i * 64)
    (fun t => asr (t + 1 + b2i (t < 0)) 2) ⟨fidtx64, fidtx64⟩ _ zeroBuf 1 6 11
    (fun _ _ _ _ => rfl) (fun _ t h => h) ?_ ?_ i j hi hj]
  · decide
  · intro inp o h j hj
    show fidtx64 inp o j = 6
    rw [fidtx64_apply, if_pos hj, h j hj]; decide
  · intro inp o h j hj
    show fidtx64 inp o j = 11
    rw [fidtx64_apply, if_pos hj, h j hj]; decide

/-! ### A transform type outside the sixteen is rejected -/

theorem mem_txTypes (t : Nat) : t ∈ txTypes ↔ t < 16 := by
  unfold txTypes DCT_DCT ADST_DCT DCT_ADST ADST_ADST FLIPADST_DCT DCT_FLIPADST
    FLIPADST_FLIPADST ADST_FLIPADST FLIPADST_ADST IDTX V_DCT H_DCT V_ADST H_ADST V_FLIPADST
    H_FLIPADST
  simp only [List.mem_cons, List.mem_singleton, List.not_mem_nil, or_false]
  omega

theorem maybe_flip_input_none_iff (src : Buf) (s l w : Nat) (buff : Buf) (t : Nat) :
    maybe_flip_input src s l w buff t = none ↔ t ∉ txTypes := by
  rw [mem_txTypes]
  constructor
  · intro h ht
    have : t < 16 := ht
    interval_cases t <;> exact absurd h (by simp [maybe_flip_input, DCT_DCT, ADST_DCT, DCT_ADST,
      ADST_ADST, FLIPADST_DCT, DCT_FLIPADST, FLIPADST_FLIPADST, ADST_FLIPADST, FLIPADST_ADST,
      IDTX, V_DCT, H_DCT, V_ADST, H_ADST, V_FLIPADST, H_FLIPADST])
  · intro h
    exact maybe_flip_input_none src s l w buff t (by omega)

theorem fht2d_none_iff (tbl : List transform_2d) (l w N1 n1 : Nat) (ro co : Nat → Nat → Nat)
    (k1 k2 : transform_2d → transform_1d) (scIn : Int → Int) (adj : Nat → Buf → Buf)
    (scMid : Int → Int) (idx2 : Nat → Nat → Nat) (scOut : Int → Int)
    (input output : Buf) (stride : Nat) (t : Nat)
    (hro : ∀ i j, i < N1 → j < n1 → ro i j < l ∧ co i j < w) (hl : l % 2 = 0)
    (hsome : ∀ t, t < 16 → ∃ h, tbl[t]? = some h) :
    fht2d tbl l w N1 n1 ro co k1 k2 scIn adj scMid idx2 scOut input output stride t = none
      ↔ t ∉ txTypes := by
  rw [mem_txTypes]
  constructor
  · intro h ht
    obtain ⟨p, hp⟩ := fht2d_some tbl l w N1 n1 ro co k1 k2 scIn adj scMid idx2 scOut input
      output stride t hro hl hsome ht
    rw [hp] at h
    exact Option.noConfusion h
  · intro h
    unfold fht2d
    rw [maybe_flip_input_none input stride l w zeroBuf t (by omega)]
    cases tbl[t]? <;> rfl


theorem av1_fht4x4_c_table_none_iff (x o : Buf) (stride t : Nat) :
    av1_fht4x4_c_table x o stride t = none ↔ t ∉ txTypes := by
  rw [av1_fht4x4_c_table_eq]
  exact fht2d_none_iff _ _ _ _ _ _ _ _ _ _ _ _ _ _ x o stride t (fun i j hi hj => ⟨hj, hi⟩) rfl
    (fun t ht => by interval_cases t <;> exact ⟨_, rfl⟩)

theorem av1_fht4x8_c_none_iff (x o : Buf) (stride t : Nat) :
    av1_fht4x8_c x o stride t = none ↔ t ∉ txTypes := by
  rw [av1_fht4x8_c_eq]
  exact fht2d_none_iff _ _ _ _ _ _ _ _ _ _ _ _ _ _ x o stride t (fun i j hi hj => ⟨hi, hj⟩) rfl
    (fun t ht => by interval_cases t <;> exact ⟨_, rfl⟩)

theorem av1_fht8x4_c_none_iff (x o : Buf) (stride t : Nat) :
    av1_fht8x4_c x o stride t = none ↔ t ∉ txTypes := by
  rw [av1_fht8x4_c_eq]
  exact fht2d_none_iff _ _ _ _ _ _ _ _ _ _ _ _ _ _ x o stride t (fun i j hi hj => ⟨hj, hi⟩) rfl
    (fun t ht => by interval_cases t <;> exact ⟨_, rfl⟩)

theorem av1_fht4x16_c_none_iff (x o : Buf) (stride t : Nat) :
    av1_fht4x16_c x o stride t = none ↔ t ∉ txTypes := by
  rw [av1_fht4x16_c_eq]
  exact fht2d_none_iff _ _ _ _ _ _ _ _ _ _ _ _ _ _ x o stride t (fun i j hi hj => ⟨hi, hj⟩) rfl
    (fun t ht => by interval_cases t <;> exact ⟨_, rfl⟩)

theorem av1_fht16x4_c_none_iff (x o : Buf) (stride t : Nat) :
    av1_fht16x4_c x o stride t = none ↔ t ∉ txTypes := by
  rw [av1_fht16x4_c_eq]
  exact fht2d_none_iff _ _ _ _ _ _ _ _ _ _ _ _ _ _ x o stride t (fun i j hi hj => ⟨hj, hi⟩) rfl
    (fun t ht => by interval_cases t <;> exact ⟨_, rfl⟩)

theorem av1_fht8x16_c_none_iff (x o : Buf) (stride t : Nat) :
    av1_fht8x16_c x o stride t = none ↔ t ∉ txTypes := by
  rw [av1_fht8x16_c_eq]
  exact fht2d_none_iff _ _ _ _ _ _ _ _ _ _ _ _ _ _ x o stride t (fun i j hi hj => ⟨hi, hj⟩) rfl
    (fun t ht => by interval_cases t <;> exact ⟨_, rfl⟩)

theorem av1_fht16x8_c_none_iff (x o : Buf) (stride t : Nat) :
    av1_fht16x8_c x o stride t = none ↔ t ∉ txTypes := by
  rw [av1_fht16x8_c_eq]
  exact fht2d_none_iff _ _ _ _ _ _ _ _ _ _ _ _ _ _ x o stride t (fun i j hi hj => ⟨hj, hi⟩) rfl
    (fun t ht => by interval_cases t <;> exact ⟨_, rfl⟩)

theorem av1_fht8x32_c_none_iff (x o : Buf) (stride t : Nat) :
    av1_fht8x32_c x o stride t = none ↔ t ∉ txTypes := by
  rw [av1_fht8x32_c_eq]
  exact fht2d_none_iff _ _ _ _ _ _ _ _ _ _ _ _ _ _ x o stride t (fun i j hi hj => ⟨hi, hj⟩) rfl
    (fun t ht => by interval_cases t <;> exact ⟨_, rfl⟩)

theorem av1_fht32x8_c_none_iff (x o : Buf) (stride t : Nat) :
    av1_fht32x8_c x o stride t = none ↔ t ∉ txTypes := by
  rw [av1_fht32x8_c_eq]
  exact fht2d_none_iff _ _ _ _ _ _ _ _ _ _ _ _ _ _ x o stride t (fun i j hi hj => ⟨hj, hi⟩) rfl
    (fun t ht => by interval_cases t <;> exact ⟨_, rfl⟩)

theorem av1_fht16x32_c_none_iff (x o : Buf) (stride t : Nat) :
    av1_fht16x32_c x o stride t = none ↔ t ∉ txTypes := by
  rw [av1_fht16x32_c_eq]
  exact fht2d_none_iff _ _ _ _ _ _ _ _ _ _ _ _ _ _ x o stride t (fun i j hi hj => ⟨hi, hj⟩) rfl
    (fun t ht => by interval_cases t <;> exact ⟨_, rfl⟩)

theorem av1_fht32x16_c_none_iff (x o : Buf) (stride t : Nat) :
    av1_fht32x16_c x o stride t = none ↔ t ∉ txTypes := by
  rw [av1_fht32x16_c_eq]
  exact fht2d_none_iff _ _ _ _ _ _ _ _ _ _ _ _ _ _ x o stride t (fun i j hi hj => ⟨hj, hi⟩) rfl
    (fun t ht => by interval_cases t <;> exact ⟨_, rfl⟩)

theorem av1_fht8x8_c_table_none_iff (x o : Buf) (stride t : Nat) :
    av1_fht8x8_c_table x o stride t = none ↔ t ∉ txTypes := by
  rw [av1_fht8x8_c_table_eq]
  exact fht2d_none_iff _ _ _ _ _ _ _ _ _ _ _ _ _ _ x o stride t (fun i j hi hj => ⟨hj, hi⟩) rfl
    (fun t ht => by interval_cases t <;> exact ⟨_, rfl⟩)

theorem av1_fht16x16_c_none_iff (x o : Buf) (stride t : Nat) :
    av1_fht16x16_c x o stride t = none ↔ t ∉ txTypes := by
  rw [av1_fht16x16_c_eq]
  exact fht2d_none_iff _ _ _ _ _ _ _ _ _ _ _ _ _ _ x o stride t (fun i j hi hj => ⟨hj, hi⟩) rfl
    (fun t ht => by interval_cases t <;> exact ⟨_, rfl⟩)

theorem av1_fht32x32_c_none_iff (x o : Buf) (stride t : Nat) :
    av1_fht32x32_c x o stride t = none ↔ t ∉ txTypes := by
  rw [av1_fht32x32_c_eq]
  exact fht2d_none_iff _ _ _ _ _ _ _ _ _ _ _ _ _ _ x o stride t (fun i j hi hj => ⟨hj, hi⟩) rfl
    (fun t ht => by interval_cases t <;> exact ⟨_, rfl⟩)

theorem av1_fht64x64_c_passes_none_iff (fdct64_col fdct64_row : transform_1d) (x o : Buf)
    (stride t : Nat) :
    av1_fht64x64_c_passes fdct64_col fdct64_row x o stride t = none ↔ t ∉ txTypes := by
  rw [av1_fht64x64_c_passes_eq]
  exact fht2d_none_iff _ _ _ _ _ _ _ _ _ _ _ _ _ _ x o stride t (fun i j hi hj => ⟨hj, hi⟩) rfl
    (fun t ht => by interval_cases t <;> exact ⟨_, rfl⟩)

theorem av1_fht64x32_c_passes_none_iff (fdct64_row : transform_1d) (x o : Buf) (stride t : Nat) :
    av1_fht64x32_c_passes fdct64_row x o stride t = none ↔ t ∉ txTypes := by
  rw [av1_fht64x32_c_passes_eq]
  exact fht2d_none_iff _ _ _ _ _ _ _ _ _ _ _ _ _ _ x o stride t (fun i j hi hj => ⟨hj, hi⟩) rfl
    (fun t ht => by interval_cases t <;> exact ⟨_, rfl⟩)

theorem av1_fht32x64_c_passes_none_iff (fdct64_row : transform_1d) (x o : Buf) (stride t : Nat) :
    av1_fht32x64_c_passes fdct64_row x o stride t = none ↔ t ∉ txTypes := by
  rw [av1_fht32x64_c_passes_eq]
  exact fht2d_none_iff _ _ _ _ _ _ _ _ _ _ _ _ _ _ x o stride t (fun i j hi hj => ⟨hi, hj⟩) rfl
    (fun t ht => by interval_cases t <;> exact ⟨_, rfl⟩)

theorem av1_fht16x64_c_passes_none_iff (fdct64_col : transform_1d) (x o : Buf) (stride t : Nat) :
    av1_fht16x64_c_passes fdct64_col x o stride t = none ↔ t ∉ txTypes := by
  rw [av1_fht16x64_c_passes_eq]
  exact fht2d_none_iff _ _ _ _ _ _ _ _ _ _ _ _ _ _ x o stride t (fun i j hi hj => ⟨hi, hj⟩) rfl
    (fun t ht => by interval_cases t <;> exact ⟨_, rfl⟩)

theorem av1_fht64x16_c_passes_none_iff (fdct64_row : transform_1d) (x o : Buf) (stride t : Nat) :
    av1_fht64x16_c_passes fdct64_row x o stride t = none ↔ t ∉ txTypes := by
  rw [av1_fht64x16_c_passes_eq]
  exact fht2d_none_iff _ _ _ _ _ _ _ _ _ _ _ _ _ _ x o stride t (fun i j hi hj => ⟨hj, hi⟩) rfl
    (fun t ht => by interval_cases t <;> exact ⟨_, rfl⟩)
/-! ### The half-right kernels -/

theorem fdct16_out (input output output' : Buf) (k : Nat) (hk : k < 16) :
    fdct16 input output k = fdct16 input output' k := by
  unfold fdct16
  interval_cases k <;> simp only [store, reduceIte, Nat.reduceEqDiff]

theorem fdct32_out (input output output' : Buf) (k : Nat) (hk : k < 32) :
    fdct32 input output k = fdct32 input output' k := by
  unfold fdct32
  interval_cases k <;> simp only [store, reduceIte, Nat.reduceEqDiff]

theorem fhalfright32_low (input output output' : Buf) (i : Nat) (hi : i < 16) :
    fhalfright32 input output i
      = fdct16 (fun m => wrap32 (fdct_round_shift (input (16 + m) * Sqrt2))) output' i := by
  unfold fhalfright32
  rw [fdct16_out _ _ output' i hi]
  exact congrFun (fdct16_congr _ _ output' (fun k hk => by
    rw [loadLoop_apply, if_pos hk, Nat.add_comm])) i

theorem fhalfright64_low (input output output' : Buf) (i : Nat) (hi : i < 32) :
    fhalfright64 input output i
      = fdct32 (fun m => wrap32 (fdct_round_shift (input (32 + m) * Sqrt2))) output' i := by
  unfold fhalfright64
  rw [fdct32_out _ _ output' i hi]
  exact congrFun (fdct32_congr _ _ output' (fun k hk => by
    rw [loadLoop_apply, if_pos hk, Nat.add_comm])) i

/-! ### Scaling stages -/

theorem out_downshift1_nonneg (t : Int) (h : 0 ≤ t) : out_downshift1 t = asr t 1 := by
  unfold out_downshift1 b2i
  rw [if_neg (by omega), Int.add_zero]

theorem out_downshift1_neg (t : Int) (h : t < 0) : out_downshift1 t = -asr (-t) 1 := by
  unfold out_downshift1 b2i
  rw [if_pos h, asr_one, asr_one]
  omega

theorem mid_scale_64x64_eq (t : Int) : mid_scale_64x64 t = ROUND_POWER_OF_TWO_SIGNED t 2 := by
  unfold mid_scale_64x64 ROUND_POWER_OF_TWO_SIGNED ROUND_POWER_OF_TWO b2i
  simp only [asr_eq_div]
  norm_num
  split_ifs <;> omega

theorem round_signed_32 (v : Int) : ROUND_POWER_OF_TWO_SIGNED (v * 4 * 2 * 4) 2 = 8 * v := by
  unfold ROUND_POWER_OF_TWO_SIGNED ROUND_POWER_OF_TWO
  simp only [asr_eq_div]
  norm_num
  split_ifs <;> omega

theorem round_signed_16 (v : Int) : ROUND_POWER_OF_TWO_SIGNED (v * 4 * 4) 4 = v := by
  unfold ROUND_POWER_OF_TWO_SIGNED ROUND_POWER_OF_TWO
  simp only [asr_eq_div]
  norm_num
  split_ifs <;> omega

/-! ### The identity transform type -/

/-- A kernel that maps each of its first `n` samples through `f` is local. -/
theorem local_of_pointwise (n : Nat) (k : transform_1d) (f : Int → Int)
    (h : ∀ (inp o : Buf) (j : Nat), j < n → k inp o j = f (inp j)) : Local n k := by
  intro inp inp' o o' e j hj
  rw [h inp o j hj, h inp' o' j hj, e j hj]

/-- The separable formula for two kernels that act sample by sample. -/
theorem fhtCore_pointwise (N1 n1 : Nat) (ro co : Nat → Nat → Nat)
    (k1 k2 : transform_2d → transform_1d) (scIn : Int → Int)
    (scMid : Int → Int) (idx2 : Nat → Nat → Nat) (scOut : Int → Int)
    (ht : transform_2d) (B : Nat → Nat → Int) (output : Buf) (f1 f2 : Int → Int)
    (hinj : ∀ i i' j j', i < n1 → i' < n1 → j < N1 → j' < N1 → idx2 i j = idx2 i' j' →
      i = i' ∧ j = j')
    (hk1 : ∀ (inp o : Buf) (j : Nat), j < n1 → k1 ht inp o j = f1 (inp j))
    (hk2 : ∀ (inp o : Buf) (j : Nat), j < N1 → k2 ht inp o j = f2 (inp j))
    (i j : Nat) (hi : i < n1) (hj : j < N1) :
    fhtCore N1 n1 ro co k1 k2 scIn adjNone scMid idx2 scOut ht B output (idx2 i j)
      = scOut (f2 (scMid (f1 (scIn (B (ro j i) (co j i)))))) := by
  rw [fhtCore_read N1 n1 ro co k1 k2 scIn adjNone scMid idx2 scOut ht B output hinj
    (local_of_pointwise n1 _ f1 hk1) (local_of_pointwise N1 _ f2 hk2)
    (fun _ _ _ h => h) i j hi hj, hk2 _ _ j hj, hk1 _ _ i hi]
  rfl

theorem fidtx8_pointwise (inp o : Buf) (j : Nat) (hj : j < 8) :
    fidtx8 inp o j = (fun v => v * 2) (inp j) := by
  rw [fidtx8_apply, if_pos hj]

theorem fidtx32_pointwise (inp o : Buf) (j : Nat) (hj : j < 32) :
    fidtx32 inp o j = (fun v => v * 4) (inp j) := by
  rw [fidtx32_apply, if_pos hj]

theorem rowMap_IDTX (l r : Nat) : rowMap l IDTX r = r := by
  unfold rowMap
  rw [if_neg (by decide)]

theorem colMap_IDTX (w c : Nat) : colMap w IDTX c = c := by
  unfold colMap
  rw [if_neg (by decide)]

theorem av1_fht8x32_c_idtx (x output : Buf) (stride : Nat) :
    ∃ o, av1_fht8x32_c x output stride IDTX = some o ∧
      ∀ r c, r < 32 → c < 8 → o (r * 8 + c) = 8 * x (r * stride + c) := by
  rw [av1_fht8x32_c_eq]
  refine ⟨_, fht2d_canon _ _ _ _ _ _ _ _ _ _ _ _ _ _ x output stride IDTX ⟨fidtx32, fidtx8⟩
    (fun i j hi hj => ⟨hi, hj⟩) (by decide) rfl rfl, fun r c hr hc => ?_⟩
  rw [Nat.add_comm (r * 8) c]
  rw [fhtCore_pointwise 32 8 _ _ transform_2d.rows transform_2d.cols _ _
    (fun i j => i + j * 8) _ ⟨fidtx32, fidtx8⟩ _ output (fun v => v * 2) (fun v => v * 4)
    (fun a b c d ha hb hc hd e => by simp only at e; omega)
    fidtx8_pointwise fidtx32_pointwise c r hc hr]
  simp only [rowMap_IDTX, colMap_IDTX]
  exact round_signed_32 _

theorem av1_fht32x8_c_idtx (x output : Buf) (stride : Nat) :
    ∃ o, av1_fht32x8_c x output stride IDTX = some o ∧
      ∀ r c, r < 8 → c < 32 → o (r * 32 + c) = 8 * x (r * stride + c) := by
  rw [av1_fht32x8_c_eq]
  refine ⟨_, fht2d_canon _ _ _ _ _ _ _ _ _ _ _ _ _ _ x output stride IDTX ⟨fidtx8, fidtx32⟩
    (fun i j hi hj => ⟨hj, hi⟩) (by decide) rfl rfl, fun r c hr hc => ?_⟩
  rw [Nat.add_comm (r * 32) c]
  rw [fhtCore_pointwise 32 8 _ _ transform_2d.cols transform_2d.rows _ _
    (fun i j => j + i * 32) _ ⟨fidtx8, fidtx32⟩ _ output (fun v => v * 2) (fun v => v * 4)
    (fun a b c d ha hb hc hd e => by simp only at e; omega)
    fidtx8_pointwise fidtx32_pointwise r c hr hc]
  simp only [rowMap_IDTX, colMap_IDTX]
  exact round_signed_32 _

theorem av1_fht8x8_c_table_idtx (x output : Buf) (stride : Nat) :
    ∃ o, av1_fht8x8_c_table x output stride IDTX = some o ∧
      ∀ r c, r < 8 → c < 8 → o (r * 8 + c) = 8 * x (r * stride + c) := by
  rw [av1_fht8x8_c_table_eq]
  refine ⟨_, fht2d_canon _ _ _ _ _ _ _ _ _ _ _ _ _ _ x output stride IDTX ⟨fidtx8, fidtx8⟩
    (fun i j hi hj => ⟨hj, hi⟩) (by decide) rfl rfl, fun r c hr hc => ?_⟩
  rw [Nat.add_comm (r * 8) c]
  rw [fhtCore_pointwise 8 8 _ _ transform_2d.cols transform_2d.rows _ _
    (fun i j => j + i * 8) _ ⟨fidtx8, fidtx8⟩ _ output (fun v => v * 2) (fun v => v * 2)
    (fun a b c d ha hb hc hd e => by simp only at e; omega)
    fidtx8_pointwise fidtx8_pointwise r c hr hc]
  simp only [rowMap_IDTX, colMap_IDTX, asr_one, b2i]
  split_ifs <;> omega

theorem av1_fht32x32_c_idtx (x output : Buf) (stride : Nat) :
    ∃ o, av1_fht32x32_c x output stride IDTX = some o ∧
      ∀ r c, r < 32 → c < 32 → o (r * 32 + c) = 4 * x (r * stride + c) := by
  rw [av1_fht32x32_c_eq]
  refine ⟨_, fht2d_canon _ _ _ _ _ _ _ _ _ _ _ _ _ _ x output stride IDTX ⟨fidtx32, fidtx32⟩
    (fun i j hi hj => ⟨hj, hi⟩) (by decide) rfl rfl, fun r c hr hc => ?_⟩
  rw [Nat.add_comm (r * 32) c]
  rw [fhtCore_pointwise 32 32 _ _ transform_2d.cols transform_2d.rows _ _
    (fun i j => j + i * 32) _ ⟨fidtx32, fidtx32⟩ _ output (fun v => v * 4) (fun v => v * 4)
    (fun a b c d ha hb hc hd e => by simp only at e; omega)
    fidtx32_pointwise fidtx32_pointwise r c hr hc]
  simp only [rowMap_IDTX, colMap_IDTX, round_signed_16]
  omega

/-! ### Additivity of the 4-point kernels up to rounding -/

theorem nat_lor_zero (m n : Nat) (h : m ||| n = 0) : m = 0 ∧ n = 0 := by
  constructor
  · apply Nat.eq_of_testBit_eq
    intro i
    have := congrArg (fun x => Nat.testBit x i) h
    simp only [Nat.testBit_or, Nat.zero_testBit, Bool.or_eq_false_iff] at this
    rw [this.1, Nat.zero_testBit]
  · apply Nat.eq_of_testBit_eq
    intro i
    have := congrArg (fun x => Nat.testBit x i) h
    simp only [Nat.testBit_or, Nat.zero_testBit, Bool.or_eq_false_iff] at this
    rw [this.2, Nat.zero_testBit]

theorem int_lor_zero (a b : Int) (h : Int.lor a b = 0) : a = 0 ∧ b = 0 := by
  cases a with
  | ofNat m =>
    cases b with
    | ofNat n =>
      have h2 : ((m ||| n : Nat) : Int) = 0 := h
      have h3 := nat_lor_zero m n (by exact_mod_cast h2)
      exact ⟨by rw [h3.1]; rfl, by rw [h3.2]; rfl⟩
    | negSucc n => exact absurd h (by simp [Int.lor])
  | negSucc m =>
    cases b with
    | ofNat n => exact absurd h (by simp [Int.lor])
    | negSucc n => exact absurd h (by simp [Int.lor])

theorem fadst4_lor_zero (inp : Buf)
    (h : Int.lor (Int.lor (Int.lor (inp 0) (inp 1)) (inp 2)) (inp 3) = 0) :
    inp 0 = 0 ∧ inp 1 = 0 ∧ inp 2 = 0 ∧ inp 3 = 0 := by
  have h3 := int_lor_zero _ _ h
  have h2 := int_lor_zero _ _ h3.1
  have h1 := int_lor_zero _ _ h2.1
  exact ⟨h1.1, h1.2, h2.2, h3.2⟩

/-- The outputs of `fadst4` as rounded linear forms of the inputs; the fast
path for a zero vector agrees with them. -/
theorem fadst4_formula (inp o : Buf) :
    fadst4 inp o 0 = fdct_round_shift (sinpi_1_9 * inp 0 + sinpi_2_9 * inp 1
      + sinpi_4_9 * inp 3 + sinpi_3_9 * inp 2) ∧
    fadst4 inp o 1 = fdct_round_shift (sinpi_3_9 * (inp 0 + inp 1 - inp 3)) ∧
    fadst4 inp o 2 = fdct_round_shift (sinpi_4_9 * inp 0 - sinpi_1_9 * inp 1
      + sinpi_2_9 * inp 3 - sinpi_3_9 * inp 2) ∧
    fadst4 inp o 3 = fdct_round_shift (sinpi_4_9 * inp 0 - sinpi_1_9 * inp 1
      + sinpi_2_9 * inp 3 - (sinpi_1_9 * inp 0 + sinpi_2_9 * inp 1 + sinpi_4_9 * inp 3)
      + sinpi_3_9 * inp 2) := by
  by_cases h : Int.lor (Int.lor (Int.lor (inp 0) (inp 1)) (inp 2)) (inp 3) = 0
  · obtain ⟨h0, h1, h2, h3⟩ := fadst4_lor_zero inp h
    unfold fadst4
    simp only [h0, h1, h2, h3]
    exact ⟨rfl, rfl, rfl, rfl⟩
  · unfold fadst4
    rw [if_neg h]
    exact ⟨rfl, rfl, rfl, rfl⟩

theorem round_shift_add (x y : Int) :
    -1 ≤ fdct_round_shift (x + y) - fdct_round_shift x - fdct_round_shift y ∧
    fdct_round_shift (x + y) - fdct_round_shift x - fdct_round_shift y ≤ 1 := by
  simp only [fdct_round_shift_eq, asr_eq_div]
  omega

/-- The set `{-1, 0, 1}` of rounding differences. -/
theorem unit_cases (d : Int) (h : -1 ≤ d ∧ d ≤ 1) : d = -1 ∨ d = 0 ∨ d = 1 := by omega

theorem fdct4_additive (a b o1 o2 o3 : Buf) (k : Nat) (hk : k < 4) :
    -1 ≤ fdct4 (fun n => a n + b n) o1 k - fdct4 a o2 k - fdct4 b o3 k ∧
    fdct4 (fun n => a n + b n) o1 k - fdct4 a o2 k - fdct4 b o3 k ≤ 1 := by
  interval_cases k
  · rw [fdct4_0, fdct4_0, fdct4_0]
    have e := round_shift_add ((a 0 + a 3) * cospi_16_64 + (a 1 + a 2) * cospi_16_64)
      ((b 0 + b 3) * cospi_16_64 + (b 1 + b 2) * cospi_16_64)
    rw [show (a 0 + b 0 + (a 3 + b 3)) * cospi_16_64 + (a 1 + b 1 + (a 2 + b 2)) * cospi_16_64
      = (a 0 + a 3) * cospi_16_64 + (a 1 + a 2) * cospi_16_64
        + ((b 0 + b 3) * cospi_16_64 + (b 1 + b 2) * cospi_16_64) by ring]
    exact e
  · rw [fdct4_1, fdct4_1, fdct4_1]
    have e := round_shift_add ((a 1 - a 2) * cospi_24_64 + (a 0 - a 3) * cospi_8_64)
      ((b 1 - b 2) * cospi_24_64 + (b 0 - b 3) * cospi_8_64)
    rw [show (a 1 + b 1 - (a 2 + b 2)) * cospi_24_64 + (a 0 + b 0 - (a 3 + b 3)) * cospi_8_64
      = (a 1 - a 2) * cospi_24_64 + (a 0 - a 3) * cospi_8_64
        + ((b 1 - b 2) * cospi_24_64 + (b 0 - b 3) * cospi_8_64) by ring]
    exact e
  · rw [fdct4_2, fdct4_2, fdct4_2]
    have e := round_shift_add ((a 1 + a 2) * (-cospi_16_64) + (a 0 + a 3) * cospi_16_64)
      ((b 1 + b 2) * (-cospi_16_64) + (b 0 + b 3) * cospi_16_64)
    rw [show (a 1 + b 1 + (a 2 + b 2)) * (-cospi_16_64) + (a 0 + b 0 + (a 3 + b 3)) * cospi_16_64
      = (a 1 + a 2) * (-cospi_16_64) + (a 0 + a 3) * cospi_16_64
        + ((b 1 + b 2) * (-cospi_16_64) + (b 0 + b 3) * cospi_16_64) by ring]
    exact e
  · rw [fdct4_3, fdct4_3, fdct4_3]
    have e := round_shift_add ((a 0 - a 3) * cospi_24_64 + (a 1 - a 2) * (-cospi_8_64))
      ((b 0 - b 3) * cospi_24_64 + (b 1 - b 2) * (-cospi_8_64))
    rw [show (a 0 + b 0 - (a 3 + b 3)) * cospi_24_64 + (a 1 + b 1 - (a 2 + b 2)) * (-cospi_8_64)
      = (a 0 - a 3) * cospi_24_64 + (a 1 - a 2) * (-cospi_8_64)
        + ((b 0 - b 3) * cospi_24_64 + (b 1 - b 2) * (-cospi_8_64)) by ring]
    exact e

theorem fadst4_additive (a b o1 o2 o3 : Buf) (k : Nat) (hk : k < 4) :
    -1 ≤ fadst4 (fun n => a n + b n) o1 k - fadst4 a o2 k - fadst4 b o3 k ∧
    fadst4 (fun n => a n + b n) o1 k - fadst4 a o2 k - fadst4 b o3 k ≤ 1 := by
  obtain ⟨s0, s1, s2, s3⟩ := fadst4_formula (fun n => a n + b n) o1
  obtain ⟨a0, a1, a2, a3⟩ := fadst4_formula a o2
  obtain ⟨b0, b1, b2, b3⟩ := fadst4_formula b o3
  interval_cases k
  · rw [s0, a0, b0]
    have e := round_shift_add (sinpi_1_9 * a 0 + sinpi_2_9 * a 1 + sinpi_4_9 * a 3
      + sinpi_3_9 * a 2) (sinpi_1_9 * b 0 + sinpi_2_9 * b 1 + sinpi_4_9 * b 3 + sinpi_3_9 * b 2)
    rw [show sinpi_1_9 * (a 0 + b 0) + sinpi_2_9 * (a 1 + b 1) + sinpi_4_9 * (a 3 + b 3)
        + sinpi_3_9 * (a 2 + b 2)
      = sinpi_1_9 * a 0 + sinpi_2_9 * a 1 + sinpi_4_9 * a 3 + sinpi_3_9 * a 2
        + (sinpi_1_9 * b 0 + sinpi_2_9 * b 1 + sinpi_4_9 * b 3 + sinpi_3_9 * b 2) by ring]
    exact e
  · rw [s1, a1, b1]
    have e := round_shift_add (sinpi_3_9 * (a 0 + a 1 - a 3)) (sinpi_3_9 * (b 0 + b 1 - b 3))
    rw [show sinpi_3_9 * (a 0 + b 0 + (a 1 + b 1) - (a 3 + b 3))
      = sinpi_3_9 * (a 0 + a 1 - a 3) + sinpi_3_9 * (b 0 + b 1 - b 3) by ring]
    exact e
  · rw [s2, a2, b2]
    have e := round_shift_add (sinpi_4_9 * a 0 - sinpi_1_9 * a 1 + sinpi_2_9 * a 3
      - sinpi_3_9 * a 2) (sinpi_4_9 * b 0 - sinpi_1_9 * b 1 + sinpi_2_9 * b 3 - sinpi_3_9 * b 2)
    rw [show sinpi_4_9 * (a 0 + b 0) - sinpi_1_9 * (a 1 + b 1) + sinpi_2_9 * (a 3 + b 3)
        - sinpi_3_9 * (a 2 + b 2)
      = sinpi_4_9 * a 0 - sinpi_1_9 * a 1 + sinpi_2_9 * a 3 - sinpi_3_9 * a 2
        + (sinpi_4_9 * b 0 - sinpi_1_9 * b 1 + sinpi_2_9 * b 3 - sinpi_3_9 * b 2) by ring]
    exact e
  · rw [s3, a3, b3]
    have e := round_shift_add (sinpi_4_9 * a 0 - sinpi_1_9 * a 1
      + sinpi_2_9 * a 3 - (sinpi_1_9 * a 0 + sinpi_2_9 * a 1 + sinpi_4_9 * a 3)
      + sinpi_3_9 * a 2) (sinpi_4_9 * b 0 - sinpi_1_9 * b 1
      + sinpi_2_9 * b 3 - (sinpi_1_9 * b 0 + sinpi_2_9 * b 1 + sinpi_4_9 * b 3)
      + sinpi_3_9 * b 2)
    rw [show sinpi_4_9 * (a 0 + b 0) - sinpi_1_9 * (a 1 + b 1)
      + sinpi_2_9 * (a 3 + b 3) - (sinpi_1_9 * (a 0 + b 0) + sinpi_2_9 * (a 1 + b 1)
        + sinpi_4_9 * (a 3 + b 3)) + sinpi_3_9 * (a 2 + b 2)
      = sinpi_4_9 * a 0 - sinpi_1_9 * a 1
      + sinpi_2_9 * a 3 - (sinpi_1_9 * a 0 + sinpi_2_9 * a 1 + sinpi_4_9 * a 3)
      + sinpi_3_9 * a 2 + (sinpi_4_9 * b 0 - sinpi_1_9 * b 1
      + sinpi_2_9 * b 3 - (sinpi_1_9 * b 0 + sinpi_2_9 * b 1 + sinpi_4_9 * b 3)
      + sinpi_3_9 * b 2) by ring]
    exact e

/-! ### Additivity of `fdct8` up to rounding -/

theorem round_shift_add_err (x y d : Int) (h : -24576 ≤ d ∧ d ≤ 24576) :
    -2 ≤ fdct_round_shift (x + y + d) - fdct_round_shift x - fdct_round_shift y ∧
    fdct_round_shift (x + y + d) - fdct_round_shift x - fdct_round_shift y ≤ 2 := by
  simp only [fdct_round_shift_eq, asr_eq_div]
  omega

theorem fdct8_0 (inp o : Buf) : fdct8 inp o 0
    = fdct_round_shift ((inp 0 + inp 7 + (inp 3 + inp 4)) * cospi_16_64 + (inp 1 + inp 6 +
        (inp 2 + inp 5)) * cospi_16_64) := rfl

theorem fdct8_4 (inp o : Buf) : fdct8 inp o 4
    = fdct_round_shift ((inp 1 + inp 6 + (inp 2 + inp 5)) * (-cospi_16_64) + (inp 0 + inp 7 +
        (inp 3 + inp 4)) * cospi_16_64) := rfl

theorem fdct8_2 (inp o : Buf) : fdct8 inp o 2
    = fdct_round_shift ((inp 1 + inp 6 - (inp 2 + inp 5)) * cospi_24_64 + (inp 0 + inp 7 -
        (inp 3 + inp 4)) * cospi_8_64) := rfl

theorem fdct8_6 (inp o : Buf) : fdct8 inp o 6
    = fdct_round_shift ((inp 0 + inp 7 - (inp 3 + inp 4)) * cospi_24_64 + (inp 1 + inp 6 -
        (inp 2 + inp 5)) * (-cospi_8_64)) := rfl

theorem fdct8_1 (inp o : Buf) : fdct8 inp o 1
    = fdct_round_shift ((inp 3 - inp 4 + fdct_round_shift ((inp 2 - inp 5) * (-cospi_16_64) +
        (inp 1 - inp 6) * cospi_16_64)) * cospi_28_64 + (inp 0 - inp 7 + fdct_round_shift
        ((inp 1 - inp 6) * cospi_16_64 + (inp 2 - inp 5) * cospi_16_64)) * cospi_4_64) := rfl

theorem fdct8_5 (inp o : Buf) : fdct8 inp o 5
    = fdct_round_shift ((inp 3 - inp 4 - fdct_round_shift ((inp 2 - inp 5) * (-cospi_16_64) +
        (inp 1 - inp 6) * cospi_16_64)) * cospi_12_64 + (inp 0 - inp 7 - fdct_round_shift
        ((inp 1 - inp 6) * cospi_16_64 + (inp 2 - inp 5) * cospi_16_64)) * cospi_20_64) := rfl

theorem fdct8_3 (inp o : Buf) : fdct8 inp o 3
    = fdct_round_shift ((inp 0 - inp 7 - fdct_round_shift ((inp 1 - inp 6) * cospi_16_64 +
        (inp 2 - inp 5) * cospi_16_64)) * cospi_12_64 + (inp 3 - inp 4 - fdct_round_shift
        ((inp 2 - inp 5) * (-cospi_16_64) + (inp 1 - inp 6) * cospi_16_64)) *
        (-cospi_20_64)) := rfl

theorem fdct8_7 (inp o : Buf) : fdct8 inp o 7
    = fdct_round_shift ((inp 0 - inp 7 + fdct_round_shift ((inp 1 - inp 6) * cospi_16_64 +
        (inp 2 - inp 5) * cospi_16_64)) * cospi_28_64 + (inp 3 - inp 4 + fdct_round_shift
        ((inp 2 - inp 5) * (-cospi_16_64) + (inp 1 - inp 6) * cospi_16_64)) *
        (-cospi_4_64)) := rfl

theorem fdct8_additive_0 (a b o1 o2 o3 : Buf) :
    -1 ≤ fdct8 (fun n => a n + b n) o1 0 - fdct8 a o2 0 - fdct8 b o3 0 ∧
    fdct8 (fun n => a n + b n) o1 0 - fdct8 a o2 0 - fdct8 b o3 0 ≤ 1 := by
  have e := round_shift_add ((a 0 + a 7 + (a 3 + a 4)) * cospi_16_64 + (a 1 + a 6 + (a 2
      + a 5)) * cospi_16_64)
    ((b 0 + b 7 + (b 3 + b 4)) * cospi_16_64 + (b 1 + b 6 + (b 2 + b 5)) * cospi_16_64)
  have s : fdct8 (fun n => a n + b n) o1 0
      = fdct_round_shift ((a 0 + a 7 + (a 3 + a 4)) * cospi_16_64 + (a 1 + a 6 + (a 2 + a 5))
          * cospi_16_64
        + ((b 0 + b 7 + (b 3 + b 4)) * cospi_16_64 + (b 1 + b 6 + (b 2 + b 5))
            * cospi_16_64)) := by
    rw [fdct8_0]
    congr 1
    ring
  rw [s, fdct8_0 a, fdct8_0 b]
  exact e

theorem fdct8_additive_4 (a b o1 o2 o3 : Buf) :
    -1 ≤ fdct8 (fun n => a n + b n) o1 4 - fdct8 a o2 4 - fdct8 b o3 4 ∧
    fdct8 (fun n => a n + b n) o1 4 - fdct8 a o2 4 - fdct8 b o3 4 ≤ 1 := by
  have e := round_shift_add ((a 1 + a 6 + (a 2 + a 5)) * (-cospi_16_64) + (a 0 + a 7 + (a 3
      + a 4)) * cospi_16_64)
    ((b 1 + b 6 + (b 2 + b 5)) * (-cospi_16_64) + (b 0 + b 7 + (b 3 + b 4)) * cospi_16_64)
  have s : fdct8 (fun n => a n + b n) o1 4
      = fdct_round_shift ((a 1 + a 6 + (a 2 + a 5)) * (-cospi_16_64) + (a 0 + a 7 + (a 3
          + a 4)) * cospi_16_64
        + ((b 1 + b 6 + (b 2 + b 5)) * (-cospi_16_64) + (b 0 + b 7 + (b 3 + b 4))
            * cospi_16_64)) := by
    rw [fdct8_4]
    congr 1
    ring
  rw [s, fdct8_4 a, fdct8_4 b]
  exact e

theorem fdct8_additive_2 (a b o1 o2 o3 : Buf) :
    -1 ≤ fdct8 (fun n => a n + b n) o1 2 - fdct8 a o2 2 - fdct8 b o3 2 ∧
    fdct8 (fun n => a n + b n) o1 2 - fdct8 a o2 2 - fdct8 b o3 2 ≤ 1 := by
  have e := round_shift_add ((a 1 + a 6 - (a 2 + a 5)) * cospi_24_64 + (a 0 + a 7 - (a 3
      + a 4)) * cospi_8_64)
    ((b 1 + b 6 - (b 2 + b 5)) * cospi_24_64 + (b 0 + b 7 - (b 3 + b 4)) * cospi_8_64)
  have s : fdct8 (fun n => a n + b n) o1 2
      = fdct_round_shift ((a 1 + a 6 - (a 2 + a 5)) * cospi_24_64 + (a 0 + a 7 - (a 3 + a 4))
          * cospi_8_64
        + ((b 1 + b 6 - (b 2 + b 5)) * cospi_24_64 + (b 0 + b 7 - (b 3 + b 4))
            * cospi_8_64)) := by
    rw [fdct8_2]
    congr 1
    ring
  rw [s, fdct8_2 a, fdct8_2 b]
  exact e

theorem fdct8_additive_6 (a b o1 o2 o3 : Buf) :
    -1 ≤ fdct8 (fun n => a n + b n) o1 6 - fdct8 a o2 6 - fdct8 b o3 6 ∧
    fdct8 (fun n => a n + b n) o1 6 - fdct8 a o2 6 - fdct8 b o3 6 ≤ 1 := by
  have e := round_shift_add ((a 0 + a 7 - (a 3 + a 4)) * cospi_24_64 + (a 1 + a 6 - (a 2
      + a 5)) * (-cospi_8_64))
    ((b 0 + b 7 - (b 3 + b 4)) * cospi_24_64 + (b 1 + b 6 - (b 2 + b 5)) * (-cospi_8_64))
  have s : fdct8 (fun n => a n + b n) o1 6
      = fdct_round_shift ((a 0 + a 7 - (a 3 + a 4)) * cospi_24_64 + (a 1 + a 6 - (a 2 + a 5)) *
          (-cospi_8_64)
        + ((b 0 + b 7 - (b 3 + b 4)) * cospi_24_64 + (b 1 + b 6 - (b 2 + b 5)) *
            (-cospi_8_64))) := by
    rw [fdct8_6]
    congr 1
    ring
  rw [s, fdct8_6 a, fdct8_6 b]
  exact e

theorem fdct8_additive_1 (a b o1 o2 o3 : Buf) :
    -2 ≤ fdct8 (fun n => a n + b n) o1 1 - fdct8 a o2 1 - fdct8 b o3 1 ∧
    fdct8 (fun n => a n + b n) o1 1 - fdct8 a o2 1 - fdct8 b o3 1 ≤ 2 := by
  have h5 := round_shift_add ((a 2 - a 5) * (-cospi_16_64) + (a 1 - a 6) * cospi_16_64)
    ((b 2 - b 5) * (-cospi_16_64) + (b 1 - b 6) * cospi_16_64)
  have h6 := round_shift_add ((a 1 - a 6) * cospi_16_64 + (a 2 - a 5) * cospi_16_64)
    ((b 1 - b 6) * cospi_16_64 + (b 2 - b 5) * cospi_16_64)
  have s : fdct8 (fun n => a n + b n) o1 1
      = fdct_round_shift ((a 3 - a 4 + (b 3 - b 4) + fdct_round_shift ((a 2 - a 5) *
          (-cospi_16_64) + (a 1 - a 6) * cospi_16_64
        + ((b 2 - b 5) * (-cospi_16_64) + (b 1 - b 6) * cospi_16_64))) * cospi_28_64 + (a 0
            - a 7 + (b 0 - b 7) + fdct_round_shift ((a 1 - a 6) * cospi_16_64 + (a 2 - a 5)
            * cospi_16_64
        + ((b 1 - b 6) * cospi_16_64 + (b 2 - b 5) * cospi_16_64))) * cospi_4_64) := by
    rw [fdct8_1]
    congr 1
    have u : ((fun n => a n + b n) 2 - (fun n => a n + b n) 5) * (-cospi_16_64) +
        ((fun n => a n + b n) 1 - (fun n => a n + b n) 6) * cospi_16_64
        = (a 2 - a 5) * (-cospi_16_64) + (a 1 - a 6) * cospi_16_64
          + ((b 2 - b 5) * (-cospi_16_64) + (b 1 - b 6) * cospi_16_64) := by ring
    have v : ((fun n => a n + b n) 1 - (fun n => a n + b n) 6) * cospi_16_64 + ((fun n => a n
        + b n) 2 - (fun n => a n + b n) 5) * cospi_16_64
        = (a 1 - a 6) * cospi_16_64 + (a 2 - a 5) * cospi_16_64
          + ((b 1 - b 6) * cospi_16_64 + (b 2 - b 5) * cospi_16_64) := by ring
    rw [u, v]
    ring
  rw [s, fdct8_1 a, fdct8_1 b]
  generalize fdct_round_shift ((a 2 - a 5) * (-cospi_16_64) + (a 1 - a 6) * cospi_16_64
    + ((b 2 - b 5) * (-cospi_16_64) + (b 1 - b 6) * cospi_16_64)) = rs5 at h5 ⊢
  generalize fdct_round_shift ((a 1 - a 6) * cospi_16_64 + (a 2 - a 5) * cospi_16_64
    + ((b 1 - b 6) * cospi_16_64 + (b 2 - b 5) * cospi_16_64)) = rs6 at h6 ⊢
  generalize fdct_round_shift ((a 2 - a 5) * (-cospi_16_64) + (a 1 - a 6) * cospi_16_64)
      = ra5 at h5 ⊢
  generalize fdct_round_shift ((b 2 - b 5) * (-cospi_16_64) + (b 1 - b 6) * cospi_16_64)
      = rb5 at h5 ⊢
  generalize fdct_round_shift ((a 1 - a 6) * cospi_16_64 + (a 2 - a 5) * cospi_16_64)
      = ra6 at h6 ⊢
  generalize fdct_round_shift ((b 1 - b 6) * cospi_16_64 + (b 2 - b 5) * cospi_16_64)
      = rb6 at h6 ⊢
  have key := round_shift_add_err ((a 3 - a 4 + ra5) * cospi_28_64 + (a 0 - a 7 + ra6)
      * cospi_4_64)
    ((b 3 - b 4 + rb5) * cospi_28_64 + (b 0 - b 7 + rb6) * cospi_4_64)
    ((0 + (rs5 - ra5 - rb5)) * cospi_28_64 + (0 + (rs6 - ra6 - rb6)) * cospi_4_64)
    (by simp only [cospi_4_64, cospi_12_64, cospi_20_64, cospi_28_64]; omega)
  have t : (a 3 - a 4 + (b 3 - b 4) + rs5) * cospi_28_64 + (a 0 - a 7 + (b 0 - b 7) + rs6)
      * cospi_4_64
      = (a 3 - a 4 + ra5) * cospi_28_64 + (a 0 - a 7 + ra6) * cospi_4_64
        + ((b 3 - b 4 + rb5) * cospi_28_64 + (b 0 - b 7 + rb6) * cospi_4_64)
        + ((0 + (rs5 - ra5 - rb5)) * cospi_28_64 + (0 + (rs6 - ra6 - rb6))
            * cospi_4_64) := by ring
  rw [t]
  exact key

theorem fdct8_additive_5 (a b o1 o2 o3 : Buf) :
    -2 ≤ fdct8 (fun n => a n + b n) o1 5 - fdct8 a o2 5 - fdct8 b o3 5 ∧
    fdct8 (fun n => a n + b n) o1 5 - fdct8 a o2 5 - fdct8 b o3 5 ≤ 2 := by
  have h5 := round_shift_add ((a 2 - a 5) * (-cospi_16_64) + (a 1 - a 6) * cospi_16_64)
    ((b 2 - b 5) * (-cospi_16_64) + (b 1 - b 6) * cospi_16_64)
  have h6 := round_shift_add ((a 1 - a 6) * cospi_16_64 + (a 2 - a 5) * cospi_16_64)
    ((b 1 - b 6) * cospi_16_64 + (b 2 - b 5) * cospi_16_64)
  have s : fdct8 (fun n => a n + b n) o1 5
      = fdct_round_shift ((a 3 - a 4 + (b 3 - b 4) - fdct_round_shift ((a 2 - a 5) *
          (-cospi_16_64) + (a 1 - a 6) * cospi_16_64
        + ((b 2 - b 5) * (-cospi_16_64) + (b 1 - b 6) * cospi_16_64))) * cospi_12_64 + (a 0
            - a 7 + (b 0 - b 7) - fdct_round_shift ((a 1 - a 6) * cospi_16_64 + (a 2 - a 5)
            * cospi_16_64
        + ((b 1 - b 6) * cospi_16_64 + (b 2 - b 5) * cospi_16_64))) * cospi_20_64) := by
    rw [fdct8_5]
    congr 1
    have u : ((fun n => a n + b n) 2 - (fun n => a n + b n) 5) * (-cospi_16_64) +
        ((fun n => a n + b n) 1 - (fun n => a n + b n) 6) * cospi_16_64
        = (a 2 - a 5) * (-cospi_16_64) + (a 1 - a 6) * cospi_16_64
          + ((b 2 - b 5) * (-cospi_16_64) + (b 1 - b 6) * cospi_16_64) := by ring
    have v : ((fun n => a n + b n) 1 - (fun n => a n + b n) 6) * cospi_16_64 + ((fun n => a n
        + b n) 2 - (fun n => a n + b n) 5) * cospi_16_64
        = (a 1 - a 6) * cospi_16_64 + (a 2 - a 5) * cospi_16_64
          + ((b 1 - b 6) * cospi_16_64 + (b 2 - b 5) * cospi_16_64) := by ring
    rw [u, v]
    ring
  rw [s, fdct8_5 a, fdct8_5 b]
  generalize fdct_round_shift ((a 2 - a 5) * (-cospi_16_64) + (a 1 - a 6) * cospi_16_64
    + ((b 2 - b 5) * (-cospi_16_64) + (b 1 - b 6) * cospi_16_64)) = rs5 at h5 ⊢
  generalize fdct_round_shift ((a 1 - a 6) * cospi_16_64 + (a 2 - a 5) * cospi_16_64
    + ((b 1 - b 6) * cospi_16_64 + (b 2 - b 5) * cospi_16_64)) = rs6 at h6 ⊢
  generalize fdct_round_shift ((a 2 - a 5) * (-cospi_16_64) + (a 1 - a 6) * cospi_16_64)
      = ra5 at h5 ⊢
  generalize fdct_round_shift ((b 2 - b 5) * (-cospi_16_64) + (b 1 - b 6) * cospi_16_64)
      = rb5 at h5 ⊢
  generalize fdct_round_shift ((a 1 - a 6) * cospi_16_64 + (a 2 - a 5) * cospi_16_64)
      = ra6 at h6 ⊢
  generalize fdct_round_shift ((b 1 - b 6) * cospi_16_64 + (b 2 - b 5) * cospi_16_64)
      = rb6 at h6 ⊢
  have key := round_shift_add_err ((a 3 - a 4 - ra5) * cospi_12_64 + (a 0 - a 7 - ra6)
      * cospi_20_64)
    ((b 3 - b 4 - rb5) * cospi_12_64 + (b 0 - b 7 - rb6) * cospi_20_64)
    ((0 - (rs5 - ra5 - rb5)) * cospi_12_64 + (0 - (rs6 - ra6 - rb6)) * cospi_20_64)
    (by simp only [cospi_4_64, cospi_12_64, cospi_20_64, cospi_28_64]; omega)
  have t : (a 3 - a 4 + (b 3 - b 4) - rs5) * cospi_12_64 + (a 0 - a 7 + (b 0 - b 7) - rs6)
      * cospi_20_64
      = (a 3 - a 4 - ra5) * cospi_12_64 + (a 0 - a 7 - ra6) * cospi_20_64
        + ((b 3 - b 4 - rb5) * cospi_12_64 + (b 0 - b 7 - rb6) * cospi_20_64)
        + ((0 - (rs5 - ra5 - rb5)) * cospi_12_64 + (0 - (rs6 - ra6 - rb6))
            * cospi_20_64) := by ring
  rw [t]
  exact key

theorem fdct8_additive_3 (a b o1 o2 o3 : Buf) :
    -2 ≤ fdct8 (fun n => a n + b n) o1 3 - fdct8 a o2 3 - fdct8 b o3 3 ∧
    fdct8 (fun n => a n + b n) o1 3 - fdct8 a o2 3 - fdct8 b o3 3 ≤ 2 := by
  have h5 := round_shift_add ((a 2 - a 5) * (-cospi_16_64) + (a 1 - a 6) * cospi_16_64)
    ((b 2 - b 5) * (-cospi_16_64) + (b 1 - b 6) * cospi_16_64)
  have h6 := round_shift_add ((a 1 - a 6) * cospi_16_64 + (a 2 - a 5) * cospi_16_64)
    ((b 1 - b 6) * cospi_16_64 + (b 2 - b 5) * cospi_16_64)
  have s : fdct8 (fun n => a n + b n) o1 3
      = fdct_round_shift ((a 0 - a 7 + (b 0 - b 7) - fdct_round_shift ((a 1 - a 6)
          * cospi_16_64 + (a 2 - a 5) * cospi_16_64
        + ((b 1 - b 6) * cospi_16_64 + (b 2 - b 5) * cospi_16_64))) * cospi_12_64 + (a 3 - a 4 +
            (b 3 - b 4) - fdct_round_shift ((a 2 - a 5) * (-cospi_16_64) + (a 1 - a 6)
            * cospi_16_64
        + ((b 2 - b 5) * (-cospi_16_64) + (b 1 - b 6) * cospi_16_64))) * (-cospi_20_64)) := by
    rw [fdct8_3]
    congr 1
    have u : ((fun n => a n + b n) 2 - (fun n => a n + b n) 5) * (-cospi_16_64) +
        ((fun n => a n + b n) 1 - (fun n => a n + b n) 6) * cospi_16_64
        = (a 2 - a 5) * (-cospi_16_64) + (a 1 - a 6) * cospi_16_64
          + ((b 2 - b 5) * (-cospi_16_64) + (b 1 - b 6) * cospi_16_64) := by ring
    have v : ((fun n => a n + b n) 1 - (fun n => a n + b n) 6) * cospi_16_64 + ((fun n => a n
        + b n) 2 - (fun n => a n + b n) 5) * cospi_16_64
        = (a 1 - a 6) * cospi_16_64 + (a 2 - a 5) * cospi_16_64
          + ((b 1 - b 6) * cospi_16_64 + (b 2 - b 5) * cospi_16_64) := by ring
    rw [u, v]
    ring
  rw [s, fdct8_3 a, fdct8_3 b]
  generalize fdct_round_shift ((a 2 - a 5) * (-cospi_16_64) + (a 1 - a 6) * cospi_16_64
    + ((b 2 - b 5) * (-cospi_16_64) + (b 1 - b 6) * cospi_16_64)) = rs5 at h5 ⊢
  generalize fdct_round_shift ((a 1 - a 6) * cospi_16_64 + (a 2 - a 5) * cospi_16_64
    + ((b 1 - b 6) * cospi_16_64 + (b 2 - b 5) * cospi_16_64)) = rs6 at h6 ⊢
  generalize fdct_round_shift ((a 2 - a 5) * (-cospi_16_64) + (a 1 - a 6) * cospi_16_64)
      = ra5 at h5 ⊢
  generalize fdct_round_shift ((b 2 - b 5) * (-cospi_16_64) + (b 1 - b 6) * cospi_16_64)
      = rb5 at h5 ⊢
  generalize fdct_round_shift ((a 1 - a 6) * cospi_16_64 + (a 2 - a 5) * cospi_16_64)
      = ra6 at h6 ⊢
  generalize fdct_round_shift ((b 1 - b 6) * cospi_16_64 + (b 2 - b 5) * cospi_16_64)
      = rb6 at h6 ⊢
  have key := round_shift_add_err ((a 0 - a 7 - ra6) * cospi_12_64 + (a 3 - a 4 - ra5) *
      (-cospi_20_64))
    ((b 0 - b 7 - rb6) * cospi_12_64 + (b 3 - b 4 - rb5) * (-cospi_20_64))
    ((0 - (rs6 - ra6 - rb6)) * cospi_12_64 + (0 - (rs5 - ra5 - rb5)) * (-cospi_20_64))
    (by simp only [cospi_4_64, cospi_12_64, cospi_20_64, cospi_28_64]; omega)
  have t : (a 0 - a 7 + (b 0 - b 7) - rs6) * cospi_12_64 + (a 3 - a 4 + (b 3 - b 4) - rs5) *
      (-cospi_20_64)
      = (a 0 - a 7 - ra6) * cospi_12_64 + (a 3 - a 4 - ra5) * (-cospi_20_64)
        + ((b 0 - b 7 - rb6) * cospi_12_64 + (b 3 - b 4 - rb5) * (-cospi_20_64))
        + ((0 - (rs6 - ra6 - rb6)) * cospi_12_64 + (0 - (rs5 - ra5 - rb5)) *
            (-cospi_20_64)) := by ring
  rw [t]
  exact key

theorem fdct8_additive_7 (a b o1 o2 o3 : Buf) :
    -2 ≤ fdct8 (fun n => a n + b n) o1 7 - fdct8 a o2 7 - fdct8 b o3 7 ∧
    fdct8 (fun n => a n + b n) o1 7 - fdct8 a o2 7 - fdct8 b o3 7 ≤ 2 := by
  have h5 := round_shift_add ((a 2 - a 5) * (-cospi_16_64) + (a 1 - a 6) * cospi_16_64)
    ((b 2 - b 5) * (-cospi_16_64) + (b 1 - b 6) * cospi_16_64)
  have h6 := round_shift_add ((a 1 - a 6) * cospi_16_64 + (a 2 - a 5) * cospi_16_64)
    ((b 1 - b 6) * cospi_16_64 + (b 2 - b 5) * cospi_16_64)
  have s : fdct8 (fun n => a n + b n) o1 7
      = fdct_round_shift ((a 0 - a 7 + (b 0 - b 7) + fdct_round_shift ((a 1 - a 6)
          * cospi_16_64 + (a 2 - a 5) * cospi_16_64
        + ((b 1 - b 6) * cospi_16_64 + (b 2 - b 5) * cospi_16_64))) * cospi_28_64 + (a 3 - a 4 +
            (b 3 - b 4) + fdct_round_shift ((a 2 - a 5) * (-cospi_16_64) + (a 1 - a 6)
            * cospi_16_64
        + ((b 2 - b 5) * (-cospi_16_64) + (b 1 - b 6) * cospi_16_64))) * (-cospi_4_64)) := by
    rw [fdct8_7]
    congr 1
    have u : ((fun n => a n + b n) 2 - (fun n => a n + b n) 5) * (-cospi_16_64) +
        ((fun n => a n + b n) 1 - (fun n => a n + b n) 6) * cospi_16_64
        = (a 2 - a 5) * (-cospi_16_64) + (a 1 - a 6) * cospi_16_64
          + ((b 2 - b 5) * (-cospi_16_64) + (b 1 - b 6) * cospi_16_64) := by ring
    have v : ((fun n => a n + b n) 1 - (fun n => a n + b n) 6) * cospi_16_64 + ((fun n => a n
        + b n) 2 - (fun n => a n + b n) 5) * cospi_16_64
        = (a 1 - a 6) * cospi_16_64 + (a 2 - a 5) * cospi_16_64
          + ((b 1 - b 6) * cospi_16_64 + (b 2 - b 5) * cospi_16_64) := by ring
    rw [u, v]
    ring
  rw [s, fdct8_7 a, fdct8_7 b]
  generalize fdct_round_shift ((a 2 - a 5) * (-cospi_16_64) + (a 1 - a 6) * cospi_16_64
    + ((b 2 - b 5) * (-cospi_16_64) + (b 1 - b 6) * cospi_16_64)) = rs5 at h5 ⊢
  generalize fdct_round_shift ((a 1 - a 6) * cospi_16_64 + (a 2 - a 5) * cospi_16_64
    + ((b 1 - b 6) * cospi_16_64 + (b 2 - b 5) * cospi_16_64)) = rs6 at h6 ⊢
  generalize fdct_round_shift ((a 2 - a 5) * (-cospi_16_64) + (a 1 - a 6) * cospi_16_64)
      = ra5 at h5 ⊢
  generalize fdct_round_shift ((b 2 - b 5) * (-cospi_16_64) + (b 1 - b 6) * cospi_16_64)
      = rb5 at h5 ⊢
  generalize fdct_round_shift ((a 1 - a 6) * cospi_16_64 + (a 2 - a 5) * cospi_16_64)
      = ra6 at h6 ⊢
  generalize fdct_round_shift ((b 1 - b 6) * cospi_16_64 + (b 2 - b 5) * cospi_16_64)
      = rb6 at h6 ⊢
  have key := round_shift_add_err ((a 0 - a 7 + ra6) * cospi_28_64 + (a 3 - a 4 + ra5) *
      (-cospi_4_64))
    ((b 0 - b 7 + rb6) * cospi_28_64 + (b 3 - b 4 + rb5) * (-cospi_4_64))
    ((0 + (rs6 - ra6 - rb6)) * cospi_28_64 + (0 + (rs5 - ra5 - rb5)) * (-cospi_4_64))
    (by simp only [cospi_4_64, cospi_12_64, cospi_20_64, cospi_28_64]; omega)
  have t : (a 0 - a 7 + (b 0 - b 7) + rs6) * cospi_28_64 + (a 3 - a 4 + (b 3 - b 4) + rs5) *
      (-cospi_4_64)
      = (a 0 - a 7 + ra6) * cospi_28_64 + (a 3 - a 4 + ra5) * (-cospi_4_64)
        + ((b 0 - b 7 + rb6) * cospi_28_64 + (b 3 - b 4 + rb5) * (-cospi_4_64))
        + ((0 + (rs6 - ra6 - rb6)) * cospi_28_64 + (0 + (rs5 - ra5 - rb5)) *
            (-cospi_4_64)) := by ring
  rw [t]
  exact key

/-! ### The 4x4 transform never overflows -/

theorem forLoopC_pure {σ : Type} (n : Nat) (f : Nat → σ → σ) (s : σ) :
    forLoopC n (fun j t => some (f j t)) s = some (forLoop n f s) := by
  induction n with
  | zero => rfl
  | succ n ih =>
    show (forLoopC n (fun j t => some (f j t)) s).bind _ = _
    rw [ih]
    rfl

theorem ite_bind {α β : Type} (c : Prop) [Decidable c] (a b : Option α) (f : α → Option β) :
    (if c then a else b).bind f = if c then a.bind f else b.bind f := by
  split <;> rfl

theorem av1_fht4x4_c_table_chk_eq (input output : Buf) (stride t : Nat) :
    av1_fht4x4_c_table_chk input output stride t = (do
      let ht ← (FHT_4x4_chk)[t]?
      let flip ← maybe_flip_input input stride 4 4 zeroBuf t
      let s1 ← txfmPassC 4 4 (fun i j => tran_low_t (flip.src (j * flip.src_stride + i) * 16))
        adj4x4_chk ht.cols (fun i j => j * 4 + i) some ⟨zeroBuf, zeroBuf, zeroBuf⟩
      let s2 ← txfmPassC 4 4 (fun i j => some (s1.dest (j + i * 4))) (fun _ t => some t)
        ht.rows (fun i j => j + i * 4)
        (fun v => (tran_low_t (v + 1)).bind (fun w => tran_low_t (asr w 2)))
        ⟨s1.temp_in, s1.temp_out, output⟩
      some s2.dest) := by
  unfold av1_fht4x4_c_table_chk txfmPassC adj4x4_chk
  simp only [forLoopC_pure, Option.some_bind, Option.bind_eq_bind, Option.bind_assoc, ite_bind]

theorem tran_low_t_ok (x : Int) (h : -2147483648 ≤ x ∧ x < 2147483648) :
    tran_low_t x = some x := by
  unfold tran_low_t
  rw [if_pos (by norm_num; exact h)]

theorem wrap32_of_range (x : Int) (h : -2147483648 ≤ x ∧ x < 2147483648) : wrap32 x = x := by
  unfold wrap32
  norm_num
  omega

theorem tran_high_t_ok (x : Int)
    (h : -9223372036854775808 ≤ x ∧ x < 9223372036854775808) : tran_high_t x = some x := by
  unfold tran_high_t
  rw [if_pos (by norm_num; exact h)]

theorem andThen_some {α : Type} (v : Int) (rest : Int → Option α) :
    andThen (some v) rest = rest v := rfl

theorem fdct4_chk_ok : KernelOK fdct4_chk fdct4 := by
  intro M t o hM hb
  have h0 := hb 0 (by norm_num)
  have h1 := hb 1 (by norm_num)
  have h2 := hb 2 (by norm_num)
  have h3 := hb 3 (by norm_num)
  norm_num at hM
  constructor
  · unfold fdct4_chk fdct4
    simp (disch := omega) only [tran_low_t_ok, tran_high_t_ok, andThen_some,
      fdct_round_shift_eq, asr_eq_div, cospi_8_64, cospi_16_64, cospi_24_64,
      show (2 : Int) ^ 14 = 16384 from rfl]
  · intro j hj
    interval_cases j
    · rw [fdct4_0]
      simp only [fdct_round_shift_eq, asr_eq_div, cospi_8_64, cospi_16_64, cospi_24_64,
        show (2 : Int) ^ 14 = 16384 from rfl]
      omega
    · rw [fdct4_1]
      simp only [fdct_round_shift_eq, asr_eq_div, cospi_8_64, cospi_16_64, cospi_24_64,
        show (2 : Int) ^ 14 = 16384 from rfl]
      omega
    · rw [fdct4_2]
      simp only [fdct_round_shift_eq, asr_eq_div, cospi_8_64, cospi_16_64, cospi_24_64,
        show (2 : Int) ^ 14 = 16384 from rfl]
      omega
    · rw [fdct4_3]
      simp only [fdct_round_shift_eq, asr_eq_div, cospi_8_64, cospi_16_64, cospi_24_64,
        show (2 : Int) ^ 14 = 16384 from rfl]
      omega

theorem fadst4_chk_ok : KernelOK fadst4_chk fadst4 := by
  intro M t o hM hb
  have h0 := hb 0 (by norm_num)
  have h1 := hb 1 (by norm_num)
  have h2 := hb 2 (by norm_num)
  have h3 := hb 3 (by norm_num)
  norm_num at hM
  constructor
  · by_cases h : Int.lor (Int.lor (Int.lor (t 0) (t 1)) (t 2)) (t 3) = 0
    · unfold fadst4_chk fadst4
      simp only [if_pos h]
    · unfold fadst4_chk fadst4
      simp (disch := omega) only [if_neg h, tran_low_t_ok, tran_high_t_ok, andThen_some,
        fdct_round_shift_eq, asr_eq_div, sinpi_1_9, sinpi_2_9, sinpi_3_9, sinpi_4_9,
        show (2 : Int) ^ 14 = 16384 from rfl]
  · obtain ⟨f0, f1, f2, f3⟩ := fadst4_formula t o
    intro j hj
    interval_cases j
    · rw [f0]
      simp only [fdct_round_shift_eq, asr_eq_div, sinpi_1_9, sinpi_2_9, sinpi_3_9, sinpi_4_9,
        show (2 : Int) ^ 14 = 16384 from rfl]
      omega
    · rw [f1]
      simp only [fdct_round_shift_eq, asr_eq_div, sinpi_1_9, sinpi_2_9, sinpi_3_9, sinpi_4_9,
        show (2 : Int) ^ 14 = 16384 from rfl]
      omega
    · rw [f2]
      simp only [fdct_round_shift_eq, asr_eq_div, sinpi_1_9, sinpi_2_9, sinpi_3_9, sinpi_4_9,
        show (2 : Int) ^ 14 = 16384 from rfl]
      omega
    · rw [f3]
      simp only [fdct_round_shift_eq, asr_eq_div, sinpi_1_9, sinpi_2_9, sinpi_3_9, sinpi_4_9,
        show (2 : Int) ^ 14 = 16384 from rfl]
      omega

theorem fidtx4_chk_ok : KernelOK fidtx4_chk fidtx4 := by
  intro M t o hM hb
  have h0 := hb 0 (by norm_num)
  have h1 := hb 1 (by norm_num)
  have h2 := hb 2 (by norm_num)
  have h3 := hb 3 (by norm_num)
  norm_num at hM
  constructor
  · unfold fidtx4_chk fidtx4
    simp (disch := omega) only [forLoopC, forLoop, Option.some_bind, Option.bind_eq_bind,
      tran_low_t_ok, tran_high_t_ok, wrap32_of_range,
      fdct_round_shift_eq, asr_eq_div, Sqrt2, show (2 : Int) ^ 14 = 16384 from rfl]
  · intro j hj
    rw [fidtx4_apply, if_pos hj]
    have hj := hb j hj
    simp (disch := omega) only [wrap32_of_range, fdct_round_shift_eq, asr_eq_div, Sqrt2,
      show (2 : Int) ^ 14 = 16384 from rfl]
    omega

theorem fidtx4_local : Local 4 fidtx4 :=
  local_of_pointwise 4 fidtx4 (fun v => wrap32 (fdct_round_shift (v * Sqrt2)))
    (fun inp o j hj => by rw [fidtx4_apply, if_pos hj])

theorem fadst4_local : Local 4 fadst4 := by
  intro inp inp' o o' e j hj
  obtain ⟨f0, f1, f2, f3⟩ := fadst4_formula inp o
  obtain ⟨g0, g1, g2, g3⟩ := fadst4_formula inp' o'
  have e0 := e 0 (by norm_num)
  have e1 := e 1 (by norm_num)
  have e2 := e 2 (by norm_num)
  have e3 := e 3 (by norm_num)
  interval_cases j
  · rw [f0, g0, e0, e1, e2, e3]
  · rw [f1, g1, e0, e1, e3]
  · rw [f2, g2, e0, e1, e2, e3]
  · rw [f3, g3, e0, e1, e2, e3]

theorem forLoopC_succ {σ : Type} (n : Nat) (body : Nat → σ → Option σ) (s : σ) :
    forLoopC (n + 1) body s = (forLoopC n body s).bind (body n) := rfl

theorem forLoopC_store (n : Nat) (g : Nat → Nat) (vC : Nat → Option Int) (v : Nat → Int)
    (t0 : Buf) (h : ∀ j, j < n → vC j = some (v j)) :
    forLoopC n (fun j t => (vC j).bind fun x => some (store t (g j) x)) t0
      = some (forLoop n (fun j t => store t (g j) (v j)) t0) := by
  induction n with
  | zero => rfl
  | succ n ih =>
    rw [forLoopC_succ, ih (fun j hj => h j (Nat.lt_succ_of_lt hj)), Option.some_bind,
      h n (Nat.lt_succ_self n), Option.some_bind]
    rfl

theorem txfmPassC_succ (N n : Nat) (load : Nat → Nat → Option Int)
    (adj : Nat → Buf → Option Buf) (k : transform_1d_chk) (idx : Nat → Nat → Nat)
    (scale : Int → Option Int) (s : PassState) :
    txfmPassC (N + 1) n load adj k idx scale s =
      (txfmPassC N n load adj k idx scale s).bind fun p =>
        (forLoopC n (fun j t => (load N j).bind fun x => some (store t j x)) p.temp_in).bind
          fun temp_in => (adj N temp_in).bind
          fun temp_in => (k temp_in p.temp_out).bind
          fun temp_out =>
            (forLoopC n (fun j d => (scale (temp_out j)).bind fun x => some (store d (idx N j) x))
              p.dest).bind
          fun dest => some ⟨temp_in, temp_out, dest⟩ := rfl

/-- A pass with its integer types agrees with the pass on mathematical
integers when the loaded values, the touched-up values and the kernel outputs
stay within bounds under which no step overflows. -/
theorem txfmPassC_ok (N n : Nat) (loadC : Nat → Nat → Option Int) (load : Nat → Nat → Int)
    (adjC : Nat → Buf → Option Buf) (adj : Nat → Buf → Buf) (kC : transform_1d_chk)
    (k : transform_1d) (idx : Nat → Nat → Nat) (scC : Int → Option Int) (sc : Int → Int)
    (s : PassState) (M0 M1 M2 : Int)
    (hload : ∀ i j, i < N → j < n → loadC i j = some (load i j) ∧
      -M0 ≤ load i j ∧ load i j ≤ M0)
    (hadj : ∀ i t, i < N → Bnd n M0 t → adjC i t = some (adj i t) ∧ Bnd n M1 (adj i t))
    (hk : ∀ t o, Bnd n M1 t → kC t o = some (k t o) ∧ Bnd n M2 (k t o))
    (hsc : ∀ v, -M2 ≤ v ∧ v ≤ M2 → scC v = some (sc v)) :
    txfmPassC N n loadC adjC kC idx scC s = some (txfmPass N n load adj k idx sc s) := by
  induction N with
  | zero => rfl
  | succ N ih =>
    rw [txfmPassC_succ, ih (fun i j hi hj => hload i j (Nat.lt_succ_of_lt hi) hj)
      (fun i t hi => hadj i t (Nat.lt_succ_of_lt hi)), Option.some_bind]
    have hN := Nat.lt_succ_self N
    rw [forLoopC_store n (fun j => j) (loadC N) (load N) _ (fun j hj => (hload N j hN hj).1),
      Option.some_bind]
    have hb0 : Bnd n M0 (forLoop n (fun j t => store t j (load N j))
        (txfmPass N n load adj k idx sc s).temp_in) := by
      intro j hj
      rw [loadLoop_apply, if_pos hj]
      exact (hload N j hN hj).2
    obtain ⟨ea, hb1⟩ := hadj N _ hN hb0
    rw [ea, Option.some_bind]
    obtain ⟨ek, hb2⟩ := hk _ (txfmPass N n load adj k idx sc s).temp_out hb1
    rw [ek, Option.some_bind]
    rw [forLoopC_store n (idx N) _ (fun j => sc (k (adj N (forLoop n
      (fun j t => store t j (load N j)) (txfmPass N n load adj k idx sc s).temp_in))
      (txfmPass N n load adj k idx sc s).temp_out j)) _ (fun j hj => hsc _ (hb2 j hj)),
      Option.some_bind]
    rfl

theorem FHT_4x4_chk_ok (t : Nat) (ht : t < 16) :
    ∃ hC h, FHT_4x4_chk[t]? = some hC ∧ FHT_4x4[t]? = some h ∧
      KernelOK hC.cols h.cols ∧ KernelOK hC.rows h.rows ∧
      Local 4 h.cols ∧ Local 4 h.rows := by
  interval_cases t
  · exact ⟨_, _, rfl, rfl, fdct4_chk_ok, fdct4_chk_ok, fdct4_local, fdct4_local⟩
  · exact ⟨_, _, rfl, rfl, fadst4_chk_ok, fdct4_chk_ok, fadst4_local, fdct4_local⟩
  · exact ⟨_, _, rfl, rfl, fdct4_chk_ok, fadst4_chk_ok, fdct4_local, fadst4_local⟩
  · exact ⟨_, _, rfl, rfl, fadst4_chk_ok, fadst4_chk_ok, fadst4_local, fadst4_local⟩
  · exact ⟨_, _, rfl, rfl, fadst4_chk_ok, fdct4_chk_ok, fadst4_local, fdct4_local⟩
  · exact ⟨_, _, rfl, rfl, fdct4_chk_ok, fadst4_chk_ok, fdct4_local, fadst4_local⟩
  · exact ⟨_, _, rfl, rfl, fadst4_chk_ok, fadst4_chk_ok, fadst4_local, fadst4_local⟩
  · exact ⟨_, _, rfl, rfl, fadst4_chk_ok, fadst4_chk_ok, fadst4_local, fadst4_local⟩
  · exact ⟨_, _, rfl, rfl, fadst4_chk_ok, fadst4_chk_ok, fadst4_local, fadst4_local⟩
  · exact ⟨_, _, rfl, rfl, fidtx4_chk_ok, fidtx4_chk_ok, fidtx4_local, fidtx4_local⟩
  · exact ⟨_, _, rfl, rfl, fdct4_chk_ok, fidtx4_chk_ok, fdct4_local, fidtx4_local⟩
  · exact ⟨_, _, rfl, rfl, fidtx4_chk_ok, fdct4_chk_ok, fidtx4_local, fdct4_local⟩
  · exact ⟨_, _, rfl, rfl, fadst4_chk_ok, fidtx4_chk_ok, fadst4_local, fidtx4_local⟩
  · exact ⟨_, _, rfl, rfl, fidtx4_chk_ok, fadst4_chk_ok, fidtx4_local, fadst4_local⟩
  · exact ⟨_, _, rfl, rfl, fadst4_chk_ok, fidtx4_chk_ok, fadst4_local, fidtx4_local⟩
  · exact ⟨_, _, rfl, rfl, fidtx4_chk_ok, fadst4_chk_ok, fidtx4_local, fadst4_local⟩

theorem adj4x4_chk_ok (i : Nat) (t : Buf) (hb : Bnd 4 524288 t) :
    adj4x4_chk i t = some (adj4x4 i t) ∧ Bnd 4 524289 (adj4x4 i t) := by
  have h0 := hb 0 (by norm_num)
  unfold adj4x4_chk adj4x4
  by_cases c : i = 0 ∧ t 0 ≠ 0
  · rw [if_pos c, if_pos c, tran_low_t_ok _ (by omega)]
    refine ⟨rfl, fun j hj => ?_⟩
    have hj2 := hb j hj
    unfold store
    split <;> omega
  · rw [if_neg c, if_neg c]
    refine ⟨rfl, fun j hj => ?_⟩
    have hj2 := hb j hj
    omega

/-- On a block of `int16_t` samples no value of the table-driven block of
`av1_fht4x4_c` overflows: the transform with its integer types returns the
result of the transform on mathematical integers. -/
theorem fht4x4_chk_ok (input output : Buf) (stride t : Nat) (ht : t < 16)
    (hin : ∀ r c, r < 4 → c < 4 → int16_t (input (r * stride + c))) :
    av1_fht4x4_c_table_chk input output stride t
      = av1_fht4x4_c_table input output stride t := by
  obtain ⟨hC, h, e1, e2, okc, okr, lc, lr⟩ := FHT_4x4_chk_ok t ht
  obtain ⟨flip, hf, hsrc⟩ := maybe_flip_input_src input stride 4 4 zeroBuf t ht rfl
  rw [av1_fht4x4_c_table_chk_eq, av1_fht4x4_c_table_eq]
  unfold fht2d
  rw [e1, e2, hf]
  simp only [Option.some_bind, Option.bind_eq_bind]
  have hl : ∀ i j, i < 4 → j < 4 →
      -524288 ≤ flip.src (j * flip.src_stride + i) * 16 ∧
      flip.src (j * flip.src_stride + i) * 16 ≤ 524288 := by
    intro i j hi hj
    rw [hsrc j i hj hi]
    have := hin _ _ (rowMap_lt 4 t j hj) (colMap_lt 4 t i hi)
    unfold int16_t at this
    norm_num at this
    omega
  have p1 := txfmPassC_ok 4 4
    (fun i j => tran_low_t (flip.src (j * flip.src_stride + i) * 16))
    (fun i j => flip.src (j * flip.src_stride + i) * 16) adj4x4_chk adj4x4 hC.cols h.cols
    (fun i j => j * 4 + i) some (fun t => t) ⟨zeroBuf, zeroBuf, zeroBuf⟩
    524288 524289 1572868
    (fun i j hi hj => ⟨tran_low_t_ok _ (by have := hl i j hi hj; omega), hl i j hi hj⟩)
    (fun i t _ hb => adj4x4_chk_ok i t hb)
    (fun t o hb => okc 524289 t o (by norm_num) hb)
    (fun v _ => rfl)
  rw [p1]
  simp only [Option.some_bind]
  have hd : ∀ i j, i < 4 → j < 4 →
      -1572868 ≤ (txfmPass 4 4 (fun i j => flip.src (j * flip.src_stride + i) * 16) adj4x4
        h.cols (fun i j => j * 4 + i) (fun t => t) ⟨zeroBuf, zeroBuf, zeroBuf⟩).dest
        (j + i * 4) ∧
      (txfmPass 4 4 (fun i j => flip.src (j * flip.src_stride + i) * 16) adj4x4
        h.cols (fun i j => j * 4 + i) (fun t => t) ⟨zeroBuf, zeroBuf, zeroBuf⟩).dest (j + i * 4)
        ≤ 1572868 := by
    intro i j hi hj
    have e : j + i * 4 = (fun i j => j * 4 + i) j i := by simp only; omega
    rw [e, txfmPass_read 4 4 _ adj4x4 h.cols (fun i j => j * 4 + i) (fun t => t) _
      (fun a b c d ha hb hc hd e => by simp only at e; omega) lc adj4x4_local j i hj hi]
    have hb0 : Bnd 4 524288 (fun m => flip.src (m * flip.src_stride + j) * 16) :=
      fun m hm => hl j m hj hm
    exact (okc 524289 _ zeroBuf (by norm_num) (adj4x4_chk_ok j _ hb0).2).2 i hi
  have p2 := txfmPassC_ok 4 4
    (fun i j => some ((txfmPass 4 4 (fun i j => flip.src (j * flip.src_stride + i) * 16)
      adj4x4 h.cols (fun i j => j * 4 + i) (fun t => t) ⟨zeroBuf, zeroBuf, zeroBuf⟩).dest
      (j + i * 4)))
    (fun i j => (txfmPass 4 4 (fun i j => flip.src (j * flip.src_stride + i) * 16)
      adj4x4 h.cols (fun i j => j * 4 + i) (fun t => t) ⟨zeroBuf, zeroBuf, zeroBuf⟩).dest
      (j + i * 4))
    (fun _ t => some t) (fun _ t => t) hC.rows h.rows
    (fun i j => j + i * 4) (fun v => (tran_low_t (v + 1)).bind (fun w => tran_low_t (asr w 2)))
    (fun v => asr (v + 1) 2)
    ⟨(txfmPass 4 4 (fun i j => flip.src (j * flip.src_stride + i) * 16)
      adj4x4 h.cols (fun i j => j * 4 + i) (fun t => t) ⟨zeroBuf, zeroBuf, zeroBuf⟩).temp_in,
     (txfmPass 4 4 (fun i j => flip.src (j * flip.src_stride + i) * 16)
      adj4x4 h.cols (fun i j => j * 4 + i) (fun t => t) ⟨zeroBuf, zeroBuf, zeroBuf⟩).temp_out,
     output⟩
    1572868 1572868 4718605
    (fun i j hi hj => ⟨rfl, hd i j hi hj⟩)
    (fun i t _ hb => ⟨rfl, hb⟩)
    (fun t o hb => okr 1572868 t o (by norm_num) hb)
    (fun v hv => by
      show (tran_low_t (v + 1)).bind (fun w => tran_low_t (asr w 2)) = some (asr (v + 1) 2)
      rw [tran_low_t_ok _ (by omega), Option.some_bind,
        tran_low_t_ok _ (by rw [asr_eq_div]; omega)])
  rw [p2]
  rfl

theorem av1_fht4x4_c_table_some (input output : Buf) (stride t : Nat) (ht : t < 16) :
    ∃ o, av1_fht4x4_c_table input output stride t = some o := by
  rw [av1_fht4x4_c_table_eq]
  exact fht2d_some _ _ _ _ _ _ _ _ _ _ _ _ _ _ input output stride t
    (fun i j hi hj => ⟨hj, hi⟩) rfl (fun t ht => by interval_cases t <;> exact ⟨_, rfl⟩) ht

/-! ### Locality of the longer kernels -/

theorem fdct8_out (input output output' : Buf) (k : Nat) (hk : k < 8) :
    fdct8 input output k = fdct8 input output' k := by
  unfold fdct8
  interval_cases k <;> simp only [store, reduceIte, Nat.reduceEqDiff]

theorem fadst8_out (input output output' : Buf) (k : Nat) (hk : k < 8) :
    fadst8 input output k = fadst8 input output' k := by
  unfold fadst8
  interval_cases k <;> simp only [store, reduceIte, Nat.reduceEqDiff]

theorem fadst16_out (input output output' : Buf) (k : Nat) (hk : k < 16) :
    fadst16 input output k = fadst16 input output' k := by
  unfold fadst16
  interval_cases k <;> simp only [store, reduceIte, Nat.reduceEqDiff]

theorem fdct8_local : Local 8 fdct8 := by
  intro inp inp' o o' h j hj
  rw [fdct8_congr inp inp' o h]
  exact fdct8_out inp' o o' j hj

theorem fdct16_local : Local 16 fdct16 := by
  intro inp inp' o o' h j hj
  rw [fdct16_congr inp inp' o h]
  exact fdct16_out inp' o o' j hj

theorem fdct32_local : Local 32 fdct32 := by
  intro inp inp' o o' h j hj
  rw [fdct32_congr inp inp' o h]
  exact fdct32_out inp' o o' j hj

theorem fadst8_local : Local 8 fadst8 := by
  intro inp inp' o o' h j hj
  rw [fadst8_congr inp inp' o h]
  exact fadst8_out inp' o o' j hj

theorem fadst16_local : Local 16 fadst16 := by
  intro inp inp' o o' h j hj
  rw [fadst16_congr inp inp' o h]
  exact fadst16_out inp' o o' j hj

theorem fidtx8_local : Local 8 fidtx8 := by
  intro inp inp' o o' h j hj
  rw [fidtx8_apply, fidtx8_apply, if_pos hj, if_pos hj, h j hj]

theorem fidtx16_local : Local 16 fidtx16 := by
  intro inp inp' o o' h j hj
  rw [fidtx16_apply, fidtx16_apply, if_pos hj, if_pos hj, h j hj]

theorem fidtx32_local : Local 32 fidtx32 := by
  intro inp inp' o o' h j hj
  rw [fidtx32_apply, fidtx32_apply, if_pos hj, if_pos hj, h j hj]

theorem fhalfright32_local : Local 32 fhalfright32 := by
  intro inp inp' o o' h j hj
  by_cases hlow : j < 16
  · rw [fhalfright32_low inp o o j hlow, fhalfright32_low inp' o' o j hlow]
    rw [fdct16_congr _ (fun m => wrap32 (fdct_round_shift (inp' (16 + m) * Sqrt2))) o
      (fun m hm => by simp only; rw [h (16 + m) (by omega)])]
  · have e : j = 16 + (j - 16) := by omega
    rw [e, fhalfright32_high inp o (j - 16) (by omega),
      fhalfright32_high inp' o' (j - 16) (by omega), h (j - 16) (by omega)]

/-! ### The DCT kernels are nested -/

theorem fdct8_nested (x o o2 : Buf) (k : Nat) (hk : k < 4) :
    fdct8 x o (2 * k) = fdct4 (fun i => x i + x (7 - i)) o2 k := by
  interval_cases k <;>
    (unfold fdct8 fdct4
     simp only [store, reduceIte, Nat.reduceEqDiff, Nat.reduceSub, Nat.reduceMul])

theorem fdct16_nested (x o o2 : Buf) (k : Nat) (hk : k < 8) :
    fdct16 x o (2 * k) = fdct8 (fun i => x i + x (15 - i)) o2 k := by
  interval_cases k <;>
    (unfold fdct16 fdct8
     simp only [store, reduceIte, Nat.reduceEqDiff, Nat.reduceSub, Nat.reduceMul])

theorem fdct32_nested (x o o2 : Buf) (k : Nat) (hk : k < 16) :
    fdct32 x o (2 * k) = fdct16 (fun i => x i + x (31 - i)) o2 k := by
  interval_cases k <;>
    (unfold fdct32 fdct16
     simp only [store, reduceIte, Nat.reduceEqDiff, Nat.reduceSub, Nat.reduceMul])

/-! ### A mirror-symmetric input has no odd part -/

theorem fdct4_odd_zero (x o : Buf) (h : ∀ i, i < 4 → x i = x (3 - i)) (k : Nat)
    (hk : k < 2) : fdct4 x o (2 * k + 1) = 0 := by
  have e2 : x 2 = x 1 := h 2 (by norm_num)
  have e3 : x 3 = x 0 := h 3 (by norm_num)
  interval_cases k <;>
    (unfold fdct4
     simp only [store, reduceIte, Nat.reduceEqDiff, Nat.reduceMul, Nat.reduceAdd, e2, e3,
         sub_self, zero_mul, add_zero, zero_add, sub_zero, neg_zero, fdct_round_shift_zero])

theorem fdct8_odd_zero (x o : Buf) (h : ∀ i, i < 8 → x i = x (7 - i)) (k : Nat)
    (hk : k < 4) : fdct8 x o (2 * k + 1) = 0 := by
  have e4 : x 4 = x 3 := h 4 (by norm_num)
  have e5 : x 5 = x 2 := h 5 (by norm_num)
  have e6 : x 6 = x 1 := h 6 (by norm_num)
  have e7 : x 7 = x 0 := h 7 (by norm_num)
  interval_cases k <;>
    (unfold fdct8
     simp only [store, reduceIte, Nat.reduceEqDiff, Nat.reduceMul, Nat.reduceAdd, e4, e5, e6, e7,
         sub_self, zero_mul, add_zero, zero_add, sub_zero, neg_zero, fdct_round_shift_zero])

theorem fdct16_odd_zero (x o : Buf) (h : ∀ i, i < 16 → x i = x (15 - i)) (k : Nat)
    (hk : k < 8) : fdct16 x o (2 * k + 1) = 0 := by
  have e8 : x 8 = x 7 := h 8 (by norm_num)
  have e9 : x 9 = x 6 := h 9 (by norm_num)
  have e10 : x 10 = x 5 := h 10 (by norm_num)
  have e11 : x 11 = x 4 := h 11 (by norm_num)
  have e12 : x 12 = x 3 := h 12 (by norm_num)
  have e13 : x 13 = x 2 := h 13 (by norm_num)
  have e14 : x 14 = x 1 := h 14 (by norm_num)
  have e15 : x 15 = x 0 := h 15 (by norm_num)
  interval_cases k <;>
    (unfold fdct16
     simp only [store, reduceIte, Nat.reduceEqDiff, Nat.reduceMul, Nat.reduceAdd, e8, e9, e10,
         e11, e12, e13, e14, e15, sub_self, zero_mul, add_zero, zero_add, sub_zero, neg_zero,
         fdct_round_shift_zero])

theorem fdct32_odd_zero (x o : Buf) (h : ∀ i, i < 32 → x i = x (31 - i)) (k : Nat)
    (hk : k < 16) : fdct32 x o (2 * k + 1) = 0 := by
  have e16 : x 16 = x 15 := h 16 (by norm_num)
  have e17 : x 17 = x 14 := h 17 (by norm_num)
  have e18 : x 18 = x 13 := h 18 (by norm_num)
  have e19 : x 19 = x 12 := h 19 (by norm_num)
  have e20 : x 20 = x 11 := h 20 (by norm_num)
  have e21 : x 21 = x 10 := h 21 (by norm_num)
  have e22 : x 22 = x 9 := h 22 (by norm_num)
  have e23 : x 23 = x 8 := h 23 (by norm_num)
  have e24 : x 24 = x 7 := h 24 (by norm_num)
  have e25 : x 25 = x 6 := h 25 (by norm_num)
  have e26 : x 26 = x 5 := h 26 (by norm_num)
  have e27 : x 27 = x 4 := h 27 (by norm_num)
  have e28 : x 28 = x 3 := h 28 (by norm_num)
  have e29 : x 29 = x 2 := h 29 (by norm_num)
  have e30 : x 30 = x 1 := h 30 (by norm_num)
  have e31 : x 31 = x 0 := h 31 (by norm_num)
  interval_cases k <;>
    (unfold fdct32
     simp only [store, reduceIte, Nat.reduceEqDiff, Nat.reduceMul, Nat.reduceAdd, e16, e17, e18,
         e19, e20, e21, e22, e23, e24, e25, e26, e27, e28, e29, e30, e31, sub_self, zero_mul,
         add_zero, zero_add, sub_zero, neg_zero, fdct_round_shift_zero])

/-! ### A constant input has only a DC coefficient -/

theorem fdct4_const (x o : Buf) (c : Int) (h : ∀ i, i < 4 → x i = c) :
    fdct4 x o 0 = fdct_round_shift (4 * c * cospi_16_64) ∧
    ∀ k, 0 < k → k < 4 → fdct4 x o k = 0 := by
  have h0 := h 0 (by norm_num)
  have h1 := h 1 (by norm_num)
  have h2 := h 2 (by norm_num)
  have h3 := h 3 (by norm_num)
  refine ⟨?_, ?_⟩
  · rw [fdct4_0, h0, h1, h2, h3]
    congr 1
    ring
  · intro k hk0 hk
    interval_cases k
    · rw [fdct4_1, h0, h1, h2, h3]
      simp only [sub_self, zero_mul, add_zero, fdct_round_shift_zero]
    · rw [fdct4_2, h0, h1, h2, h3]
      have e : (c + c) * -cospi_16_64 + (c + c) * cospi_16_64 = 0 := by ring
      rw [e]
      exact fdct_round_shift_zero
    · rw [fdct4_3, h0, h1, h2, h3]
      simp only [sub_self, zero_mul, add_zero, fdct_round_shift_zero]

theorem fdct8_const (x o : Buf) (c : Int) (h : ∀ i, i < 8 → x i = c) :
    fdct8 x o 0 = fdct_round_shift (8 * c * cospi_16_64) ∧
    ∀ k, 0 < k → k < 8 → fdct8 x o k = 0 := by
  have hf : ∀ i, i < 4 → (fun i => x i + x (7 - i)) i = 2 * c := by
    intro i hi
    simp only
    rw [h i (by omega), h (7 - i) (by omega)]
    ring
  obtain ⟨d0, dk⟩ := fdct4_const (fun i => x i + x (7 - i)) o (2 * c) hf
  refine ⟨?_, ?_⟩
  · have e := fdct8_nested x o o 0 (by norm_num)
    rw [Nat.mul_zero] at e
    rw [e, d0]
    congr 1
    ring
  · intro k hk0 hk
    rcases Nat.even_or_odd' k with ⟨m, rfl | rfl⟩
    · rw [fdct8_nested x o o m (by omega)]
      exact dk m (by omega) (by omega)
    · exact fdct8_odd_zero x o
        (fun i hi => by rw [h i hi, h (7 - i) (by omega)]) m (by omega)

theorem fdct16_const (x o : Buf) (c : Int) (h : ∀ i, i < 16 → x i = c) :
    fdct16 x o 0 = fdct_round_shift (16 * c * cospi_16_64) ∧
    ∀ k, 0 < k → k < 16 → fdct16 x o k = 0 := by
  have hf : ∀ i, i < 8 → (fun i => x i + x (15 - i)) i = 2 * c := by
    intro i hi
    simp only
    rw [h i (by omega), h (15 - i) (by omega)]
    ring
  obtain ⟨d0, dk⟩ := fdct8_const (fun i => x i + x (15 - i)) o (2 * c) hf
  refine ⟨?_, ?_⟩
  · have e := fdct16_nested x o o 0 (by norm_num)
    rw [Nat.mul_zero] at e
    rw [e, d0]
    congr 1
    ring
  · intro k hk0 hk
    rcases Nat.even_or_odd' k with ⟨m, rfl | rfl⟩
    · rw [fdct16_nested x o o m (by omega)]
      exact dk m (by omega) (by omega)
    · exact fdct16_odd_zero x o
        (fun i hi => by rw [h i hi, h (15 - i) (by omega)]) m (by omega)

theorem fdct32_const (x o : Buf) (c : Int) (h : ∀ i, i < 32 → x i = c) :
    fdct32 x o 0 = fdct_round_shift (32 * c * cospi_16_64) ∧
    ∀ k, 0 < k → k < 32 → fdct32 x o k = 0 := by
  have hf : ∀ i, i < 16 → (fun i => x i + x (31 - i)) i = 2 * c := by
    intro i hi
    simp only
    rw [h i (by omega), h (31 - i) (by omega)]
    ring
  obtain ⟨d0, dk⟩ := fdct16_const (fun i => x i + x (31 - i)) o (2 * c) hf
  refine ⟨?_, ?_⟩
  · have e := fdct32_nested x o o 0 (by norm_num)
    rw [Nat.mul_zero] at e
    rw [e, d0]
    congr 1
    ring
  · intro k hk0 hk
    rcases Nat.even_or_odd' k with ⟨m, rfl | rfl⟩
    · rw [fdct32_nested x o o m (by omega)]
      exact dk m (by omega) (by omega)
    · exact fdct32_odd_zero x o
        (fun i hi => by rw [h i hi, h (31 - i) (by omega)]) m (by omega)

theorem dc_value (n c : Int) :
    fdct_round_shift (n * c * cospi_16_64) = asr (n * c * 11585 + 8192) 14 := rfl

/-! ### The bit budget of `fdct4` and `fdct16` -/

theorem range_check_of_le (a : Buf) (n bit : Nat) (M : Int) (hM : M < 2 ^ bit)
    (h : ∀ i, i < n → -M ≤ a i ∧ a i ≤ M) : range_check a n bit := by
  intro i hi
  have := h i hi
  exact abs_lt.mpr ⟨by omega, by omega⟩

theorem fdct4_input_bound (input : Buf) (h : range_check input 4 14) :
    BndFrom input 0 [16383, 16383, 16383, 16383] := by
  have h0 := abs_lt.mp (h 0 (by norm_num))
  have h1 := abs_lt.mp (h 1 (by norm_num))
  have h2 := abs_lt.mp (h 2 (by norm_num))
  have h3 := abs_lt.mp (h 3 (by norm_num))
  simp only [BndFrom, Nat.reduceAdd, and_true]
  norm_num at *
  omega

theorem fdct4_stage1_bound (input output : Buf)
    (h : BndFrom input 0 [16383, 16383, 16383, 16383]) :
    BndFrom (fdct4_stage1 input output) 0 [32766, 32766, 32766, 32766] := by
  simp only [BndFrom, Nat.reduceAdd, and_true] at h ⊢
  simp only [fdct4_stage1, store, reduceIte, Nat.reduceEqDiff, fdct_round_shift_eq, asr_eq_div,
      cospi_16_64, cospi_24_64, cospi_8_64, show (2 : Int) ^ 14 = 16384 from rfl]
  omega

theorem fdct4_stage1_frame (input output : Buf) (k : Nat) (hk : 4 ≤ k) :
    fdct4_stage1 input output k = output k := by
  unfold fdct4_stage1
  simp only [store]
  repeat rw [if_neg (by omega)]

theorem fdct4_stage2_bound (output step : Buf)
    (h : BndFrom output 0 [32766, 32766, 32766, 32766]) :
    BndFrom (fdct4_stage2 output step) 0 [46337, 46337, 42811, 42811] := by
  simp only [BndFrom, Nat.reduceAdd, and_true] at h ⊢
  simp only [fdct4_stage2, store, reduceIte, Nat.reduceEqDiff, fdct_round_shift_eq, asr_eq_div,
      cospi_16_64, cospi_24_64, cospi_8_64, show (2 : Int) ^ 14 = 16384 from rfl]
  omega

theorem fdct4_stage2_frame (output step : Buf) (k : Nat) (hk : 4 ≤ k) :
    fdct4_stage2 output step k = step k := by
  unfold fdct4_stage2
  simp only [store]
  repeat rw [if_neg (by omega)]

theorem fdct4_stage3_bound (step output : Buf)
    (h : BndFrom step 0 [46337, 46337, 42811, 42811]) :
    BndFrom (fdct4_stage3 step output) 0 [46337, 42811, 46337, 42811] := by
  simp only [BndFrom, Nat.reduceAdd, and_true] at h ⊢
  simp only [fdct4_stage3, store, reduceIte, Nat.reduceEqDiff, fdct_round_shift_eq, asr_eq_div,
      cospi_16_64, cospi_24_64, cospi_8_64, show (2 : Int) ^ 14 = 16384 from rfl]
  omega

theorem fdct4_stage3_frame (step output : Buf) (k : Nat) (hk : 4 ≤ k) :
    fdct4_stage3 step output k = output k := by
  unfold fdct4_stage3
  simp only [store]
  repeat rw [if_neg (by omega)]

theorem fdct16_input_bound (input : Buf) (h : range_check input 16 13) :
    BndFrom input 0 [8191, 8191, 8191, 8191, 8191, 8191, 8191, 8191, 8191, 8191, 8191, 8191,
        8191, 8191, 8191, 8191] := by
  have h0 := abs_lt.mp (h 0 (by norm_num))
  have h1 := abs_lt.mp (h 1 (by norm_num))
  have h2 := abs_lt.mp (h 2 (by norm_num))
  have h3 := abs_lt.mp (h 3 (by norm_num))
  have h4 := abs_lt.mp (h 4 (by norm_num))
  have h5 := abs_lt.mp (h 5 (by norm_num))
  have h6 := abs_lt.mp (h 6 (by norm_num))
  have h7 := abs_lt.mp (h 7 (by norm_num))
  have h8 := abs_lt.mp (h 8 (by norm_num))
  have h9 := abs_lt.mp (h 9 (by norm_num))
  have h10 := abs_lt.mp (h 10 (by norm_num))
  have h11 := abs_lt.mp (h 11 (by norm_num))
  have h12 := abs_lt.mp (h 12 (by norm_num))
  have h13 := abs_lt.mp (h 13 (by norm_num))
  have h14 := abs_lt.mp (h 14 (by norm_num))
  have h15 := abs_lt.mp (h 15 (by norm_num))
  simp only [BndFrom, Nat.reduceAdd, and_true]
  norm_num at *
  omega

theorem fdct16_stage1_bound (input output : Buf)
    (h : BndFrom input 0 [8191, 8191, 8191, 8191, 8191, 8191, 8191, 8191, 8191, 8191, 8191, 8191,
        8191, 8191, 8191, 8191]) :
    BndFrom (fdct16_stage1 input output) 0 [16382, 16382, 16382, 16382, 16382, 16382, 16382,
        16382, 16382, 16382, 16382, 16382, 16382, 16382, 16382, 16382] := by
  simp only [BndFrom, Nat.reduceAdd, and_true] at h ⊢
  simp only [fdct16_stage1, store, reduceIte, Nat.reduceEqDiff, fdct_round_shift_eq, asr_eq_div,
      cospi_10_64, cospi_12_64, cospi_14_64, cospi_16_64, cospi_18_64, cospi_20_64, cospi_22_64,
      cospi_24_64, cospi_26_64, cospi_28_64, cospi_2_64, cospi_30_64, cospi_4_64, cospi_6_64,
      cospi_8_64, show (2 : Int) ^ 14 = 16384 from rfl]
  omega

theorem fdct16_stage1_frame (input output : Buf) (k : Nat) (hk : 16 ≤ k) :
    fdct16_stage1 input output k = output k := by
  unfold fdct16_stage1
  simp only [store]
  repeat rw [if_neg (by omega)]

theorem fdct16_stage2_bound (output step : Buf)
    (h : BndFrom output 0 [16382, 16382, 16382, 16382, 16382, 16382, 16382, 16382, 16382, 16382,
        16382, 16382, 16382, 16382, 16382, 16382]) :
    BndFrom (fdct16_stage2 output step) 0 [32764, 32764, 32764, 32764, 32764, 32764, 32764,
        32764, 16382, 16382, 23167, 23167, 23167, 23167, 16382, 16382] := by
  simp only [BndFrom, Nat.reduceAdd, and_true] at h ⊢
  simp only [fdct16_stage2, store, reduceIte, Nat.reduceEqDiff, fdct_round_shift_eq, asr_eq_div,
      cospi_10_64, cospi_12_64, cospi_14_64, cospi_16_64, cospi_18_64, cospi_20_64, cospi_22_64,
      cospi_24_64, cospi_26_64, cospi_28_64, cospi_2_64, cospi_30_64, cospi_4_64, cospi_6_64,
      cospi_8_64, show (2 : Int) ^ 14 = 16384 from rfl]
  omega

theorem fdct16_stage2_frame (output step : Buf) (k : Nat) (hk : 16 ≤ k) :
    fdct16_stage2 output step k = step k := by
  unfold fdct16_stage2
  simp only [store]
  repeat rw [if_neg (by omega)]

theorem fdct16_stage3_bound (step output : Buf)
    (h : BndFrom step 0 [32764, 32764, 32764, 32764, 32764, 32764, 32764, 32764, 16382, 16382,
        23167, 23167, 23167, 23167, 16382, 16382]) :
    BndFrom (fdct16_stage3 step output) 0 [65528, 65528, 65528, 65528, 32764, 46334, 46334,
        32764, 39549, 39549, 39549, 39549, 39549, 39549, 39549, 39549] := by
  simp only [BndFrom, Nat.reduceAdd, and_true] at h ⊢
  simp only [fdct16_stage3, store, reduceIte, Nat.reduceEqDiff, fdct_round_shift_eq, asr_eq_div,
      cospi_10_64, cospi_12_64, cospi_14_64, cospi_16_64, cospi_18_64, cospi_20_64, cospi_22_64,
      cospi_24_64, cospi_26_64, cospi_28_64, cospi_2_64, cospi_30_64, cospi_4_64, cospi_6_64,
      cospi_8_64, show (2 : Int) ^ 14 = 16384 from rfl]
  omega

theorem fdct16_stage3_frame (step output : Buf) (k : Nat) (hk : 16 ≤ k) :
    fdct16_stage3 step output k = output k := by
  unfold fdct16_stage3
  simp only [store]
  repeat rw [if_neg (by omega)]

theorem fdct16_stage4_bound (output step : Buf)
    (h : BndFrom output 0 [65528, 65528, 65528, 65528, 32764, 46334, 46334, 32764, 39549, 39549,
        39549, 39549, 39549, 39549, 39549, 39549]) :
    BndFrom (fdct16_stage4 output step) 0 [92669, 92669, 85618, 85618, 79098, 79098, 79098,
        79098, 39549, 51674, 51674, 39549, 39549, 51674, 51674, 39549] := by
  simp only [BndFrom, Nat.reduceAdd, and_true] at h ⊢
  simp only [fdct16_stage4, store, reduceIte, Nat.reduceEqDiff, fdct_round_shift_eq, asr_eq_div,
      cospi_10_64, cospi_12_64, cospi_14_64, cospi_16_64, cospi_18_64, cospi_20_64, cospi_22_64,
      cospi_24_64, cospi_26_64, cospi_28_64, cospi_2_64, cospi_30_64, cospi_4_64, cospi_6_64,
      cospi_8_64, show (2 : Int) ^ 14 = 16384 from rfl]
  omega

theorem fdct16_stage4_frame (output step : Buf) (k : Nat) (hk : 16 ≤ k) :
    fdct16_stage4 output step k = step k := by
  unfold fdct16_stage4
  simp only [store]
  repeat rw [if_neg (by omega)]

theorem fdct16_stage5_bound (step output : Buf)
    (h : BndFrom step 0 [92669, 92669, 85618, 85618, 79098, 79098, 79098, 79098, 39549, 51674,
        51674, 39549, 39549, 51674, 51674, 39549]) :
    BndFrom (fdct16_stage5 step output) 0 [92669, 92669, 85618, 85618, 93007, 109711, 109711,
        93007, 91223, 91223, 91223, 91223, 91223, 91223, 91223, 91223] := by
  simp only [BndFrom, Nat.reduceAdd, and_true] at h ⊢
  simp only [fdct16_stage5, store, reduceIte, Nat.reduceEqDiff, fdct_round_shift_eq, asr_eq_div,
      cospi_10_64, cospi_12_64, cospi_14_64, cospi_16_64, cospi_18_64, cospi_20_64, cospi_22_64,
      cospi_24_64, cospi_26_64, cospi_28_64, cospi_2_64, cospi_30_64, cospi_4_64, cospi_6_64,
      cospi_8_64, show (2 : Int) ^ 14 = 16384 from rfl]
  omega

theorem fdct16_stage5_frame (step output : Buf) (k : Nat) (hk : 16 ≤ k) :
    fdct16_stage5 step output k = output k := by
  unfold fdct16_stage5
  simp only [store]
  repeat rw [if_neg (by omega)]

theorem fdct16_stage6_bound (output step : Buf)
    (h : BndFrom output 0 [92669, 92669, 85618, 85618, 93007, 109711, 109711, 93007, 91223,
        91223, 91223, 91223, 91223, 91223, 91223, 91223]) :
    BndFrom (fdct16_stage6 output step) 0 [92669, 92669, 85618, 85618, 93007, 109711, 109711,
        93007, 99725, 128388, 123449, 113778, 113778, 123449, 128388, 99725] := by
  simp only [BndFrom, Nat.reduceAdd, and_true] at h ⊢
  simp only [fdct16_stage6, store, reduceIte, Nat.reduceEqDiff, fdct_round_shift_eq, asr_eq_div,
      cospi_10_64, cospi_12_64, cospi_14_64, cospi_16_64, cospi_18_64, cospi_20_64, cospi_22_64,
      cospi_24_64, cospi_26_64, cospi_28_64, cospi_2_64, cospi_30_64, cospi_4_64, cospi_6_64,
      cospi_8_64, show (2 : Int) ^ 14 = 16384 from rfl]
  omega

theorem fdct16_stage6_frame (output step : Buf) (k : Nat) (hk : 16 ≤ k) :
    fdct16_stage6 output step k = step k := by
  unfold fdct16_stage6
  simp only [store]
  repeat rw [if_neg (by omega)]

theorem fdct16_stage7_bound (step output : Buf)
    (h : BndFrom step 0 [92669, 92669, 85618, 85618, 93007, 109711, 109711, 93007, 99725, 128388,
        123449, 113778, 113778, 123449, 128388, 99725]) :
    BndFrom (fdct16_stage7 step output) 0 [92669, 99725, 93007, 113778, 85618, 123449, 109711,
        128388, 92669, 128388, 109711, 123449, 85618, 113778, 93007, 99725] := by
  simp only [BndFrom, Nat.reduceAdd, and_true] at h ⊢
  simp only [fdct16_stage7, store, reduceIte, Nat.reduceEqDiff, fdct_round_shift_eq, asr_eq_div,
      cospi_10_64, cospi_12_64, cospi_14_64, cospi_16_64, cospi_18_64, cospi_20_64, cospi_22_64,
      cospi_24_64, cospi_26_64, cospi_28_64, cospi_2_64, cospi_30_64, cospi_4_64, cospi_6_64,
      cospi_8_64, show (2 : Int) ^ 14 = 16384 from rfl]
  omega

theorem fdct16_stage7_frame (step output : Buf) (k : Nat) (hk : 16 ≤ k) :
    fdct16_stage7 step output k = output k := by
  unfold fdct16_stage7
  simp only [store]
  repeat rw [if_neg (by omega)]

theorem BndFrom_range (a : Buf) (bs : List Int) (i : Nat) (M : Int) (hM : ∀ b ∈ bs, b ≤ M)
    (h : BndFrom a i bs) : ∀ j, j < bs.length → -M ≤ a (i + j) ∧ a (i + j) ≤ M := by
  induction bs generalizing i with
  | nil => intro j hj; exact absurd hj (Nat.not_lt_zero j)
  | cons b bs ih =>
    intro j hj
    have hb := hM b (List.mem_cons_self b bs)
    cases j with
    | zero =>
      have := h.1
      rw [Nat.add_zero]
      omega
    | succ j =>
      have := ih (i + 1) (fun c hc => hM c (List.mem_cons_of_mem b hc)) h.2 j
        (Nat.lt_of_succ_lt_succ hj)
      rw [show i + (j + 1) = i + 1 + j by omega]
      exact this

theorem range_check_of_bnd (a : Buf) (bs : List Int) (bit : Nat) (M : Int)
    (hM : ∀ b ∈ bs, b ≤ M) (hbit : M < 2 ^ bit) (h : BndFrom a 0 bs) :
    range_check a bs.length bit :=
  range_check_of_le a bs.length bit M hbit (fun i hi => by
    have := BndFrom_range a bs 0 M hM h i hi
    rwa [Nat.zero_add] at this)

theorem fdct4_frame (input output : Buf) (k : Nat) (hk : 4 ≤ k) :
    fdct4 input output k = output k := by
  unfold fdct4
  simp only [store]
  repeat rw [if_neg (by omega)]

theorem fdct4_stage1_read (input output : Buf) :
    fdct4_stage1 input output 0 = input 0 + input 3 ∧
    fdct4_stage1 input output 1 = input 1 + input 2 ∧
    fdct4_stage1 input output 2 = input 1 - input 2 ∧
    fdct4_stage1 input output 3 = input 0 - input 3 := by
  refine ⟨?_, ?_, ?_, ?_⟩ <;> rfl

theorem fdct4_stage2_read (output step : Buf) :
    fdct4_stage2 output step 0 = fdct_round_shift (output 0 * cospi_16_64 + output 1
        * cospi_16_64) ∧
    fdct4_stage2 output step 1 = fdct_round_shift (output 1 * (-cospi_16_64) + output 0
        * cospi_16_64) ∧
    fdct4_stage2 output step 2 = fdct_round_shift (output 2 * cospi_24_64 + output 3
        * cospi_8_64) ∧
    fdct4_stage2 output step 3 = fdct_round_shift (output 3 * cospi_24_64 + output 2 *
        (-cospi_8_64)) := by
  refine ⟨?_, ?_, ?_, ?_⟩ <;> rfl

theorem fdct4_stage3_read (step output : Buf) :
    fdct4_stage3 step output 0 = step 0 ∧
    fdct4_stage3 step output 1 = step 2 ∧
    fdct4_stage3 step output 2 = step 1 ∧
    fdct4_stage3 step output 3 = step 3 := by
  refine ⟨?_, ?_, ?_, ?_⟩ <;> rfl

/-- The last array of the staged run is the result of `fdct4`. -/
theorem fdct4_staged_eq (input output : Buf) :
    (fdct4_range_checks input output).getLast? = some (fdct4 input output, 4, 16) := by
  have e : fdct4 input output = fdct4_stage3 (fdct4_stage2 (fdct4_stage1 input output) zeroBuf)
      (fdct4_stage1 input output) := by
    funext k
    by_cases hk : k < 4
    · interval_cases k <;>
        (unfold fdct4
         simp only [store, reduceIte, Nat.reduceEqDiff]
         simp only [fdct4_stage1_read, fdct4_stage2_read, fdct4_stage3_read])
    · rw [fdct4_frame input output k (by omega)]
      rw [fdct4_stage3_frame _ _ k (by omega), fdct4_stage1_frame _ _ k (by omega)]
  rw [e]
  rfl

theorem fdct4_stage_bounds (input output : Buf) (h : range_check input 4 14) :
    range_check (fdct4_stage1 input output) 4 15 ∧
    range_check (fdct4_stage2 (fdct4_stage1 input output) zeroBuf) 4 16 ∧
    range_check (fdct4_stage3 (fdct4_stage2 (fdct4_stage1 input output) zeroBuf)
        (fdct4_stage1 input output)) 4 16 := by
  have b0 := fdct4_input_bound input h
  have b1 := fdct4_stage1_bound input output b0
  have b2 := fdct4_stage2_bound (fdct4_stage1 input output) zeroBuf b1
  have b3 := fdct4_stage3_bound (fdct4_stage2 (fdct4_stage1 input output) zeroBuf)
      (fdct4_stage1 input output) b2
  exact ⟨range_check_of_bnd _ [32766, 32766, 32766, 32766] 15 32766 (by decide) (by norm_num) b1,
    range_check_of_bnd _ [46337, 46337, 42811, 42811] 16 46337 (by decide) (by norm_num) b2,
    range_check_of_bnd _ [46337, 42811, 46337, 42811] 16 46337 (by decide) (by norm_num) b3⟩

theorem fdct16_stage1_read (input output : Buf) :
    fdct16_stage1 input output 0 = input 0 + input 15 ∧
    fdct16_stage1 input output 1 = input 1 + input 14 ∧
    fdct16_stage1 input output 2 = input 2 + input 13 ∧
    fdct16_stage1 input output 3 = input 3 + input 12 ∧
    fdct16_stage1 input output 4 = input 4 + input 11 ∧
    fdct16_stage1 input output 5 = input 5 + input 10 ∧
    fdct16_stage1 input output 6 = input 6 + input 9 ∧
    fdct16_stage1 input output 7 = input 7 + input 8 ∧
    fdct16_stage1 input output 8 = input 7 - input 8 ∧
    fdct16_stage1 input output 9 = input 6 - input 9 ∧
    fdct16_stage1 input output 10 = input 5 - input 10 ∧
    fdct16_stage1 input output 11 = input 4 - input 11 ∧
    fdct16_stage1 input output 12 = input 3 - input 12 ∧
    fdct16_stage1 input output 13 = input 2 - input 13 ∧
    fdct16_stage1 input output 14 = input 1 - input 14 ∧
    fdct16_stage1 input output 15 = input 0 - input 15 := by
  refine ⟨?_, ?_, ?_, ?_, ?_, ?_, ?_, ?_, ?_, ?_, ?_, ?_, ?_, ?_, ?_, ?_⟩ <;> rfl

theorem fdct16_stage2_read (output step : Buf) :
    fdct16_stage2 output step 0 = output 0 + output 7 ∧
    fdct16_stage2 output step 1 = output 1 + output 6 ∧
    fdct16_stage2 output step 2 = output 2 + output 5 ∧
    fdct16_stage2 output step 3 = output 3 + output 4 ∧
    fdct16_stage2 output step 4 = output 3 - output 4 ∧
    fdct16_stage2 output step 5 = output 2 - output 5 ∧
    fdct16_stage2 output step 6 = output 1 - output 6 ∧
    fdct16_stage2 output step 7 = output 0 - output 7 ∧
    fdct16_stage2 output step 8 = output 8 ∧
    fdct16_stage2 output step 9 = output 9 ∧
    fdct16_stage2 output step 10 = fdct_round_shift (output 10 * (-cospi_16_64) + output 13
        * cospi_16_64) ∧
    fdct16_stage2 output step 11 = fdct_round_shift (output 11 * (-cospi_16_64) + output 12
        * cospi_16_64) ∧
    fdct16_stage2 output step 12 = fdct_round_shift (output 12 * cospi_16_64 + output 11
        * cospi_16_64) ∧
    fdct16_stage2 output step 13 = fdct_round_shift (output 13 * cospi_16_64 + output 10
        * cospi_16_64) ∧
    fdct16_stage2 output step 14 = output 14 ∧
    fdct16_stage2 output step 15 = output 15 := by
  refine ⟨?_, ?_, ?_, ?_, ?_, ?_, ?_, ?_, ?_, ?_, ?_, ?_, ?_, ?_, ?_, ?_⟩ <;> rfl

theorem fdct16_stage3_read (step output : Buf) :
    fdct16_stage3 step output 0 = step 0 + step 3 ∧
    fdct16_stage3 step output 1 = step 1 + step 2 ∧
    fdct16_stage3 step output 2 = step 1 - step 2 ∧
    fdct16_stage3 step output 3 = step 0 - step 3 ∧
    fdct16_stage3 step output 4 = step 4 ∧
    fdct16_stage3 step output 5 = fdct_round_shift (step 5 * (-cospi_16_64) + step 6
        * cospi_16_64) ∧
    fdct16_stage3 step output 6 = fdct_round_shift (step 6 * cospi_16_64 + step 5 * cospi_16_64) ∧
    fdct16_stage3 step output 7 = step 7 ∧
    fdct16_stage3 step output 8 = step 8 + step 11 ∧
    fdct16_stage3 step output 9 = step 9 + step 10 ∧
    fdct16_stage3 step output 10 = step 9 - step 10 ∧
    fdct16_stage3 step output 11 = step 8 - step 11 ∧
    fdct16_stage3 step output 12 = step 15 - step 12 ∧
    fdct16_stage3 step output 13 = step 14 - step 13 ∧
    fdct16_stage3 step output 14 = step 14 + step 13 ∧
    fdct16_stage3 step output 15 = step 15 + step 12 := by
  refine ⟨?_, ?_, ?_, ?_, ?_, ?_, ?_, ?_, ?_, ?_, ?_, ?_, ?_, ?_, ?_, ?_⟩ <;> rfl

theorem fdct16_stage4_read (output step : Buf) :
    fdct16_stage4 output step 0 = fdct_round_shift (output 0 * cospi_16_64 + output 1
        * cospi_16_64) ∧
    fdct16_stage4 output step 1 = fdct_round_shift (output 1 * (-cospi_16_64) + output 0
        * cospi_16_64) ∧
    fdct16_stage4 output step 2 = fdct_round_shift (output 2 * cospi_24_64 + output 3
        * cospi_8_64) ∧
    fdct16_stage4 output step 3 = fdct_round_shift (output 3 * cospi_24_64 + output 2 *
        (-cospi_8_64)) ∧
    fdct16_stage4 output step 4 = output 4 + output 5 ∧
    fdct16_stage4 output step 5 = output 4 - output 5 ∧
    fdct16_stage4 output step 6 = output 7 - output 6 ∧
    fdct16_stage4 output step 7 = output 7 + output 6 ∧
    fdct16_stage4 output step 8 = output 8 ∧
    fdct16_stage4 output step 9 = fdct_round_shift (output 9 * (-cospi_8_64) + output 14
        * cospi_24_64) ∧
    fdct16_stage4 output step 10 = fdct_round_shift (output 10 * (-cospi_24_64) + output 13 *
        (-cospi_8_64)) ∧
    fdct16_stage4 output step 11 = output 11 ∧
    fdct16_stage4 output step 12 = output 12 ∧
    fdct16_stage4 output step 13 = fdct_round_shift (output 13 * cospi_24_64 + output 10 *
        (-cospi_8_64)) ∧
    fdct16_stage4 output step 14 = fdct_round_shift (output 14 * cospi_8_64 + output 9
        * cospi_24_64) ∧
    fdct16_stage4 output step 15 = output 15 := by
  refine ⟨?_, ?_, ?_, ?_, ?_, ?_, ?_, ?_, ?_, ?_, ?_, ?_, ?_, ?_, ?_, ?_⟩ <;> rfl

theorem fdct16_stage5_read (step output : Buf) :
    fdct16_stage5 step output 0 = step 0 ∧
    fdct16_stage5 step output 1 = step 1 ∧
    fdct16_stage5 step output 2 = step 2 ∧
    fdct16_stage5 step output 3 = step 3 ∧
    fdct16_stage5 step output 4 = fdct_round_shift (step 4 * cospi_28_64 + step 7 * cospi_4_64) ∧
    fdct16_stage5 step output 5 = fdct_round_shift (step 5 * cospi_12_64 + step 6 * cospi_20_64) ∧
    fdct16_stage5 step output 6 = fdct_round_shift (step 6 * cospi_12_64 + step 5 *
        (-cospi_20_64)) ∧
    fdct16_stage5 step output 7 = fdct_round_shift (step 7 * cospi_28_64 + step 4 *
        (-cospi_4_64)) ∧
    fdct16_stage5 step output 8 = step 8 + step 9 ∧
    fdct16_stage5 step output 9 = step 8 - step 9 ∧
    fdct16_stage5 step output 10 = step 11 - step 10 ∧
    fdct16_stage5 step output 11 = step 11 + step 10 ∧
    fdct16_stage5 step output 12 = step 12 + step 13 ∧
    fdct16_stage5 step output 13 = step 12 - step 13 ∧
    fdct16_stage5 step output 14 = step 15 - step 14 ∧
    fdct16_stage5 step output 15 = step 15 + step 14 := by
  refine ⟨?_, ?_, ?_, ?_, ?_, ?_, ?_, ?_, ?_, ?_, ?_, ?_, ?_, ?_, ?_, ?_⟩ <;> rfl

theorem fdct16_stage6_read (output step : Buf) :
    fdct16_stage6 output step 0 = output 0 ∧
    fdct16_stage6 output step 1 = output 1 ∧
    fdct16_stage6 output step 2 = output 2 ∧
    fdct16_stage6 output step 3 = output 3 ∧
    fdct16_stage6 output step 4 = output 4 ∧
    fdct16_stage6 output step 5 = output 5 ∧
    fdct16_stage6 output step 6 = output 6 ∧
    fdct16_stage6 output step 7 = output 7 ∧
    fdct16_stage6 output step 8 = fdct_round_shift (output 8 * cospi_30_64 + output 15
        * cospi_2_64) ∧
    fdct16_stage6 output step 9 = fdct_round_shift (output 9 * cospi_14_64 + output 14
        * cospi_18_64) ∧
    fdct16_stage6 output step 10 = fdct_round_shift (output 10 * cospi_22_64 + output 13
        * cospi_10_64) ∧
    fdct16_stage6 output step 11 = fdct_round_shift (output 11 * cospi_6_64 + output 12
        * cospi_26_64) ∧
    fdct16_stage6 output step 12 = fdct_round_shift (output 12 * cospi_6_64 + output 11 *
        (-cospi_26_64)) ∧
    fdct16_stage6 output step 13 = fdct_round_shift (output 13 * cospi_22_64 + output 10 *
        (-cospi_10_64)) ∧
    fdct16_stage6 output step 14 = fdct_round_shift (output 14 * cospi_14_64 + output 9 *
        (-cospi_18_64)) ∧
    fdct16_stage6 output step 15 = fdct_round_shift (output 15 * cospi_30_64 + output 8 *
        (-cospi_2_64)) := by
  refine ⟨?_, ?_, ?_, ?_, ?_, ?_, ?_, ?_, ?_, ?_, ?_, ?_, ?_, ?_, ?_, ?_⟩ <;> rfl

theorem fdct16_stage7_read (step output : Buf) :
    fdct16_stage7 step output 0 = step 0 ∧
    fdct16_stage7 step output 1 = step 8 ∧
    fdct16_stage7 step output 2 = step 4 ∧
    fdct16_stage7 step output 3 = step 12 ∧
    fdct16_stage7 step output 4 = step 2 ∧
    fdct16_stage7 step output 5 = step 10 ∧
    fdct16_stage7 step output 6 = step 6 ∧
    fdct16_stage7 step output 7 = step 14 ∧
    fdct16_stage7 step output 8 = step 1 ∧
    fdct16_stage7 step output 9 = step 9 ∧
    fdct16_stage7 step output 10 = step 5 ∧
    fdct16_stage7 step output 11 = step 13 ∧
    fdct16_stage7 step output 12 = step 3 ∧
    fdct16_stage7 step output 13 = step 11 ∧
    fdct16_stage7 step output 14 = step 7 ∧
    fdct16_stage7 step output 15 = step 15 := by
  refine ⟨?_, ?_, ?_, ?_, ?_, ?_, ?_, ?_, ?_, ?_, ?_, ?_, ?_, ?_, ?_, ?_⟩ <;> rfl

/-- The last array of the staged run is the result of `fdct16`. -/
theorem fdct16_staged_eq (input output : Buf) :
    (fdct16_range_checks input output).getLast? = some (fdct16 input output, 16, 16) := by
  have e : fdct16 input output = fdct16_stage7 (fdct16_stage6 (fdct16_stage5 (fdct16_stage4
      (fdct16_stage3 (fdct16_stage2 (fdct16_stage1 input output) zeroBuf)
      (fdct16_stage1 input output)) (fdct16_stage2 (fdct16_stage1 input output) zeroBuf))
      (fdct16_stage3 (fdct16_stage2 (fdct16_stage1 input output) zeroBuf)
      (fdct16_stage1 input output))) (fdct16_stage4 (fdct16_stage3 (fdct16_stage2
      (fdct16_stage1 input output) zeroBuf) (fdct16_stage1 input output)) (fdct16_stage2
      (fdct16_stage1 input output) zeroBuf))) (fdct16_stage5 (fdct16_stage4 (fdct16_stage3
      (fdct16_stage2 (fdct16_stage1 input output) zeroBuf) (fdct16_stage1 input output))
      (fdct16_stage2 (fdct16_stage1 input output) zeroBuf)) (fdct16_stage3 (fdct16_stage2
      (fdct16_stage1 input output) zeroBuf) (fdct16_stage1 input output))) := by
    funext k
    by_cases hk : k < 16
    · interval_cases k <;>
        (unfold fdct16
         simp only [store, reduceIte, Nat.reduceEqDiff]
         simp only [fdct16_stage1_read, fdct16_stage2_read, fdct16_stage3_read,
             fdct16_stage4_read, fdct16_stage5_read, fdct16_stage6_read, fdct16_stage7_read])
    · rw [fdct16_frame input output k (by omega)]
      rw [fdct16_stage7_frame _ _ k (by omega), fdct16_stage5_frame _ _ k
          (by omega), fdct16_stage3_frame _ _ k (by omega), fdct16_stage1_frame _ _ k (by omega)]
  rw [e]
  rfl

theorem fdct16_stage_bounds (input output : Buf) (h : range_check input 16 13) :
    range_check (fdct16_stage1 input output) 16 14 ∧
    range_check (fdct16_stage2 (fdct16_stage1 input output) zeroBuf) 16 15 ∧
    range_check (fdct16_stage3 (fdct16_stage2 (fdct16_stage1 input output) zeroBuf)
        (fdct16_stage1 input output)) 16 16 ∧
    range_check (fdct16_stage4 (fdct16_stage3 (fdct16_stage2
        (fdct16_stage1 input output) zeroBuf) (fdct16_stage1 input output)) (fdct16_stage2
        (fdct16_stage1 input output) zeroBuf)) 16 17 ∧
    range_check (fdct16_stage5 (fdct16_stage4 (fdct16_stage3 (fdct16_stage2
        (fdct16_stage1 input output) zeroBuf) (fdct16_stage1 input output)) (fdct16_stage2
        (fdct16_stage1 input output) zeroBuf)) (fdct16_stage3 (fdct16_stage2
        (fdct16_stage1 input output) zeroBuf) (fdct16_stage1 input output))) 16 17 ∧
    range_check (fdct16_stage6 (fdct16_stage5 (fdct16_stage4 (fdct16_stage3 (fdct16_stage2
        (fdct16_stage1 input output) zeroBuf) (fdct16_stage1 input output)) (fdct16_stage2
        (fdct16_stage1 input output) zeroBuf)) (fdct16_stage3 (fdct16_stage2
        (fdct16_stage1 input output) zeroBuf) (fdct16_stage1 input output))) (fdct16_stage4
        (fdct16_stage3 (fdct16_stage2 (fdct16_stage1 input output) zeroBuf)
        (fdct16_stage1 input output)) (fdct16_stage2
        (fdct16_stage1 input output) zeroBuf))) 16 17 ∧
    range_check (fdct16_stage7 (fdct16_stage6 (fdct16_stage5 (fdct16_stage4 (fdct16_stage3
        (fdct16_stage2 (fdct16_stage1 input output) zeroBuf) (fdct16_stage1 input output))
        (fdct16_stage2 (fdct16_stage1 input output) zeroBuf)) (fdct16_stage3 (fdct16_stage2
        (fdct16_stage1 input output) zeroBuf) (fdct16_stage1 input output))) (fdct16_stage4
        (fdct16_stage3 (fdct16_stage2 (fdct16_stage1 input output) zeroBuf)
        (fdct16_stage1 input output)) (fdct16_stage2 (fdct16_stage1 input output) zeroBuf)))
        (fdct16_stage5 (fdct16_stage4 (fdct16_stage3 (fdct16_stage2
        (fdct16_stage1 input output) zeroBuf) (fdct16_stage1 input output)) (fdct16_stage2
        (fdct16_stage1 input output) zeroBuf)) (fdct16_stage3 (fdct16_stage2
        (fdct16_stage1 input output) zeroBuf) (fdct16_stage1 input output)))) 16 17 := by
  have b0 := fdct16_input_bound input h
  have b1 := fdct16_stage1_bound input output b0
  have b2 := fdct16_stage2_bound (fdct16_stage1 input output) zeroBuf b1
  have b3 := fdct16_stage3_bound (fdct16_stage2 (fdct16_stage1 input output) zeroBuf)
      (fdct16_stage1 input output) b2
  have b4 := fdct16_stage4_bound (fdct16_stage3 (fdct16_stage2
      (fdct16_stage1 input output) zeroBuf) (fdct16_stage1 input output)) (fdct16_stage2
      (fdct16_stage1 input output) zeroBuf) b3
  have b5 := fdct16_stage5_bound (fdct16_stage4 (fdct16_stage3 (fdct16_stage2
      (fdct16_stage1 input output) zeroBuf) (fdct16_stage1 input output)) (fdct16_stage2
      (fdct16_stage1 input output) zeroBuf)) (fdct16_stage3 (fdct16_stage2
      (fdct16_stage1 input output) zeroBuf) (fdct16_stage1 input output)) b4
  have b6 := fdct16_stage6_bound (fdct16_stage5 (fdct16_stage4 (fdct16_stage3 (fdct16_stage2
      (fdct16_stage1 input output) zeroBuf) (fdct16_stage1 input output)) (fdct16_stage2
      (fdct16_stage1 input output) zeroBuf)) (fdct16_stage3 (fdct16_stage2
      (fdct16_stage1 input output) zeroBuf) (fdct16_stage1 input output))) (fdct16_stage4
      (fdct16_stage3 (fdct16_stage2 (fdct16_stage1 input output) zeroBuf)
      (fdct16_stage1 input output)) (fdct16_stage2 (fdct16_stage1 input output) zeroBuf)) b5
  have b7 := fdct16_stage7_bound (fdct16_stage6 (fdct16_stage5 (fdct16_stage4 (fdct16_stage3
      (fdct16_stage2 (fdct16_stage1 input output) zeroBuf) (fdct16_stage1 input output))
      (fdct16_stage2 (fdct16_stage1 input output) zeroBuf)) (fdct16_stage3 (fdct16_stage2
      (fdct16_stage1 input output) zeroBuf) (fdct16_stage1 input output))) (fdct16_stage4
      (fdct16_stage3 (fdct16_stage2 (fdct16_stage1 input output) zeroBuf)
      (fdct16_stage1 input output)) (fdct16_stage2 (fdct16_stage1 input output) zeroBuf)))
      (fdct16_stage5 (fdct16_stage4 (fdct16_stage3 (fdct16_stage2
      (fdct16_stage1 input output) zeroBuf) (fdct16_stage1 input output)) (fdct16_stage2
      (fdct16_stage1 input output) zeroBuf)) (fdct16_stage3 (fdct16_stage2
      (fdct16_stage1 input output) zeroBuf) (fdct16_stage1 input output))) b6
  exact ⟨range_check_of_bnd _ [16382, 16382, 16382, 16382, 16382, 16382, 16382, 16382, 16382,
      16382, 16382, 16382, 16382, 16382, 16382, 16382] 14 16382 (by decide) (by norm_num) b1,
    range_check_of_bnd _ [32764, 32764, 32764, 32764, 32764, 32764, 32764, 32764, 16382, 16382,
        23167, 23167, 23167, 23167, 16382, 16382] 15 32764 (by decide) (by norm_num) b2,
    range_check_of_bnd _ [65528, 65528, 65528, 65528, 32764, 46334, 46334, 32764, 39549, 39549,
        39549, 39549, 39549, 39549, 39549, 39549] 16 65528 (by decide) (by norm_num) b3,
    range_check_of_bnd _ [92669, 92669, 85618, 85618, 79098, 79098, 79098, 79098, 39549, 51674,
        51674, 39549, 39549, 51674, 51674, 39549] 17 92669 (by decide) (by norm_num) b4,
    range_check_of_bnd _ [92669, 92669, 85618, 85618, 93007, 109711, 109711, 93007, 91223, 91223,
        91223, 91223, 91223, 91223, 91223, 91223] 17 109711 (by decide) (by norm_num) b5,
    range_check_of_bnd _ [92669, 92669, 85618, 85618, 93007, 109711, 109711, 93007, 99725,
        128388, 123449, 113778, 113778, 123449, 128388, 99725] 17 128388 (by decide)
        (by norm_num) b6,
    range_check_of_bnd _ [92669, 99725, 93007, 113778, 85618, 123449, 109711, 128388, 92669,
        128388, 109711, 123449, 85618, 113778, 93007, 99725] 17 128388 (by decide)
        (by norm_num) b7⟩

/-! ### Transposition duality of the rectangular transforms -/

theorem transpose_type_lt (t : Nat) (ht : t < 16) : transpose_type t < 16 := by
  interval_cases t <;> decide

theorem rowMap_transpose (l t r : Nat) (ht : t < 16) :
    rowMap l (transpose_type t) r = colMap l t r := by
  interval_cases t <;> rfl

theorem colMap_transpose (w t c : Nat) (ht : t < 16) :
    colMap w (transpose_type t) c = rowMap w t c := by
  interval_cases t <;> rfl


/-- A rows-first transform of `W` wide, `H` high blocks and a columns-first
transform of `H` wide, `W` high blocks with the same scalings and transposed
tables are transposition duals. -/
theorem fht2d_dual (tblA tblB : List transform_2d) (W H : Nat) (scIn scMid scOut : Int → Int)
    (hW : W % 2 = 0) (hH : H % 2 = 0)
    (htbl : ∀ t, t < 16 → ∃ hA hB, tblA[t]? = some hA ∧ tblB[transpose_type t]? = some hB ∧
      hB.cols = hA.rows ∧ hB.rows = hA.cols ∧ Local W hA.rows ∧ Local H hA.cols) :
    Dual W H
      (fht2d tblA H W H W (fun i _ => i) (fun _ j => j) transform_2d.rows transform_2d.cols
        scIn adjNone scMid (fun i j => i + j * W) scOut)
      (fht2d tblB W H H W (fun _ j => j) (fun i _ => i) transform_2d.cols transform_2d.rows
        scIn adjNone scMid (fun i j => j + i * H) scOut) := by
  intro x xT output outputT stride strideT t ht hT
  obtain ⟨hA, hB, eA, eB, ec, er, lr, lc⟩ := htbl t ht
  have hcA := fht2d_canon tblA H W H W (fun i _ => i) (fun _ j => j) transform_2d.rows
    transform_2d.cols scIn adjNone scMid (fun i j => i + j * W) scOut x output stride t hA
    (fun i j hi hj => ⟨hi, hj⟩) ht hH eA
  have hcB := fht2d_canon tblB W H H W (fun _ j => j) (fun i _ => i) transform_2d.cols
    transform_2d.rows scIn adjNone scMid (fun i j => j + i * H) scOut xT outputT strideT
    (transpose_type t) hB (fun i j hi hj => ⟨hj, hi⟩) (transpose_type_lt t ht) hW eB
  refine ⟨_, _, hcA, hcB, ?_⟩
  intro r c hr hc
  have e1 : c * H + r = (fun i j => j + i * H) c r := by simp only; omega
  have e2 : r * W + c = (fun i j => i + j * W) c r := by simp only; omega
  rw [e1, e2]
  rw [fhtCore_read H W (fun _ j => j) (fun i _ => i) transform_2d.cols transform_2d.rows scIn
    adjNone scMid (fun i j => j + i * H) scOut hB _ outputT
    (fun a b c d ha hb hc hd e => by
      simp only at e
      have := block_inj H a c b d hc hd (by omega)
      exact this)
    (by rw [ec]; exact lr) (by rw [er]; exact lc) (fun _ _ _ h => h) c r hc hr]
  rw [fhtCore_read H W (fun i _ => i) (fun _ j => j) transform_2d.rows transform_2d.cols scIn
    adjNone scMid (fun i j => i + j * W) scOut hA _ output
    (fun a b c d ha hb hc hd e => by
      simp only at e
      have := block_inj W c a d b ha hb (by omega)
      exact ⟨this.2, this.1⟩)
    lr lc (fun _ _ _ h => h) c r hc hr]
  rw [ec, er]
  congr 1
  apply lc _ _ _ _ _ r hr
  intro a ha
  congr 1
  apply lr _ _ _ _ _ c hc
  intro m hm
  show scIn (xT (rowMap W (transpose_type t) m * strideT + colMap H (transpose_type t) a))
    = scIn (x (rowMap H t a * stride + colMap W t m))
  rw [rowMap_transpose W t m ht, colMap_transpose H t a ht,
    hT _ _ (rowMap_lt H t a ha) (colMap_lt W t m hm)]

theorem av1_fht4x8_c_dual : Dual 4 8 av1_fht4x8_c av1_fht8x4_c := by
  rw [av1_fht4x8_c_eq, av1_fht8x4_c_eq]
  refine fht2d_dual FHT_4x8 FHT_8x4 4 8 _ _ _ rfl rfl ?_
  intro t ht
  interval_cases t
  · exact ⟨⟨fdct8, fdct4⟩, ⟨fdct4, fdct8⟩, rfl, rfl, rfl, rfl, fdct4_local, fdct8_local⟩
  · exact ⟨⟨fadst8, fdct4⟩, ⟨fdct4, fadst8⟩, rfl, rfl, rfl, rfl, fdct4_local, fadst8_local⟩
  · exact ⟨⟨fdct8, fadst4⟩, ⟨fadst4, fdct8⟩, rfl, rfl, rfl, rfl, fadst4_local, fdct8_local⟩
  · exact ⟨⟨fadst8, fadst4⟩, ⟨fadst4, fadst8⟩, rfl, rfl, rfl, rfl, fadst4_local, fadst8_local⟩
  · exact ⟨⟨fadst8, fdct4⟩, ⟨fdct4, fadst8⟩, rfl, rfl, rfl, rfl, fdct4_local, fadst8_local⟩
  · exact ⟨⟨fdct8, fadst4⟩, ⟨fadst4, fdct8⟩, rfl, rfl, rfl, rfl, fadst4_local, fdct8_local⟩
  · exact ⟨⟨fadst8, fadst4⟩, ⟨fadst4, fadst8⟩, rfl, rfl, rfl, rfl, fadst4_local, fadst8_local⟩
  · exact ⟨⟨fadst8, fadst4⟩, ⟨fadst4, fadst8⟩, rfl, rfl, rfl, rfl, fadst4_local, fadst8_local⟩
  · exact ⟨⟨fadst8, fadst4⟩, ⟨fadst4, fadst8⟩, rfl, rfl, rfl, rfl, fadst4_local, fadst8_local⟩
  · exact ⟨⟨fidtx8, fidtx4⟩, ⟨fidtx4, fidtx8⟩, rfl, rfl, rfl, rfl, fidtx4_local, fidtx8_local⟩
  · exact ⟨⟨fdct8, fidtx4⟩, ⟨fidtx4, fdct8⟩, rfl, rfl, rfl, rfl, fidtx4_local, fdct8_local⟩
  · exact ⟨⟨fidtx8, fdct4⟩, ⟨fdct4, fidtx8⟩, rfl, rfl, rfl, rfl, fdct4_local, fidtx8_local⟩
  · exact ⟨⟨fadst8, fidtx4⟩, ⟨fidtx4, fadst8⟩, rfl, rfl, rfl, rfl, fidtx4_local, fadst8_local⟩
  · exact ⟨⟨fidtx8, fadst4⟩, ⟨fadst4, fidtx8⟩, rfl, rfl, rfl, rfl, fadst4_local, fidtx8_local⟩
  · exact ⟨⟨fadst8, fidtx4⟩, ⟨fidtx4, fadst8⟩, rfl, rfl, rfl, rfl, fidtx4_local, fadst8_local⟩
  · exact ⟨⟨fidtx8, fadst4⟩, ⟨fadst4, fidtx8⟩, rfl, rfl, rfl, rfl, fadst4_local, fidtx8_local⟩

theorem av1_fht4x16_c_dual : Dual 4 16 av1_fht4x16_c av1_fht16x4_c := by
  rw [av1_fht4x16_c_eq, av1_fht16x4_c_eq]
  refine fht2d_dual FHT_4x16 FHT_16x4 4 16 _ _ _ rfl rfl ?_
  intro t ht
  interval_cases t
  · exact ⟨⟨fdct16, fdct4⟩, ⟨fdct4, fdct16⟩, rfl, rfl, rfl, rfl, fdct4_local, fdct16_local⟩
  · exact ⟨⟨fadst16, fdct4⟩, ⟨fdct4, fadst16⟩, rfl, rfl, rfl, rfl, fdct4_local, fadst16_local⟩
  · exact ⟨⟨fdct16, fadst4⟩, ⟨fadst4, fdct16⟩, rfl, rfl, rfl, rfl, fadst4_local, fdct16_local⟩
  · exact ⟨⟨fadst16, fadst4⟩, ⟨fadst4, fadst16⟩, rfl, rfl, rfl, rfl, fadst4_local, fadst16_local⟩
  · exact ⟨⟨fadst16, fdct4⟩, ⟨fdct4, fadst16⟩, rfl, rfl, rfl, rfl, fdct4_local, fadst16_local⟩
  · exact ⟨⟨fdct16, fadst4⟩, ⟨fadst4, fdct16⟩, rfl, rfl, rfl, rfl, fadst4_local, fdct16_local⟩
  · exact ⟨⟨fadst16, fadst4⟩, ⟨fadst4, fadst16⟩, rfl, rfl, rfl, rfl, fadst4_local, fadst16_local⟩
  · exact ⟨⟨fadst16, fadst4⟩, ⟨fadst4, fadst16⟩, rfl, rfl, rfl, rfl, fadst4_local, fadst16_local⟩
  · exact ⟨⟨fadst16, fadst4⟩, ⟨fadst4, fadst16⟩, rfl, rfl, rfl, rfl, fadst4_local, fadst16_local⟩
  · exact ⟨⟨fidtx16, fidtx4⟩, ⟨fidtx4, fidtx16⟩, rfl, rfl, rfl, rfl, fidtx4_local, fidtx16_local⟩
  · exact ⟨⟨fdct16, fidtx4⟩, ⟨fidtx4, fdct16⟩, rfl, rfl, rfl, rfl, fidtx4_local, fdct16_local⟩
  · exact ⟨⟨fidtx16, fdct4⟩, ⟨fdct4, fidtx16⟩, rfl, rfl, rfl, rfl, fdct4_local, fidtx16_local⟩
  · exact ⟨⟨fadst16, fidtx4⟩, ⟨fidtx4, fadst16⟩, rfl, rfl, rfl, rfl, fidtx4_local, fadst16_local⟩
  · exact ⟨⟨fidtx16, fadst4⟩, ⟨fadst4, fidtx16⟩, rfl, rfl, rfl, rfl, fadst4_local, fidtx16_local⟩
  · exact ⟨⟨fadst16, fidtx4⟩, ⟨fidtx4, fadst16⟩, rfl, rfl, rfl, rfl, fidtx4_local, fadst16_local⟩
  · exact ⟨⟨fidtx16, fadst4⟩, ⟨fadst4, fidtx16⟩, rfl, rfl, rfl, rfl, fadst4_local, fidtx16_local⟩

theorem av1_fht8x16_c_dual : Dual 8 16 av1_fht8x16_c av1_fht16x8_c := by
  rw [av1_fht8x16_c_eq, av1_fht16x8_c_eq]
  refine fht2d_dual FHT_8x16 FHT_16x8 8 16 _ _ _ rfl rfl ?_
  intro t ht
  interval_cases t
  · exact ⟨⟨fdct16, fdct8⟩, ⟨fdct8, fdct16⟩, rfl, rfl, rfl, rfl, fdct8_local, fdct16_local⟩
  · exact ⟨⟨fadst16, fdct8⟩, ⟨fdct8, fadst16⟩, rfl, rfl, rfl, rfl, fdct8_local, fadst16_local⟩
  · exact ⟨⟨fdct16, fadst8⟩, ⟨fadst8, fdct16⟩, rfl, rfl, rfl, rfl, fadst8_local, fdct16_local⟩
  · exact ⟨⟨fadst16, fadst8⟩, ⟨fadst8, fadst16⟩, rfl, rfl, rfl, rfl, fadst8_local, fadst16_local⟩
  · exact ⟨⟨fadst16, fdct8⟩, ⟨fdct8, fadst16⟩, rfl, rfl, rfl, rfl, fdct8_local, fadst16_local⟩
  · exact ⟨⟨fdct16, fadst8⟩, ⟨fadst8, fdct16⟩, rfl, rfl, rfl, rfl, fadst8_local, fdct16_local⟩
  · exact ⟨⟨fadst16, fadst8⟩, ⟨fadst8, fadst16⟩, rfl, rfl, rfl, rfl, fadst8_local, fadst16_local⟩
  · exact ⟨⟨fadst16, fadst8⟩, ⟨fadst8, fadst16⟩, rfl, rfl, rfl, rfl, fadst8_local, fadst16_local⟩
  · exact ⟨⟨fadst16, fadst8⟩, ⟨fadst8, fadst16⟩, rfl, rfl, rfl, rfl, fadst8_local, fadst16_local⟩
  · exact ⟨⟨fidtx16, fidtx8⟩, ⟨fidtx8, fidtx16⟩, rfl, rfl, rfl, rfl, fidtx8_local, fidtx16_local⟩
  · exact ⟨⟨fdct16, fidtx8⟩, ⟨fidtx8, fdct16⟩, rfl, rfl, rfl, rfl, fidtx8_local, fdct16_local⟩
  · exact ⟨⟨fidtx16, fdct8⟩, ⟨fdct8, fidtx16⟩, rfl, rfl, rfl, rfl, fdct8_local, fidtx16_local⟩
  · exact ⟨⟨fadst16, fidtx8⟩, ⟨fidtx8, fadst16⟩, rfl, rfl, rfl, rfl, fidtx8_local, fadst16_local⟩
  · exact ⟨⟨fidtx16, fadst8⟩, ⟨fadst8, fidtx16⟩, rfl, rfl, rfl, rfl, fadst8_local, fidtx16_local⟩
  · exact ⟨⟨fadst16, fidtx8⟩, ⟨fidtx8, fadst16⟩, rfl, rfl, rfl, rfl, fidtx8_local, fadst16_local⟩
  · exact ⟨⟨fidtx16, fadst8⟩, ⟨fadst8, fidtx16⟩, rfl, rfl, rfl, rfl, fadst8_local, fidtx16_local⟩

theorem av1_fht8x32_c_dual : Dual 8 32 av1_fht8x32_c av1_fht32x8_c := by
  rw [av1_fht8x32_c_eq, av1_fht32x8_c_eq]
  refine fht2d_dual FHT_8x32 FHT_32x8 8 32 _ _ _ rfl rfl ?_
  intro t ht
  interval_cases t
  · exact ⟨⟨fdct32, fdct8⟩, ⟨fdct8, fdct32⟩, rfl, rfl, rfl, rfl, fdct8_local, fdct32_local⟩
  · exact ⟨⟨fhalfright32, fdct8⟩, ⟨fdct8, fhalfright32⟩, rfl, rfl, rfl, rfl, fdct8_local, fhalfright32_local⟩
  · exact ⟨⟨fdct32, fadst8⟩, ⟨fadst8, fdct32⟩, rfl, rfl, rfl, rfl, fadst8_local, fdct32_local⟩
  · exact ⟨⟨fhalfright32, fadst8⟩, ⟨fadst8, fhalfright32⟩, rfl, rfl, rfl, rfl, fadst8_local, fhalfright32_local⟩
  · exact ⟨⟨fhalfright32, fdct8⟩, ⟨fdct8, fhalfright32⟩, rfl, rfl, rfl, rfl, fdct8_local, fhalfright32_local⟩
  · exact ⟨⟨fdct32, fadst8⟩, ⟨fadst8, fdct32⟩, rfl, rfl, rfl, rfl, fadst8_local, fdct32_local⟩
  · exact ⟨⟨fhalfright32, fadst8⟩, ⟨fadst8, fhalfright32⟩, rfl, rfl, rfl, rfl, fadst8_local, fhalfright32_local⟩
  · exact ⟨⟨fhalfright32, fadst8⟩, ⟨fadst8, fhalfright32⟩, rfl, rfl, rfl, rfl, fadst8_local, fhalfright32_local⟩
  · exact ⟨⟨fhalfright32, fadst8⟩, ⟨fadst8, fhalfright32⟩, rfl, rfl, rfl, rfl, fadst8_local, fhalfright32_local⟩
  · exact ⟨⟨fidtx32, fidtx8⟩, ⟨fidtx8, fidtx32⟩, rfl, rfl, rfl, rfl, fidtx8_local, fidtx32_local⟩
  · exact ⟨⟨fdct32, fidtx8⟩, ⟨fidtx8, fdct32⟩, rfl, rfl, rfl, rfl, fidtx8_local, fdct32_local⟩
  · exact ⟨⟨fidtx32, fdct8⟩, ⟨fdct8, fidtx32⟩, rfl, rfl, rfl, rfl, fdct8_local, fidtx32_local⟩
  · exact ⟨⟨fhalfright32, fidtx8⟩, ⟨fidtx8, fhalfright32⟩, rfl, rfl, rfl, rfl, fidtx8_local, fhalfright32_local⟩
  · exact ⟨⟨fidtx32, fadst8⟩, ⟨fadst8, fidtx32⟩, rfl, rfl, rfl, rfl, fadst8_local, fidtx32_local⟩
  · exact ⟨⟨fhalfright32, fidtx8⟩, ⟨fidtx8, fhalfright32⟩, rfl, rfl, rfl, rfl, fidtx8_local, fhalfright32_local⟩
  · exact ⟨⟨fidtx32, fadst8⟩, ⟨fadst8, fidtx32⟩, rfl, rfl, rfl, rfl, fadst8_local, fidtx32_local⟩

theorem av1_fht16x32_c_dual : Dual 16 32 av1_fht16x32_c av1_fht32x16_c := by
  rw [av1_fht16x32_c_eq, av1_fht32x16_c_eq]
  refine fht2d_dual FHT_16x32 FHT_32x16 16 32 _ _ _ rfl rfl ?_
  intro t ht
  interval_cases t
  · exact ⟨⟨fdct32, fdct16⟩, ⟨fdct16, fdct32⟩, rfl, rfl, rfl, rfl, fdct16_local, fdct32_local⟩
  · exact ⟨⟨fhalfright32, fdct16⟩, ⟨fdct16, fhalfright32⟩, rfl, rfl, rfl, rfl, fdct16_local, fhalfright32_local⟩
  · exact ⟨⟨fdct32, fadst16⟩, ⟨fadst16, fdct32⟩, rfl, rfl, rfl, rfl, fadst16_local, fdct32_local⟩
  · exact ⟨⟨fhalfright32, fadst16⟩, ⟨fadst16, fhalfright32⟩, rfl, rfl, rfl, rfl, fadst16_local, fhalfright32_local⟩
  · exact ⟨⟨fhalfright32, fdct16⟩, ⟨fdct16, fhalfright32⟩, rfl, rfl, rfl, rfl, fdct16_local, fhalfright32_local⟩
  · exact ⟨⟨fdct32, fadst16⟩, ⟨fadst16, fdct32⟩, rfl, rfl, rfl, rfl, fadst16_local, fdct32_local⟩
  · exact ⟨⟨fhalfright32, fadst16⟩, ⟨fadst16, fhalfright32⟩, rfl, rfl, rfl, rfl, fadst16_local, fhalfright32_local⟩
  · exact ⟨⟨fhalfright32, fadst16⟩, ⟨fadst16, fhalfright32⟩, rfl, rfl, rfl, rfl, fadst16_local, fhalfright32_local⟩
  · exact ⟨⟨fhalfright32, fadst16⟩, ⟨fadst16, fhalfright32⟩, rfl, rfl, rfl, rfl, fadst16_local, fhalfright32_local⟩
  · exact ⟨⟨fidtx32, fidtx16⟩, ⟨fidtx16, fidtx32⟩, rfl, rfl, rfl, rfl, fidtx16_local, fidtx32_local⟩
  · exact ⟨⟨fdct32, fidtx16⟩, ⟨fidtx16, fdct32⟩, rfl, rfl, rfl, rfl, fidtx16_local, fdct32_local⟩
  · exact ⟨⟨fidtx32, fdct16⟩, ⟨fdct16, fidtx32⟩, rfl, rfl, rfl, rfl, fdct16_local, fidtx32_local⟩
  · exact ⟨⟨fhalfright32, fidtx16⟩, ⟨fidtx16, fhalfright32⟩, rfl, rfl, rfl, rfl, fidtx16_local, fhalfright32_local⟩
  · exact ⟨⟨fidtx32, fadst16⟩, ⟨fadst16, fidtx32⟩, rfl, rfl, rfl, rfl, fadst16_local, fidtx32_local⟩
  · exact ⟨⟨fhalfright32, fidtx16⟩, ⟨fidtx16, fhalfright32⟩, rfl, rfl, rfl, rfl, fidtx16_local, fhalfright32_local⟩
  · exact ⟨⟨fidtx32, fadst16⟩, ⟨fadst16, fidtx32⟩, rfl, rfl, rfl, rfl, fadst16_local, fidtx32_local⟩

/-! ### The fast path of `fadst4` -/

theorem fadst4_general_zero (inp o : Buf) (h0 : inp 0 = 0) (h1 : inp 1 = 0) (h2 : inp 2 = 0)
    (h3 : inp 3 = 0) :
    fadst4_general inp o = store (store (store (store o 3 0) 2 0) 1 0) 0 0 := by
  funext k
  unfold fadst4_general
  simp only [h0, h1, h2, h3, mul_zero, add_zero, sub_zero, sub_self, fdct_round_shift_zero,
    store]
  split_ifs <;> rfl

theorem fadst4_eq_general (inp o : Buf) : fadst4 inp o = fadst4_general inp o := by
  by_cases h : Int.lor (Int.lor (Int.lor (inp 0) (inp 1)) (inp 2)) (inp 3) = 0
  · obtain ⟨h0, h1, h2, h3⟩ := fadst4_lor_zero inp h
    rw [fadst4_general_zero inp o h0 h1 h2 h3]
    unfold fadst4
    simp only
    rw [if_pos h]
  · unfold fadst4
    simp only
    rw [if_neg h]
    rfl

theorem fadst4_fast_iff (inp : Buf) :
    Int.lor (Int.lor (Int.lor (inp 0) (inp 1)) (inp 2)) (inp 3) = 0
      ↔ inp 0 = 0 ∧ inp 1 = 0 ∧ inp 2 = 0 ∧ inp 3 = 0 := by
  constructor
  · exact fadst4_lor_zero inp
  · rintro ⟨h0, h1, h2, h3⟩
    rw [h0, h1, h2, h3]
    rfl

/-! ### The copying flips with any destination stride -/

theorem copy_fliplr_read (src : Buf) (ss l w : Nat) (dest : Buf) (ds : Nat) (hs : w ≤ ds)
    (i j : Nat) (hi : i < l) (hj : j < w) :
    copy_fliplr src ss l w dest ds (i * ds + j) = src (i * ss + (w - 1 - j)) := by
  unfold copy_fliplr
  rw [fliplr_block _ ds l w hs i j hi hj,
    copy_block_block src ss l w dest ds hs i (w - 1 - j) hi (by omega)]

theorem copy_flipud_read (src : Buf) (ss l w : Nat) (dest : Buf) (ds : Nat) (hs : w ≤ ds)
    (i j : Nat) (hi : i < l) (hj : j < w) :
    copy_flipud src ss l w dest ds (i * ds + j) = src ((l - 1 - i) * ss + j) := by
  unfold copy_flipud
  rw [flipud_block _ ds l w hs i j hi hj,
    copy_block_block src ss l w dest ds hs (l - 1 - i) j (by omega) hj]

/-! ### The flip in both directions as a composition -/

theorem fliplrud_eq_flipud_fliplr (d : Buf) (s l w : Nat) (hs : w ≤ s) (hl : l % 2 = 0) :
    fliplrud d s l w = flipud (fliplr d s l w) s l w := by
  funext p
  by_cases h : ∃ i j, i < l ∧ j < w ∧ p = i * s + j
  · obtain ⟨i, j, hi, hj, rfl⟩ := h
    rw [fliplrud_block d s l w hs hl i j hi hj, flipud_block _ s l w hs i j hi hj,
      fliplr_block d s l w hs (l - 1 - i) j (by omega) hj]
  · have hp : ∀ i j, i < l → j < w → p ≠ i * s + j :=
      fun i j hi hj e => h ⟨i, j, hi, hj, e⟩
    rw [fliplrud_frame d s l w hs p hp, flipud_frame _ s l w hs p hp,
      fliplr_frame d s l w hs p hp]

theorem fliplrud_eq_fliplr_flipud (d : Buf) (s l w : Nat) (hs : w ≤ s) (hl : l % 2 = 0) :
    fliplrud d s l w = fliplr (flipud d s l w) s l w := by
  funext p
  by_cases h : ∃ i j, i < l ∧ j < w ∧ p = i * s + j
  · obtain ⟨i, j, hi, hj, rfl⟩ := h
    rw [fliplrud_block d s l w hs hl i j hi hj, fliplr_block _ s l w hs i j hi hj,
      flipud_block d s l w hs i (w - 1 - j) hi (by omega)]
  · have hp : ∀ i j, i < l → j < w → p ≠ i * s + j :=
      fun i j hi hj e => h ⟨i, j, hi, hj, e⟩
    rw [fliplrud_frame d s l w hs p hp, fliplr_frame _ s l w hs p hp,
      flipud_frame d s l w hs p hp]

theorem fliplrud_fliplrud (d : Buf) (s l w : Nat) (hs : w ≤ s) (hl : l % 2 = 0) :
    fliplrud (fliplrud d s l w) s l w = d := by
  funext p
  by_cases h : ∃ i j, i < l ∧ j < w ∧ p = i * s + j
  · obtain ⟨i, j, hi, hj, rfl⟩ := h
    rw [fliplrud_block _ s l w hs hl i j hi hj,
      fliplrud_block d s l w hs hl (l - 1 - i) (w - 1 - j) (by omega) (by omega)]
    have e1 : l - 1 - (l - 1 - i) = i := by omega
    have e2 : w - 1 - (w - 1 - j) = j := by omega
    rw [e1, e2]
  · have hp : ∀ i j, i < l → j < w → p ≠ i * s + j :=
      fun i j hi hj e => h ⟨i, j, hi, hj, e⟩
    rw [fliplrud_frame _ s l w hs p hp, fliplrud_frame d s l w hs p hp]

/-! ### The dispatch tables are separable -/

theorem type_pairs_injective (t t' : Nat) (ht : t < 16) (ht' : t' < 16)
    (hv : vtx t = vtx t') (hh : htx t = htx t') : t = t' := by
  have key : ∀ a, a < 16 → ∀ b, b < 16 → vtx a = vtx b → htx a = htx b → a = b := by
    decide
  exact key t ht t' ht' hv hh

theorem type_pairs_surjective (v h : TX_TYPE_1D) : ∃ t, t < 16 ∧ vtx t = v ∧ htx t = h := by
  cases v <;> cases h <;> first
    | exact ⟨0, by decide, rfl, rfl⟩
    | exact ⟨1, by decide, rfl, rfl⟩
    | exact ⟨2, by decide, rfl, rfl⟩
    | exact ⟨3, by decide, rfl, rfl⟩
    | exact ⟨4, by decide, rfl, rfl⟩
    | exact ⟨5, by decide, rfl, rfl⟩
    | exact ⟨6, by decide, rfl, rfl⟩
    | exact ⟨7, by decide, rfl, rfl⟩
    | exact ⟨8, by decide, rfl, rfl⟩
    | exact ⟨9, by decide, rfl, rfl⟩
    | exact ⟨10, by decide, rfl, rfl⟩
    | exact ⟨11, by decide, rfl, rfl⟩
    | exact ⟨12, by decide, rfl, rfl⟩
    | exact ⟨13, by decide, rfl, rfl⟩
    | exact ⟨14, by decide, rfl, rfl⟩
    | exact ⟨15, by decide, rfl, rfl⟩

theorem fdct4_range_checks_pass (input output : Buf) (h : range_check input 4 14) :
    ∀ c ∈ fdct4_range_checks input output, range_check c.1 c.2.1 c.2.2 := by
  obtain ⟨b1, b2, b3⟩ := fdct4_stage_bounds input output h
  intro c hc
  simp only [fdct4_range_checks, List.mem_cons, List.mem_singleton, List.not_mem_nil,
    or_false] at hc
  rcases hc with rfl | rfl | rfl | rfl
  · exact h
  · exact b1
  · exact b2
  · exact b3

theorem fdct16_range_checks_bound (input output : Buf) (h : range_check input 16 13) :
    ∀ i c, (fdct16_range_checks input output)[i]? = some c →
      range_check c.1 c.2.1 (if i < 4 then c.2.2 else 17) := by
  obtain ⟨b1, b2, b3, b4, b5, b6, b7⟩ := fdct16_stage_bounds input output h
  intro i c hc
  unfold fdct16_range_checks at hc
  rcases i with _ | _ | _ | _ | _ | _ | _ | _ | i
  · cases Option.some.inj hc
    exact h
  · cases Option.some.inj hc
    exact b1
  · cases Option.some.inj hc
    exact b2
  · cases Option.some.inj hc
    exact b3
  · cases Option.some.inj hc
    exact b4
  · cases Option.some.inj hc
    exact b5
  · cases Option.some.inj hc
    exact b6
  · cases Option.some.inj hc
    exact b7
  · exact Option.noConfusion hc

theorem fdct16_checks_at_max :
    (fdct16_range_checks (fun _ => 8191) zeroBuf).map (fun c => (c.1 0, c.2.2))
      = [(8191, 13), (16382, 14), (32764, 15), (65528, 16), (92669, 16), (92669, 16),
        (92669, 16), (92669, 16)] := by
  decide

/-! ### The forward identity transform -/

theorem storeNest_frame (n m : Nat) (g : Nat → Nat → Nat) (v : Nat → Nat → Int) (d0 : Buf)
    (p : Nat) (h : ∀ i j, i < n → j < m → g i j ≠ p) :
    forLoop n (fun i d => forLoop m (fun j d => store d (g i j) (v i j)) d) d0 p = d0 p := by
  induction n with
  | zero => rfl
  | succ n ih =>
    rw [forLoop_succ, storeLoop_frame m (g n) (v n) _ p (fun j hj => h n j (Nat.lt_succ_self n) hj)]
    exact ih (fun i j hi hj => h i j (Nat.lt_succ_of_lt hi) hj)

theorem storeNest_read (n m : Nat) (g : Nat → Nat → Nat) (v : Nat → Nat → Int) (d0 : Buf)
    (hinj : ∀ i j i' j', i < n → j < m → i' < n → j' < m → g i j = g i' j' → i = i' ∧ j = j')
    (i j : Nat) (hi : i < n) (hj : j < m) :
    forLoop n (fun i d => forLoop m (fun j d => store d (g i j) (v i j)) d) d0 (g i j)
      = v i j := by
  induction n with
  | zero => omega
  | succ n ih =>
    rw [forLoop_succ]
    by_cases hin : i = n
    · subst hin
      exact storeLoop_read m (g i) (v i) _
        (fun a b ha hb e => (hinj i a i b hi ha hi hb e).2) j hj
    · have hlt : i < n := by omega
      rw [storeLoop_frame m (g n) (v n) _ (g i j) (fun b hb e =>
        hin (hinj n b i j (Nat.lt_succ_self n) hb hi hj e).1.symm)]
      exact ih (fun a b a' b' ha hb ha' hb' e =>
        hinj a b a' b' (Nat.lt_succ_of_lt ha) hb (Nat.lt_succ_of_lt ha') hb' e) hlt

theorem idtx_shift (bsx bsy : Nat) :
    (3 - (b2i (bsx * bsy > 256) + b2i (bsx * bsy > 1024)) : Int).toNat
      = if bsx * bsy ≤ 256 then 3 else if bsx * bsy ≤ 1024 then 2 else 1 := by
  unfold b2i
  split_ifs <;> first | rfl | omega

theorem av1_fwd_idtx_c_read (src_diff coeff : Buf) (stride bsx bsy : Nat) (r c : Nat)
    (hr : r < bsy) (hc : c < bsx) :
    av1_fwd_idtx_c src_diff coeff stride bsx bsy IDTX (r * bsx + c)
      = src_diff (r * stride + c)
          * 2 ^ (if bsx * bsy ≤ 256 then 3 else if bsx * bsy ≤ 1024 then 2 else 1) := by
  unfold av1_fwd_idtx_c
  simp only
  rw [if_pos trivial, idtx_shift]
  exact storeNest_read bsy bsx (fun r c => r * bsx + c) _ coeff
    (fun i j i' j' _ hj _ hj' e => block_inj bsx i j i' j' hj hj' e) r c hr hc

theorem av1_fwd_idtx_c_frame (src_diff coeff : Buf) (stride bsx bsy : Nat) (p : Nat)
    (hp : bsx * bsy ≤ p) :
    av1_fwd_idtx_c src_diff coeff stride bsx bsy IDTX p = coeff p := by
  unfold av1_fwd_idtx_c
  simp only
  rw [if_pos trivial]
  apply storeNest_frame
  intro i j hi hj e
  have := row_lt bsx i bsy j hj hi
  rw [Nat.mul_comm bsy bsx] at this
  omega

theorem av1_fwd_idtx_c_other (src_diff coeff : Buf) (stride bsx bsy : Nat) (t : Nat)
    (ht : t ≠ IDTX) : av1_fwd_idtx_c src_diff coeff stride bsx bsy t = coeff := by
  unfold av1_fwd_idtx_c
  simp only
  rw [if_neg ht]

/-! ### The scaling by 4 with ties toward zero -/

theorem mid_scale_16x16_odd (t : Int) : mid_scale_16x16 (-t) = -mid_scale_16x16 t := by
  unfold mid_scale_16x16 b2i
  simp only [asr_eq_div]
  split_ifs <;> omega

theorem mid_scale_16x16_near (t : Int) : |4 * mid_scale_16x16 t - t| ≤ 2 := by
  unfold mid_scale_16x16 b2i
  simp only [asr_eq_div]
  rw [abs_le]
  split_ifs <;> omega

theorem mid_scale_16x16_tie (t : Int) (h : |t| % 4 = 2) :
    4 * mid_scale_16x16 t = t - 2 * Int.sign t := by
  unfold mid_scale_16x16 b2i
  simp only [asr_eq_div]
  rcases lt_trichotomy t 0 with h0 | h0 | h0
  · rw [abs_of_neg h0] at h
    rw [Int.sign_eq_neg_one_of_neg h0, if_pos h0]
    omega
  · subst h0
    simp at h
  · rw [abs_of_pos h0] at h
    rw [Int.sign_eq_one_of_pos h0, if_neg (by omega)]
    omega

theorem mid_scale_16x16_not_tie (t : Int) (h : |t| % 4 ≠ 2) :
    |4 * mid_scale_16x16 t - t| ≤ 1 := by
  unfold mid_scale_16x16 b2i
  simp only [asr_eq_div]
  rw [abs_le]
  rcases le_or_lt 0 t with h0 | h0
  · rw [abs_of_nonneg h0] at h
    rw [if_neg (by omega)]
    omega
  · rw [abs_of_neg h0] at h
    rw [if_pos h0]
    omega

/-! ### The lossless transform of a constant block -/

theorem wht4_const (v : Int) : wht4 v v v v = (2 * v, 0, 0, 0) := by
  simp only [wht4, asr_one, Prod.mk.injEq]
  omega

theorem whtCol_const (input : Buf) (stride : Nat) (v : Int)
    (h : ∀ r c, r < 4 → c < 4 → input (r * stride + c) = v) (i : Nat) (hi : i < 4) :
    whtCol input stride i = (2 * v, 0, 0, 0) := by
  unfold whtCol
  rw [Nat.add_comm i, Nat.add_comm i, Nat.add_comm i, Nat.add_comm i,
    h 0 i (by norm_num) hi, h 1 i (by norm_num) hi, h 2 i (by norm_num) hi,
    h 3 i (by norm_num) hi]
  exact wht4_const v

theorem fwht_const (input output : Buf) (stride : Nat) (v : Int)
    (h : ∀ r c, r < 4 → c < 4 → input (r * stride + c) = v) (k : Nat) (hk : k < 16) :
    av1_fwht4x4_c input output stride k = if k = 0 then 16 * v else 0 := by
  rw [fwht_formula input output stride k hk]
  unfold whtRow
  rw [whtCol_const input stride v h 0 (by norm_num), whtCol_const input stride v h 1 (by norm_num),
    whtCol_const input stride v h 2 (by norm_num), whtCol_const input stride v h 3 (by norm_num)]
  have e0 : wht4 (2 * v) (2 * v) (2 * v) (2 * v) = (2 * (2 * v), 0, 0, 0) := wht4_const (2 * v)
  have z : wht4 0 0 0 0 = (0, 0, 0, 0) := by decide
  interval_cases k
  · simp only [quad, Nat.reduceDiv, Nat.reduceMod, e0, UNIT_QUANT_FACTOR, reduceIte]
    ring
  all_goals
    simp only [quad, Nat.reduceDiv, Nat.reduceMod, e0, z, UNIT_QUANT_FACTOR, reduceIte,
      Nat.reduceEqDiff, zero_mul, OfNat.ofNat_ne_zero]

/-! ### The transforms read only their block -/

theorem fht2d_blockOnly (tbl : List transform_2d) (l w N1 n1 : Nat) (ro co : Nat → Nat → Nat)
    (k1 k2 : transform_2d → transform_1d) (scIn : Int → Int) (adj : Nat → Buf → Buf)
    (scMid : Int → Int) (idx2 : Nat → Nat → Nat) (scOut : Int → Int)
    (hro : ∀ i j, i < N1 → j < n1 → ro i j < l ∧ co i j < w) (hl : l % 2 = 0)
    (hsome : ∀ t, t < 16 → ∃ h, tbl[t]? = some h) :
    BlockOnly w l (fht2d tbl l w N1 n1 ro co k1 k2 scIn adj scMid idx2 scOut) := by
  intro x x' output stride stride' t ht hB
  obtain ⟨h, hh⟩ := hsome t ht
  refine ⟨_, fht2d_canon tbl l w N1 n1 ro co k1 k2 scIn adj scMid idx2 scOut x output stride t h
    hro ht hl hh, ?_⟩
  rw [fht2d_canon tbl l w N1 n1 ro co k1 k2 scIn adj scMid idx2 scOut x' output stride' t h
    hro ht hl hh]
  congr 1
  exact fhtCore_congr l w N1 n1 ro co k1 k2 scIn adj scMid idx2 scOut h _ _ output hro
    (fun r c hr hc => (hB (rowMap l t r) (colMap w t c) (rowMap_lt l t r hr)
      (colMap_lt w t c hc)).symm)

theorem blockOnly_map (W H : Nat) (F : Buf → Buf → Nat → TX_TYPE → Option Buf)
    (post : Buf → Buf) (h : BlockOnly W H F) :
    BlockOnly W H (fun x o s t => (F x o s t).map post) := by
  intro x x' output stride stride' t ht hB
  obtain ⟨o, h1, h2⟩ := h x x' output stride stride' t ht hB
  exact ⟨post o, by simp only [h1, Option.map_some'], by simp only [h2, Option.map_some']⟩

theorem av1_fht4x4_c_table_blockOnly : BlockOnly 4 4 av1_fht4x4_c_table := by
  rw [av1_fht4x4_c_table_eq]
  exact fht2d_blockOnly _ _ _ _ _ _ _ _ _ _ _ _ _ _ (fun i j hi hj => ⟨hj, hi⟩) rfl
    (fun t ht => by interval_cases t <;> exact ⟨_, rfl⟩)

theorem av1_fht4x8_c_blockOnly : BlockOnly 4 8 av1_fht4x8_c := by
  rw [av1_fht4x8_c_eq]
  exact fht2d_blockOnly _ _ _ _ _ _ _ _ _ _ _ _ _ _ (fun i j hi hj => ⟨hi, hj⟩) rfl
    (fun t ht => by interval_cases t <;> exact ⟨_, rfl⟩)

theorem av1_fht8x4_c_blockOnly : BlockOnly 8 4 av1_fht8x4_c := by
  rw [av1_fht8x4_c_eq]
  exact fht2d_blockOnly _ _ _ _ _ _ _ _ _ _ _ _ _ _ (fun i j hi hj => ⟨hj, hi⟩) rfl
    (fun t ht => by interval_cases t <;> exact ⟨_, rfl⟩)

theorem av1_fht4x16_c_blockOnly : BlockOnly 4 16 av1_fht4x16_c := by
  rw [av1_fht4x16_c_eq]
  exact fht2d_blockOnly _ _ _ _ _ _ _ _ _ _ _ _ _ _ (fun i j hi hj => ⟨hi, hj⟩) rfl
    (fun t ht => by interval_cases t <;> exact ⟨_, rfl⟩)

theorem av1_fht16x4_c_blockOnly : BlockOnly 16 4 av1_fht16x4_c := by
  rw [av1_fht16x4_c_eq]
  exact fht2d_blockOnly _ _ _ _ _ _ _ _ _ _ _ _ _ _ (fun i j hi hj => ⟨hj, hi⟩) rfl
    (fun t ht => by interval_cases t <;> exact ⟨_, rfl⟩)

theorem av1_fht8x16_c_blockOnly : BlockOnly 8 16 av1_fht8x16_c := by
  rw [av1_fht8x16_c_eq]
  exact fht2d_blockOnly _ _ _ _ _ _ _ _ _ _ _ _ _ _ (fun i j hi hj => ⟨hi, hj⟩) rfl
    (fun t ht => by interval_cases t <;> exact ⟨_, rfl⟩)

theorem av1_fht16x8_c_blockOnly : BlockOnly 16 8 av1_fht16x8_c := by
  rw [av1_fht16x8_c_eq]
  exact fht2d_blockOnly _ _ _ _ _ _ _ _ _ _ _ _ _ _ (fun i j hi hj => ⟨hj, hi⟩) rfl
    (fun t ht => by interval_cases t <;> exact ⟨_, rfl⟩)

theorem av1_fht8x32_c_blockOnly : BlockOnly 8 32 av1_fht8x32_c := by
  rw [av1_fht8x32_c_eq]
  exact fht2d_blockOnly _ _ _ _ _ _ _ _ _ _ _ _ _ _ (fun i j hi hj => ⟨hi, hj⟩) rfl
    (fun t ht => by interval_cases t <;> exact ⟨_, rfl⟩)

theorem av1_fht32x8_c_blockOnly : BlockOnly 32 8 av1_fht32x8_c := by
  rw [av1_fht32x8_c_eq]
  exact fht2d_blockOnly _ _ _ _ _ _ _ _ _ _ _ _ _ _ (fun i j hi hj => ⟨hj, hi⟩) rfl
    (fun t ht => by interval_cases t <;> exact ⟨_, rfl⟩)

theorem av1_fht16x32_c_blockOnly : BlockOnly 16 32 av1_fht16x32_c := by
  rw [av1_fht16x32_c_eq]
  exact fht2d_blockOnly _ _ _ _ _ _ _ _ _ _ _ _ _ _ (fun i j hi hj => ⟨hi, hj⟩) rfl
    (fun t ht => by interval_cases t <;> exact ⟨_, rfl⟩)

theorem av1_fht32x16_c_blockOnly : BlockOnly 32 16 av1_fht32x16_c := by
  rw [av1_fht32x16_c_eq]
  exact fht2d_blockOnly _ _ _ _ _ _ _ _ _ _ _ _ _ _ (fun i j hi hj => ⟨hj, hi⟩) rfl
    (fun t ht => by interval_cases t <;> exact ⟨_, rfl⟩)

theorem av1_fht8x8_c_table_blockOnly : BlockOnly 8 8 av1_fht8x8_c_table := by
  rw [av1_fht8x8_c_table_eq]
  exact fht2d_blockOnly _ _ _ _ _ _ _ _ _ _ _ _ _ _ (fun i j hi hj => ⟨hj, hi⟩) rfl
    (fun t ht => by interval_cases t <;> exact ⟨_, rfl⟩)

theorem av1_fht16x16_c_blockOnly : BlockOnly 16 16 av1_fht16x16_c := by
  rw [av1_fht16x16_c_eq]
  exact fht2d_blockOnly _ _ _ _ _ _ _ _ _ _ _ _ _ _ (fun i j hi hj => ⟨hj, hi⟩) rfl
    (fun t ht => by interval_cases t <;> exact ⟨_, rfl⟩)

theorem av1_fht32x32_c_blockOnly : BlockOnly 32 32 av1_fht32x32_c := by
  rw [av1_fht32x32_c_eq]
  exact fht2d_blockOnly _ _ _ _ _ _ _ _ _ _ _ _ _ _ (fun i j hi hj => ⟨hj, hi⟩) rfl
    (fun t ht => by interval_cases t <;> exact ⟨_, rfl⟩)

theorem av1_fht64x64_c_blockOnly (fdct64_col fdct64_row : transform_1d) :
    BlockOnly 64 64 (av1_fht64x64_c fdct64_col fdct64_row) := by
  apply blockOnly_map 64 64 (av1_fht64x64_c_passes fdct64_col fdct64_row) av1_fht64x64_c_post
  rw [av1_fht64x64_c_passes_eq]
  exact fht2d_blockOnly _ _ _ _ _ _ _ _ _ _ _ _ _ _ (fun i j hi hj => ⟨hj, hi⟩) rfl
    (fun t ht => by interval_cases t <;> exact ⟨_, rfl⟩)

theorem av1_fht64x32_c_blockOnly (fdct64_row : transform_1d) :
    BlockOnly 64 32 (av1_fht64x32_c fdct64_row) := by
  apply blockOnly_map 64 32 (av1_fht64x32_c_passes fdct64_row) av1_fht64x32_c_post
  rw [av1_fht64x32_c_passes_eq]
  exact fht2d_blockOnly _ _ _ _ _ _ _ _ _ _ _ _ _ _ (fun i j hi hj => ⟨hj, hi⟩) rfl
    (fun t ht => by interval_cases t <;> exact ⟨_, rfl⟩)

theorem av1_fht32x64_c_blockOnly (fdct64_row : transform_1d) :
    BlockOnly 32 64 (av1_fht32x64_c fdct64_row) := by
  apply blockOnly_map 32 64 (av1_fht32x64_c_passes fdct64_row) av1_fht32x64_c_post
  rw [av1_fht32x64_c_passes_eq]
  exact fht2d_blockOnly _ _ _ _ _ _ _ _ _ _ _ _ _ _ (fun i j hi hj => ⟨hi, hj⟩) rfl
    (fun t ht => by interval_cases t <;> exact ⟨_, rfl⟩)

theorem av1_fht16x64_c_blockOnly (fdct64_col : transform_1d) :
    BlockOnly 16 64 (av1_fht16x64_c fdct64_col) := by
  apply blockOnly_map 16 64 (av1_fht16x64_c_passes fdct64_col) av1_fht16x64_c_post
  rw [av1_fht16x64_c_passes_eq]
  exact fht2d_blockOnly _ _ _ _ _ _ _ _ _ _ _ _ _ _ (fun i j hi hj => ⟨hi, hj⟩) rfl
    (fun t ht => by interval_cases t <;> exact ⟨_, rfl⟩)

theorem av1_fht64x16_c_blockOnly (fdct64_row : transform_1d) :
    BlockOnly 64 16 (av1_fht64x16_c fdct64_row) := by
  apply blockOnly_map 64 16 (av1_fht64x16_c_passes fdct64_row) av1_fht64x16_c_post
  rw [av1_fht64x16_c_passes_eq]
  exact fht2d_blockOnly _ _ _ _ _ _ _ _ _ _ _ _ _ _ (fun i j hi hj => ⟨hj, hi⟩) rfl
    (fun t ht => by interval_cases t <;> exact ⟨_, rfl⟩)

/-! ### The bit writer -/

theorem aom_write_literal_loop_eq {W : Type} (dw : W → Int → Int → W) (data : Int) (n : Nat)
    (w : W) :
    aom_write_literal_loop dw data n w
      = (List.range n).reverse.foldl (fun w k => dw w (Int.land 1 (asr data k)) 128) w := by
  induction n generalizing w with
  | zero => rfl
  | succ n ih =>
    rw [List.range_succ, List.reverse_append, List.reverse_singleton, List.singleton_append,
      List.foldl_cons, ← ih]
    rfl

theorem foldl_record (f : Nat → Int × Int) (l : List Nat) (w : List (Int × Int)) :
    l.foldl (fun w k => record_write w (f k).1 (f k).2) w = w ++ l.map f := by
  induction l generalizing w with
  | nil => simp
  | cons a l ih =>
    rw [List.foldl_cons, ih]
    simp [record_write]

theorem nat_ldiff_one (n : Nat) : Nat.ldiff 1 n = (n + 1) % 2 := by
  apply Nat.eq_of_testBit_eq
  intro i
  rw [Nat.testBit_ldiff]
  cases i with
  | zero =>
    simp only [Nat.testBit_zero]
    rcases Nat.mod_two_eq_zero_or_one n with h | h <;> simp [h, Nat.add_mod]
  | succ i =>
    have h1 : Nat.testBit 1 (i + 1) = false := by
      simp [Nat.testBit_succ]
    have h2 : Nat.testBit ((n + 1) % 2) (i + 1) = false := by
      rcases Nat.mod_two_eq_zero_or_one (n + 1) with h | h <;> simp [h, Nat.testBit_succ]
    rw [h1, h2]
    rfl

theorem int_land_one (x : Int) : Int.land 1 x = x % 2 := by
  cases x with
  | ofNat n =>
    show ((Nat.land 1 n : Nat) : Int) = (n : Int) % 2
    have : Nat.land 1 n = n % 2 := Nat.one_and_eq_mod_two n
    rw [this]
    omega
  | negSucc n =>
    show ((Nat.ldiff 1 n : Nat) : Int) = Int.negSucc n % 2
    rw [nat_ldiff_one, Int.negSucc_eq]
    omega

theorem digit_mod (data : Int) (bits k : Nat) (hk : k < bits) :
    data % 2 ^ bits / 2 ^ k % 2 = data / 2 ^ k % 2 := by
  obtain ⟨m, rfl⟩ : ∃ m, bits = k + (m + 1) := ⟨bits - k - 1, by omega⟩
  have hk0 : (2 : Int) ^ k ≠ 0 := pow_ne_zero k (by norm_num)
  have e : data % 2 ^ (k + (m + 1))
      = data + 2 ^ k * (2 * (-(2 ^ m * (data / 2 ^ (k + (m + 1)))))) := by
    rw [Int.emod_def, pow_add, pow_succ]
    ring
  rw [e, Int.add_mul_ediv_left _ _ hk0, Int.add_mul_emod_self_left]

theorem aom_write_literal_record (data bits : Int) :
    aom_write_literal record_write [] data bits
      = (List.range bits.toNat).reverse.map
          (fun k => (data % 2 ^ bits.toNat / 2 ^ k % 2, 128)) := by
  unfold aom_write_literal
  rw [aom_write_literal_loop_eq]
  have e := foldl_record (fun k => (Int.land 1 (asr data k), 128)) (List.range bits.toNat).reverse []
  simp only at e
  rw [e, List.nil_append]
  apply List.map_congr_left
  intro k hk
  have hk' : k < bits.toNat := List.mem_range.mp (List.mem_reverse.mp hk)
  rw [int_land_one, asr_eq_div, digit_mod data bits.toNat k hk']

theorem aom_write_literal_count (data bits : Int) :
    ((aom_write_literal record_write [] data bits).length : Int) = max bits 0 := by
  rw [aom_write_literal_record, List.length_map, List.length_reverse, List.length_range,
    Int.toNat_eq_max]

/-! ### The flip in both directions on a block of any height -/

theorem fliplrud_block_ne (d : Buf) (s l w : Nat) (hs : w ≤ s) (i j : Nat)
    (hi : i < l) (hj : j < w) (hne : l - 1 - i ≠ i) :
    fliplrud d s l w (i * s + j) = d ((l - 1 - i) * s + (w - 1 - j)) := by
  obtain ⟨h1, h2, _⟩ := fliplrud_swapped d s l w hs
  by_cases c1 : i < l / 2
  · have := h1 i j c1 hj
    simp only at this
    rw [this]; congr 1; omega
  · have := h2 (l - 1 - i) (w - 1 - j) (by omega) (by omega)
    simp only at this
    have e1 : l - 1 - (l - 1 - i) = i := by omega
    have e2 : i * s + w - 1 - (w - 1 - j) = i * s + j := by omega
    rw [e1, e2] at this
    exact this

theorem fliplrud_block_mid (d : Buf) (s l w : Nat) (hs : w ≤ s) (i j : Nat)
    (hj : j < w) (hmid : l - 1 - i = i) :
    fliplrud d s l w (i * s + j) = d (i * s + j) := by
  obtain ⟨_, _, h3⟩ := fliplrud_swapped d s l w hs
  apply h3
  intro i' j' hi' hj'
  simp only
  constructor
  · intro e
    have := block_inj s i j i' j' (by omega) (by omega) e
    omega
  · intro e
    have e' : (l - 1 - i') * s + w - 1 - j' = (l - 1 - i') * s + (w - 1 - j') := by omega
    rw [e'] at e
    have := block_inj s i j (l - 1 - i') (w - 1 - j') (by omega) (by omega) e
    omega

theorem copy_fliplrud_block_ne (src : Buf) (ss l w : Nat) (dest : Buf) (i j : Nat)
    (hi : i < l) (hj : j < w) (hne : l - 1 - i ≠ i) :
    copy_fliplrud src ss l w dest w (i * w + j) = src ((l - 1 - i) * ss + (w - 1 - j)) := by
  unfold copy_fliplrud
  rw [fliplrud_block_ne _ w l w (Nat.le_refl w) i j hi hj hne,
    copy_block_block src ss l w dest w (Nat.le_refl w) (l - 1 - i) (w - 1 - j) (by omega)
      (by omega)]

theorem copy_fliplrud_block_mid (src : Buf) (ss l w : Nat) (dest : Buf) (i j : Nat)
    (hi : i < l) (hj : j < w) (hmid : l - 1 - i = i) :
    copy_fliplrud src ss l w dest w (i * w + j) = src (i * ss + j) := by
  unfold copy_fliplrud
  rw [fliplrud_block_mid _ w l w (Nat.le_refl w) i j hj hmid,
    copy_block_block src ss l w dest w (Nat.le_refl w) i j hi hj]

/-! ## The claims -/

/-- C1. For every 4x4 block `input` of samples and every stride, the forward
Walsh-Hadamard transform `av1_fwht4x4_c` is losslessly invertible: each of its
16 output coefficients is a multiple of `UNIT_QUANT_FACTOR = 4`, and the
documented inverse transform `iwht4x4`, applied to the output, returns the
sample at row `r` and column `c` of the input at position `4 * r + c`. -/
theorem C1_fwht4x4_lossless (input output : Buf) (stride : Nat) :
    UNIT_QUANT_FACTOR = 4 ∧
    (∀ k, k < 16 → UNIT_QUANT_FACTOR ∣ av1_fwht4x4_c input output stride k) ∧
    (∀ r c, r < 4 → c < 4 →
      iwht4x4 (av1_fwht4x4_c input output stride) (4 * r + c) = input (r * stride + c)) := by
  refine ⟨rfl, fun k hk => ?_, fun r c hr hc => fwht_roundtrip input output stride r c hr hc⟩
  rw [fwht_formula input output stride k hk]
  exact Dvd.intro_left _ rfl

/-- C1, at the block of `rampBuf` read with stride 9, row 2 and column 3. -/
theorem C1_fwht4x4_lossless_witness :
    iwht4x4 (av1_fwht4x4_c rampBuf zeroBuf 9) (4 * 2 + 3) = rampBuf (2 * 9 + 3) :=
  (C1_fwht4x4_lossless rampBuf zeroBuf 9).2.2 2 3 (by decide) (by decide)

/-- C2. For every 4x4 block whose 16 samples all equal `v`, the table-driven
pipeline of `av1_fht4x4_c` with the `DCT_DCT` kernel pair `(fdct4, fdct4)`
returns a coefficient block that is zero at the 15 positions other than
index 0; for `v = 1` the coefficient at index 0 is 32, which is not zero. -/
theorem C2_fht4x4_dct_constant_block (x output : Buf) (stride : Nat) (v : Int)
    (hx : ∀ r c, r < 4 → c < 4 → x (r * stride + c) = v) :
    FHT_4x4[DCT_DCT]? = some ⟨fdct4, fdct4⟩ ∧
    ∃ o, av1_fht4x4_c_table x output stride DCT_DCT = some o ∧
      (∀ k, 1 ≤ k → k < 16 → o k = 0) ∧ (v = 1 → o 0 = 32 ∧ o 0 ≠ 0) := by
  obtain ⟨o, ho, hread⟩ := fht4x4_dct_read x output stride v hx
  refine ⟨rfl, o, ho, fun k h1 h16 => ?_, fun hv => ?_⟩
  · have e : k = k % 4 + k / 4 * 4 := by omega
    rw [e, hread (k / 4) (k % 4) (by omega) (by omega)]
    exact fht4x4_dct_const_ac v (k / 4) (k % 4) (by omega) (by omega) (by omega)
  · subst hv
    have h0 := hread 0 0 (by norm_num) (by norm_num)
    have e : o 0 = 32 := by
      rw [show (0 : Nat) = 0 + 0 * 4 from rfl, h0]
      simp [fdct4_0, fdct4_1, fdct4_2, fdct4_3, adj4x4, store]
      decide
    rw [e]
    exact ⟨rfl, by decide⟩

/-- C2, at the all-ones block of the spec, read with stride 4. -/
theorem C2_fht4x4_dct_constant_block_witness :
    ∃ o, av1_fht4x4_c_table onesBuf zeroBuf 4 DCT_DCT = some o ∧
      (∀ k, 1 ≤ k → k < 16 → o k = 0) ∧ ((1 : Int) = 1 → o 0 = 32 ∧ o 0 ≠ 0) :=
  (C2_fht4x4_dct_constant_block onesBuf zeroBuf 4 1 (fun _ _ _ _ => rfl)).2

/-- C3. Each of the 14 table-driven transforms of `tableDriven` (4x4 to 32x32;
for 4x4 and 8x8 the table-driven path), for each of the 16 transform types,
sends a block whose samples are all zero to a result whose `W * H`
coefficients are all zero. -/
theorem C3_zero_block_zero_coefficients :
    ∀ e ∈ tableDriven, ZeroToZero e.1 e.2.1 e.2.2 := by
  intro e he
  simp only [tableDriven, List.mem_cons, List.mem_singleton, List.not_mem_nil, or_false] at he
  rcases he with rfl | rfl | rfl | rfl | rfl | rfl | rfl | rfl | rfl | rfl | rfl | rfl | rfl | rfl
  · exact av1_fht4x4_c_table_zeroToZero
  · exact av1_fht4x8_c_zeroToZero
  · exact av1_fht8x4_c_zeroToZero
  · exact av1_fht4x16_c_zeroToZero
  · exact av1_fht16x4_c_zeroToZero
  · exact av1_fht8x8_c_table_zeroToZero
  · exact av1_fht8x16_c_zeroToZero
  · exact av1_fht16x8_c_zeroToZero
  · exact av1_fht8x32_c_zeroToZero
  · exact av1_fht32x8_c_zeroToZero
  · exact av1_fht16x16_c_zeroToZero
  · exact av1_fht16x32_c_zeroToZero
  · exact av1_fht32x16_c_zeroToZero
  · exact av1_fht32x32_c_zeroToZero

/-- C3, at the zero 16x32 block read with stride 16, transform type
`FLIPADST_ADST`. -/
theorem C3_zero_block_zero_coefficients_witness :
    ∃ o, av1_fht16x32_c zeroBuf zeroBuf 16 FLIPADST_ADST = some o ∧
      ∀ k, k < 16 * 32 → o k = 0 :=
  C3_zero_block_zero_coefficients (16, 32, av1_fht16x32_c) (by simp [tableDriven]) zeroBuf
    zeroBuf 16 FLIPADST_ADST (by decide) (fun _ _ _ _ => rfl)

/-- C4. Every 1-D kernel of `dct.c` sends the all-zero vector of its length
to the all-zero vector: `fdct4`, `fdct8`, `fdct16`, `fdct32`, `fadst4`,
`fadst8`, `fadst16`, `fhalfright32`, `fidtx4`, `fidtx8`, `fidtx16` and
`fidtx32`, where `fdct_round_shift x = (x + 8192) >> 14`. -/
theorem C4_kernels_zero_to_zero :
    (∀ x, fdct_round_shift x = asr (x + 8192) 14) ∧
    ZeroPres 4 fdct4 ∧ ZeroPres 8 fdct8 ∧ ZeroPres 16 fdct16 ∧ ZeroPres 32 fdct32 ∧
    ZeroPres 4 fadst4 ∧ ZeroPres 8 fadst8 ∧ ZeroPres 16 fadst16 ∧
    ZeroPres 32 fhalfright32 ∧
    ZeroPres 4 fidtx4 ∧ ZeroPres 8 fidtx8 ∧ ZeroPres 16 fidtx16 ∧ ZeroPres 32 fidtx32 :=
  ⟨fdct_round_shift_eq, fdct4_zeroPres, fdct8_zeroPres, fdct16_zeroPres, fdct32_zeroPres,
    fadst4_zeroPres, fadst8_zeroPres, fadst16_zeroPres, fhalfright32_zeroPres,
    fidtx4_zeroPres, fidtx8_zeroPres, fidtx16_zeroPres, fidtx32_zeroPres⟩

/-- C4, at the zero vector for `fhalfright32`, output index 21. -/
theorem C4_kernels_zero_to_zero_witness : fhalfright32 zeroBuf zeroBuf 21 = 0 :=
  C4_kernels_zero_to_zero.2.2.2.2.2.2.2.2.1 zeroBuf zeroBuf (fun _ _ => rfl) 21 (by decide)

/-- C5. For each of the 14 table-driven transforms `F` of `tableDriven`, of a
`W` wide and `H` high block read with a stride of at least `W`, every flipped
transform type equals the matching unflipped type on the mirrored block
(`FlipLaws`): `FLIPADST_DCT` is `ADST_DCT` on `flipud x`, `DCT_FLIPADST` is
`DCT_ADST` on `fliplr x`, `FLIPADST_ADST` is `ADST_ADST` on `flipud x`,
`ADST_FLIPADST` is `ADST_ADST` on `fliplr x`, `FLIPADST_FLIPADST` is
`ADST_ADST` on `flipud (fliplr x)`, `V_FLIPADST` is `V_ADST` on `flipud x` and
`H_FLIPADST` is `H_ADST` on `fliplr x`. -/
theorem C5_flipped_types_mirror_input :
    ∀ e ∈ tableDriven, FlipLaws e.1 e.2.1 e.2.2 := by
  intro e he
  simp only [tableDriven, List.mem_cons, List.mem_singleton, List.not_mem_nil, or_false] at he
  rcases he with rfl | rfl | rfl | rfl | rfl | rfl | rfl | rfl | rfl | rfl | rfl | rfl | rfl | rfl
  · exact av1_fht4x4_c_table_flipLaws
  · exact av1_fht4x8_c_flipLaws
  · exact av1_fht8x4_c_flipLaws
  · exact av1_fht4x16_c_flipLaws
  · exact av1_fht16x4_c_flipLaws
  · exact av1_fht8x8_c_table_flipLaws
  · exact av1_fht8x16_c_flipLaws
  · exact av1_fht16x8_c_flipLaws
  · exact av1_fht8x32_c_flipLaws
  · exact av1_fht32x8_c_flipLaws
  · exact av1_fht16x16_c_flipLaws
  · exact av1_fht16x32_c_flipLaws
  · exact av1_fht32x16_c_flipLaws
  · exact av1_fht32x32_c_flipLaws

/-- C5, for `av1_fht8x16_c` at the block of `rampBuf` read with stride 11: `FLIPADST_FLIPADST` against `ADST_ADST` on the block
flipped both ways. -/
theorem C5_flipped_types_mirror_input_witness :
    av1_fht8x16_c rampBuf zeroBuf 11 FLIPADST_FLIPADST
      = av1_fht8x16_c (flipud (fliplr rampBuf 11 16 8) 11 16 8) zeroBuf 11 ADST_ADST :=
  (C5_flipped_types_mirror_input (8, 16, av1_fht8x16_c) (by simp [tableDriven]) rampBuf
    zeroBuf 11 (by decide)).2.2.2.2.1

/-- C6, refuted as stated. For a block of odd height `maybe_flip_input` with
the type `FLIPADST_FLIPADST` does not hand out the block flipped both ways: on
the 3 high, 2 wide block of `rampBuf` read with stride 2 the middle row of the
scratch buffer is `2, 3`, the source row unreversed, where the block flipped
both ways has `3, 2`. -/
theorem C6_odd_height_middle_row_not_flipped :
    copy_fliplrud rampBuf 2 3 2 zeroBuf 2 (1 * 2 + 0) = 2 ∧
    rampBuf ((3 - 1 - 1) * 2 + (2 - 1 - 0)) = 3 ∧
    ¬ ∀ (src : Buf) (s l w : Nat) (buff : Buf),
      ∃ b, maybe_flip_input src s l w buff FLIPADST_FLIPADST = some ⟨b, w, b⟩ ∧
        ∀ i j, i < l → j < w → b (i * w + j) = src ((l - 1 - i) * s + (w - 1 - j)) := by
  refine ⟨by decide, by decide, fun h => ?_⟩
  obtain ⟨b, hb, hblk⟩ := h rampBuf 2 3 2 zeroBuf
  rw [maybe_flip_input_lrud] at hb
  have e : copy_fliplrud rampBuf 2 3 2 zeroBuf 2 = b := by
    have := Option.some.inj hb
    exact congrArg FlipResult.src this
  have h10 := hblk 1 0 (by decide) (by decide)
  rw [← e] at h10
  exact absurd h10 (by decide)

/-- C6, as amended. `maybe_flip_input` sorts the 16 transform types into four
classes. For `DCT_DCT`, `ADST_DCT`, `DCT_ADST`, `ADST_ADST`, `IDTX`, `V_DCT`,
`H_DCT`, `V_ADST` and `H_ADST` it returns the source and the stride of the
caller and leaves the scratch buffer as it was. For `FLIPADST_DCT`,
`FLIPADST_ADST` and `V_FLIPADST` the source becomes the scratch buffer, which
holds the block flipped vertically; for `DCT_FLIPADST`, `ADST_FLIPADST` and
`H_FLIPADST` the block flipped horizontally; for `FLIPADST_FLIPADST` the
scratch buffer holds every row but the middle one of an odd height flipped
both ways and that middle row as it is in the source, so the block flipped
both ways when the height `l` is even. In these three classes the new stride
is the block width `w`, for every height. -/
theorem C6_maybe_flip_input_classes (src : Buf) (s l w : Nat) (buff : Buf) :
    (∀ t : Nat, (t = DCT_DCT ∨ t = ADST_DCT ∨ t = DCT_ADST ∨ t = ADST_ADST ∨ t = IDTX ∨
        t = V_DCT ∨ t = H_DCT ∨ t = V_ADST ∨ t = H_ADST) →
      maybe_flip_input src s l w buff t = some ⟨src, s, buff⟩) ∧
    (∀ t : Nat, (t = FLIPADST_DCT ∨ t = FLIPADST_ADST ∨ t = V_FLIPADST) →
      ∃ b, maybe_flip_input src s l w buff t = some ⟨b, w, b⟩ ∧
        ∀ i j, i < l → j < w → b (i * w + j) = src ((l - 1 - i) * s + j)) ∧
    (∀ t : Nat, (t = DCT_FLIPADST ∨ t = ADST_FLIPADST ∨ t = H_FLIPADST) →
      ∃ b, maybe_flip_input src s l w buff t = some ⟨b, w, b⟩ ∧
        ∀ i j, i < l → j < w → b (i * w + j) = src (i * s + (w - 1 - j))) ∧
    (∃ b, maybe_flip_input src s l w buff FLIPADST_FLIPADST = some ⟨b, w, b⟩ ∧
      (∀ i j, i < l → j < w → l - 1 - i ≠ i →
        b (i * w + j) = src ((l - 1 - i) * s + (w - 1 - j))) ∧
      (∀ i j, i < l → j < w → l - 1 - i = i → b (i * w + j) = src (i * s + j)) ∧
      (l % 2 = 0 → ∀ i j, i < l → j < w →
        b (i * w + j) = src ((l - 1 - i) * s + (w - 1 - j)))) :=
  ⟨fun t ht => maybe_flip_input_noflip src s l w buff t ht,
    fun t ht => ⟨_, maybe_flip_input_ud src s l w buff t ht,
      fun i j hi hj => copy_flipud_block src s l w buff i j hi hj⟩,
    fun t ht => ⟨_, maybe_flip_input_lr src s l w buff t ht,
      fun i j hi hj => copy_fliplr_block src s l w buff i j hi hj⟩,
    ⟨_, maybe_flip_input_lrud src s l w buff,
      fun i j hi hj hne => copy_fliplrud_block_ne src s l w buff i j hi hj hne,
      fun i j hi hj hmid => copy_fliplrud_block_mid src s l w buff i j hi hj hmid,
      fun hl i j hi hj => copy_fliplrud_block src s l w buff hl i j hi hj⟩⟩

/-- C6 as amended, for the 3 high, 2 wide block of `rampBuf` read with stride
2 and the type `FLIPADST_FLIPADST`: the new stride is 2, the outer rows are
flipped both ways and the middle row is copied. -/
theorem C6_maybe_flip_input_classes_witness :
    ∃ b, maybe_flip_input rampBuf 2 3 2 zeroBuf FLIPADST_FLIPADST = some ⟨b, 2, b⟩ ∧
      (∀ i j, i < 3 → j < 2 → 3 - 1 - i ≠ i →
        b (i * 2 + j) = rampBuf ((3 - 1 - i) * 2 + (2 - 1 - j))) ∧
      (∀ i j, i < 3 → j < 2 → 3 - 1 - i = i → b (i * 2 + j) = rampBuf (i * 2 + j)) ∧
      (3 % 2 = 0 → ∀ i j, i < 3 → j < 2 →
        b (i * 2 + j) = rampBuf ((3 - 1 - i) * 2 + (2 - 1 - j))) :=
  (C6_maybe_flip_input_classes rampBuf 2 3 2 zeroBuf).2.2.2

/-- C7. The horizontal flip is an involution: for every height `l`, width
`w`, stride of at least `w` and buffer, `fliplr` applied twice gives back the
buffer, inside the block and outside it. -/
theorem C7_fliplr_involution (dest : Buf) (stride l w : Nat) (hs : w ≤ stride) :
    fliplr (fliplr dest stride l w) stride l w = dest :=
  fliplr_fliplr dest stride l w hs

/-- C7, for the 3 high, 5 wide block of `rampBuf` read with stride 7. -/
theorem C7_fliplr_involution_witness :
    fliplr (fliplr rampBuf 7 3 5) 7 3 5 = rampBuf :=
  C7_fliplr_involution rampBuf 7 3 5 (by decide)

/-- C8. Repacking keeps exactly the low-frequency coefficients. For each of
the sixteen transform types, every input and every choice of the absent
64-point kernels, `av1_fht64x64_c`, `av1_fht64x32_c` (`R = 32` rows) and
`av1_fht64x16_c` (`R = 16` rows) return a result `o` with
`o (r * 32 + c) = p (r * 64 + c)` for `r < R` and `c < 32`, where `p` is the
buffer that the second pass left before the zeroing and repacking. -/
theorem C8_repack_keeps_low_frequencies (fdct64_col fdct64_row : transform_1d)
    (input output : Buf) (stride t : Nat) (ht : t < 16) :
    (∃ p o, av1_fht64x64_c_passes fdct64_col fdct64_row input output stride t = some p ∧
      av1_fht64x64_c fdct64_col fdct64_row input output stride t = some o ∧
      ∀ r c, r < 32 → c < 32 → o (r * 32 + c) = p (r * 64 + c)) ∧
    (∃ p o, av1_fht64x32_c_passes fdct64_row input output stride t = some p ∧
      av1_fht64x32_c fdct64_row input output stride t = some o ∧
      ∀ r c, r < 32 → c < 32 → o (r * 32 + c) = p (r * 64 + c)) ∧
    (∃ p o, av1_fht64x16_c_passes fdct64_row input output stride t = some p ∧
      av1_fht64x16_c fdct64_row input output stride t = some o ∧
      ∀ r c, r < 16 → c < 32 → o (r * 32 + c) = p (r * 64 + c)) := by
  refine ⟨?_, ?_, ?_⟩
  · obtain ⟨p, hp⟩ := av1_fht64x64_c_passes_some fdct64_col fdct64_row input output stride t ht
    refine ⟨p, _, hp, by rw [av1_fht64x64_c, hp]; rfl, fun r c hr hc => ?_⟩
    rw [av1_fht64x64_c_post_apply]
    split_ifs <;> first | rfl | omega | (congr 1; omega)
  · obtain ⟨p, hp⟩ := av1_fht64x32_c_passes_some fdct64_row input output stride t ht
    refine ⟨p, _, hp, by rw [av1_fht64x32_c, hp]; rfl, fun r c hr hc => ?_⟩
    rw [av1_fht64x32_c_post_apply]
    split_ifs <;> first | rfl | omega | (congr 1; omega)
  · obtain ⟨p, hp⟩ := av1_fht64x16_c_passes_some fdct64_row input output stride t ht
    refine ⟨p, _, hp, by rw [av1_fht64x16_c, hp]; rfl, fun r c hr hc => ?_⟩
    rw [av1_fht64x16_c_post_apply]
    split_ifs <;> first | rfl | omega | (congr 1; omega)

/-- C8, at the all-ones block read with stride 64, transform type `IDTX`, with
`fidtx64` standing in for the absent kernels. -/
theorem C8_repack_keeps_low_frequencies_witness :
    ∃ p o, av1_fht64x16_c_passes fidtx64 onesBuf zeroBuf 64 IDTX = some p ∧
      av1_fht64x16_c fidtx64 onesBuf zeroBuf 64 IDTX = some o ∧
      ∀ r c, r < 16 → c < 32 → o (r * 32 + c) = p (r * 64 + c) :=
  (C8_repack_keeps_low_frequencies fidtx64 fidtx64 onesBuf zeroBuf 64 IDTX (by decide)).2.2

/-- C9, refuted as stated. For the identity transform type of the all-ones
64x64 block (the absent 64-point DCT kernels are never called on this path;
`fidtx64` stands in for them), `av1_fht64x64_c` leaves the coefficient 3 at
index 1024: a position outside the repacked block that is not zero. -/
theorem C9_tail_not_all_zero :
    ¬ ∀ o, av1_fht64x64_c fidtx64 fidtx64 onesBuf zeroBuf 64 IDTX = some o →
      ∀ k, 1024 ≤ k → k < 4096 → o k = 0 := by
  intro h
  obtain ⟨p, hp, hval⟩ := fht64x64_idtx_ones
  have ho : av1_fht64x64_c fidtx64 fidtx64 onesBuf zeroBuf 64 IDTX
      = some (av1_fht64x64_c_post p) := by
    rw [av1_fht64x64_c, hp]; rfl
  have h0 := h _ ho 1024 (by norm_num) (by norm_num)
  rw [av1_fht64x64_c_post_apply, if_neg (by omega), if_neg (by omega)] at h0
  have h3 := hval 16 0 (by norm_num) (by norm_num)
  rw [show 0 + 16 * 64 = 1024 from rfl, h0] at h3
  exact absurd h3 (by decide)

/-- C9, as amended. For each of the sixteen transform types, every input and
every choice of the absent 64-point kernels: after `av1_fht64x64_c` every
position in 2048..4095 and every position in 1024..2047 whose column
(position mod 64) is at least 32 is zero; after `av1_fht64x32_c` every
position in 1024..2047 whose column is at least 32 is zero; after
`av1_fht64x16_c` every position in 512..1023 whose column is at least 32 is
zero. The remaining positions of these ranges, with column below 32, are not
cleared: they keep the coefficient that the second pass wrote there. -/
theorem C9_tail_zero_right_half (fdct64_col fdct64_row : transform_1d)
    (input output : Buf) (stride t : Nat) (ht : t < 16) :
    (∃ p o, av1_fht64x64_c_passes fdct64_col fdct64_row input output stride t = some p ∧
      av1_fht64x64_c fdct64_col fdct64_row input output stride t = some o ∧
      (∀ k, 1024 ≤ k → k < 4096 → (2048 ≤ k ∨ 32 ≤ k % 64) → o k = 0) ∧
      (∀ k, 1024 ≤ k → k < 2048 → k % 64 < 32 → o k = p k)) ∧
    (∃ p o, av1_fht64x32_c_passes fdct64_row input output stride t = some p ∧
      av1_fht64x32_c fdct64_row input output stride t = some o ∧
      (∀ k, 1024 ≤ k → k < 2048 → 32 ≤ k % 64 → o k = 0) ∧
      (∀ k, 1024 ≤ k → k < 2048 → k % 64 < 32 → o k = p k)) ∧
    (∃ p o, av1_fht64x16_c_passes fdct64_row input output stride t = some p ∧
      av1_fht64x16_c fdct64_row input output stride t = some o ∧
      (∀ k, 512 ≤ k → k < 1024 → 32 ≤ k % 64 → o k = 0) ∧
      (∀ k, 512 ≤ k → k < 1024 → k % 64 < 32 → o k = p k)) := by
  refine ⟨?_, ?_, ?_⟩
  · obtain ⟨p, hp⟩ := av1_fht64x64_c_passes_some fdct64_col fdct64_row input output stride t ht
    refine ⟨p, _, hp, by rw [av1_fht64x64_c, hp]; rfl, fun k h1 h2 h3 => ?_,
      fun k h1 h2 h3 => ?_⟩
    · rw [av1_fht64x64_c_post_apply, if_neg (by omega), if_pos (by omega)]
    · rw [av1_fht64x64_c_post_apply, if_neg (by omega), if_neg (by omega)]
  · obtain ⟨p, hp⟩ := av1_fht64x32_c_passes_some fdct64_row input output stride t ht
    refine ⟨p, _, hp, by rw [av1_fht64x32_c, hp]; rfl, fun k h1 h2 h3 => ?_,
      fun k h1 h2 h3 => ?_⟩
    · rw [av1_fht64x32_c_post_apply, if_neg (by omega), if_pos (by omega)]
    · rw [av1_fht64x32_c_post_apply, if_neg (by omega), if_neg (by omega)]
  · obtain ⟨p, hp⟩ := av1_fht64x16_c_passes_some fdct64_row input output stride t ht
    refine ⟨p, _, hp, by rw [av1_fht64x16_c, hp]; rfl, fun k h1 h2 h3 => ?_,
      fun k h1 h2 h3 => ?_⟩
    · rw [av1_fht64x16_c_post_apply, if_neg (by omega), if_pos (by omega)]
    · rw [av1_fht64x16_c_post_apply, if_neg (by omega), if_neg (by omega)]

/-- C9 as amended, at the all-ones block read with stride 64, transform type
`IDTX`, with `fidtx64` standing in for the absent kernels. -/
theorem C9_tail_zero_right_half_witness :
    ∃ p o, av1_fht64x64_c_passes fidtx64 fidtx64 onesBuf zeroBuf 64 IDTX = some p ∧
      av1_fht64x64_c fidtx64 fidtx64 onesBuf zeroBuf 64 IDTX = some o ∧
      (∀ k, 1024 ≤ k → k < 4096 → (2048 ≤ k ∨ 32 ≤ k % 64) → o k = 0) ∧
      (∀ k, 1024 ≤ k → k < 2048 → k % 64 < 32 → o k = p k) :=
  (C9_tail_zero_right_half fidtx64 fidtx64 onesBuf zeroBuf 64 IDTX (by decide)).1

/-- C10. The tall 64-row transforms need no repacking. For each of the
sixteen transform types, every input and every choice of the absent 64-point
kernels: after `av1_fht32x64_c` every entry at index 1024..2047 is zero and
the entries 0..1023 are the results of the column pass for rows 0..31; after
`av1_fht16x64_c` every entry at index 512..1023 is zero and the entries
0..511 are the results of the column pass for rows 0..31. -/
theorem C10_tall_transforms_zero_bottom (fdct64_col fdct64_row : transform_1d)
    (input output : Buf) (stride t : Nat) (ht : t < 16) :
    (∃ p o, av1_fht32x64_c_passes fdct64_row input output stride t = some p ∧
      av1_fht32x64_c fdct64_row input output stride t = some o ∧
      (∀ k, 1024 ≤ k → k < 2048 → o k = 0) ∧ (∀ k, k < 1024 → o k = p k)) ∧
    (∃ p o, av1_fht16x64_c_passes fdct64_col input output stride t = some p ∧
      av1_fht16x64_c fdct64_col input output stride t = some o ∧
      (∀ k, 512 ≤ k → k < 1024 → o k = 0) ∧ (∀ k, k < 512 → o k = p k)) := by
  refine ⟨?_, ?_⟩
  · obtain ⟨p, hp⟩ := av1_fht32x64_c_passes_some fdct64_row input output stride t ht
    refine ⟨p, _, hp, by rw [av1_fht32x64_c, hp]; rfl, fun k h1 h2 => ?_, fun k h1 => ?_⟩
    · rw [av1_fht32x64_c_post_apply, if_pos (by omega)]
    · rw [av1_fht32x64_c_post_apply, if_neg (by omega)]
  · obtain ⟨p, hp⟩ := av1_fht16x64_c_passes_some fdct64_col input output stride t ht
    refine ⟨p, _, hp, by rw [av1_fht16x64_c, hp]; rfl, fun k h1 h2 => ?_, fun k h1 => ?_⟩
    · rw [av1_fht16x64_c_post_apply, if_pos (by omega)]
    · rw [av1_fht16x64_c_post_apply, if_neg (by omega)]

/-- C10, at the all-ones block read with stride 32, transform type `IDTX`,
with `fidtx64` standing in for the absent kernels. -/
theorem C10_tall_transforms_zero_bottom_witness :
    ∃ p o, av1_fht32x64_c_passes fidtx64 onesBuf zeroBuf 32 IDTX = some p ∧
      av1_fht32x64_c fidtx64 onesBuf zeroBuf 32 IDTX = some o ∧
      (∀ k, 1024 ≤ k → k < 2048 → o k = 0) ∧ (∀ k, k < 1024 → o k = p k) :=
  (C10_tall_transforms_zero_bottom fidtx64 fidtx64 onesBuf zeroBuf 32 IDTX (by decide)).1

/-- C11. The 4-point kernels are additive up to one rounding unit. For all
integer vectors `a` and `b` and every output index `k < 4`, the difference
`fdct4 (a + b) - fdct4 a - fdct4 b` at `k` is -1, 0 or 1, and so is the
difference `fadst4 (a + b) - fadst4 a - fadst4 b` at `k`. The kernels compute
on mathematical integers, so the statement covers every range of entries on
which the C code does not overflow. -/
theorem C11_four_point_kernels_additive (a b o1 o2 o3 : Buf) (k : Nat) (hk : k < 4) :
    (fdct4 (fun n => a n + b n) o1 k - fdct4 a o2 k - fdct4 b o3 k = -1 ∨
     fdct4 (fun n => a n + b n) o1 k - fdct4 a o2 k - fdct4 b o3 k = 0 ∨
     fdct4 (fun n => a n + b n) o1 k - fdct4 a o2 k - fdct4 b o3 k = 1) ∧
    (fadst4 (fun n => a n + b n) o1 k - fadst4 a o2 k - fadst4 b o3 k = -1 ∨
     fadst4 (fun n => a n + b n) o1 k - fadst4 a o2 k - fadst4 b o3 k = 0 ∨
     fadst4 (fun n => a n + b n) o1 k - fadst4 a o2 k - fadst4 b o3 k = 1) :=
  ⟨unit_cases _ (fdct4_additive a b o1 o2 o3 k hk),
    unit_cases _ (fadst4_additive a b o1 o2 o3 k hk)⟩

/-- C11, for the vectors `rampBuf` and `onesBuf` at output index 2 of
`fadst4`. -/
theorem C11_four_point_kernels_additive_witness :
    fadst4 (fun n => rampBuf n + onesBuf n) zeroBuf 2 - fadst4 rampBuf zeroBuf 2
        - fadst4 onesBuf zeroBuf 2 = -1 ∨
    fadst4 (fun n => rampBuf n + onesBuf n) zeroBuf 2 - fadst4 rampBuf zeroBuf 2
        - fadst4 onesBuf zeroBuf 2 = 0 ∨
    fadst4 (fun n => rampBuf n + onesBuf n) zeroBuf 2 - fadst4 rampBuf zeroBuf 2
        - fadst4 onesBuf zeroBuf 2 = 1 :=
  (C11_four_point_kernels_additive rampBuf onesBuf zeroBuf zeroBuf zeroBuf 2 (by decide)).2

/-- C12. For the identity transform type `IDTX` the pipeline gain is exact:
for every input block and every stride, `av1_fht8x32_c`, `av1_fht32x8_c` and
`av1_fht8x8_c` return 8 times each input sample at the same row-major
position, and `av1_fht32x32_c` returns 4 times each input sample. -/
theorem C12_idtx_gain_exact (x output : Buf) (stride : Nat) :
    (∃ o, av1_fht8x32_c x output stride IDTX = some o ∧
      ∀ r c, r < 32 → c < 8 → o (r * 8 + c) = 8 * x (r * stride + c)) ∧
    (∃ o, av1_fht32x8_c x output stride IDTX = some o ∧
      ∀ r c, r < 8 → c < 32 → o (r * 32 + c) = 8 * x (r * stride + c)) ∧
    (∀ aom_fdct8x8_c, ∃ o, av1_fht8x8_c aom_fdct8x8_c x output stride IDTX = some o ∧
      ∀ r c, r < 8 → c < 8 → o (r * 8 + c) = 8 * x (r * stride + c)) ∧
    (∃ o, av1_fht32x32_c x output stride IDTX = some o ∧
      ∀ r c, r < 32 → c < 32 → o (r * 32 + c) = 4 * x (r * stride + c)) :=
  ⟨av1_fht8x32_c_idtx x output stride, av1_fht32x8_c_idtx x output stride,
    fun _ => av1_fht8x8_c_table_idtx x output stride, av1_fht32x32_c_idtx x output stride⟩

/-- C12, for the 32x32 block of `rampBuf` read with stride 32. -/
theorem C12_idtx_gain_exact_witness :
    ∃ o, av1_fht32x32_c rampBuf zeroBuf 32 IDTX = some o ∧
      ∀ r c, r < 32 → c < 32 → o (r * 32 + c) = 4 * rampBuf (r * 32 + c) :=
  (C12_idtx_gain_exact rampBuf zeroBuf 32).2.2.2

/-- C13, refuted as stated. The output scaling of `av1_fht4x8_c` does not add
half the divisor before shifting: at `t = 1` it yields `(1 + 0) >> 1 = 0`,
not `(1 + 1) >> 1 = 1`. -/
theorem C13_downshift_not_round_half_up :
    ¬ ∀ t : Int, (0 ≤ t → out_downshift1 t = asr (t + 1) 1) ∧
      (t < 0 → out_downshift1 t = -asr (-t + 1) 1) := by
  intro h
  exact absurd ((h 1).1 (by decide)) (by decide)

/-- C13, as amended. The output scaling `(t + (t < 0)) >> 1` of `av1_fht4x8_c`,
`av1_fht8x4_c`, `av1_fht4x16_c`, `av1_fht16x4_c` and `av1_fht8x8_c` halves
toward zero: for every integer `t` it yields `t >> 1` when `t >= 0` and
`-((-t) >> 1)` when `t < 0`. Each of the five transforms is the two-pass
pipeline with this function as its output scaling. -/
theorem C13_downshift_truncates :
    (∀ t : Int, (0 ≤ t → out_downshift1 t = asr t 1) ∧
      (t < 0 → out_downshift1 t = -asr (-t) 1)) ∧
    av1_fht4x8_c = fht2d FHT_4x8 8 4 8 4
      (fun i _ => i) (fun _ j => j) transform_2d.rows transform_2d.cols
      (fun x => fdct_round_shift (x * 4 * Sqrt2)) adjNone
      (fun t => t) (fun i j => i + j * 4) out_downshift1 ∧
    av1_fht8x4_c = fht2d FHT_8x4 4 8 8 4
      (fun _ j => j) (fun i _ => i) transform_2d.cols transform_2d.rows
      (fun x => fdct_round_shift (x * 4 * Sqrt2)) adjNone
      (fun t => t) (fun i j => j + i * 8) out_downshift1 ∧
    av1_fht4x16_c = fht2d FHT_4x16 16 4 16 4
      (fun i _ => i) (fun _ j => j) transform_2d.rows transform_2d.cols
      (fun x => x * 4) adjNone
      (fun t => t) (fun i j => i + j * 4) out_downshift1 ∧
    av1_fht16x4_c = fht2d FHT_16x4 4 16 16 4
      (fun _ j => j) (fun i _ => i) transform_2d.cols transform_2d.rows
      (fun x => x * 4) adjNone
      (fun t => t) (fun i j => j + i * 16) out_downshift1 ∧
    av1_fht8x8_c_table = fht2d FHT_8x8 8 8 8 8
      (fun _ j => j) (fun i _ => i) transform_2d.cols transform_2d.rows
      (fun x => x * 4) adjNone
      (fun t => t) (fun i j => j + i * 8) out_downshift1 :=
  ⟨fun t => ⟨out_downshift1_nonneg t, out_downshift1_neg t⟩, rfl, rfl, rfl, rfl, rfl⟩

/-- C13 as amended, at `t = -3`: the scaling yields `-((3) >> 1) = -1`. -/
theorem C13_downshift_truncates_witness :
    out_downshift1 (-3) = -asr (- -3) 1 :=
  (C13_downshift_truncates.1 (-3)).2 (by decide)

/-- C14, refuted as stated. For the block whose only nonzero sample is a 1 in
row 0, column 1, read with stride 4, the coefficient of `av1_fwht4x4_c` at
index 2 is -4, while the rows-first reading of the transform gives 0 there. -/
theorem C14_fwht4x4_not_rows_first :
    ¬ ∀ k, k < 16 → av1_fwht4x4_c (store zeroBuf 1 1) zeroBuf 4 k
      = fwht4x4_rows_then_cols (store zeroBuf 1 1) 4 k := by
  intro h
  have e1 : av1_fwht4x4_c (store zeroBuf 1 1) zeroBuf 4 2 = -4 := rfl
  have e2 : fwht4x4_rows_then_cols (store zeroBuf 1 1) 4 2 = 0 := rfl
  have e := h 2 (by decide)
  rw [e1, e2] at e
  exact absurd e (by decide)

/-- C14, as amended. `av1_fwht4x4_c` performs its two passes columns first and
then rows: for every 4x4 block and every stride, the coefficient at index `k`
is `UNIT_QUANT_FACTOR = 4` times component `k % 4` of the lifting step applied
to row `k / 4` of the intermediate block, whose column `c` is the lifting step
applied to column `c` of the input. -/
theorem C14_fwht4x4_columns_then_rows (input output : Buf) (stride k : Nat) (hk : k < 16) :
    UNIT_QUANT_FACTOR = 4 ∧
    av1_fwht4x4_c input output stride k
      = quad (whtRow input stride (k / 4)) (k % 4) * UNIT_QUANT_FACTOR ∧
    (∀ r, whtRow input stride r
      = wht4 (quad (whtCol input stride 0) r) (quad (whtCol input stride 1) r)
          (quad (whtCol input stride 2) r) (quad (whtCol input stride 3) r)) ∧
    (∀ c, whtCol input stride c
      = wht4 (input (c + 0 * stride)) (input (c + 1 * stride)) (input (c + 2 * stride))
          (input (c + 3 * stride))) :=
  ⟨rfl, fwht_formula input output stride k hk, fun _ => rfl, fun _ => rfl⟩

/-- C14 as amended, for the block of `rampBuf` read with stride 4, at
coefficient 6. -/
theorem C14_fwht4x4_columns_then_rows_witness :
    av1_fwht4x4_c rampBuf zeroBuf 4 6
      = quad (whtRow rampBuf 4 (6 / 4)) (6 % 4) * UNIT_QUANT_FACTOR :=
  (C14_fwht4x4_columns_then_rows rampBuf zeroBuf 4 6 (by decide)).2.1

/-- C15. A transform type outside the sixteen enumerated types is rejected and
each of the sixteen is accepted: `maybe_flip_input` fails exactly when
`tx_type` is not in `txTypes`, and so does each of the 14 table-driven
transforms of `tableDriven` and each of the five transforms with a 64-point
dimension, whatever the absent 64-point kernels are. -/
theorem C15_unknown_type_rejected (t : Nat) :
    (∀ (src : Buf) (src_stride l w : Nat) (buff : Buf),
      maybe_flip_input src src_stride l w buff t = none ↔ t ∉ txTypes) ∧
    (∀ e ∈ tableDriven, ∀ (x o : Buf) (stride : Nat),
      e.2.2 x o stride t = none ↔ t ∉ txTypes) ∧
    (∀ (fdct64_col fdct64_row : transform_1d) (x o : Buf) (stride : Nat),
      (av1_fht64x64_c fdct64_col fdct64_row x o stride t = none ↔ t ∉ txTypes) ∧
      (av1_fht64x32_c fdct64_row x o stride t = none ↔ t ∉ txTypes) ∧
      (av1_fht32x64_c fdct64_row x o stride t = none ↔ t ∉ txTypes) ∧
      (av1_fht16x64_c fdct64_col x o stride t = none ↔ t ∉ txTypes) ∧
      (av1_fht64x16_c fdct64_row x o stride t = none ↔ t ∉ txTypes)) := by
  refine ⟨fun src s l w buff => maybe_flip_input_none_iff src s l w buff t, ?_, ?_⟩
  · intro e he x o stride
    simp only [tableDriven, List.mem_cons, List.mem_singleton, List.not_mem_nil, or_false] at he
    rcases he with rfl | rfl | rfl | rfl | rfl | rfl | rfl | rfl | rfl | rfl | rfl | rfl | rfl | rfl
    · exact av1_fht4x4_c_table_none_iff x o stride t
    · exact av1_fht4x8_c_none_iff x o stride t
    · exact av1_fht8x4_c_none_iff x o stride t
    · exact av1_fht4x16_c_none_iff x o stride t
    · exact av1_fht16x4_c_none_iff x o stride t
    · exact av1_fht8x8_c_table_none_iff x o stride t
    · exact av1_fht8x16_c_none_iff x o stride t
    · exact av1_fht16x8_c_none_iff x o stride t
    · exact av1_fht8x32_c_none_iff x o stride t
    · exact av1_fht32x8_c_none_iff x o stride t
    · exact av1_fht16x16_c_none_iff x o stride t
    · exact av1_fht16x32_c_none_iff x o stride t
    · exact av1_fht32x16_c_none_iff x o stride t
    · exact av1_fht32x32_c_none_iff x o stride t
  · intro c r x o stride
    refine ⟨?_, ?_, ?_, ?_, ?_⟩
    · rw [av1_fht64x64_c, Option.map_eq_none']
      exact av1_fht64x64_c_passes_none_iff c r x o stride t
    · rw [av1_fht64x32_c, Option.map_eq_none']
      exact av1_fht64x32_c_passes_none_iff r x o stride t
    · rw [av1_fht32x64_c, Option.map_eq_none']
      exact av1_fht32x64_c_passes_none_iff r x o stride t
    · rw [av1_fht16x64_c, Option.map_eq_none']
      exact av1_fht16x64_c_passes_none_iff c x o stride t
    · rw [av1_fht64x16_c, Option.map_eq_none']
      exact av1_fht64x16_c_passes_none_iff r x o stride t

/-- C15, for `av1_fht8x16_c` on the block of `rampBuf` with the value 16,
which is not a transform type. -/
theorem C15_unknown_type_rejected_witness :
    av1_fht8x16_c rampBuf zeroBuf 8 16 = none ↔ 16 ∉ txTypes :=
  (C15_unknown_type_rejected 16).2.1 (8, 16, av1_fht8x16_c) (by simp [tableDriven]) rampBuf
    zeroBuf 8

/-- C16. No value overflows in the 4x4 pipeline. For every 4x4 block of
`int16_t` samples, every stride and each of the sixteen transform types, the
table-driven block of `av1_fht4x4_c` run with its integer types
(`av1_fht4x4_c_table_chk`, which fails as soon as a value stored in or cast to
a `tran_low_t` leaves the 32-bit range or a `tran_high_t` value leaves the
64-bit range) returns a result, and this result is the one computed on
mathematical integers. A value that passes the 32-bit check is unchanged by
32-bit wraparound. -/
theorem C16_fht4x4_no_overflow (input output : Buf) (stride t : Nat) (ht : t < 16)
    (hin : ∀ r c, r < 4 → c < 4 → int16_t (input (r * stride + c))) :
    (∃ o, av1_fht4x4_c_table_chk input output stride t = some o ∧
      av1_fht4x4_c_table input output stride t = some o) ∧
    (∀ x v : Int, tran_low_t x = some v → wrap32 x = v) := by
  constructor
  · obtain ⟨o, ho⟩ := av1_fht4x4_c_table_some input output stride t ht
    exact ⟨o, by rw [fht4x4_chk_ok input output stride t ht hin, ho], ho⟩
  · intro x v h
    unfold tran_low_t at h
    split at h
    · rename_i hx
      have e : x = v := Option.some.inj h
      subst e
      unfold wrap32
      norm_num at hx ⊢
      omega
    · exact Option.noConfusion h

/-- C16, for the block of `rampBuf` read with stride 4 and the transform type
`ADST_DCT`. -/
theorem C16_fht4x4_no_overflow_witness :
    ∃ o, av1_fht4x4_c_table_chk rampBuf zeroBuf 4 ADST_DCT = some o ∧
      av1_fht4x4_c_table rampBuf zeroBuf 4 ADST_DCT = some o :=
  (C16_fht4x4_no_overflow rampBuf zeroBuf 4 ADST_DCT (by decide) (fun r c hr hc => by
    unfold int16_t rampBuf
    norm_num
    constructor <;> omega)).1

/-- C17. `fdct8` is additive up to one rounding unit per rounding stage. For
all integer vectors `a` and `b` and every output index `k < 8`, the difference
`fdct8 (a + b) - fdct8 a - fdct8 b` at `k` has absolute value at most 1 when
`k` is even (one rounding stage on its path) and at most 2 when `k` is odd
(two rounding stages). The kernel computes on mathematical integers, so the
statement covers every range of entries on which the C code does not
overflow. -/
theorem C17_fdct8_additive (a b o1 o2 o3 : Buf) (k : Nat) (hk : k < 8) :
    (k % 2 = 0 → |fdct8 (fun n => a n + b n) o1 k - fdct8 a o2 k - fdct8 b o3 k| ≤ 1) ∧
    (k % 2 = 1 → |fdct8 (fun n => a n + b n) o1 k - fdct8 a o2 k - fdct8 b o3 k| ≤ 2) := by
  interval_cases k
  · exact ⟨fun _ => abs_le.mpr (fdct8_additive_0 a b o1 o2 o3), fun h => absurd h (by decide)⟩
  · exact ⟨fun h => absurd h (by decide), fun _ => abs_le.mpr (fdct8_additive_1 a b o1 o2 o3)⟩
  · exact ⟨fun _ => abs_le.mpr (fdct8_additive_2 a b o1 o2 o3), fun h => absurd h (by decide)⟩
  · exact ⟨fun h => absurd h (by decide), fun _ => abs_le.mpr (fdct8_additive_3 a b o1 o2 o3)⟩
  · exact ⟨fun _ => abs_le.mpr (fdct8_additive_4 a b o1 o2 o3), fun h => absurd h (by decide)⟩
  · exact ⟨fun h => absurd h (by decide), fun _ => abs_le.mpr (fdct8_additive_5 a b o1 o2 o3)⟩
  · exact ⟨fun _ => abs_le.mpr (fdct8_additive_6 a b o1 o2 o3), fun h => absurd h (by decide)⟩
  · exact ⟨fun h => absurd h (by decide), fun _ => abs_le.mpr (fdct8_additive_7 a b o1 o2 o3)⟩

/-- C17, for the vectors `rampBuf` and `onesBuf` at the odd output index 5. -/
theorem C17_fdct8_additive_witness :
    |fdct8 (fun n => rampBuf n + onesBuf n) zeroBuf 5 - fdct8 rampBuf zeroBuf 5
      - fdct8 onesBuf zeroBuf 5| ≤ 2 :=
  (C17_fdct8_additive rampBuf onesBuf zeroBuf zeroBuf zeroBuf 5 (by decide)).2 (by decide)

/-- C18, refuted as stated. The half-right kernels store their scaled values
through the cast `(tran_low_t)`, which wraps to 32 bits: for the input with
`x[0] = 400000000` and zeros elsewhere `fdct_round_shift (x[0] * 4 * Sqrt2)` is
2262695313, above the 32-bit range, and `fhalfright64` stores -2032271983 at
index 32. -/
theorem C18_halfright64_wraps :
    fdct_round_shift (400000000 * 4 * Sqrt2) = 2262695313 ∧
    fhalfright64 (store zeroBuf 0 400000000) zeroBuf 32 = -2032271983 ∧
    ¬ ∀ (x o : Buf) (i : Nat), i < 32 →
      fhalfright64 x o (32 + i) = fdct_round_shift (x i * 4 * Sqrt2) := by
  have v : fhalfright64 (store zeroBuf 0 400000000) zeroBuf (32 + 0) = -2032271983 := by
    rw [fhalfright64_high _ _ 0 (by decide)]
    decide
  refine ⟨by decide, v, fun h => ?_⟩
  have e := h (store zeroBuf 0 400000000) zeroBuf 0 (by decide)
  rw [v] at e
  exact absurd e (by decide)

/-- C18, as amended. The half-right kernels are built from the identity scale
and the half-size DCT, with every value that passes the cast `(tran_low_t)`
wrapped to 32 bits. For every input `x` and `i < 16`, `fhalfright32 x` at
`16 + i` is `4 * x i`, the value of `fidtx32 x` at `i`, and `fhalfright32 x` at
`i` is the value at `i` of `fdct16 y` with `y m` the 32-bit wrap of
`fdct_round_shift (x (16 + m) * Sqrt2)`. For `i < 32`, `fhalfright64 x` at
`32 + i` is the 32-bit wrap of `fdct_round_shift (x i * 4 * Sqrt2)`, the value
of `fidtx64 x` at `i`, and `fhalfright64 x` at `i` is the value at `i` of
`fdct32 y` with `y m` the 32-bit wrap of `fdct_round_shift (x (32 + m) *
Sqrt2)`. Where the scaled values fit 32 bits the wrap does nothing and the
values are `fdct_round_shift (x i * 4 * Sqrt2)`, `fdct16 y` and `fdct32 y` with
`y m = fdct_round_shift (x (16 + m) * Sqrt2)` and
`y m = fdct_round_shift (x (32 + m) * Sqrt2)`. The old contents `o`, `o2` of
the output buffers play no part. -/
theorem C18_halfright_kernels (x o o2 : Buf) (i : Nat) :
    (i < 16 → fhalfright32 x o (16 + i) = 4 * x i ∧
      fhalfright32 x o (16 + i) = fidtx32 x o2 i) ∧
    (i < 16 → fhalfright32 x o i
      = fdct16 (fun m => wrap32 (fdct_round_shift (x (16 + m) * Sqrt2))) o2 i) ∧
    (i < 32 → fhalfright64 x o (32 + i) = wrap32 (fdct_round_shift (x i * 4 * Sqrt2)) ∧
      fhalfright64 x o (32 + i) = fidtx64 x o2 i) ∧
    (i < 32 → fhalfright64 x o i
      = fdct32 (fun m => wrap32 (fdct_round_shift (x (32 + m) * Sqrt2))) o2 i) ∧
    (i < 16 → (∀ m, m < 16 → int32_t (fdct_round_shift (x (16 + m) * Sqrt2))) →
      fhalfright32 x o i = fdct16 (fun m => fdct_round_shift (x (16 + m) * Sqrt2)) o2 i) ∧
    (i < 32 → int32_t (fdct_round_shift (x i * 4 * Sqrt2)) →
      fhalfright64 x o (32 + i) = fdct_round_shift (x i * 4 * Sqrt2)) ∧
    (i < 32 → (∀ m, m < 32 → int32_t (fdct_round_shift (x (32 + m) * Sqrt2))) →
      fhalfright64 x o i = fdct32 (fun m => fdct_round_shift (x (32 + m) * Sqrt2)) o2 i) := by
  refine ⟨fun hi => ⟨?_, ?_⟩, fhalfright32_low x o o2 i, fun hi => ⟨?_, ?_⟩,
    fhalfright64_low x o o2 i, fun hi hr => ?_, fun hi hr => ?_, fun hi hr => ?_⟩
  · rw [fhalfright32_high x o i hi, Int.mul_comm]
  · rw [fhalfright32_high x o i hi, fidtx32_apply, if_pos (by omega)]
  · exact fhalfright64_high x o i hi
  · rw [fhalfright64_high x o i hi, fidtx64_apply, if_pos (by omega)]
  · rw [fhalfright32_low x o o2 i hi]
    exact congrFun (fdct16_congr _ _ o2 (fun m hm => wrap32_of_int32 _ (hr m hm))) i
  · rw [fhalfright64_high x o i hi, wrap32_of_int32 _ hr]
  · rw [fhalfright64_low x o o2 i hi]
    exact congrFun (fdct32_congr _ _ o2 (fun m hm => wrap32_of_int32 _ (hr m hm))) i

/-- C18 as amended, for the vector `rampBuf` at index 3 of the upper half of
`fhalfright64`, where the scaled value 17 fits 32 bits. -/
theorem C18_halfright_kernels_witness :
    fhalfright64 rampBuf zeroBuf (32 + 3) = fdct_round_shift (rampBuf 3 * 4 * Sqrt2) :=
  (C18_halfright_kernels rampBuf zeroBuf onesBuf 3).2.2.2.2.2.1 (by decide) (by decide)

/-- C19, refuted as stated. `fidtx4` stores its scaled value through the cast
`(tran_low_t)`, which wraps to 32 bits: for the sample 2147483647
`fdct_round_shift (2147483647 * Sqrt2)` is 3036938239, above the 32-bit range,
and `fidtx4` stores -1258029057. -/
theorem C19_fidtx4_wraps :
    fdct_round_shift (2147483647 * Sqrt2) = 3036938239 ∧
    fidtx4 (fun _ => 2147483647) zeroBuf 0 = -1258029057 ∧
    ¬ ∀ (x o : Buf) (i : Nat), i < 4 → fidtx4 x o i = fdct_round_shift (x i * Sqrt2) := by
  refine ⟨by decide, by decide, fun h => ?_⟩
  exact absurd (h (fun _ => 2147483647) zeroBuf 0 (by decide)) (by decide)

/-- C19, as amended. Each identity kernel scales every sample independently
by one fixed constant: at every index `i` below its length, `fidtx8 x` is
`2 * x i`, `fidtx32 x` is `4 * x i`, `fidtx4 x` is the 32-bit wrap of
`fdct_round_shift (x i * Sqrt2)` and `fidtx16 x` the 32-bit wrap of
`fdct_round_shift (x i * 2 * Sqrt2)`, hence these values themselves where they
fit 32 bits; two inputs that agree at `i` give the same output at `i`,
whatever their other samples and the old contents of the output buffers
are. -/
theorem C19_identity_kernels_scale (x x2 o o2 : Buf) (i : Nat) :
    (i < 8 → fidtx8 x o i = 2 * x i) ∧
    (i < 32 → fidtx32 x o i = 4 * x i) ∧
    (i < 4 → fidtx4 x o i = wrap32 (fdct_round_shift (x i * Sqrt2))) ∧
    (i < 16 → fidtx16 x o i = wrap32 (fdct_round_shift (x i * 2 * Sqrt2))) ∧
    (i < 4 → int32_t (fdct_round_shift (x i * Sqrt2)) →
      fidtx4 x o i = fdct_round_shift (x i * Sqrt2)) ∧
    (i < 16 → int32_t (fdct_round_shift (x i * 2 * Sqrt2)) →
      fidtx16 x o i = fdct_round_shift (x i * 2 * Sqrt2)) ∧
    (x i = x2 i →
      (i < 8 → fidtx8 x o i = fidtx8 x2 o2 i) ∧
      (i < 32 → fidtx32 x o i = fidtx32 x2 o2 i) ∧
      (i < 4 → fidtx4 x o i = fidtx4 x2 o2 i) ∧
      (i < 16 → fidtx16 x o i = fidtx16 x2 o2 i)) := by
  refine ⟨fun h => ?_, fun h => ?_, fun h => ?_, fun h => ?_, fun h hr => ?_, fun h hr => ?_,
    fun e => ⟨fun h => ?_, fun h => ?_, fun h => ?_, fun h => ?_⟩⟩
  · rw [fidtx8_apply, if_pos h, Int.mul_comm]
  · rw [fidtx32_apply, if_pos h, Int.mul_comm]
  · rw [fidtx4_apply, if_pos h]
  · rw [fidtx16_apply, if_pos h]
  · rw [fidtx4_apply, if_pos h, wrap32_of_int32 _ hr]
  · rw [fidtx16_apply, if_pos h, wrap32_of_int32 _ hr]
  · rw [fidtx8_apply, fidtx8_apply, if_pos h, if_pos h, e]
  · rw [fidtx32_apply, fidtx32_apply, if_pos h, if_pos h, e]
  · rw [fidtx4_apply, fidtx4_apply, if_pos h, if_pos h, e]
  · rw [fidtx16_apply, fidtx16_apply, if_pos h, if_pos h, e]

/-- C19 as amended, for the vector `rampBuf` at index 3 of `fidtx4`, where the
scaled value 4 fits 32 bits. -/
theorem C19_identity_kernels_scale_witness :
    fidtx4 rampBuf zeroBuf 3 = fdct_round_shift (rampBuf 3 * Sqrt2) :=
  (C19_identity_kernels_scale rampBuf rampBuf zeroBuf zeroBuf 3).2.2.2.2.1 (by decide)
    (by decide)

/-- C20. The mid-pass scaling `(t + 1 + (t > 0)) >> 2` of the column loop of
`av1_fht64x64_c` is the sign-aware rounding shift by 2: for every integer `t`
it equals `ROUND_POWER_OF_TWO_SIGNED t 2`, that is `(t + 2) >> 2` when
`t >= 0` and `-((-t + 2) >> 2)` when `t < 0`. The two passes of
`av1_fht64x64_c` are the two-pass pipeline with this function as the scaling
between the passes, whatever the absent 64-point kernels are. -/
theorem C20_fht64x64_mid_scaling :
    (∀ t : Int, mid_scale_64x64 t = ROUND_POWER_OF_TWO_SIGNED t 2 ∧
      (0 ≤ t → mid_scale_64x64 t = asr (t + 2) 2) ∧
      (t < 0 → mid_scale_64x64 t = -asr (-t + 2) 2)) ∧
    ∀ fdct64_col fdct64_row : transform_1d,
      av1_fht64x64_c_passes fdct64_col fdct64_row =
        fht2d (FHT_64x64 fdct64_col fdct64_row) 64 64 64 64
          (fun _ j => j) (fun i _ => i) transform_2d.cols transform_2d.rows
          (fun x => x) adjNone mid_scale_64x64 (fun i j => j + i * 64)
          (fun t => asr (t + 1 + b2i (t < 0)) 2) := by
  refine ⟨fun t => ⟨mid_scale_64x64_eq t, fun h => ?_, fun h => ?_⟩, fun _ _ => rfl⟩
  · unfold mid_scale_64x64 b2i
    simp only [asr_eq_div]
    split_ifs <;> omega
  · unfold mid_scale_64x64 b2i
    simp only [asr_eq_div]
    split_ifs <;> omega

/-- C20, at `t = -6`: the scaling yields `-((6 + 2) >> 2) = -2`. -/
theorem C20_fht64x64_mid_scaling_witness :
    mid_scale_64x64 (-6) = -asr (- -6 + 2) 2 :=
  (C20_fht64x64_mid_scaling.1 (-6)).2.2 (by decide)
/-! ## Claims C21 to C30 -/

/-- C21. The bit budget written in `fdct4` holds. In the run of `fdct4` stage
by stage (`fdct4_range_checks`, whose last array is the result of `fdct4`) the
four calls of `range_check` are made with 14, 15, 16 and 16 bits on 4 elements.
If the input passes the first call, `|input i| < 2 ^ 14` for `i < 4`, then
every call passes: the stage-1 values are below `2 ^ 15` in absolute value, the
stage-2 and stage-3 values below `2 ^ 16`. -/
theorem C21_fdct4_bit_budget (input output : Buf) (h : range_check input 4 14) :
    (fdct4_range_checks input output).map (fun c => (c.2.1, c.2.2))
      = [(4, 14), (4, 15), (4, 16), (4, 16)] ∧
    (fdct4_range_checks input output).getLast? = some (fdct4 input output, 4, 16) ∧
    ∀ c ∈ fdct4_range_checks input output, range_check c.1 c.2.1 c.2.2 :=
  ⟨rfl, fdct4_staged_eq input output, fdct4_range_checks_pass input output h⟩

/-- C21, for the largest input of the budget, the constant vector 16383: the
result of `fdct4` passes the last check. -/
theorem C21_fdct4_bit_budget_witness :
    range_check (fdct4 (fun _ => 16383) zeroBuf) 4 16 :=
  (C21_fdct4_bit_budget (fun _ => 16383) zeroBuf (fun i _ => by
    simp only [abs_lt]
    constructor <;> norm_num)).2.2 (fdct4 (fun _ => 16383) zeroBuf, 4, 16)
    (List.mem_of_mem_getLast? (C21_fdct4_bit_budget (fun _ => 16383) zeroBuf (fun i _ => by
      simp only [abs_lt]
      constructor <;> norm_num)).2.1)

/-- C22, refuted as stated. The constant input 8191 passes the stage-0 check
of `fdct16` (13 bits); the first element of the arrays checked after stages 4,
5, 6 and 7 is 92669, which is not below `2 ^ 16`, so the calls of
`range_check` written with 16 bits after those stages do not all pass. -/
theorem C22_fdct16_budget_exceeded :
    range_check (fun _ => 8191) 16 13 ∧
    (fdct16_range_checks (fun _ => 8191) zeroBuf).map (fun c => (c.1 0, c.2.2))
      = [(8191, 13), (16382, 14), (32764, 15), (65528, 16), (92669, 16), (92669, 16),
        (92669, 16), (92669, 16)] ∧
    ¬ ∀ c ∈ fdct16_range_checks (fun _ => 8191) zeroBuf, range_check c.1 c.2.1 c.2.2 := by
  refine ⟨fun i _ => ?_, fdct16_checks_at_max, fun h => ?_⟩
  · simp only [abs_lt]
    constructor <;> norm_num
  · unfold fdct16_range_checks at h
    simp only [List.forall_mem_cons] at h
    obtain ⟨-, -, -, -, h4, -⟩ := h
    have h40 := (abs_lt.mp (h4 0 (by norm_num))).2
    exact absurd h40 (by decide)

/-- C22, as amended. In the run of `fdct16` stage by stage
(`fdct16_range_checks`, whose last array is the result of `fdct16`) the eight
calls of `range_check` are made with 13, 14, 15, 16, 16, 16, 16 and 16 bits on
16 elements. If the input passes the first call, `|input i| < 2 ^ 13` for
`i < 16`, then the calls after stages 1, 2 and 3 pass with the bits written,
and the values checked after stages 4 to 7 are below `2 ^ 17` in absolute
value. -/
theorem C22_fdct16_bit_budget_amended (input output : Buf) (h : range_check input 16 13) :
    (fdct16_range_checks input output).map (fun c => (c.2.1, c.2.2))
      = [(16, 13), (16, 14), (16, 15), (16, 16), (16, 16), (16, 16), (16, 16), (16, 16)] ∧
    (fdct16_range_checks input output).getLast? = some (fdct16 input output, 16, 16) ∧
    ∀ i c, (fdct16_range_checks input output)[i]? = some c →
      range_check c.1 c.2.1 (if i < 4 then c.2.2 else 17) :=
  ⟨rfl, fdct16_staged_eq input output, fdct16_range_checks_bound input output h⟩

/-- C22 as amended, for the largest input of the budget, the constant vector
8191: the result of `fdct16` stays below `2 ^ 17`. -/
theorem C22_fdct16_bit_budget_amended_witness :
    range_check (fdct16 (fun _ => 8191) zeroBuf) 16 17 :=
  (C22_fdct16_bit_budget_amended (fun _ => 8191) zeroBuf (fun i _ => by
    simp only [abs_lt]
    constructor <;> norm_num)).2.2 7 (fdct16 (fun _ => 8191) zeroBuf, 16, 16)
    ((List.getLast?_eq_getElem? _).symm.trans
      (C22_fdct16_bit_budget_amended (fun _ => 8191) zeroBuf (fun i _ => by
        simp only [abs_lt]
        constructor <;> norm_num)).2.1)

/-- C23. The fast path of `fadst4` is a pure shortcut. On every input `fadst4`
equals `fadst4_general`, the same kernel without the early return; `fadst4`
takes the fast path (stores four zeros) when the bitwise or of its four inputs
is zero and runs the general computation otherwise; the bitwise or is zero
exactly when the four inputs are zero; and the general computation yields
zero at each of the four outputs for the zero vector. -/
theorem C23_fadst4_fast_path_shortcut (input output : Buf) :
    fadst4 input output = fadst4_general input output ∧
    fadst4 input output =
      (if Int.lor (Int.lor (Int.lor (input 0) (input 1)) (input 2)) (input 3) = 0 then
        store (store (store (store output 3 0) 2 0) 1 0) 0 0
      else fadst4_general input output) ∧
    (Int.lor (Int.lor (Int.lor (input 0) (input 1)) (input 2)) (input 3) = 0 ↔
      input 0 = 0 ∧ input 1 = 0 ∧ input 2 = 0 ∧ input 3 = 0) ∧
    (∀ k, k < 4 → fadst4_general zeroBuf output k = 0) := by
  refine ⟨fadst4_eq_general input output, rfl, fadst4_fast_iff input, fun k hk => ?_⟩
  rw [fadst4_general_zero zeroBuf output rfl rfl rfl rfl]
  interval_cases k <;> rfl

/-- C23, for the vectors `zeroBuf` and `rampBuf`. -/
theorem C23_fadst4_fast_path_shortcut_witness :
    fadst4 zeroBuf rampBuf = fadst4_general zeroBuf rampBuf ∧
    fadst4 rampBuf zeroBuf = fadst4_general rampBuf zeroBuf :=
  ⟨(C23_fadst4_fast_path_shortcut zeroBuf rampBuf).1,
    (C23_fadst4_fast_path_shortcut rampBuf zeroBuf).1⟩

/-- C24, refuted as stated. With a destination stride below the width the
rows of the destination overlap and the copying flips do not mirror: for the
2x2 block of `rampBuf` read with stride 2 and written with stride 1,
`copy_fliplr` leaves `src[2] = 2` at `dest[0]`, not `src[1] = 1`, and
`copy_flipud` leaves `src[3] = 3` at `dest[1]`, not `src[0] = 0`. -/
theorem C24_overlapping_rows_not_mirrored :
    copy_fliplr rampBuf 2 2 2 zeroBuf 1 (0 * 1 + 0) = 2 ∧
    rampBuf (0 * 2 + (2 - 1 - 0)) = 1 ∧
    copy_flipud rampBuf 2 2 2 zeroBuf 1 (1 * 1 + 0) = 3 ∧
    rampBuf ((2 - 1 - 1) * 2 + 0) = 0 ∧
    (¬ ∀ (src : Buf) (src_stride l w : Nat) (dest : Buf) (dest_stride i j : Nat),
      w ≤ src_stride → i < l → j < w →
        copy_fliplr src src_stride l w dest dest_stride (i * dest_stride + j)
          = src (i * src_stride + (w - 1 - j))) ∧
    (¬ ∀ (src : Buf) (src_stride l w : Nat) (dest : Buf) (dest_stride i j : Nat),
      w ≤ src_stride → i < l → j < w →
        copy_flipud src src_stride l w dest dest_stride (i * dest_stride + j)
          = src ((l - 1 - i) * src_stride + j)) := by
  refine ⟨by decide, by decide, by decide, by decide, fun h => ?_, fun h => ?_⟩
  · exact absurd (h rampBuf 2 2 2 zeroBuf 1 0 0 (by decide) (by decide) (by decide))
      (by decide)
  · exact absurd (h rampBuf 2 2 2 zeroBuf 1 1 0 (by decide) (by decide) (by decide))
      (by decide)

/-- C24, as amended. The copying flips mirror exactly when the rows of the
destination do not overlap. For every height `l`, width `w`, source stride,
source block and destination stride at least `w`, after `copy_fliplr` the
destination sample `(i, j)` is the source sample `(i, w - 1 - j)` and after
`copy_flipud` it is the source sample `(l - 1 - i, j)`, for all `i < l` and
`j < w`; `l` and `w` may be odd. No bound on the source stride is needed, so
a source stride of at least `w` is covered. -/
theorem C24_copy_flips_mirror (src : Buf) (src_stride l w : Nat) (dest : Buf)
    (dest_stride : Nat) (hs : w ≤ dest_stride) (i j : Nat) (hi : i < l) (hj : j < w) :
    copy_fliplr src src_stride l w dest dest_stride (i * dest_stride + j)
      = src (i * src_stride + (w - 1 - j)) ∧
    copy_flipud src src_stride l w dest dest_stride (i * dest_stride + j)
      = src ((l - 1 - i) * src_stride + j) :=
  ⟨copy_fliplr_read src src_stride l w dest dest_stride hs i j hi hj,
    copy_flipud_read src src_stride l w dest dest_stride hs i j hi hj⟩

/-- C24 as amended, for the 3 high, 5 wide block of `rampBuf` read with stride
7 and written with stride 6, at the middle sample `(1, 2)`. -/
theorem C24_copy_flips_mirror_witness :
    copy_fliplr rampBuf 7 3 5 zeroBuf 6 (1 * 6 + 2) = rampBuf (1 * 7 + (5 - 1 - 2)) ∧
    copy_flipud rampBuf 7 3 5 zeroBuf 6 (1 * 6 + 2) = rampBuf ((3 - 1 - 1) * 7 + 2) :=
  C24_copy_flips_mirror rampBuf 7 3 5 zeroBuf 6 (by decide) 1 2 (by decide) (by decide)

/-- C25, refuted as stated. The column DCT kernel of side length 64 is not one
function of the 1-D type and the side length: the table of `av1_fht64x64_c`
has `fdct64_col` in the column place of `DCT_DCT` and the table of
`av1_fht32x64_c` has `fdct64_row` there, so when the two are different
functions (here `fidtx64` and `fidtx32` stand in for the absent kernels) no
choice of column kernels per 1-D type serves both tables. -/
theorem C25_dct64_column_kernel_not_uniform :
    (∀ fdct64_col fdct64_row : transform_1d,
      ((FHT_64x64 fdct64_col fdct64_row)[DCT_DCT]?).map transform_2d.cols = some fdct64_col ∧
      ((FHT_32x64 fdct64_row)[DCT_DCT]?).map transform_2d.cols = some fdct64_row) ∧
    ¬ ∀ fdct64_col fdct64_row : transform_1d, ∃ Kc Kr Kr2 : TX_TYPE_1D → transform_1d,
      Separable (FHT_64x64 fdct64_col fdct64_row) Kc Kr ∧
      Separable (FHT_32x64 fdct64_row) Kc Kr2 := by
  refine ⟨fun _ _ => ⟨rfl, rfl⟩, fun h => ?_⟩
  obtain ⟨Kc, Kr, Kr2, h1, h2⟩ := h fidtx64 fidtx32
  have e1 := h1 0 (by decide)
  have e2 := h2 0 (by decide)
  have c1 : fidtx64 = Kc (vtx 0) := congrArg transform_2d.cols (Option.some.inj e1)
  have c2 : fidtx32 = Kc (vtx 0) := congrArg transform_2d.cols (Option.some.inj e2)
  have e : fidtx64 onesBuf zeroBuf 0 = fidtx32 onesBuf zeroBuf 0 := by rw [c1, c2]
  exact absurd e (by decide)

/-- C25, as amended. Every dispatch table is separable per axis. With `vtx t`
and `htx t` the vertical and horizontal 1-D types of the transform type `t`,
each pair of 1-D types is the pair of exactly one of the sixteen transform
types, and in each of the 19 tables the entry `t` is the column kernel for
`vtx t` with the row kernel for `htx t`. For the side lengths 4 to 32 the
kernel is `kernel_n N`, a function of the 1-D type and the side length alone:
`fdctN` for DCT, `fidtxN` for identity and, for ADST and flipped ADST alike,
`fadstN` for `N ≤ 16` and `fhalfright32`. For the side length 64 it is
`kernel_64` of the DCT kernel the table names: `fhalfright64`, `fidtx64`, and
for DCT the absent `fdct64_col` in the columns of the tables of
`av1_fht64x64_c` and `av1_fht16x64_c`, the absent `fdct64_row` in the columns
of the table of `av1_fht32x64_c` and in the rows. -/
theorem C25_dispatch_tables_separable (fdct64_col fdct64_row : transform_1d) :
    (∀ v h, ∃! t, t < 16 ∧ vtx t = v ∧ htx t = h) ∧
    Separable FHT_4x4 (kernel_n 4) (kernel_n 4) ∧
    Separable FHT_4x8 (kernel_n 8) (kernel_n 4) ∧
    Separable FHT_8x4 (kernel_n 4) (kernel_n 8) ∧
    Separable FHT_4x16 (kernel_n 16) (kernel_n 4) ∧
    Separable FHT_16x4 (kernel_n 4) (kernel_n 16) ∧
    Separable FHT_8x8 (kernel_n 8) (kernel_n 8) ∧
    Separable FHT_8x16 (kernel_n 16) (kernel_n 8) ∧
    Separable FHT_16x8 (kernel_n 8) (kernel_n 16) ∧
    Separable FHT_8x32 (kernel_n 32) (kernel_n 8) ∧
    Separable FHT_32x8 (kernel_n 8) (kernel_n 32) ∧
    Separable FHT_16x16 (kernel_n 16) (kernel_n 16) ∧
    Separable FHT_16x32 (kernel_n 32) (kernel_n 16) ∧
    Separable FHT_32x16 (kernel_n 16) (kernel_n 32) ∧
    Separable FHT_32x32 (kernel_n 32) (kernel_n 32) ∧
    Separable (FHT_64x64 fdct64_col fdct64_row) (kernel_64 fdct64_col) (kernel_64 fdct64_row) ∧
    Separable (FHT_64x32 fdct64_row) (kernel_n 32) (kernel_64 fdct64_row) ∧
    Separable (FHT_32x64 fdct64_row) (kernel_64 fdct64_row) (kernel_n 32) ∧
    Separable (FHT_16x64 fdct64_col) (kernel_64 fdct64_col) (kernel_n 16) ∧
    Separable (FHT_64x16 fdct64_row) (kernel_n 16) (kernel_64 fdct64_row) ∧
    kernel_n 4 = kernel_1d fdct4 fadst4 fidtx4 ∧
    kernel_n 8 = kernel_1d fdct8 fadst8 fidtx8 ∧
    kernel_n 16 = kernel_1d fdct16 fadst16 fidtx16 ∧
    kernel_n 32 = kernel_1d fdct32 fhalfright32 fidtx32 := by
  refine ⟨fun v h => ?_, ?_, ?_, ?_, ?_, ?_, ?_, ?_, ?_, ?_, ?_, ?_, ?_, ?_, ?_, ?_, ?_,
    ?_, ?_, ?_, rfl, rfl, rfl, rfl⟩
  · obtain ⟨t, ht, hv, hh⟩ := type_pairs_surjective v h
    exact ⟨t, ⟨ht, hv, hh⟩, fun t' h' =>
      type_pairs_injective t' t h'.1 ht (h'.2.1.trans hv.symm) (h'.2.2.trans hh.symm)⟩
  all_goals (intro t ht; interval_cases t <;> rfl)

/-- C25 as amended, for the tables of `av1_fht4x8_c` and `av1_fht32x8_c`. -/
theorem C25_dispatch_tables_separable_witness :
    Separable FHT_4x8 (kernel_n 8) (kernel_n 4) ∧
    Separable FHT_32x8 (kernel_n 8) (kernel_n 32) :=
  ⟨(C25_dispatch_tables_separable fdct32 fdct32).2.2.1,
    (C25_dispatch_tables_separable fdct32 fdct32).2.2.2.2.2.2.2.2.2.2.1⟩

/-- C26. The DCT kernels are nested. For every input `x`, the even-indexed
outputs of the `2N`-point kernel are the outputs of the `N`-point kernel on
the folded input `f i = x i + x (2N - 1 - i)`: `fdct8` over `fdct4`, `fdct16`
over `fdct8` and `fdct32` over `fdct16`, at every `k < N`. -/
theorem C26_dct_kernels_nested (x o o2 : Buf) :
    (∀ k, k < 4 → fdct8 x o (2 * k) = fdct4 (fun i => x i + x (7 - i)) o2 k) ∧
    (∀ k, k < 8 → fdct16 x o (2 * k) = fdct8 (fun i => x i + x (15 - i)) o2 k) ∧
    (∀ k, k < 16 → fdct32 x o (2 * k) = fdct16 (fun i => x i + x (31 - i)) o2 k) :=
  ⟨fdct8_nested x o o2, fdct16_nested x o o2, fdct32_nested x o o2⟩

/-- C26, for `fdct32` over `fdct16` on `rampBuf` at `k = 3`. -/
theorem C26_dct_kernels_nested_witness :
    fdct32 rampBuf zeroBuf (2 * 3) = fdct16 (fun i => rampBuf i + rampBuf (31 - i)) zeroBuf 3 :=
  (C26_dct_kernels_nested rampBuf zeroBuf zeroBuf).2.2 3 (by decide)

/-- C27. A mirror-symmetric input has no odd part. For `N` in 4, 8, 16, 32 and
every input with `x i = x (N - 1 - i)` for all `i < N`, every odd-indexed
output `2 k + 1 < N` of `fdctN` is zero. -/
theorem C27_symmetric_input_odd_outputs_zero (x o : Buf) :
    ((∀ i, i < 4 → x i = x (3 - i)) → ∀ k, k < 2 → fdct4 x o (2 * k + 1) = 0) ∧
    ((∀ i, i < 8 → x i = x (7 - i)) → ∀ k, k < 4 → fdct8 x o (2 * k + 1) = 0) ∧
    ((∀ i, i < 16 → x i = x (15 - i)) → ∀ k, k < 8 → fdct16 x o (2 * k + 1) = 0) ∧
    ((∀ i, i < 32 → x i = x (31 - i)) → ∀ k, k < 16 → fdct32 x o (2 * k + 1) = 0) :=
  ⟨fdct4_odd_zero x o, fdct8_odd_zero x o, fdct16_odd_zero x o, fdct32_odd_zero x o⟩

/-- C27, for `fdct8` on the symmetric vector 0, 6, 10, 12, 12, 10, 6, 0 at
the output 5. -/
theorem C27_symmetric_input_odd_outputs_zero_witness :
    fdct8 (fun i => ((i * (7 - i) : Nat) : Int)) zeroBuf (2 * 2 + 1) = 0 :=
  (C27_symmetric_input_odd_outputs_zero (fun i => ((i * (7 - i) : Nat) : Int)) zeroBuf).2.1
    (by decide) 2 (by decide)

/-- C28. A constant input has only a DC coefficient. For `N` in 4, 8, 16, 32
and every input with `x i = c` for all `i < N`, `fdctN` yields
`fdct_round_shift (N * c * cospi_16_64)`, which is `(N * c * 11585 + 8192) >> 14`,
at index 0 and zero at every other index below `N`. The kernels compute on
mathematical integers, so the statement covers every `c` for which the C code
does not overflow. -/
theorem C28_constant_input_dc_only (x o : Buf) (c : Int) :
    ((∀ i, i < 4 → x i = c) →
      fdct4 x o 0 = fdct_round_shift (4 * c * cospi_16_64) ∧
      fdct4 x o 0 = asr (4 * c * 11585 + 8192) 14 ∧
      ∀ k, 0 < k → k < 4 → fdct4 x o k = 0) ∧
    ((∀ i, i < 8 → x i = c) →
      fdct8 x o 0 = fdct_round_shift (8 * c * cospi_16_64) ∧
      fdct8 x o 0 = asr (8 * c * 11585 + 8192) 14 ∧
      ∀ k, 0 < k → k < 8 → fdct8 x o k = 0) ∧
    ((∀ i, i < 16 → x i = c) →
      fdct16 x o 0 = fdct_round_shift (16 * c * cospi_16_64) ∧
      fdct16 x o 0 = asr (16 * c * 11585 + 8192) 14 ∧
      ∀ k, 0 < k → k < 16 → fdct16 x o k = 0) ∧
    ((∀ i, i < 32 → x i = c) →
      fdct32 x o 0 = fdct_round_shift (32 * c * cospi_16_64) ∧
      fdct32 x o 0 = asr (32 * c * 11585 + 8192) 14 ∧
      ∀ k, 0 < k → k < 32 → fdct32 x o k = 0) :=
  ⟨fun h => ⟨(fdct4_const x o c h).1, (fdct4_const x o c h).1.trans (dc_value 4 c),
      (fdct4_const x o c h).2⟩,
    fun h => ⟨(fdct8_const x o c h).1, (fdct8_const x o c h).1.trans (dc_value 8 c),
      (fdct8_const x o c h).2⟩,
    fun h => ⟨(fdct16_const x o c h).1, (fdct16_const x o c h).1.trans (dc_value 16 c),
      (fdct16_const x o c h).2⟩,
    fun h => ⟨(fdct32_const x o c h).1, (fdct32_const x o c h).1.trans (dc_value 32 c),
      (fdct32_const x o c h).2⟩⟩

/-- C28, for `fdct16` on the constant vector 100. -/
theorem C28_constant_input_dc_only_witness :
    fdct16 (fun _ => 100) zeroBuf 0 = fdct_round_shift (16 * 100 * cospi_16_64) ∧
    fdct16 (fun _ => 100) zeroBuf 0 = asr (16 * 100 * 11585 + 8192) 14 ∧
    ∀ k, 0 < k → k < 16 → fdct16 (fun _ => 100) zeroBuf k = 0 :=
  (C28_constant_input_dc_only (fun _ => 100) zeroBuf 100).2.2.1 (fun _ _ => rfl)

/-- C29. The rectangular transforms are transposition duals. For each pair
4x8 and 8x4, 4x16 and 16x4, 8x16 and 16x8, 8x32 and 32x8, 16x32 and 32x16,
every `W` wide, `H` high input block, its transpose, all strides and each of
the sixteen transform types `t`, both transforms return a result and
`av1_fhtHxW_c` on the transposed block with the type `transpose_type t`
returns the transpose of the result of `av1_fhtWxH_c` on the block with the
type `t`. -/
theorem C29_rectangular_transforms_dual :
    Dual 4 8 av1_fht4x8_c av1_fht8x4_c ∧
    Dual 4 16 av1_fht4x16_c av1_fht16x4_c ∧
    Dual 8 16 av1_fht8x16_c av1_fht16x8_c ∧
    Dual 8 32 av1_fht8x32_c av1_fht32x8_c ∧
    Dual 16 32 av1_fht16x32_c av1_fht32x16_c :=
  ⟨av1_fht4x8_c_dual, av1_fht4x16_c_dual, av1_fht8x16_c_dual, av1_fht8x32_c_dual,
    av1_fht16x32_c_dual⟩

/-- C29, for the 4 wide, 8 high block of `rampBuf` read with stride 4, its
transpose read with stride 8, and the transform type `ADST_DCT`. -/
theorem C29_rectangular_transforms_dual_witness :
    ∃ o oT, av1_fht4x8_c rampBuf zeroBuf 4 ADST_DCT = some o ∧
      av1_fht8x4_c (fun n => rampBuf (n % 8 * 4 + n / 8)) zeroBuf 8 DCT_ADST = some oT ∧
      IsTranspose 4 8 o 4 oT 8 :=
  C29_rectangular_transforms_dual.1 rampBuf (fun n => rampBuf (n % 8 * 4 + n / 8)) zeroBuf
    zeroBuf 4 8 ADST_DCT (by decide) (fun r c hr hc => by
      show rampBuf ((c * 8 + r) % 8 * 4 + (c * 8 + r) / 8) = rampBuf (r * 4 + c)
      congr 1
      omega)

/-- C30. The flip in both directions is the composition of the two flips. For
every even height `l`, every width `w` and every stride at least `w`,
`fliplrud` equals `fliplr` followed by `flipud` and `flipud` followed by
`fliplr` as whole buffers; after the call the sample `(i, j)` is the original
sample `(l - 1 - i, w - 1 - j)` for all `i < l` and `j < w`; and `fliplrud`
applied twice gives the original buffer back. -/
theorem C30_fliplrud_composition (dest : Buf) (stride l w : Nat) (hs : w ≤ stride)
    (hl : l % 2 = 0) :
    fliplrud dest stride l w = flipud (fliplr dest stride l w) stride l w ∧
    fliplrud dest stride l w = fliplr (flipud dest stride l w) stride l w ∧
    (∀ i j, i < l → j < w →
      fliplrud dest stride l w (i * stride + j)
        = dest ((l - 1 - i) * stride + (w - 1 - j))) ∧
    fliplrud (fliplrud dest stride l w) stride l w = dest :=
  ⟨fliplrud_eq_flipud_fliplr dest stride l w hs hl,
    fliplrud_eq_fliplr_flipud dest stride l w hs hl,
    fun i j hi hj => fliplrud_block dest stride l w hs hl i j hi hj,
    fliplrud_fliplrud dest stride l w hs hl⟩

/-- C30, for the 4 high, 5 wide block of `rampBuf` read with stride 7. -/
theorem C30_fliplrud_composition_witness :
    fliplrud rampBuf 7 4 5 = flipud (fliplr rampBuf 7 4 5) 7 4 5 ∧
    fliplrud (fliplrud rampBuf 7 4 5) 7 4 5 = rampBuf :=
  ⟨(C30_fliplrud_composition rampBuf 7 4 5 (by decide) (by decide)).1,
    (C30_fliplrud_composition rampBuf 7 4 5 (by decide) (by decide)).2.2.2⟩

/-! ## Claims C31 to C35 -/

/-- C31. The forward identity transform. With the transform type `IDTX`,
`av1_fwd_idtx_c` writes `src_diff[r * stride + c] * 2 ^ shift` to
`coeff[r * bsx + c]` for every `r < bsy` and `c < bsx`, where `shift` is 3 when
`bsx * bsy ≤ 256`, 2 when `256 < bsx * bsy ≤ 1024` and 1 above, and leaves the
coefficients from `bsx * bsy` on as they were; with any other transform type
it leaves the whole coefficient buffer unchanged. -/
theorem C31_fwd_idtx_scales_block (src_diff coeff : Buf) (stride bsx bsy : Nat) :
    (∀ r c, r < bsy → c < bsx →
      av1_fwd_idtx_c src_diff coeff stride bsx bsy IDTX (r * bsx + c)
        = src_diff (r * stride + c)
            * 2 ^ (if bsx * bsy ≤ 256 then 3 else if bsx * bsy ≤ 1024 then 2 else 1)) ∧
    (∀ p, bsx * bsy ≤ p → av1_fwd_idtx_c src_diff coeff stride bsx bsy IDTX p = coeff p) ∧
    (∀ t, t ≠ IDTX → av1_fwd_idtx_c src_diff coeff stride bsx bsy t = coeff) :=
  ⟨fun r c hr hc => av1_fwd_idtx_c_read src_diff coeff stride bsx bsy r c hr hc,
    fun p hp => av1_fwd_idtx_c_frame src_diff coeff stride bsx bsy p hp,
    fun t ht => av1_fwd_idtx_c_other src_diff coeff stride bsx bsy t ht⟩

/-- C31, for the 32 wide, 16 high block of `rampBuf` read with stride 40: the
sample `(3, 5)` is scaled by `2 ^ 2`, and the type `DCT_DCT` changes nothing. -/
theorem C31_fwd_idtx_scales_block_witness :
    av1_fwd_idtx_c rampBuf zeroBuf 40 32 16 IDTX (3 * 32 + 5)
      = rampBuf (3 * 40 + 5)
          * 2 ^ (if 32 * 16 ≤ 256 then 3 else if 32 * 16 ≤ 1024 then 2 else 1) ∧
    av1_fwd_idtx_c rampBuf zeroBuf 40 32 16 DCT_DCT = zeroBuf :=
  ⟨(C31_fwd_idtx_scales_block rampBuf zeroBuf 40 32 16).1 3 5 (by decide) (by decide),
    (C31_fwd_idtx_scales_block rampBuf zeroBuf 40 32 16).2.2 DCT_DCT (by decide)⟩

/-- C32. The scaling `s t = (t + 1 + (t < 0)) >> 2` is odd and rounds `t / 4`
to the nearest integer with ties toward zero: `s (-t) = -s t`; `4 * s t`
differs from `t` by at most 2; when `|t|` is 2 modulo 4 (a tie) `4 * s t` is
`t - 2` for positive and `t + 2` for negative `t`; otherwise `4 * s t` differs
from `t` by at most 1. It is the scaling between the passes of
`av1_fht16x16_c` and the output scaling of `av1_fht64x64_c`, whatever the
absent 64-point kernels are. -/
theorem C32_scaling_odd_ties_toward_zero (t : Int) :
    mid_scale_16x16 (-t) = -mid_scale_16x16 t ∧
    |4 * mid_scale_16x16 t - t| ≤ 2 ∧
    (|t| % 4 = 2 → 4 * mid_scale_16x16 t = t - 2 * Int.sign t) ∧
    (|t| % 4 ≠ 2 → |4 * mid_scale_16x16 t - t| ≤ 1) ∧
    av1_fht16x16_c = fht2d FHT_16x16 16 16 16 16
      (fun _ j => j) (fun i _ => i) transform_2d.cols transform_2d.rows
      (fun x => x * 4) adjNone mid_scale_16x16 (fun i j => j + i * 16) (fun t => t) ∧
    (∀ fdct64_col fdct64_row : transform_1d,
      av1_fht64x64_c_passes fdct64_col fdct64_row =
        fht2d (FHT_64x64 fdct64_col fdct64_row) 64 64 64 64
          (fun _ j => j) (fun i _ => i) transform_2d.cols transform_2d.rows
          (fun x => x) adjNone mid_scale_64x64 (fun i j => j + i * 64) mid_scale_16x16) :=
  ⟨mid_scale_16x16_odd t, mid_scale_16x16_near t, mid_scale_16x16_tie t,
    mid_scale_16x16_not_tie t, rfl, fun _ _ => rfl⟩

/-- C32, at the tie `t = -6`: `4 * s (-6) = -6 + 2`, that is `s (-6) = -1`. -/
theorem C32_scaling_odd_ties_toward_zero_witness :
    4 * mid_scale_16x16 (-6) = -6 - 2 * Int.sign (-6) :=
  (C32_scaling_odd_ties_toward_zero (-6)).2.2.1 (by decide)

/-- C33. The lossless transform of a constant block. For every 4x4 block, read
with any stride, whose sixteen samples equal `v`, `av1_fwht4x4_c` outputs
`16 * v` at index 0 and zero at the other 15 positions. -/
theorem C33_fwht4x4_constant_block (input output : Buf) (stride : Nat) (v : Int)
    (h : ∀ r c, r < 4 → c < 4 → input (r * stride + c) = v) :
    av1_fwht4x4_c input output stride 0 = 16 * v ∧
    ∀ k, 0 < k → k < 16 → av1_fwht4x4_c input output stride k = 0 := by
  refine ⟨?_, fun k hk0 hk => ?_⟩
  · rw [fwht_const input output stride v h 0 (by norm_num), if_pos rfl]
  · rw [fwht_const input output stride v h k hk, if_neg (by omega)]

/-- C33, for the constant block of the sample -7 read with stride 4. -/
theorem C33_fwht4x4_constant_block_witness :
    av1_fwht4x4_c (fun _ => -7) zeroBuf 4 0 = 16 * -7 ∧
    ∀ k, 0 < k → k < 16 → av1_fwht4x4_c (fun _ => -7) zeroBuf 4 k = 0 :=
  C33_fwht4x4_constant_block (fun _ => -7) zeroBuf 4 (-7) (fun _ _ _ _ => rfl)

/-- C34. The 2-D transforms read only their own block. For each of the 14
table-driven transforms of `tableDriven` and each of the five transforms with
a 64-point dimension, whatever the absent 64-point kernels are, and for each
of the sixteen transform types: two calls whose buffers hold the same block of
samples, each read with its own stride, and which start from the same output
buffer, return the same result, whatever the buffers hold outside the block. -/
theorem C34_transforms_read_own_block :
    (∀ e ∈ tableDriven, BlockOnly e.1 e.2.1 e.2.2) ∧
    (∀ fdct64_col fdct64_row : transform_1d,
      BlockOnly 64 64 (av1_fht64x64_c fdct64_col fdct64_row) ∧
      BlockOnly 64 32 (av1_fht64x32_c fdct64_row) ∧
      BlockOnly 32 64 (av1_fht32x64_c fdct64_row) ∧
      BlockOnly 16 64 (av1_fht16x64_c fdct64_col) ∧
      BlockOnly 64 16 (av1_fht64x16_c fdct64_row)) := by
  refine ⟨fun e he => ?_, fun c r => ⟨av1_fht64x64_c_blockOnly c r, av1_fht64x32_c_blockOnly r,
    av1_fht32x64_c_blockOnly r, av1_fht16x64_c_blockOnly c, av1_fht64x16_c_blockOnly r⟩⟩
  simp only [tableDriven, List.mem_cons, List.mem_singleton, List.not_mem_nil, or_false] at he
  rcases he with rfl | rfl | rfl | rfl | rfl | rfl | rfl | rfl | rfl | rfl | rfl | rfl | rfl | rfl
  · exact av1_fht4x4_c_table_blockOnly
  · exact av1_fht4x8_c_blockOnly
  · exact av1_fht8x4_c_blockOnly
  · exact av1_fht4x16_c_blockOnly
  · exact av1_fht16x4_c_blockOnly
  · exact av1_fht8x8_c_table_blockOnly
  · exact av1_fht8x16_c_blockOnly
  · exact av1_fht16x8_c_blockOnly
  · exact av1_fht8x32_c_blockOnly
  · exact av1_fht32x8_c_blockOnly
  · exact av1_fht16x16_c_blockOnly
  · exact av1_fht16x32_c_blockOnly
  · exact av1_fht32x16_c_blockOnly
  · exact av1_fht32x32_c_blockOnly

/-- C34, for `av1_fht16x16_c` with the type `ADST_DCT`: the 16x16 block of
`rampBuf` read with stride 16, and the same block laid out with stride 20 in a
buffer that differs outside the block. -/
theorem C34_transforms_read_own_block_witness :
    ∃ o, av1_fht16x16_c rampBuf zeroBuf 16 ADST_DCT = some o ∧
      av1_fht16x16_c (fun n => rampBuf (n / 20 * 16 + n % 20)) zeroBuf 20 ADST_DCT = some o :=
  C34_transforms_read_own_block.1 (16, 16, av1_fht16x16_c) (by simp [tableDriven]) rampBuf
    (fun n => rampBuf (n / 20 * 16 + n % 20)) zeroBuf 16 20 ADST_DCT (by decide)
    (fun r c hr hc => by
      show rampBuf (r * 16 + c) = rampBuf ((r * 20 + c) / 20 * 16 + (r * 20 + c) % 20)
      congr 1
      omega)

/-- C35. `aom_write_literal` writes `max bits 0` bits, most significant first.
For every writer, the result is that of the calls
`aom_daala_write w (1 & (data >> k)) 128` for `k` from `bits - 1` down to 0, in
that order, and nothing else; on the recording writer the calls are the pairs
`(d k, 128)` with `d k` the binary digit `k` of `data mod 2 ^ bits`, and their
number is `max bits 0`. The shift and the mask are on mathematical integers,
which agrees with the C code for `0 ≤ bits ≤ 31`. -/
theorem C35_write_literal_msb_first (data bits : Int) :
    (∀ (W : Type) (aom_daala_write : W → Int → Int → W) (w : W),
      aom_write_literal aom_daala_write w data bits
        = (List.range bits.toNat).reverse.foldl
            (fun w k => aom_daala_write w (Int.land 1 (asr data k)) 128) w) ∧
    (∀ k : Nat, Int.land 1 (asr data k) = data / 2 ^ k % 2) ∧
    aom_write_literal record_write [] data bits
      = (List.range bits.toNat).reverse.map
          (fun k => (data % 2 ^ bits.toNat / 2 ^ k % 2, 128)) ∧
    ((aom_write_literal record_write [] data bits).length : Int) = max bits 0 :=
  ⟨fun _ dw w => aom_write_literal_loop_eq dw data bits.toNat w,
    fun k => by rw [int_land_one, asr_eq_div],
    aom_write_literal_record data bits, aom_write_literal_count data bits⟩

/-- C35, for the literal 5 written with 4 bits: the bits 0, 1, 0, 1. -/
theorem C35_write_literal_msb_first_witness :
    aom_write_literal record_write [] 5 4 = [(0, 128), (1, 128), (0, 128), (1, 128)] :=
  (C35_write_literal_msb_first 5 4).2.2.1.trans (by decide)

end Aom
